import Mathlib

/-!
# 3D first-person space game: steering, crystal chasing and collisions

A shallow embedding of `SteeringBehavious.cpp`, `Spaceship.cpp` and `Game.cpp`.

* C++ `double` is idealised as an ordered field `R` carrying a square-root
  operation (`HasSqrt`); the theorems about numeric values instantiate `R := ℝ`
  with `Real.sqrt`.
* The two arrival functions of `SteeringBehavious.cpp` are embedded a second time
  over the values of the IEEE 754 binary64 format (`Binary64`), with every
  operation rounded to nearest, gradual underflow and overflow to infinity.
* `unsigned int` values are natural numbers below `2 ^ 32`; `UINT_MAX` is the
  sentinel `NO_CRYSTAL`.
* A failing `assert(...)` aborts the program: fallible functions return
  `Except AssertFailed _`.
-/

namespace SpaceGame

/-- Square root on the scalar type (`sqrt` of `<cmath>`). -/
class HasSqrt (R : Type) where
  /-- The square root. -/
  sqrt : R → R

noncomputable instance instHasSqrtReal : HasSqrt ℝ := ⟨Real.sqrt⟩

/-- Which kind of `assert(...)` failed. -/
inductive AssertFailed where
  /-- A precondition checked at the entry of a function. -/
  | precondition
  /-- A sanity check on an intermediate value. -/
  | intermediate
  /-- The check `assert(index < count)` of an indexed getter. -/
  | indexInRange
  /-- The check `assert(!crystal.isGone())` in `Spaceship::calculateDesiredVelocity`. -/
  | crystalNotGone
  /-- The check `assert(invariant())` of a class invariant. -/
  | classInvariant
  deriving DecidableEq, Repr

/-- An `assert(cond)`: continue when `cond` holds, abort otherwise. -/
def cassert (site : AssertFailed) (cond : Prop) [Decidable cond] : Except AssertFailed Unit :=
  if cond then .ok () else .error site

/-- The constant `UINT_MAX` of `<climits>` for a 32-bit `unsigned int`. -/
def UINT_MAX : Nat := 4294967295

/-- Number of values of a 32-bit `unsigned int`; unsigned arithmetic wraps modulo this. -/
def UINT_RANGE : Nat := 4294967296

/-! ## Vectors, coordinate frames and entities -/

/-- Modelled from the spec: class `ObjLibrary::Vector3` (ObjLibrary/Vector3.h is not among the
sources), the leaf "3-D vector algebra" of the spec. -/
structure Vector3 (R : Type) where
  /-- The x component. -/
  x : R
  /-- The y component. -/
  y : R
  /-- The z component. -/
  z : R

namespace Vector3

variable {R : Type} [LinearOrderedField R] [HasSqrt R]

/-- Modelled from the spec: the constant `Vector3::ZERO`. -/
def ZERO : Vector3 R := ⟨0, 0, 0⟩

/-- Modelled from the spec: `operator+` of `Vector3`. -/
def add (a b : Vector3 R) : Vector3 R := ⟨a.x + b.x, a.y + b.y, a.z + b.z⟩

/-- Modelled from the spec: binary `operator-` of `Vector3`. -/
def sub (a b : Vector3 R) : Vector3 R := ⟨a.x - b.x, a.y - b.y, a.z - b.z⟩

/-- Modelled from the spec: unary `operator-` of `Vector3`. -/
def neg (a : Vector3 R) : Vector3 R := ⟨-a.x, -a.y, -a.z⟩

/-- Modelled from the spec: `operator*` of `Vector3` with a scalar. -/
def smul (a : Vector3 R) (k : R) : Vector3 R := ⟨a.x * k, a.y * k, a.z * k⟩

instance instAdd : Add (Vector3 R) := ⟨add⟩

instance instSub : Sub (Vector3 R) := ⟨sub⟩

instance instNeg : Neg (Vector3 R) := ⟨neg⟩

instance instHMul : HMul (Vector3 R) R (Vector3 R) := ⟨smul⟩

/-- Modelled from the spec: `Vector3::dotProduct`. -/
def dotProduct (a b : Vector3 R) : R := a.x * b.x + a.y * b.y + a.z * b.z

/-- Modelled from the spec: `Vector3::getNormSquared`. -/
def getNormSquared (v : Vector3 R) : R := v.x * v.x + v.y * v.y + v.z * v.z

/-- Modelled from the spec: `Vector3::getNorm`, the Euclidean length. -/
def getNorm (v : Vector3 R) : R := HasSqrt.sqrt v.getNormSquared

/-- Modelled from the spec: `Vector3::getDistance`, the Euclidean distance to `other`. -/
def getDistance (v other : Vector3 R) : R := (v - other).getNorm

/-- Modelled from the spec: `Vector3::isZero`. -/
def isZero (v : Vector3 R) : Bool := decide (v.x = 0 ∧ v.y = 0 ∧ v.z = 0)

/-- Modelled from the spec: `Vector3::isUnit` (exact, without a floating-point tolerance). -/
def isUnit (v : Vector3 R) : Bool := decide (v.getNormSquared = 1)

/-- Modelled from the spec: `Vector3::isNormLessThan`. -/
def isNormLessThan (v : Vector3 R) (length : R) : Bool := decide (v.getNorm < length)

/-- Modelled from the spec: `Vector3::getNormalized`; the zero vector has no direction. -/
def getNormalized (v : Vector3 R) : Except AssertFailed (Vector3 R) := do
  cassert .precondition (v.isZero = false)
  return v * (1 / v.getNorm)

/-- Modelled from the spec: `Vector3::getCopyWithNorm`, the vector of the same direction and
the given norm; the zero vector has no direction. -/
def getCopyWithNorm (v : Vector3 R) (norm : R) : Except AssertFailed (Vector3 R) := do
  cassert .precondition (v.isZero = false)
  return v * (norm / v.getNorm)

/-- Modelled from the spec: `Vector3::getCopyWithNormSafe`, as `getCopyWithNorm` except that
the zero vector is returned for the zero vector. -/
def getCopyWithNormSafe (v : Vector3 R) (norm : R) : Vector3 R :=
  if v.isZero then ZERO else v * (norm / v.getNorm)

end Vector3

/-- Modelled from the spec: class `CoordinateSystem` (CoordinateSystem.h is not among the
sources), "an orthonormal local coordinate frame (position + forward/up/right axes)". -/
structure CoordinateSystem (R : Type) where
  /-- The origin of the frame. -/
  position : Vector3 R
  /-- The forward axis. -/
  forward : Vector3 R
  /-- The up axis. -/
  up : Vector3 R
  /-- The right axis. -/
  right : Vector3 R

/-- Modelled from the spec: class `Entity` (Entity.h is not among the sources), the "Moving
Body": position and orientation frame, velocity, mass and collision radius. Whether the entity
is initialised is what `Entity::isInitialized` reports: the constructors of `Spaceship` assert
that it is false after the default constructor and true after the constructor that takes the
position, the velocity and the other values. -/
structure Entity (R : Type) where
  /-- The field `m_coords`: position and orientation. -/
  m_coords : CoordinateSystem R
  /-- The field `m_velocity`. -/
  m_velocity : Vector3 R
  /-- The mass. -/
  m_mass : R
  /-- The collision radius. -/
  m_radius : R
  /-- Whether the entity was built by the constructor that takes its values. -/
  m_is_initialized : Bool

namespace Entity

variable {R : Type}

/-- Modelled from the spec: `Entity::getPosition`. -/
def getPosition (e : Entity R) : Vector3 R := e.m_coords.position

/-- Modelled from the spec: `Entity::getVelocity`. -/
def getVelocity (e : Entity R) : Vector3 R := e.m_velocity

/-- Modelled from the spec: `Entity::getRadius`. -/
def getRadius (e : Entity R) : R := e.m_radius

/-- Modelled from the spec: `Entity::getMass`. -/
def getMass (e : Entity R) : R := e.m_mass

/-- The method `Entity::isInitialized`, as the assertions of `Spaceship.cpp` use it. -/
def isInitialized (e : Entity R) : Bool := e.m_is_initialized

end Entity

/-- Modelled from the spec: class `Crystal` (Crystal.h is not among the sources), a moving
body with the binary lifecycle state drifting / gone. -/
structure Crystal (R : Type) extends Entity R where
  /-- Whether the crystal is gone. -/
  m_is_gone : Bool

/-- Modelled from the spec: `Crystal::isGone`. -/
def Crystal.isGone {R : Type} (c : Crystal R) : Bool := c.m_is_gone

/-- Modelled from the spec: `Crystal::markGone`. -/
def Crystal.markGone {R : Type} (c : Crystal R) : Crystal R := { c with m_is_gone := true }

/-- Modelled from the spec: class `Asteroid` (Asteroid.h is not among the sources), a moving
body with an inner radius and the "carries crystals" flag; `m_radius` is the outer radius. -/
structure Asteroid (R : Type) extends Entity R where
  /-- The inner radius. -/
  m_inner_radius : R
  /-- Whether the asteroid still carries crystals. -/
  m_is_crystals : Bool

/-- Modelled from the spec: `Asteroid::isCrystals`. -/
def Asteroid.isCrystals {R : Type} (a : Asteroid R) : Bool := a.m_is_crystals

/-- Modelled from the spec: `Asteroid::removeCrystals`. -/
def Asteroid.removeCrystals {R : Type} (a : Asteroid R) : Asteroid R :=
  { a with m_is_crystals := false }

/-- Class `Spaceship` of `Spaceship.h`: the player ship or a drone. -/
structure Spaceship (R : Type) extends Entity R where
  /-- The field `m_is_alive`. -/
  m_is_alive : Bool
  /-- The field `m_acceleration_main`. -/
  m_acceleration_main : R
  /-- The field `m_acceleration_manoeuver`. -/
  m_acceleration_manoeuver : R
  /-- The field `m_rotation_rate_radians`. -/
  m_rotation_rate_radians : R
  /-- The field `m_escort_offset`. -/
  m_escort_offset : Vector3 R
  /-- The field `m_crystal_chased_index`. -/
  m_crystal_chased_index : Nat

/-- Code of this repository that is not among the sources and that the spec does not pin down
to a formula is a parameter of the embedding: the theorems hold for every choice. -/
structure Externals (R : Type) where
  /-- The method `CoordinateSystem::localToWorld`. -/
  localToWorld : CoordinateSystem R → Vector3 R → Vector3 R
  /-- The method `Vector3::getAngleSafe`. -/
  getAngleSafe : Vector3 R → Vector3 R → R
  /-- The method `CoordinateSystem::rotateToVector`. -/
  rotateToVector : CoordinateSystem R → Vector3 R → R → CoordinateSystem R
  /-- The method `Entity::updatePhysics (delta_time, black_hole)`, as inherited by crystals and
  spaceships; the second argument is the black hole. -/
  entityUpdatePhysics : R → Entity R → Entity R → Entity R
  /-- The method `Asteroid::updatePhysics (delta_time, black_hole)`. -/
  asteroidUpdatePhysics : R → Entity R → Asteroid R → Asteroid R
  /-- The method `Asteroid::getRadiusForDirection`. -/
  getRadiusForDirection : Asteroid R → Vector3 R → R
  /-- The overload `Collisions::isCollision (spaceship, crystal)`. -/
  isCollisionSpaceshipCrystal : Spaceship R → Crystal R → Bool
  /-- The overload `Collisions::isCollision (asteroid, asteroid)`. -/
  isCollisionAsteroidAsteroid : Asteroid R → Asteroid R → Bool
  /-- The overload `Collisions::isCollision (crystal, asteroid)`. -/
  isCollisionCrystalAsteroid : Crystal R → Asteroid R → Bool
  /-- The overload `Collisions::isCollision (spaceship, asteroid)`. -/
  isCollisionSpaceshipAsteroid : Spaceship R → Asteroid R → Bool
  /-- The function `Collisions::elastic`, on the moving-body part of the two entities. -/
  elastic : Entity R → Entity R → Entity R × Entity R
  /-- The constructor `Crystal (position, velocity, display_list)`, a drifting crystal. -/
  newCrystalBody : Vector3 R → Vector3 R → Entity R

/-- The three rotation methods of `CoordinateSystem` (CoordinateSystem.h is not among the
sources), each taking the angle in radians, are parameters of the embedding as well. -/
structure Rotations (R : Type) where
  /-- The method `CoordinateSystem::rotateAroundForward`. -/
  rotateAroundForward : CoordinateSystem R → R → CoordinateSystem R
  /-- The method `CoordinateSystem::rotateAroundUp`. -/
  rotateAroundUp : CoordinateSystem R → R → CoordinateSystem R
  /-- The method `CoordinateSystem::rotateAroundRight`. -/
  rotateAroundRight : CoordinateSystem R → R → CoordinateSystem R

section Steering

variable {R : Type} [LinearOrderedField R] [HasSqrt R]

namespace SteeringBehaviours

/-- Constant `AHEAD_TIME_FACTOR` of `SteeringBehavious.cpp` (the value 1.0). -/
def AHEAD_TIME_FACTOR : R := 1

/-- Constant `SAFE_SPEED_FACTOR`, local to `getOptimalSpeedAtDistance` (the value 1.0). -/
def SAFE_SPEED_FACTOR : R := 1

/-- Function `SteeringBehaviours::getMinArrivalTime`. -/
def getMinArrivalTime (max_acceleration max_speed_at_impact distance : R) :
    Except AssertFailed R := do
  cassert .precondition (max_acceleration > 0)
  cassert .precondition (max_speed_at_impact ≥ 0)
  cassert .precondition (distance ≥ 0)
  let under_root := max_speed_at_impact * max_speed_at_impact + 2 * max_acceleration * distance
  cassert .intermediate (under_root ≥ 0)
  let resolved_root := HasSqrt.sqrt under_root
  cassert .intermediate (resolved_root ≥ 0)
  cassert .intermediate (resolved_root ≥ max_speed_at_impact)
  let top := resolved_root - max_speed_at_impact
  cassert .intermediate (top ≥ 0)
  cassert .intermediate (max_acceleration > 0)
  let time := top / max_acceleration
  cassert .intermediate (time ≥ 0)
  return time

/-- Function `SteeringBehaviours::getOptimalSpeedAtDistance`. -/
def getOptimalSpeedAtDistance (max_acceleration max_speed_at_impact distance : R) :
    Except AssertFailed R := do
  cassert .precondition (max_acceleration > 0)
  cassert .precondition (max_speed_at_impact ≥ 0)
  cassert .precondition (distance ≥ 0)
  let arrival_time ← getMinArrivalTime max_acceleration max_speed_at_impact distance
  cassert .intermediate (arrival_time ≥ 0)
  let max_speed_here := max_speed_at_impact + max_acceleration * arrival_time
  let safe_speed_at_distance := max_speed_here * SAFE_SPEED_FACTOR
  cassert .intermediate (safe_speed_at_distance ≥ 0)
  return safe_speed_at_distance

/-- Function `SteeringBehaviours::arrival0`. -/
def arrival0 (relative_position : Vector3 R) (max_speed_at_impact max_acceleration : R) :
    Except AssertFailed (Vector3 R) := do
  cassert .precondition (max_speed_at_impact ≥ 0)
  cassert .precondition (max_acceleration > 0)
  let distance := relative_position.getNorm
  let safe_speed_here ← getOptimalSpeedAtDistance max_acceleration max_speed_at_impact distance
  cassert .intermediate (safe_speed_here ≥ 0)
  return relative_position.getCopyWithNormSafe safe_speed_here

/-- Function `SteeringBehaviours::arrival`. -/
def arrival (agent_position target_position _agent_velocity target_velocity : Vector3 R)
    (max_speed_at_impact max_acceleration : R) : Except AssertFailed (Vector3 R) := do
  cassert .precondition (max_speed_at_impact ≥ 0)
  cassert .precondition (max_acceleration > 0)
  let relative_position := target_position - agent_position
  let relative_desired ← arrival0 relative_position max_speed_at_impact max_acceleration
  return relative_desired + target_velocity

/-- Function `SteeringBehaviours::pursue`. -/
def pursue (agent : Spaceship R) (target : Entity R) (max_speed_at_impact max_acceleration : R) :
    Except AssertFailed (Vector3 R) := do
  cassert .precondition (max_speed_at_impact ≥ 0)
  cassert .precondition (max_acceleration > 0)
  let current_distance := agent.getPosition.getDistance target.getPosition
  let min_time ← getMinArrivalTime max_acceleration max_speed_at_impact current_distance
  let ahead_time := min_time * AHEAD_TIME_FACTOR
  let agent_ahead_position := agent.getPosition + agent.getVelocity * ahead_time
  let escort_ahead_position := target.getPosition + target.getVelocity * ahead_time
  arrival agent_ahead_position escort_ahead_position agent.getVelocity target.getVelocity
    max_speed_at_impact max_acceleration

/-- Function `SteeringBehaviours::escort`. -/
def escort (X : Externals R) (agent : Spaceship R) (target : Entity R) (offset : Vector3 R)
    (max_acceleration : R) : Except AssertFailed (Vector3 R) := do
  cassert .precondition (max_acceleration > 0)
  let offset_in_world_coords := X.localToWorld target.m_coords offset
  let escort_position := target.getPosition + offset_in_world_coords
  let current_distance := agent.getPosition.getDistance escort_position
  let min_time ← getMinArrivalTime max_acceleration 0 current_distance
  let ahead_time := min_time * AHEAD_TIME_FACTOR
  let agent_ahead_position := agent.getPosition + agent.getVelocity * ahead_time
  let escort_ahead_position := escort_position + target.getVelocity * ahead_time
  arrival agent_ahead_position escort_ahead_position agent.getVelocity target.getVelocity
    0 max_acceleration

/-- Function `SteeringBehaviours::getAvoidDistance`. -/
def getAvoidDistance (agent : Spaceship R) (target : Entity R) (max_acceleration : R) :
    Except AssertFailed R := do
  cassert .precondition (max_acceleration > 0)
  let relative_velocity := target.getVelocity - agent.getVelocity
  return target.getRadius + (relative_velocity.getNorm / max_acceleration) * 10

/-- Function `SteeringBehaviours::isAvoid`. -/
def isAvoid (agent : Spaceship R) (target : Entity R) (max_acceleration : R) :
    Except AssertFailed Bool := do
  cassert .precondition (max_acceleration > 0)
  let distance_to_center := agent.getPosition.getDistance target.getPosition
  let avoid_distance ← getAvoidDistance agent target max_acceleration
  if distance_to_center < avoid_distance then
    return true
  else
    return false

/-- Function `SteeringBehaviours::avoid`. -/
def avoid (agent : Spaceship R) (target : Entity R) (max_acceleration max_delta_speed : R) :
    Except AssertFailed (Vector3 R) := do
  cassert .precondition (max_acceleration > 0)
  cassert .precondition (max_delta_speed > 0)
  let is_avoid ← isAvoid agent target max_acceleration
  cassert .precondition (is_avoid = true)
  let distance_to_center := agent.getPosition.getDistance target.getPosition
  let avoid_distance ← getAvoidDistance agent target max_acceleration
  cassert .intermediate (distance_to_center < avoid_distance)
  let away_from_target := agent.getPosition - target.getPosition
  return agent.getVelocity + away_from_target.getCopyWithNormSafe max_delta_speed

end SteeringBehaviours

end Steering


/-! ## The game state and the spaceship AI -/

section GameModel

variable {R : Type} [LinearOrderedField R] [HasSqrt R]

/-- Class `Game` of `Game.h`: the state of the game. -/
structure Game (R : Type) where
  /-- The field `m_black_hole`. -/
  m_black_hole : Entity R
  /-- The field `mv_asteroids`. -/
  mv_asteroids : List (Asteroid R)
  /-- The field `mv_crystals`. -/
  mv_crystals : List (Crystal R)
  /-- The field `m_player`. -/
  m_player : Spaceship R
  /-- The field `mv_drones`. -/
  mv_drones : List (Spaceship R)
  /-- The field `m_crystals_collected`. -/
  m_crystals_collected : Nat

namespace Spaceship

/-- Constant `Spaceship::NO_CRYSTAL`. -/
def NO_CRYSTAL : Nat := UINT_MAX

/-- Constant `FAR_AWAY` of `Spaceship.cpp` (the value 1.0e6). -/
def FAR_AWAY : R := 1000000

/-- Constant `INTERCEPT_SPEED` of `Spaceship.cpp`. -/
def INTERCEPT_SPEED : R := 100

/-- Constant `DETECT_CRYSTALS_DISTANCE`, local to `updateCrystalChased`. -/
def DETECT_CRYSTALS_DISTANCE : R := 1000

/-- Constant `MAIN_ENGINE_MIN_CHANGE`, local to `flyToMatchVelocity`. -/
def MAIN_ENGINE_MIN_CHANGE : R := 50

/-- Constant `MAIN_ENGINE_MIN_RADIANS`, local to `flyToMatchVelocity` (the value 0.1). -/
def MAIN_ENGINE_MIN_RADIANS : R := 1 / 10

/-- Method `Spaceship::isAlive`. Its `assert(isInitialized())` is not repeated in this getter:
it is read on the ships of a `Game`, all of them built by the constructor that takes their
values. The two thrust methods keep the assertion. -/
def isAlive (self : Spaceship R) : Bool := self.m_is_alive

/-- Method `Spaceship::getCrystalChased`. -/
def getCrystalChased (self : Spaceship R) : Nat := self.m_crystal_chased_index

/-- Method `Spaceship::invariant`. -/
def invariant (self : Spaceship R) : Bool :=
  if self.m_acceleration_main ≤ 0 then false
  else if self.m_acceleration_manoeuver ≤ 0 then false
  else if self.m_rotation_rate_radians ≤ 0 then false
  else true

/-- Method `Spaceship::markDead`. -/
def markDead (self : Spaceship R) : Except AssertFailed (Spaceship R) := do
  let self := { self with m_is_alive := false }
  cassert .classInvariant (self.invariant = true)
  return self

/-- Method `Spaceship::thrustMainEngine`. -/
def thrustMainEngine (self : Spaceship R) (delta_time : R) :
    Except AssertFailed (Spaceship R) := do
  cassert .precondition (self.isInitialized = true)
  cassert .precondition (delta_time ≥ 0)
  cassert .intermediate (self.m_coords.forward.isUnit = true)
  let self := { self with
    m_velocity := self.m_velocity +
      self.m_coords.forward * self.m_acceleration_main * delta_time }
  cassert .classInvariant (self.invariant = true)
  return self

/-- Method `Spaceship::thrustManoeuver`. -/
def thrustManoeuver (self : Spaceship R) (delta_time : R) (direction_world : Vector3 R)
    (strength_fraction : R) : Except AssertFailed (Spaceship R) := do
  cassert .precondition (self.isInitialized = true)
  cassert .precondition (delta_time ≥ 0)
  cassert .precondition (direction_world.isUnit = true)
  cassert .precondition (strength_fraction ≥ 0)
  cassert .precondition (strength_fraction ≤ 1)
  let delta_velocity := self.m_acceleration_manoeuver * delta_time * strength_fraction
  let self := { self with m_velocity := self.m_velocity + direction_world * delta_velocity }
  cassert .classInvariant (self.invariant = true)
  return self

/-- Method `Spaceship::rotateAroundForward`. -/
def rotateAroundForward (Y : Rotations R) (self : Spaceship R) (delta_time : R)
    (is_backwards : Bool) : Except AssertFailed (Spaceship R) := do
  cassert .precondition (delta_time ≥ 0)
  let max_radians := self.m_rotation_rate_radians * delta_time
  let self : Spaceship R :=
    if is_backwards then
      { self with m_coords := Y.rotateAroundForward self.m_coords (-max_radians) }
    else
      { self with m_coords := Y.rotateAroundForward self.m_coords max_radians }
  cassert .classInvariant (self.invariant = true)
  return self

/-- Method `Spaceship::rotateAroundUp`. -/
def rotateAroundUp (Y : Rotations R) (self : Spaceship R) (delta_time : R)
    (is_backwards : Bool) : Except AssertFailed (Spaceship R) := do
  cassert .precondition (delta_time ≥ 0)
  let max_radians := self.m_rotation_rate_radians * delta_time
  let self : Spaceship R :=
    if is_backwards then
      { self with m_coords := Y.rotateAroundUp self.m_coords (-max_radians) }
    else
      { self with m_coords := Y.rotateAroundUp self.m_coords max_radians }
  cassert .classInvariant (self.invariant = true)
  return self

/-- Method `Spaceship::rotateAroundRight`. -/
def rotateAroundRight (Y : Rotations R) (self : Spaceship R) (delta_time : R)
    (is_backwards : Bool) : Except AssertFailed (Spaceship R) := do
  cassert .precondition (delta_time ≥ 0)
  let max_radians := self.m_rotation_rate_radians * delta_time
  let self : Spaceship R :=
    if is_backwards then
      { self with m_coords := Y.rotateAroundRight self.m_coords (-max_radians) }
    else
      { self with m_coords := Y.rotateAroundRight self.m_coords max_radians }
  cassert .classInvariant (self.invariant = true)
  return self

end Spaceship

namespace Game

/-- Method `Game::getAsteroidCount`: the size of the vector, converted to `unsigned int`. -/
def getAsteroidCount (g : Game R) : Nat := g.mv_asteroids.length % UINT_RANGE

/-- Method `Game::getAsteroid`. -/
def getAsteroid (g : Game R) (index : Nat) : Except AssertFailed (Asteroid R) := do
  cassert .indexInRange (index < g.getAsteroidCount)
  match g.mv_asteroids[index]? with
  | some asteroid => return asteroid
  | none => throw .indexInRange

/-- Method `Game::getTotalCrystalCount`: the size of the vector, converted to `unsigned int`. -/
def getTotalCrystalCount (g : Game R) : Nat := g.mv_crystals.length % UINT_RANGE

/-- Method `Game::getNonGoneCrystalCount`. -/
def getNonGoneCrystalCount (g : Game R) : Nat :=
  (g.mv_crystals.countP (fun crystal => !crystal.isGone)) % UINT_RANGE

/-- Method `Game::getCrystal`. -/
def getCrystal (g : Game R) (index : Nat) : Except AssertFailed (Crystal R) := do
  cassert .indexInRange (index < g.getTotalCrystalCount)
  match g.mv_crystals[index]? with
  | some crystal => return crystal
  | none => throw .indexInRange

/-- Method `Game::isCrystalChased`. -/
def isCrystalChased (g : Game R) (index : Nat) : Except AssertFailed Bool := do
  cassert .indexInRange (index < g.getTotalCrystalCount)
  return g.mv_drones.any (fun drone => drone.isAlive && decide (drone.getCrystalChased = index))

/-- Method `Game::getPlayer`. -/
def getPlayer (g : Game R) : Spaceship R := g.m_player

/-- Method `Game::getLivingDroneCount`. -/
def getLivingDroneCount (g : Game R) : Nat :=
  (g.mv_drones.countP (fun drone => drone.isAlive)) % UINT_RANGE

/-- Method `Game::getCrystalsCollected`. -/
def getCrystalsCollected (g : Game R) : Nat := g.m_crystals_collected

/-- Method `Game::isOver`. -/
def isOver (g : Game R) : Bool := !g.m_player.isAlive

/-- The drone `mv_drones[d]`; indexing past the end is an error. -/
def getDrone (g : Game R) (d : Nat) : Except AssertFailed (Spaceship R) :=
  match g.mv_drones[d]? with
  | some drone => return drone
  | none => throw .indexInRange

/-- Assignment to the drone `mv_drones[d]` through a reference. -/
def setDrone (g : Game R) (d : Nat) (drone : Spaceship R) : Game R :=
  { g with mv_drones := g.mv_drones.set d drone }

end Game

namespace Spaceship

/-- The body of the `for` loop of `Spaceship::updateCrystalChased` for crystal index `c`;
`position` is the position of the drone and `closest` the pair `(closest_index,
closest_distance)`. -/
def updateCrystalChased_step (g : Game R) (position : Vector3 R) (closest : Nat × R) (c : Nat) :
    Except AssertFailed (Nat × R) := do
  let crystal ← g.getCrystal c
  if !crystal.isGone then
    if !(← g.isCrystalChased c) then
      let distance := crystal.getPosition.getDistance position
      if distance < DETECT_CRYSTALS_DISTANCE ∧ distance < closest.2 then
        return (c, distance)
      else
        return closest
    else
      return closest
  else
    return closest

/-- Method `Spaceship::updateCrystalChased`, called on the drone `game.mv_drones[d]`: the
drone is a reference into the game, so `isCrystalChased` sees its current index. -/
def updateCrystalChased (g : Game R) (d : Nat) : Except AssertFailed (Game R) := do
  let self ← g.getDrone d
  -- abandon current a crystal if it is gone
  let g ←
    if self.m_crystal_chased_index < g.getTotalCrystalCount then do
      if (← g.getCrystal self.m_crystal_chased_index).isGone then
        pure (g.setDrone d { self with m_crystal_chased_index := NO_CRYSTAL })
      else
        pure g
    else
      pure (g.setDrone d { self with m_crystal_chased_index := NO_CRYSTAL })
  let self ← g.getDrone d
  -- choose a crystal if possible
  if self.m_crystal_chased_index = NO_CRYSTAL then
    let closest ← (List.range g.getTotalCrystalCount).foldlM
      (updateCrystalChased_step g self.getPosition) (NO_CRYSTAL, FAR_AWAY)
    if closest.1 ≠ NO_CRYSTAL then
      return g.setDrone d { self with m_crystal_chased_index := closest.1 }
    else
      return g
  else
    return g

/-- The `for` loop over the asteroids of `Spaceship::calculateDesiredVelocity`: the result of
`avoid` for the first asteroid in storage order that trips `isAvoid`, if there is one. -/
def calculateDesiredVelocity_avoid (self : Spaceship R) (avoid_delta_speed : R) :
    List (Asteroid R) → Except AssertFailed (Option (Vector3 R))
  | [] => return none
  | asteroid :: rest => do
    if (← SteeringBehaviours.isAvoid self asteroid.toEntity self.m_acceleration_manoeuver) then
      return some (← SteeringBehaviours.avoid self asteroid.toEntity
        self.m_acceleration_manoeuver avoid_delta_speed)
    else
      calculateDesiredVelocity_avoid self avoid_delta_speed rest

/-- Method `Spaceship::calculateDesiredVelocity`. -/
def calculateDesiredVelocity (X : Externals R) (self : Spaceship R) (delta_time : R)
    (g : Game R) : Except AssertFailed (Vector3 R) := do
  let avoid_delta_speed := self.m_acceleration_manoeuver * delta_time
  match ← calculateDesiredVelocity_avoid self avoid_delta_speed g.mv_asteroids with
  | some desired => return desired
  | none =>
    -- not avoiding anything
    if self.m_crystal_chased_index < g.getTotalCrystalCount then do
      let crystal ← g.getCrystal self.m_crystal_chased_index
      cassert .crystalNotGone (crystal.isGone = false)
      SteeringBehaviours.pursue self crystal.toEntity INTERCEPT_SPEED
        self.m_acceleration_manoeuver
    else
      SteeringBehaviours.escort X self g.getPlayer.toEntity self.m_escort_offset
        self.m_acceleration_manoeuver

/-- Method `Spaceship::flyToMatchVelocity`. -/
def flyToMatchVelocity (X : Externals R) (self : Spaceship R) (delta_time : R)
    (desired : Vector3 R) : Except AssertFailed (Spaceship R) := do
  cassert .precondition (delta_time > 0)
  let current := self.getVelocity
  let relative := desired - current
  let self ←
    if relative.isZero then
      -- do nothing, course is already perfect
      pure self
    else if relative.isNormLessThan MAIN_ENGINE_MIN_CHANGE then do
      -- fire maneuvering engines
      let max_delta_velocity := self.m_acceleration_manoeuver * delta_time
      let max_change := relative.getNorm * (1 / 5)
      let fraction := max_change / max_delta_velocity
      let fraction := if fraction > 1 then 1 else fraction
      self.thrustManoeuver delta_time (← relative.getNormalized) fraction
    else if X.getAngleSafe relative self.m_coords.forward > MAIN_ENGINE_MIN_RADIANS then
      -- rotate to line up main engines
      let max_radians := self.m_rotation_rate_radians * delta_time
      pure { self with m_coords := X.rotateToVector self.m_coords relative max_radians }
    else
      -- fire main engines
      self.thrustMainEngine delta_time
  cassert .classInvariant (self.invariant = true)
  return self

/-- Method `Spaceship::updateAI`, called on the drone `game.mv_drones[d]`. -/
def updateAI (X : Externals R) (delta_time : R) (g : Game R) (d : Nat) :
    Except AssertFailed (Game R) := do
  cassert .precondition (delta_time > 0)
  let g ← updateCrystalChased g d
  let self ← g.getDrone d
  let desired ← self.calculateDesiredVelocity X delta_time g
  let self ← self.flyToMatchVelocity X delta_time desired
  cassert .classInvariant (self.invariant = true)
  return g.setDrone d self

end Spaceship

/-! ## The simulation orchestrator -/

namespace Game

/-- Constant `ASTEROID_COUNT` of `Game.cpp`. -/
def ASTEROID_COUNT : Nat := 100

/-- Constant `DRONE_COUNT` of `Game.cpp`. -/
def DRONE_COUNT : Nat := 5

/-- Constant `CRYSTAL_KNOCK_OFF_RANGE` of `Game.cpp`. -/
def CRYSTAL_KNOCK_OFF_RANGE : R := 200

/-- Constant `CRYSTAL_KNOCK_OFF_COUNT` of `Game.cpp`. -/
def CRYSTAL_KNOCK_OFF_COUNT : Nat := 10

/-- Constant `CRYSTAL_KNOCK_OFF_SPEED` of `Game.cpp`. -/
def CRYSTAL_KNOCK_OFF_SPEED : R := 10

/-- Constant `EXPAND_VECTOR`, local to `addCrystal`. -/
def EXPAND_VECTOR : Nat := UINT_MAX

/-- Method `Game::updateAI`. -/
def updateAI (X : Externals R) (delta_time : R) (g : Game R) : Except AssertFailed (Game R) :=
  (List.range g.mv_drones.length).foldlM
    (fun (g : Game R) (d : Nat) => do
      let drone ← g.getDrone d
      if drone.isAlive then
        Spaceship.updateAI X delta_time g d
      else
        pure g)
    g

/-- The call `entity.updatePhysics (delta_time, m_black_hole)` on a spaceship. -/
def spaceshipUpdatePhysics (X : Externals R) (delta_time : R) (black_hole : Entity R)
    (ship : Spaceship R) : Spaceship R :=
  { ship with toEntity := X.entityUpdatePhysics delta_time black_hole ship.toEntity }

/-- The call `entity.updatePhysics (delta_time, m_black_hole)` on a crystal. -/
def crystalUpdatePhysics (X : Externals R) (delta_time : R) (black_hole : Entity R)
    (crystal : Crystal R) : Crystal R :=
  { crystal with toEntity := X.entityUpdatePhysics delta_time black_hole crystal.toEntity }

/-- Method `Game::updatePhysics`. -/
def updatePhysics (X : Externals R) (delta_time : R) (g : Game R) : Game R :=
  { g with
    mv_asteroids := g.mv_asteroids.map (X.asteroidUpdatePhysics delta_time g.m_black_hole)
    mv_crystals := g.mv_crystals.map (fun crystal =>
      if !crystal.isGone then crystalUpdatePhysics X delta_time g.m_black_hole crystal
      else crystal)
    m_player :=
      if g.m_player.isAlive then spaceshipUpdatePhysics X delta_time g.m_black_hole g.m_player
      else g.m_player
    mv_drones := g.mv_drones.map (fun drone =>
      if drone.isAlive then spaceshipUpdatePhysics X delta_time g.m_black_hole drone
      else drone) }

/-- The first `for` loop of `Game::handleCollisions`, for one crystal: the player is checked
first, then the drones in storage order; the result is the crystal afterwards and whether it
was claimed. -/
def handleCollisions_crystal (X : Externals R) (player : Spaceship R)
    (drones : List (Spaceship R)) (crystal : Crystal R) : Crystal R × Bool :=
  if !crystal.isGone then
    if X.isCollisionSpaceshipCrystal player crystal then
      (crystal.markGone, true)
    else if drones.any (fun drone => X.isCollisionSpaceshipCrystal drone crystal) then
      (crystal.markGone, true)
    else
      (crystal, false)
  else
    (crystal, false)

/-- The first `for` loop of `Game::handleCollisions`, over all crystals: every claim
increments the `unsigned int` counter `m_crystals_collected`. -/
def handleCollisions_crystals (X : Externals R) (g : Game R) : Game R :=
  let results := g.mv_crystals.map (handleCollisions_crystal X g.m_player g.mv_drones)
  { g with
    mv_crystals := results.map (fun result => result.1)
    m_crystals_collected := results.foldl
      (fun (collected : Nat) (result : Crystal R × Bool) =>
        if result.2 then (collected + 1) % UINT_RANGE else collected)
      g.m_crystals_collected }

/-- The asteroid-asteroid check of `Game::handleCollisions` for the pair `(a, a2)`. -/
def handleCollisions_asteroidPair (X : Externals R) (a : Nat) (g : Game R) (a2 : Nat) :
    Game R :=
  match g.mv_asteroids[a]?, g.mv_asteroids[a2]? with
  | some asteroid, some asteroid2 =>
    if X.isCollisionAsteroidAsteroid asteroid asteroid2 then
      let bounced := X.elastic asteroid.toEntity asteroid2.toEntity
      let asteroid : Asteroid R := { asteroid with toEntity := bounced.1 }
      let asteroid2 : Asteroid R := { asteroid2 with toEntity := bounced.2 }
      { g with mv_asteroids := (g.mv_asteroids.set a asteroid).set a2 asteroid2 }
    else g
  | _, _ => g

/-- The crystal-asteroid check of `Game::handleCollisions` for crystal `c` and asteroid `a`. -/
def handleCollisions_crystalAsteroid (X : Externals R) (a : Nat) (g : Game R) (c : Nat) :
    Game R :=
  match g.mv_crystals[c]?, g.mv_asteroids[a]? with
  | some crystal, some asteroid =>
    if !crystal.isGone then
      if X.isCollisionCrystalAsteroid crystal asteroid then
        let bounced := X.elastic crystal.toEntity asteroid.toEntity
        let crystal : Crystal R := { crystal with toEntity := bounced.1 }
        let asteroid : Asteroid R := { asteroid with toEntity := bounced.2 }
        { g with
          mv_crystals := g.mv_crystals.set c crystal
          mv_asteroids := g.mv_asteroids.set a asteroid }
      else g
    else g
  | _, _ => g

/-- The ship-asteroid check of `Game::handleCollisions` for one ship. -/
def handleCollisions_ship (X : Externals R) (asteroid : Asteroid R) (ship : Spaceship R) :
    Except AssertFailed (Spaceship R) :=
  if X.isCollisionSpaceshipAsteroid ship asteroid then ship.markDead else pure ship

/-- The body of the second `for` loop of `Game::handleCollisions`, for asteroid `a`. -/
def handleCollisions_asteroid (X : Externals R) (g : Game R) (a : Nat) :
    Except AssertFailed (Game R) := do
  let count := g.mv_asteroids.length
  let g := (List.range' (a + 1) (count - (a + 1))).foldl (handleCollisions_asteroidPair X a) g
  let g := (List.range g.mv_crystals.length).foldl (handleCollisions_crystalAsteroid X a) g
  match g.mv_asteroids[a]? with
  | none => throw .indexInRange
  | some asteroid =>
    let player ← handleCollisions_ship X asteroid g.m_player
    let drones ← g.mv_drones.mapM (handleCollisions_ship X asteroid)
    return { g with m_player := player, mv_drones := drones }

/-- Method `Game::handleCollisions`. The checks against the black hole are commented out in
the source and are absent here as well. -/
def handleCollisions (X : Externals R) (g : Game R) : Except AssertFailed (Game R) :=
  let g := handleCollisions_crystals X g
  (List.range g.mv_asteroids.length).foldlM (handleCollisions_asteroid X) g

/-- Method `Game::addCrystal`; `random_unit` is the value drawn by
`Vector3::getRandomUnitVector ()`. -/
def addCrystal (X : Externals R) (random_unit : Vector3 R) (position asteroid_velocity : Vector3 R)
    (g : Game R) : Game R :=
  let crystal_velocity := asteroid_velocity + random_unit * (CRYSTAL_KNOCK_OFF_SPEED : R)
  -- look for an existing already-gone crystal to replace
  let index :=
    match g.mv_crystals.findIdx? (fun crystal => crystal.isGone) with
    | some c => c
    | none => EXPAND_VECTOR
  let crystal : Crystal R :=
    { toEntity := X.newCrystalBody position crystal_velocity, m_is_gone := false }
  if index = EXPAND_VECTOR then
    { g with mv_crystals := g.mv_crystals ++ [crystal] }
  else
    { g with mv_crystals := g.mv_crystals.set index crystal }

/-- The body of the `for` loop of `Game::knockOffCrystals`, for asteroid `a`; `rand a c` is the
random unit vector drawn for the crystal number `c` knocked off asteroid `a`. -/
def knockOffCrystals_asteroid (X : Externals R) (rand : Nat → Nat → Vector3 R) (g : Game R)
    (a : Nat) : Except AssertFailed (Game R) := do
  let player_position := g.m_player.getPosition
  match g.mv_asteroids[a]? with
  | none => throw .indexInRange
  | some asteroid =>
    if asteroid.isCrystals then
      let asteroid_position := asteroid.getPosition
      let asteroid_to_player := player_position - asteroid_position
      let asteroid_radius := X.getRadiusForDirection asteroid (← asteroid_to_player.getNormalized)
      let maximum_distance := asteroid_radius + CRYSTAL_KNOCK_OFF_RANGE
      if asteroid_to_player.isNormLessThan maximum_distance then
        let knock_off_position :=
          asteroid_position + (← asteroid_to_player.getCopyWithNorm asteroid_radius)
        let g := (List.range CRYSTAL_KNOCK_OFF_COUNT).foldl
          (fun (g : Game R) (c : Nat) =>
            addCrystal X (rand a c) knock_off_position asteroid.getVelocity g) g
        return { g with mv_asteroids := g.mv_asteroids.set a asteroid.removeCrystals }
      else
        return g
    else
      return g

/-- Method `Game::knockOffCrystals`. -/
def knockOffCrystals (X : Externals R) (rand : Nat → Nat → Vector3 R) (g : Game R) :
    Except AssertFailed (Game R) :=
  (List.range g.mv_asteroids.length).foldlM (knockOffCrystals_asteroid X rand) g

/-- Method `Game::update`. -/
def update (X : Externals R) (delta_time : R) (g : Game R) : Except AssertFailed (Game R) := do
  let g ← updateAI X delta_time g
  let g := updatePhysics X delta_time g
  handleCollisions X g

/-- Method `Game::playerMainEngine` of `Game.h`. -/
def playerMainEngine (delta_time : R) (g : Game R) : Except AssertFailed (Game R) := do
  let player ← g.m_player.thrustMainEngine delta_time
  return { g with m_player := player }

/-- Method `Game::playerManoeuverForward` of `Game.h`. -/
def playerManoeuverForward (delta_time : R) (g : Game R) : Except AssertFailed (Game R) := do
  let player ← g.m_player.thrustManoeuver delta_time g.m_player.m_coords.forward 1
  return { g with m_player := player }

/-- Method `Game::playerManoeuverBackward` of `Game.h`. -/
def playerManoeuverBackward (delta_time : R) (g : Game R) : Except AssertFailed (Game R) := do
  let player ← g.m_player.thrustManoeuver delta_time (-g.m_player.m_coords.forward) 1
  return { g with m_player := player }

/-- Method `Game::playerManoeuverUp` of `Game.h`. -/
def playerManoeuverUp (delta_time : R) (g : Game R) : Except AssertFailed (Game R) := do
  let player ← g.m_player.thrustManoeuver delta_time g.m_player.m_coords.up 1
  return { g with m_player := player }

/-- Method `Game::playerManoeuverDown` of `Game.h`. -/
def playerManoeuverDown (delta_time : R) (g : Game R) : Except AssertFailed (Game R) := do
  let player ← g.m_player.thrustManoeuver delta_time (-g.m_player.m_coords.up) 1
  return { g with m_player := player }

/-- Method `Game::playerManoeuverRight` of `Game.h`. -/
def playerManoeuverRight (delta_time : R) (g : Game R) : Except AssertFailed (Game R) := do
  let player ← g.m_player.thrustManoeuver delta_time g.m_player.m_coords.right 1
  return { g with m_player := player }

/-- Method `Game::playerManoeuverLeft` of `Game.h`. -/
def playerManoeuverLeft (delta_time : R) (g : Game R) : Except AssertFailed (Game R) := do
  let player ← g.m_player.thrustManoeuver delta_time (-g.m_player.m_coords.right) 1
  return { g with m_player := player }

/-- Method `Game::playerRotateClockwise` of `Game.h`. -/
def playerRotateClockwise (Y : Rotations R) (delta_time : R) (g : Game R) : Except AssertFailed (Game R) := do
  let player ← g.m_player.rotateAroundForward Y delta_time false
  return { g with m_player := player }

/-- Method `Game::playerRotateCounterClockwise` of `Game.h`. -/
def playerRotateCounterClockwise (Y : Rotations R) (delta_time : R) (g : Game R) : Except AssertFailed (Game R) := do
  let player ← g.m_player.rotateAroundForward Y delta_time true
  return { g with m_player := player }

/-- Method `Game::playerRotateUp` of `Game.h`. -/
def playerRotateUp (Y : Rotations R) (delta_time : R) (g : Game R) : Except AssertFailed (Game R) := do
  let player ← g.m_player.rotateAroundRight Y delta_time false
  return { g with m_player := player }

/-- Method `Game::playerRotateDown` of `Game.h`. -/
def playerRotateDown (Y : Rotations R) (delta_time : R) (g : Game R) : Except AssertFailed (Game R) := do
  let player ← g.m_player.rotateAroundRight Y delta_time true
  return { g with m_player := player }

/-- Method `Game::playerRotateRight` of `Game.h`. -/
def playerRotateRight (Y : Rotations R) (delta_time : R) (g : Game R) : Except AssertFailed (Game R) := do
  let player ← g.m_player.rotateAroundUp Y delta_time true
  return { g with m_player := player }

/-- Method `Game::playerRotateLeft` of `Game.h`. -/
def playerRotateLeft (Y : Rotations R) (delta_time : R) (g : Game R) : Except AssertFailed (Game R) := do
  let player ← g.m_player.rotateAroundUp Y delta_time false
  return { g with m_player := player }

/-- What the constructor `Game::Game ()` establishes, as far as the sources show it: no
crystal, nothing collected, `DRONE_COUNT` drones, every ship alive, chasing no crystal and
built by the asserting `Spaceship` constructor. The placement of the bodies (random for the
asteroids) is left open. -/
def isInitial (g : Game R) : Prop :=
  g.mv_crystals = [] ∧ g.m_crystals_collected = 0 ∧
  g.m_player.m_is_alive = true ∧ g.m_player.m_crystal_chased_index = Spaceship.NO_CRYSTAL ∧
  g.m_player.invariant = true ∧
  g.mv_drones.length = DRONE_COUNT ∧
  ∀ drone ∈ g.mv_drones, drone.m_is_alive = true ∧
    drone.m_crystal_chased_index = Spaceship.NO_CRYSTAL ∧ drone.invariant = true

/-- The game states reachable from an initial state by `Game::update` with a positive time
step and by `Game::knockOffCrystals` with any draws of random unit vectors. -/
inductive Reachable (X : Externals R) : Game R → Prop where
  | init (g : Game R) : isInitial g → Reachable X g
  | update (g g' : Game R) (delta_time : R) : Reachable X g → 0 < delta_time →
      update X delta_time g = .ok g' → Reachable X g'
  | knockOffCrystals (g g' : Game R) (rand : Nat → Nat → Vector3 R) : Reachable X g →
      (∀ a c, (rand a c).isUnit = true) → knockOffCrystals X rand g = .ok g' → Reachable X g'

end Game

/-! ## The environment described by the spec, and a worked scenario -/

namespace Model

/-- Modelled from the spec: `Entity::updatePhysics` (Entity.cpp is not among the sources),
one step of gravity integration (spec 4.1): the acceleration has magnitude `G * sourceMass /
distance²` and points to the source, then `velocity += acceleration * dt` and `position +=
velocity * dt`. The orientation is left as it is. -/
def gravityStep (GRAVITY : R) (delta_time : R) (black_hole : Entity R) (e : Entity R) :
    Entity R :=
  let to_source := black_hole.getPosition - e.getPosition
  let distance := to_source.getNorm
  let acceleration :=
    to_source.getCopyWithNormSafe (GRAVITY * black_hole.getMass / (distance * distance))
  let velocity := e.m_velocity + acceleration * delta_time
  { e with
    m_velocity := velocity
    m_coords := { e.m_coords with position := e.m_coords.position + velocity * delta_time } }

/-- Modelled from the spec: `Collisions::isCollision` (Collisions.h is not among the sources),
for two spheres (spec 4.4): the distance between the centres is less than the sum of the
radii. -/
def isCollision (a : Entity R) (radius_a : R) (b : Entity R) (radius_b : R) : Bool :=
  decide (a.getPosition.getDistance b.getPosition < radius_a + radius_b)

/-- Modelled from the spec: `Collisions::elastic` (spec 4.4), the elastic bounce along the
line of centres; the tangential components of the velocities are unaffected. -/
def elastic (a b : Entity R) : Entity R × Entity R :=
  let normal := (b.getPosition - a.getPosition).getCopyWithNormSafe 1
  let closing := (a.m_velocity - b.m_velocity).dotProduct normal
  let impulse := 2 * a.m_mass * b.m_mass / (a.m_mass + b.m_mass) * closing
  ({ a with m_velocity := a.m_velocity - normal * (impulse / a.m_mass) },
   { b with m_velocity := b.m_velocity + normal * (impulse / b.m_mass) })

/-- Modelled from the spec: `CoordinateSystem::localToWorld` for a direction, the combination
of the frame axes with the local components (local x is forward, y is up, z is right). -/
def localToWorld (coords : CoordinateSystem R) (v : Vector3 R) : Vector3 R :=
  coords.forward * v.x + coords.up * v.y + coords.right * v.z

/-- Modelled from the spec: the environment of spec 4.1 and 4.4 for spherical asteroids and a
gravitational constant `GRAVITY`. Crystals get mass 1 and radius 2 and the default axes. The
two rotation helpers of `flyToMatchVelocity` are not described by the spec: here the angle is
always 0 and the frame never turns. -/
def externals (GRAVITY : R) : Externals R where
  localToWorld := localToWorld
  getAngleSafe := fun _ _ => 0
  rotateToVector := fun coords _ _ => coords
  entityUpdatePhysics := gravityStep GRAVITY
  asteroidUpdatePhysics := fun delta_time black_hole asteroid =>
    { asteroid with toEntity := gravityStep GRAVITY delta_time black_hole asteroid.toEntity }
  getRadiusForDirection := fun asteroid _ => asteroid.m_radius
  isCollisionSpaceshipCrystal := fun ship crystal =>
    isCollision ship.toEntity ship.m_radius crystal.toEntity crystal.m_radius
  isCollisionAsteroidAsteroid := fun a b => isCollision a.toEntity a.m_radius b.toEntity b.m_radius
  isCollisionCrystalAsteroid := fun crystal asteroid =>
    isCollision crystal.toEntity crystal.m_radius asteroid.toEntity asteroid.m_radius
  isCollisionSpaceshipAsteroid := fun ship asteroid =>
    isCollision ship.toEntity ship.m_radius asteroid.toEntity asteroid.m_radius
  elastic := elastic
  newCrystalBody := fun position velocity =>
    { m_coords := { position := position, forward := ⟨1, 0, 0⟩, up := ⟨0, 1, 0⟩,
                    right := ⟨0, 0, 1⟩ }
      m_velocity := velocity, m_mass := 1, m_radius := 2, m_is_initialized := true }

end Model

namespace Scenario

/-- The gravitational constant used in the scenario, 6.674e-11. -/
def GRAVITY : R := 6674 / 100000000000000

/-- The environment of the scenario. -/
def env : Externals R := Model.externals GRAVITY

/-- A moving body on the x-axis, at `x` with velocity `v` along the axis. -/
def body (x v mass radius : R) : Entity R where
  m_coords := { position := ⟨x, 0, 0⟩, forward := ⟨1, 0, 0⟩, up := ⟨0, 1, 0⟩, right := ⟨0, 0, 1⟩ }
  m_velocity := ⟨v, 0, 0⟩
  m_mass := mass
  m_radius := radius
  m_is_initialized := true

/-- A drone on the x-axis with the constants of `Game::initSpaceships`. -/
def drone (x v offset : R) (alive : Bool) (chased : Nat) : Spaceship R where
  toEntity := body x v 100 2
  m_is_alive := alive
  m_acceleration_main := 250
  m_acceleration_manoeuver := 25
  m_rotation_rate_radians := 1
  m_escort_offset := ⟨offset, 0, 0⟩
  m_crystal_chased_index := chased

/-- The player ship on the x-axis with the constants of `Game::initSpaceships`. -/
def player (x v : R) : Spaceship R where
  toEntity := body x v 1000 4
  m_is_alive := true
  m_acceleration_main := 500
  m_acceleration_manoeuver := 50
  m_rotation_rate_radians := 3
  m_escort_offset := ⟨0, 0, 0⟩
  m_crystal_chased_index := Spaceship.NO_CRYSTAL

/-- An asteroid of outer radius 100 on the x-axis. -/
def asteroid (x v : R) (crystals : Bool) : Asteroid R where
  toEntity := body x v 1000000 100
  m_inner_radius := 50
  m_is_crystals := crystals

/-- A drifting crystal on the x-axis, as `Game::addCrystal` creates it. -/
def crystal (x v : R) : Crystal R where
  toEntity := body x v 1 2
  m_is_gone := false

/-- The black hole of `Game::Game ()`: at the origin, with `BLACK_HOLE_MASS` and
`BLACK_HOLE_RADIUS`. -/
def blackHole : Entity R := body 0 0 50000000000000000 50

/-- The draws of `Vector3::getRandomUnitVector ()` in the scenario: always the x direction. -/
def rand : Nat → Nat → Vector3 R := fun _ _ => ⟨1, 0, 0⟩

/-- The start of the scenario: one asteroid at 5000 from the black hole, the player 150 from
its centre and closing at 20, drone 0 inside the asteroid's collision sphere, drones 1 to 4
holding station 955 ahead of the player. -/
def start : Game R where
  m_black_hole := blackHole
  mv_asteroids := [asteroid 5000 0 true]
  mv_crystals := []
  m_player := player 5150 (-20)
  mv_drones := [drone 5050 (-20) (-100) true Spaceship.NO_CRYSTAL,
    drone 6105 (-20) 955 true Spaceship.NO_CRYSTAL, drone 6105 (-20) 955 true Spaceship.NO_CRYSTAL,
    drone 6105 (-20) 955 true Spaceship.NO_CRYSTAL, drone 6105 (-20) 955 true Spaceship.NO_CRYSTAL]
  m_crystals_collected := 0

/-- The scenario after `knockOffCrystals`: ten crystals at the surface point 5100. -/
def knocked : Game R :=
  { (start : Game R) with
    mv_asteroids := [asteroid 5000 0 false]
    mv_crystals := List.replicate 10 (crystal 5100 10) }

/-- The scenario after the AI tick of the first `update (1)`: drone 0 chases crystal 0 and
has fired its manoeuvring engines away from the asteroid. -/
def afterFirstAI : Game R :=
  { (knocked : Game R) with
    mv_drones := [drone 5050 (-15) (-100) true 0,
      drone 6105 (-20) 955 true Spaceship.NO_CRYSTAL, drone 6105 (-20) 955 true Spaceship.NO_CRYSTAL,
      drone 6105 (-20) 955 true Spaceship.NO_CRYSTAL,
      drone 6105 (-20) 955 true Spaceship.NO_CRYSTAL] }

/-- The scenario after the physics step of the first `update (1)`. -/
def afterFirstPhysics : Game R where
  m_black_hole := blackHole
  mv_asteroids := [asteroid (124996663 / 25000) (-3337 / 25000) false]
  mv_crystals := List.replicate 10 (crystal (132907763 / 26010) (256763 / 26010))
  m_player := player (272114176 / 53045) (-1067574 / 53045)
  mv_drones := [drone (256803501 / 51005) (-771749 / 51005) (-100) true 0,
    drone (9071634005 / 1490841) (-29950300 / 1490841) 955 true Spaceship.NO_CRYSTAL,
    drone (9071634005 / 1490841) (-29950300 / 1490841) 955 true Spaceship.NO_CRYSTAL,
    drone (9071634005 / 1490841) (-29950300 / 1490841) 955 true Spaceship.NO_CRYSTAL,
    drone (9071634005 / 1490841) (-29950300 / 1490841) 955 true Spaceship.NO_CRYSTAL]
  m_crystals_collected := 0

/-- The scenario after the first `update (1)`: drone 0 has died on the asteroid while chasing
crystal 0, which is still drifting. -/
def afterFirstUpdate : Game R :=
  { (afterFirstPhysics : Game R) with
    mv_drones := [drone (256803501 / 51005) (-771749 / 51005) (-100) false 0,
      drone (9071634005 / 1490841) (-29950300 / 1490841) 955 true Spaceship.NO_CRYSTAL,
      drone (9071634005 / 1490841) (-29950300 / 1490841) 955 true Spaceship.NO_CRYSTAL,
      drone (9071634005 / 1490841) (-29950300 / 1490841) 955 true Spaceship.NO_CRYSTAL,
      drone (9071634005 / 1490841) (-29950300 / 1490841) 955 true Spaceship.NO_CRYSTAL] }

/-- A drone 50 from the centre of a resting obstacle at the origin, closing on it at 30. -/
def diving : Spaceship R := drone 50 (-30) 0 true Spaceship.NO_CRYSTAL

/-- A resting obstacle of radius 100 at the origin of the axis. -/
def rock : Entity R := body 0 0 1000000 100

/-- A crystal slot on the x-axis that is already gone. -/
def goneCrystal (x v : R) : Crystal R where
  toEntity := body x v 1 2
  m_is_gone := true

/-- A state with no asteroid and seven crystals collected so far. Crystal 0 is overlapped by
the player and by drones 0 and 1, crystal 1 by drones 2 and 3, the gone slot 2 by the player,
and crystal 3 by no ship. -/
def pickup : Game R where
  m_black_hole := blackHole
  mv_asteroids := []
  mv_crystals := [crystal 5150 0, crystal 9000 0, goneCrystal 5150 0, crystal 20000 0]
  m_player := player 5150 (-20)
  mv_drones := [drone 5151 (-20) 1 true Spaceship.NO_CRYSTAL,
    drone 5149 (-20) (-1) true Spaceship.NO_CRYSTAL, drone 9001 (-20) 3851 true Spaceship.NO_CRYSTAL,
    drone 8999 (-20) 3849 true Spaceship.NO_CRYSTAL, drone 6105 (-20) 955 true Spaceship.NO_CRYSTAL]
  m_crystals_collected := 7

/-- The state `pickup` after `handleCollisions`: crystals 0 and 1 are gone and nine crystals
have been collected. -/
def afterPickup : Game R :=
  { (pickup : Game R) with
    mv_crystals := [goneCrystal 5150 0, goneCrystal 9000 0, goneCrystal 5150 0, crystal 20000 0]
    m_crystals_collected := 9 }

/-- A state with no asteroid in which the only ship that overlaps the drifting crystal 0 is
the dead drone 0; the player and the four living drones are far from it. -/
def wreck : Game R where
  m_black_hole := blackHole
  mv_asteroids := []
  mv_crystals := [crystal 9000 0]
  m_player := player 5150 (-20)
  mv_drones := [drone 9001 0 3851 false Spaceship.NO_CRYSTAL,
    drone 6105 (-20) 955 true Spaceship.NO_CRYSTAL, drone 6105 (-20) 955 true Spaceship.NO_CRYSTAL,
    drone 6105 (-20) 955 true Spaceship.NO_CRYSTAL, drone 6105 (-20) 955 true Spaceship.NO_CRYSTAL]
  m_crystals_collected := 0

/-- The state `wreck` after `handleCollisions`: crystal 0 is gone and one crystal has been
collected. -/
def afterWreck : Game R :=
  { (wreck : Game R) with
    mv_crystals := [goneCrystal 9000 0]
    m_crystals_collected := 1 }

/-- A state to pause in: two asteroids that overlap and close on each other at 20, no crystal,
the player and five dead drones far from both. -/
def paused : Game R where
  m_black_hole := blackHole
  mv_asteroids := [asteroid 5000 10 false, asteroid 5150 (-10) false]
  mv_crystals := []
  m_player := player 9000 0
  mv_drones := [drone 9010 0 10 false Spaceship.NO_CRYSTAL,
    drone 9010 0 10 false Spaceship.NO_CRYSTAL, drone 9010 0 10 false Spaceship.NO_CRYSTAL,
    drone 9010 0 10 false Spaceship.NO_CRYSTAL, drone 9010 0 10 false Spaceship.NO_CRYSTAL]
  m_crystals_collected := 0

/-- The state `paused` after `update (0)`: the two asteroids have bounced off each other. -/
def afterPaused : Game R :=
  { (paused : Game R) with
    mv_asteroids := [asteroid 5000 (-10) false, asteroid 5150 10 false] }

/-- A state in which drone 0, at 5151, chases the drifting crystal 1 at 20000, while the
drifting crystal 0 at 5150 is chased by no drone. -/
def faithful : Game R where
  m_black_hole := blackHole
  mv_asteroids := []
  mv_crystals := [crystal 5150 0, crystal 20000 0]
  m_player := player 5150 (-20)
  mv_drones := [drone 5151 (-20) 1 true 1,
    drone 6105 (-20) 955 true Spaceship.NO_CRYSTAL, drone 6105 (-20) 955 true Spaceship.NO_CRYSTAL,
    drone 6105 (-20) 955 true Spaceship.NO_CRYSTAL, drone 6105 (-20) 955 true Spaceship.NO_CRYSTAL]
  m_crystals_collected := 0

/-- The start of a second scenario: asteroid 0 at 5000 and asteroid 1 at 5460, both carrying
crystals; the player 150 from the centre of asteroid 0 and 310 from that of asteroid 1,
moving towards asteroid 1 at 20; drone 0 at 5102, outside the collision sphere of asteroid 0
and moving away from it at 6; drones 1 to 4 holding station 955 ahead of the player. -/
def haulStart : Game R where
  m_black_hole := blackHole
  mv_asteroids := [asteroid 5000 0 true, asteroid 5460 0 true]
  mv_crystals := []
  m_player := player 5150 20
  mv_drones := [drone 5102 6 (-48) true Spaceship.NO_CRYSTAL,
    drone 6105 20 955 true Spaceship.NO_CRYSTAL, drone 6105 20 955 true Spaceship.NO_CRYSTAL,
    drone 6105 20 955 true Spaceship.NO_CRYSTAL, drone 6105 20 955 true Spaceship.NO_CRYSTAL]
  m_crystals_collected := 0

/-- The second scenario after `knockOffCrystals`: asteroid 0 was in range and has shed ten
crystals at its surface point 5100; asteroid 1 was out of range. -/
def haulKnocked : Game R :=
  { (haulStart : Game R) with
    mv_asteroids := [asteroid 5000 0 false, asteroid 5460 0 true]
    mv_crystals := List.replicate 10 (crystal 5100 10) }

/-- The second scenario after the AI tick of `update (1)`: drone 0 chases crystal 0 and has
fired its manoeuvring engines away from asteroid 0. -/
def haulAfterAI : Game R :=
  { (haulKnocked : Game R) with
    mv_drones := [drone 5102 11 (-48) true 0,
      drone 6105 20 955 true Spaceship.NO_CRYSTAL, drone 6105 20 955 true Spaceship.NO_CRYSTAL,
      drone 6105 20 955 true Spaceship.NO_CRYSTAL, drone 6105 20 955 true Spaceship.NO_CRYSTAL] }

/-- The second scenario after the physics step of `update (1)`. -/
def haulAfterPhysics : Game R where
  m_black_hole := blackHole
  mv_asteroids := [asteroid (124996663 / 25000) (-3337 / 25000) false,
    asteroid (813839995 / 149058) (-16685 / 149058) true]
  mv_crystals := List.replicate 10 (crystal (132907763 / 26010) (256763 / 26010))
  m_player := player (274235976 / 53045) (1054226 / 53045)
  mv_drones := [drone (33272529663 / 6507601) (70749361 / 6507601) (-48) true 0,
    drone (9131267645 / 1490841) (29683340 / 1490841) 955 true Spaceship.NO_CRYSTAL,
    drone (9131267645 / 1490841) (29683340 / 1490841) 955 true Spaceship.NO_CRYSTAL,
    drone (9131267645 / 1490841) (29683340 / 1490841) 955 true Spaceship.NO_CRYSTAL,
    drone (9131267645 / 1490841) (29683340 / 1490841) 955 true Spaceship.NO_CRYSTAL]
  m_crystals_collected := 0

/-- The second scenario after `update (1)`: drone 0 has picked up all ten crystals, is alive
and still has the chased index 0; the player is now 290 from asteroid 1. -/
def haulAfterUpdate : Game R :=
  { (haulAfterPhysics : Game R) with
    mv_crystals := List.replicate 10 (goneCrystal (132907763 / 26010) (256763 / 26010))
    m_crystals_collected := 10 }

/-- The second scenario after the second `knockOffCrystals`: asteroid 1 has shed ten
crystals at its surface point towards the player, into the ten gone slots. -/
def haulReseeded : Game R :=
  { (haulAfterUpdate : Game R) with
    mv_asteroids := [asteroid (124996663 / 25000) (-3337 / 25000) false,
      asteroid (813839995 / 149058) (-16685 / 149058) false]
    mv_crystals := List.replicate 10 (crystal (798934195 / 149058) (1473895 / 149058)) }

/-- The start of a third scenario: the second one with drone 1 moved to 5358, outside the
collision sphere of asteroid 1 and moving away from it at 6. -/
def duoStart : Game R where
  m_black_hole := blackHole
  mv_asteroids := [asteroid 5000 0 true, asteroid 5460 0 true]
  mv_crystals := []
  m_player := player 5150 20
  mv_drones := [drone 5102 6 (-48) true Spaceship.NO_CRYSTAL,
    drone 5358 (-6) 208 true Spaceship.NO_CRYSTAL, drone 6105 20 955 true Spaceship.NO_CRYSTAL,
    drone 6105 20 955 true Spaceship.NO_CRYSTAL, drone 6105 20 955 true Spaceship.NO_CRYSTAL]
  m_crystals_collected := 0

/-- The third scenario after `knockOffCrystals`: asteroid 0 was in range and has shed ten
crystals at its surface point 5100; asteroid 1 was out of range. -/
def duoKnocked : Game R :=
  { (duoStart : Game R) with
    mv_asteroids := [asteroid 5000 0 false, asteroid 5460 0 true]
    mv_crystals := List.replicate 10 (crystal 5100 10) }

/-- The third scenario after the AI tick of `update (1)`: drone 0 chases crystal 0, drone 1
chases crystal 1, and each has fired its manoeuvring engines away from the asteroid next to
it. -/
def duoAfterAI : Game R :=
  { (duoKnocked : Game R) with
    mv_drones := [drone 5102 11 (-48) true 0,
      drone 5358 (-11) 208 true 1, drone 6105 20 955 true Spaceship.NO_CRYSTAL,
      drone 6105 20 955 true Spaceship.NO_CRYSTAL, drone 6105 20 955 true Spaceship.NO_CRYSTAL] }

/-- The third scenario after the physics step of `update (1)`. -/
def duoAfterPhysics : Game R where
  m_black_hole := blackHole
  mv_asteroids := [asteroid (124996663 / 25000) (-3337 / 25000) false,
    asteroid (813839995 / 149058) (-16685 / 149058) true]
  mv_crystals := List.replicate 10 (crystal (132907763 / 26010) (256763 / 26010))
  m_player := player (274235976 / 53045) (1054226 / 53045)
  mv_drones := [drone (33272529663 / 6507601) (70749361 / 6507601) (-48) true 0,
    drone (816485191 / 152703) (-1697483 / 152703) 208 true 1,
    drone (9131267645 / 1490841) (29683340 / 1490841) 955 true Spaceship.NO_CRYSTAL,
    drone (9131267645 / 1490841) (29683340 / 1490841) 955 true Spaceship.NO_CRYSTAL,
    drone (9131267645 / 1490841) (29683340 / 1490841) 955 true Spaceship.NO_CRYSTAL]
  m_crystals_collected := 0

/-- The third scenario after `update (1)`: drone 0 has picked up all ten crystals; the living
drones 0 and 1 have the chased indices 0 and 1. -/
def duoAfterUpdate : Game R :=
  { (duoAfterPhysics : Game R) with
    mv_crystals := List.replicate 10 (goneCrystal (132907763 / 26010) (256763 / 26010))
    m_crystals_collected := 10 }

/-- The player ship on the x-axis after it has died. -/
def deadPlayer (x v : R) : Spaceship R :=
  { player x v with m_is_alive := false }

/-- A state after the game is lost: no asteroid, the gone slot 0, the drifting crystal 1 at
20000, the dead player at 9000 and five dead drones at 9010; three crystals were collected. -/
def derelict : Game R where
  m_black_hole := blackHole
  mv_asteroids := []
  mv_crystals := [goneCrystal 5150 0, crystal 20000 0]
  m_player := deadPlayer 9000 0
  mv_drones := [drone 9010 0 10 false Spaceship.NO_CRYSTAL,
    drone 9010 0 10 false Spaceship.NO_CRYSTAL, drone 9010 0 10 false Spaceship.NO_CRYSTAL,
    drone 9010 0 10 false Spaceship.NO_CRYSTAL, drone 9010 0 10 false Spaceship.NO_CRYSTAL]
  m_crystals_collected := 3

/-- The state `derelict` after `update (1)`: only the drifting crystal 1 has moved. -/
def afterDerelict : Game R :=
  { (derelict : Game R) with
    mv_crystals := [goneCrystal 5150 0, crystal (7999996663 / 400000) (-3337 / 400000)] }

end Scenario

/-! ## Specification-side notions -/

namespace Entity

/-- The momentum of a body: its velocity scaled by its mass. -/
def momentum {R : Type} [LinearOrderedField R] (e : Entity R) : Vector3 R :=
  e.getVelocity * e.getMass

/-- The kinetic energy of a body: half its mass times its squared speed. -/
def kineticEnergy {R : Type} [LinearOrderedField R] (e : Entity R) : R :=
  e.getMass * e.getVelocity.getNormSquared / 2

end Entity

namespace Spaceship

/-- The eligibility of crystal `c` for a drone at `position`, in the words of the spec: the
crystal is not gone, is not the chased index of any living drone, and is within the detection
radius of the drone. -/
def isEligible (g : Game R) (position : Vector3 R) (c : Nat) : Prop :=
  c < g.getTotalCrystalCount ∧
  ∃ crystal, g.mv_crystals[c]? = some crystal ∧ crystal.isGone = false ∧
    (∀ drone ∈ g.mv_drones, drone.isAlive = true → drone.getCrystalChased ≠ c) ∧
    crystal.getPosition.getDistance position < DETECT_CRYSTALS_DISTANCE

/-- The distance from crystal `c` to `position` (zero when there is no such crystal). -/
def crystalDistance (g : Game R) (position : Vector3 R) (c : Nat) : R :=
  match g.mv_crystals[c]? with
  | some crystal => crystal.getPosition.getDistance position
  | none => 0

/-- What the scan over the crystal indices below `k` has found. -/
def ScanResult (g : Game R) (position : Vector3 R) (k : Nat) (closest : Nat × R) : Prop :=
  (closest.1 = NO_CRYSTAL ∧ closest.2 = FAR_AWAY ∧ ∀ c < k, ¬ isEligible g position c) ∨
  (closest.1 < k ∧ isEligible g position closest.1 ∧
    closest.2 = crystalDistance g position closest.1 ∧
    ∀ c < k, isEligible g position c →
      closest.2 ≤ crystalDistance g position c ∧
      (closest.2 = crystalDistance g position c → closest.1 ≤ c))

/-- The drone `mv_drones[d]` has a valid assignment: its chased index is in range and that
crystal is not gone. -/
def hasValidAssignment (g : Game R) (self : Spaceship R) : Prop :=
  self.m_crystal_chased_index < g.getTotalCrystalCount ∧
  ∃ crystal, g.mv_crystals[self.m_crystal_chased_index]? = some crystal ∧
    crystal.isGone = false

/-- The ship `ship'` is the ship `ship`, except that it may have died in between. -/
def sameOrDead (ship ship' : Spaceship R) : Prop :=
  ship' = ship ∨ ship' = { ship with m_is_alive := false }

end Spaceship

namespace Game

/-- No crystal index other than `NO_CRYSTAL` is the chased index of two different drones,
counting all drones, alive or dead. -/
def chaseExclusive (g : Game R) : Prop :=
  ∀ (i j : Nat) (di dj : Spaceship R), g.mv_drones[i]? = some di → g.mv_drones[j]? = some dj →
    i ≠ j → di.m_crystal_chased_index = dj.m_crystal_chased_index →
    di.m_crystal_chased_index = Spaceship.NO_CRYSTAL

/-- No crystal index other than `NO_CRYSTAL` is the chased index of two different living
drones. -/
def livingChaseExclusive (g : Game R) : Prop :=
  ∀ (i j : Nat) (di dj : Spaceship R), g.mv_drones[i]? = some di → g.mv_drones[j]? = some dj →
    i ≠ j → di.m_is_alive = true → dj.m_is_alive = true →
    di.m_crystal_chased_index = dj.m_crystal_chased_index →
    di.m_crystal_chased_index = Spaceship.NO_CRYSTAL

/-- Every drone of `g'` is, at the same index, a drone of `g` with the same chased index, and
it is alive in `g'` only if it is alive in `g`. -/
def dronesFade (g g' : Game R) : Prop :=
  ∀ (i : Nat) (b : Spaceship R), g'.mv_drones[i]? = some b →
    ∃ a, g.mv_drones[i]? = some a ∧ b.m_crystal_chased_index = a.m_crystal_chased_index ∧
      (b.m_is_alive = true → a.m_is_alive = true)

/-- The thrust and rotation commands of the player, one for each `player...` method of
`Game.h`. -/
inductive PlayerCommand where
  | mainEngine
  | manoeuverForward
  | manoeuverBackward
  | manoeuverUp
  | manoeuverDown
  | manoeuverRight
  | manoeuverLeft
  | rotateClockwise
  | rotateCounterClockwise
  | rotateUp
  | rotateDown
  | rotateRight
  | rotateLeft
  deriving DecidableEq, Repr

/-- The method of `Game.h` that carries out a command of the player. -/
def playerCommand (Y : Rotations R) (command : PlayerCommand) (delta_time : R) (g : Game R) :
    Except AssertFailed (Game R) :=
  match command with
  | .mainEngine => playerMainEngine delta_time g
  | .manoeuverForward => playerManoeuverForward delta_time g
  | .manoeuverBackward => playerManoeuverBackward delta_time g
  | .manoeuverUp => playerManoeuverUp delta_time g
  | .manoeuverDown => playerManoeuverDown delta_time g
  | .manoeuverRight => playerManoeuverRight delta_time g
  | .manoeuverLeft => playerManoeuverLeft delta_time g
  | .rotateClockwise => playerRotateClockwise Y delta_time g
  | .rotateCounterClockwise => playerRotateCounterClockwise Y delta_time g
  | .rotateUp => playerRotateUp Y delta_time g
  | .rotateDown => playerRotateDown Y delta_time g
  | .rotateRight => playerRotateRight Y delta_time g
  | .rotateLeft => playerRotateLeft Y delta_time g

/-- One operation on the game state: `update` with a positive time step, `knockOffCrystals`
with any draws of random vectors, or a thrust or rotation command of the player. -/
inductive Operation (X : Externals R) (Y : Rotations R) : Game R → Game R → Prop where
  | update (g g' : Game R) (delta_time : R) : 0 < delta_time →
      update X delta_time g = .ok g' → Operation X Y g g'
  | knockOffCrystals (g g' : Game R) (rand : Nat → Nat → Vector3 R) :
      knockOffCrystals X rand g = .ok g' → Operation X Y g g'
  | player (g g' : Game R) (command : PlayerCommand) (delta_time : R) :
      playerCommand Y command delta_time g = .ok g' → Operation X Y g g'

/-- No ship of `g'` is alive unless it is alive in `g`: the player, and the drones index by
index, of which there are as many as before. -/
def shipsFade (g g' : Game R) : Prop :=
  (g'.m_player.isAlive = true → g.m_player.isAlive = true) ∧
  g'.mv_drones.length = g.mv_drones.length ∧
  ∀ (i : Nat) (drone drone' : Spaceship R), g.mv_drones[i]? = some drone →
    g'.mv_drones[i]? = some drone' → drone'.isAlive = true → drone.isAlive = true

/-- The crystal that `addCrystal` constructs from the drawn unit vector, the position and the
velocity of the asteroid. -/
def createdCrystal (X : Externals R) (random_unit position asteroid_velocity : Vector3 R) :
    Crystal R :=
  { toEntity := X.newCrystalBody position
      (asteroid_velocity + random_unit * (CRYSTAL_KNOCK_OFF_SPEED : R))
    m_is_gone := false }

/-- In the words of the spec: the asteroid still carries crystals and the distance from its
centre to the player is strictly less than `getRadiusForDirection` of the direction to the
player plus `CRYSTAL_KNOCK_OFF_RANGE`. There is no such direction when the player is at the
centre. -/
def inKnockOffRange (X : Externals R) (g : Game R) (asteroid : Asteroid R) : Bool :=
  asteroid.isCrystals &&
    match (g.m_player.getPosition - asteroid.getPosition).getNormalized with
    | .ok direction =>
      (g.m_player.getPosition - asteroid.getPosition).isNormLessThan
        (X.getRadiusForDirection asteroid direction + CRYSTAL_KNOCK_OFF_RANGE)
    | .error _ => false

/-- The states in which `addCrystal` can be called after the state `g` and before the next
`update`: they are reached from `g` by calls of `addCrystal` and by steps that change neither
the drones nor the crystals (the clearing of an asteroid's payload flag by
`knockOffCrystals`, a command of the player). -/
inductive Knocking (X : Externals R) (g : Game R) : Game R → Prop where
  | start : Knocking X g g
  | addCrystal (h : Game R) (random_unit position asteroid_velocity : Vector3 R) :
      Knocking X g h → Knocking X g (addCrystal X random_unit position asteroid_velocity h)
  | other (h h' : Game R) : Knocking X g h → h'.mv_drones = h.mv_drones →
      h'.mv_crystals = h.mv_crystals → Knocking X g h'

/-- The gone flags of the crystal slots, in storage order. -/
def goneFlags (g : Game R) : List Bool := g.mv_crystals.map Crystal.isGone

/-- The number of crystal slots that are not gone, as a natural number. -/
def driftingCount (g : Game R) : Nat := g.goneFlags.countP (fun gone => !gone)

/-- The number of crystal slots that are drifting in `g` and gone in `g'`. -/
def claimedCount (g g' : Game R) : Nat :=
  (g.goneFlags.zip g'.goneFlags).countP (fun pair => !pair.1 && pair.2)

/-- The subtraction of two `unsigned int` values. -/
def unsignedSub (a b : Nat) : Nat := (a + UINT_RANGE - b) % UINT_RANGE

end Game

end GameModel

/-! ## The type `double` and the arrival functions in binary64 arithmetic -/

namespace Binary64

/-- A value of the C++ type `double` in the IEEE 754 binary64 format: a finite number, an
infinity or a NaN. The sign of a zero is not kept: the two functions below divide only by a
value that an assertion has found greater than zero, and compare zeros only with `>=`. -/
inductive Double where
  /-- A finite value. -/
  | finite (value : ℚ)
  /-- Plus infinity, or minus infinity when `negative` is set. -/
  | infinite (negative : Bool)
  /-- Not a number. -/
  | nan

/-- The integer nearest to `x`, and the even one of the two nearest when `x` lies half-way. -/
def roundHalfEven (x : ℚ) : ℤ :=
  if x - ⌊x⌋ < 1 / 2 then ⌊x⌋
  else if 1 / 2 < x - ⌊x⌋ then ⌊x⌋ + 1
  else if ⌊x⌋ % 2 = 0 then ⌊x⌋ else ⌊x⌋ + 1

/-- The `double` to which the exact result `q` of an operation is rounded, in the default
mode (to nearest, ties to even). A `double` has 53 significant bits, so for
`2 ^ e ≤ |q| < 2 ^ (e + 1)` the neighbouring values are `2 ^ (e - 52)` apart; below
`2 ^ (-1022)` they stay `2 ^ (-1074)` apart (gradual underflow); the result is an infinity
when the rounded magnitude reaches `2 ^ 1024`. -/
def Double.ofRat (q : ℚ) : Double :=
  if q = 0 then .finite 0
  else
    let exponent : ℤ := max (Int.log 2 |q|) (-1022)
    let spacing : ℚ := 2 ^ (exponent - 52)
    let magnitude : ℚ := roundHalfEven (|q| / spacing) * spacing
    if (2 : ℚ) ^ (1024 : ℤ) ≤ magnitude then .infinite (decide (q < 0))
    else .finite (if q < 0 then -magnitude else magnitude)

/-- Unary minus on `double`. -/
def Double.neg : Double → Double
  | .finite x => .finite (-x)
  | .infinite negative => .infinite (!negative)
  | .nan => .nan

/-- The operator `+` on `double`. -/
def Double.add : Double → Double → Double
  | .finite x, .finite y => Double.ofRat (x + y)
  | .finite _, .infinite negative => .infinite negative
  | .infinite negative, .finite _ => .infinite negative
  | .infinite negative, .infinite negative' =>
    if negative = negative' then .infinite negative else .nan
  | .nan, _ => .nan
  | _, .nan => .nan

/-- The operator `-` on `double`. -/
def Double.sub (x y : Double) : Double :=
  x.add y.neg

/-- The operator `*` on `double`. -/
def Double.mul : Double → Double → Double
  | .finite x, .finite y => Double.ofRat (x * y)
  | .finite x, .infinite negative =>
    if x = 0 then .nan else .infinite (xor (decide (x < 0)) negative)
  | .infinite negative, .finite y =>
    if y = 0 then .nan else .infinite (xor negative (decide (y < 0)))
  | .infinite negative, .infinite negative' => .infinite (xor negative negative')
  | .nan, _ => .nan
  | _, .nan => .nan

/-- The operator `/` on `double`. A zero divisor is taken as `+0.0`. -/
def Double.div : Double → Double → Double
  | .finite x, .finite y =>
    if y = 0 then (if x = 0 then .nan else .infinite (decide (x < 0)))
    else Double.ofRat (x / y)
  | .finite _, .infinite _ => .finite 0
  | .infinite negative, .finite y => .infinite (xor negative (decide (y < 0)))
  | .infinite _, .infinite _ => .nan
  | .nan, _ => .nan
  | _, .nan => .nan

/-- A rational that is rounded to the same `double` as the square root of `x ≥ 0`: the root
itself when it is a multiple of `2 ^ (-1100)`, and otherwise the middle of the two
neighbouring multiples of `2 ^ (-1100)` around it. Every `double`, every point half-way
between two neighbouring `double`s and the overflow threshold are multiples of
`2 ^ (-1075)`, so no point at which the rounding changes lies strictly between two
neighbouring multiples of `2 ^ (-1100)`. -/
def sqrtApprox (x : ℚ) : ℚ :=
  let scaled : ℚ := x * 4 ^ 1100
  let root : ℕ := Nat.sqrt ⌊scaled⌋₊
  if (root : ℚ) * root = scaled then root / 2 ^ 1100 else (root + 1 / 2) / 2 ^ 1100

/-- The function `sqrt` of `<cmath>` on `double`, correctly rounded. -/
def Double.sqrt : Double → Double
  | .finite x => if x < 0 then .nan else Double.ofRat (sqrtApprox x)
  | .infinite negative => if negative then .nan else .infinite false
  | .nan => .nan

/-- The operator `<` on `double`; false when an operand is a NaN. -/
def Double.lt : Double → Double → Bool
  | .finite x, .finite y => decide (x < y)
  | .finite _, .infinite negative => !negative
  | .infinite negative, .finite _ => negative
  | .infinite negative, .infinite negative' => negative && !negative'
  | .nan, _ => false
  | _, .nan => false

/-- The operator `<=` on `double`; false when an operand is a NaN. -/
def Double.le : Double → Double → Bool
  | .finite x, .finite y => decide (x ≤ y)
  | .finite _, .infinite negative => !negative
  | .infinite negative, .finite _ => negative
  | .infinite negative, .infinite negative' => negative || !negative'
  | .nan, _ => false
  | _, .nan => false

instance : Neg Double := ⟨Double.neg⟩
instance : Add Double := ⟨Double.add⟩
instance : Sub Double := ⟨Double.sub⟩
instance : Mul Double := ⟨Double.mul⟩
instance : Div Double := ⟨Double.div⟩
instance : LT Double := ⟨fun x y => x.lt y = true⟩
instance : LE Double := ⟨fun x y => x.le y = true⟩
instance (x y : Double) : Decidable (x < y) := inferInstanceAs (Decidable (x.lt y = true))
instance (x y : Double) : Decidable (x ≤ y) := inferInstanceAs (Decidable (x.le y = true))

/-- The literals `0.0`, `1.0` and `2.0`, each of them a `double`. -/
instance (n : Nat) : OfNat Double n := ⟨.finite n⟩

/-- Constant `SAFE_SPEED_FACTOR`, local to `getOptimalSpeedAtDistance` (the value 1.0). -/
def SAFE_SPEED_FACTOR : Double := 1

/-- Function `SteeringBehaviours::getMinArrivalTime` on `double`: the same statements as
`SteeringBehaviours.getMinArrivalTime`, each operation rounded on its own. -/
def getMinArrivalTime (max_acceleration max_speed_at_impact distance : Double) :
    Except AssertFailed Double := do
  cassert .precondition (max_acceleration > 0)
  cassert .precondition (max_speed_at_impact ≥ 0)
  cassert .precondition (distance ≥ 0)
  let under_root := max_speed_at_impact * max_speed_at_impact + 2 * max_acceleration * distance
  cassert .intermediate (under_root ≥ 0)
  let resolved_root := under_root.sqrt
  cassert .intermediate (resolved_root ≥ 0)
  cassert .intermediate (resolved_root ≥ max_speed_at_impact)
  let top := resolved_root - max_speed_at_impact
  cassert .intermediate (top ≥ 0)
  cassert .intermediate (max_acceleration > 0)
  let time := top / max_acceleration
  cassert .intermediate (time ≥ 0)
  return time

/-- Function `SteeringBehaviours::getOptimalSpeedAtDistance` on `double`: the same statements
as `SteeringBehaviours.getOptimalSpeedAtDistance`, each operation rounded on its own. -/
def getOptimalSpeedAtDistance (max_acceleration max_speed_at_impact distance : Double) :
    Except AssertFailed Double := do
  cassert .precondition (max_acceleration > 0)
  cassert .precondition (max_speed_at_impact ≥ 0)
  cassert .precondition (distance ≥ 0)
  let arrival_time ← getMinArrivalTime max_acceleration max_speed_at_impact distance
  cassert .intermediate (arrival_time ≥ 0)
  let max_speed_here := max_speed_at_impact + max_acceleration * arrival_time
  let safe_speed_at_distance := max_speed_here * SAFE_SPEED_FACTOR
  cassert .intermediate (safe_speed_at_distance ≥ 0)
  return safe_speed_at_distance

end Binary64

/-! ## Theorems -/

set_option linter.unusedSectionVars false

section SteeringTheorems

open SteeringBehaviours

@[simp] theorem sqrt_real (x : ℝ) : HasSqrt.sqrt x = Real.sqrt x := rfl

theorem cassert_pos (site : AssertFailed) (cond : Prop) [Decidable cond] (h : cond) :
    cassert site cond = .ok () := by
  simp [cassert, h]

/-- Closed form of `getMinArrivalTime` over the reals: under the documented
preconditions no assertion fails and the quadratic-formula value is returned. -/
theorem getMinArrivalTime_eq (a s d : ℝ) (ha : 0 < a) (hs : 0 ≤ s) (hd : 0 ≤ d) :
    getMinArrivalTime a s d = .ok ((Real.sqrt (s * s + 2 * a * d) - s) / a) := by
  have hu : 0 ≤ s * s + 2 * a * d := by positivity
  have hr : s ≤ Real.sqrt (s * s + 2 * a * d) := by
    apply Real.le_sqrt_of_sq_le
    nlinarith [mul_nonneg ha.le hd]
  have ht : 0 ≤ Real.sqrt (s * s + 2 * a * d) - s := by linarith
  have hq : 0 ≤ (Real.sqrt (s * s + 2 * a * d) - s) / a := div_nonneg ht ha.le
  simp only [getMinArrivalTime, sqrt_real, cassert, ge_iff_le, gt_iff_lt, ha, hs, hd, hu, hr, ht,
    hq, Real.sqrt_nonneg, if_true]
  rfl

/-- Closed form of `getOptimalSpeedAtDistance` over the reals. -/
theorem getOptimalSpeedAtDistance_eq (a s d : ℝ) (ha : 0 < a) (hs : 0 ≤ s) (hd : 0 ≤ d) :
    getOptimalSpeedAtDistance a s d = .ok (Real.sqrt (s * s + 2 * a * d)) := by
  have hv : (s + a * ((Real.sqrt (s * s + 2 * a * d) - s) / a)) * 1
      = Real.sqrt (s * s + 2 * a * d) := by
    field_simp
  have hq : 0 ≤ (Real.sqrt (s * s + 2 * a * d) - s) / a := by
    have hr : s ≤ Real.sqrt (s * s + 2 * a * d) := by
      apply Real.le_sqrt_of_sq_le
      nlinarith [mul_nonneg ha.le hd]
    exact div_nonneg (by linarith) ha.le
  simp only [getOptimalSpeedAtDistance, getMinArrivalTime_eq a s d ha hs hd, cassert, ge_iff_le,
    gt_iff_lt, ha, hs, hd, if_true, SAFE_SPEED_FACTOR]
  show (do
      cassert .intermediate (0 ≤ (Real.sqrt (s * s + 2 * a * d) - s) / a)
      cassert .intermediate
        (0 ≤ (s + a * ((Real.sqrt (s * s + 2 * a * d) - s) / a)) * 1)
      pure ((s + a * ((Real.sqrt (s * s + 2 * a * d) - s) / a)) * 1) : Except AssertFailed ℝ)
    = .ok (Real.sqrt (s * s + 2 * a * d))
  rw [hv, cassert_pos _ _ hq, cassert_pos _ _ (Real.sqrt_nonneg _)]
  rfl

/-- C1: for `a > 0`, `s ≥ 0`, `d ≥ 0` over the reals, `getMinArrivalTime a s d` returns a
time `t` (no assertion fails) that is non-negative and a root of the arrival quadratic
`(1/2)·a·t² + s·t − d = 0`. -/
theorem C1_getMinArrivalTime_nonneg_root (a s d : ℝ) (ha : 0 < a) (hs : 0 ≤ s) (hd : 0 ≤ d) :
    ∃ t : ℝ, getMinArrivalTime a s d = .ok t ∧ 0 ≤ t ∧ (1 / 2) * a * t ^ 2 + s * t - d = 0 := by
  have hu : 0 ≤ s * s + 2 * a * d := by positivity
  have hr : s ≤ Real.sqrt (s * s + 2 * a * d) := by
    apply Real.le_sqrt_of_sq_le
    nlinarith [mul_nonneg ha.le hd]
  refine ⟨_, getMinArrivalTime_eq a s d ha hs hd, div_nonneg (by linarith) ha.le, ?_⟩
  have hsq : Real.sqrt (s * s + 2 * a * d) ^ 2 = s * s + 2 * a * d := Real.sq_sqrt hu
  have hne : a ≠ 0 := ha.ne'
  field_simp
  nlinarith [hsq]

/-- Witness of C1 at the drone constants `a = 25`, `s = 100`, `d = 900`. -/
theorem C1_getMinArrivalTime_nonneg_root_witness :
    (0 : ℝ) < 25 ∧ (0 : ℝ) ≤ 100 ∧ (0 : ℝ) ≤ 900 ∧
      ∃ t : ℝ, getMinArrivalTime (25 : ℝ) 100 900 = .ok t ∧ 0 ≤ t ∧
        (1 / 2) * 25 * t ^ 2 + 100 * t - 900 = 0 :=
  ⟨by norm_num, by norm_num, by norm_num,
    C1_getMinArrivalTime_nonneg_root 25 100 900 (by norm_num) (by norm_num) (by norm_num)⟩

/-- Over the reals, for `a > 0`, `s ≥ 0`, `d ≥ 0`, neither `getMinArrivalTime` nor
`getOptimalSpeedAtDistance` fails an assertion, and the optimal speed returned is at least
`s`, hence non-negative. -/
theorem getOptimalSpeedAtDistance_ge_real (a s d : ℝ) (ha : 0 < a) (hs : 0 ≤ s) (hd : 0 ≤ d) :
    (∃ t : ℝ, getMinArrivalTime a s d = .ok t) ∧
      ∃ v : ℝ, getOptimalSpeedAtDistance a s d = .ok v ∧ s ≤ v ∧ 0 ≤ v := by
  have hr : s ≤ Real.sqrt (s * s + 2 * a * d) := by
    apply Real.le_sqrt_of_sq_le
    nlinarith [mul_nonneg ha.le hd]
  exact ⟨⟨_, getMinArrivalTime_eq a s d ha hs hd⟩,
    _, getOptimalSpeedAtDistance_eq a s d ha hs hd, hr, Real.sqrt_nonneg _⟩

/-- Over the reals, at distance `d = 0` (with `a > 0`, `s ≥ 0`) `getMinArrivalTime` returns
exactly `0` and `getOptimalSpeedAtDistance` returns exactly `s`. -/
theorem zero_distance_real (a s : ℝ) (ha : 0 < a) (hs : 0 ≤ s) :
    getMinArrivalTime a s 0 = .ok 0 ∧ getOptimalSpeedAtDistance a s 0 = .ok s := by
  have h0 : Real.sqrt (s * s + 2 * a * 0) = s := by
    rw [mul_zero, add_zero]
    exact Real.sqrt_mul_self hs
  constructor
  · rw [getMinArrivalTime_eq a s 0 ha hs le_rfl, h0]
    simp
  · rw [getOptimalSpeedAtDistance_eq a s 0 ha hs le_rfl, h0]

/-- The scenario value `(√(100² + 2·25·900) − 100)/25` lies strictly between 5.38 and 5.39. -/
theorem scenario_value_bounds :
    (5.38 : ℝ) < (Real.sqrt (100 ^ 2 + 2 * 25 * 900) - 100) / 25 ∧
      (Real.sqrt (100 ^ 2 + 2 * 25 * 900) - 100) / 25 < 5.39 := by
  have h1 : (234.5 : ℝ) < Real.sqrt (100 ^ 2 + 2 * 25 * 900) := by
    apply Real.lt_sqrt_of_sq_lt
    norm_num
  have h2 : Real.sqrt (100 ^ 2 + 2 * 25 * 900) < 234.75 := by
    rw [Real.sqrt_lt' (by norm_num)]
    norm_num
  constructor
  · rw [lt_div_iff₀ (by norm_num)]
    linarith
  · rw [div_lt_iff₀ (by norm_num)]
    linarith

/-- C4 as stated fails: `getMinArrivalTime(25, 100, 900)` is the closed-form value, but that
value does not lie between 11.5 and 12.5. -/
theorem C4_counterexample :
    ¬ (getMinArrivalTime (25 : ℝ) 100 900
          = .ok ((Real.sqrt (100 ^ 2 + 2 * 25 * 900) - 100) / 25) ∧
        (11.5 : ℝ) < (Real.sqrt (100 ^ 2 + 2 * 25 * 900) - 100) / 25 ∧
        (Real.sqrt (100 ^ 2 + 2 * 25 * 900) - 100) / 25 < 12.5) := by
  rintro ⟨-, h, -⟩
  have := scenario_value_bounds.2
  linarith

/-- C4 (amended): `getMinArrivalTime(25, 100, 900)` equals `(√(100² + 2·25·900) − 100)/25`,
and that value is about 5.38 seconds (it lies strictly between 5.38 and 5.39). -/
theorem C4_scenario_value :
    getMinArrivalTime (25 : ℝ) 100 900
        = .ok ((Real.sqrt (100 ^ 2 + 2 * 25 * 900) - 100) / 25) ∧
      (5.38 : ℝ) < (Real.sqrt (100 ^ 2 + 2 * 25 * 900) - 100) / 25 ∧
      (Real.sqrt (100 ^ 2 + 2 * 25 * 900) - 100) / 25 < 5.39 := by
  refine ⟨?_, scenario_value_bounds⟩
  rw [getMinArrivalTime_eq 25 100 900 (by norm_num) (by norm_num) (by norm_num)]
  norm_num

end SteeringTheorems

/-! ### Crystal-chase assignment -/

section ChaseTheorems

open Spaceship

theorem getTotalCrystalCount_le {R : Type} (g : Game R) :
    g.getTotalCrystalCount ≤ g.mv_crystals.length :=
  Nat.mod_le _ _

theorem getTotalCrystalCount_lt {R : Type} (g : Game R) : g.getTotalCrystalCount < UINT_RANGE :=
  Nat.mod_lt _ (by decide)

theorem getCrystal_ok {R : Type} (g : Game R) (c : Nat) (hc : c < g.getTotalCrystalCount) :
    ∃ crystal, g.mv_crystals[c]? = some crystal ∧ g.getCrystal c = .ok crystal := by
  have hlen : c < g.mv_crystals.length := lt_of_lt_of_le hc (getTotalCrystalCount_le g)
  refine ⟨g.mv_crystals[c], List.getElem?_eq_getElem hlen, ?_⟩
  simp only [Game.getCrystal, cassert, hc, if_true, List.getElem?_eq_getElem hlen]
  rfl

theorem isCrystalChased_ok {R : Type} (g : Game R) (c : Nat) (hc : c < g.getTotalCrystalCount) :
    g.isCrystalChased c = .ok (g.mv_drones.any
      (fun drone => drone.isAlive && decide (drone.getCrystalChased = c))) := by
  simp only [Game.isCrystalChased, cassert, hc, if_true]
  rfl

theorem far_away_gt {R : Type} [LinearOrderedField R] (x : R)
    (hx : x < (DETECT_CRYSTALS_DISTANCE : R)) : x < (FAR_AWAY : R) := by
  have h : (DETECT_CRYSTALS_DISTANCE : R) < FAR_AWAY := by
    simp only [DETECT_CRYSTALS_DISTANCE, FAR_AWAY]
    norm_num
  exact lt_trans hx h

variable {R : Type} [LinearOrderedField R] [HasSqrt R]

/-- One iteration of the scan for a crystal index in range: the running best is replaced
exactly when the crystal is eligible and strictly nearer. -/
theorem updateCrystalChased_step_ok (g : Game R) (position : Vector3 R) (closest : Nat × R)
    (c : Nat) (hc : c < g.getTotalCrystalCount) :
    (isEligible g position c ∧ crystalDistance g position c < closest.2 ∧
        updateCrystalChased_step g position closest c
          = .ok (c, crystalDistance g position c)) ∨
      (¬ (isEligible g position c ∧ crystalDistance g position c < closest.2) ∧
        updateCrystalChased_step g position closest c = .ok closest) := by
  obtain ⟨crystal, hsome, hget⟩ := getCrystal_ok g c hc
  simp only [updateCrystalChased_step, hget, isCrystalChased_ok g c hc, isEligible,
    crystalDistance, hsome]
  by_cases hgone : crystal.isGone = true
  · right
    simp [hgone, bind, Except.bind, pure, Except.pure]
  · have hgone' : crystal.isGone = false := by simpa using hgone
    by_cases hch : g.mv_drones.any
        (fun drone => drone.isAlive && decide (drone.getCrystalChased = c)) = true
    · have hne : ¬ ∀ drone ∈ g.mv_drones, drone.isAlive = true → drone.getCrystalChased ≠ c := by
        intro hall
        obtain ⟨drone, hmem, hd⟩ := List.any_eq_true.mp hch
        simp only [Bool.and_eq_true, decide_eq_true_eq] at hd
        exact hall drone hmem hd.1 hd.2
      right
      simp [hgone', hch, hne, bind, Except.bind, pure, Except.pure]
    · have hch' : g.mv_drones.any
          (fun drone => drone.isAlive && decide (drone.getCrystalChased = c)) = false := by
        simpa using hch
      have hall : ∀ drone ∈ g.mv_drones, drone.isAlive = true → drone.getCrystalChased ≠ c := by
        intro drone hmem halive heq
        apply hch
        exact List.any_eq_true.mpr ⟨drone, hmem, by simp [halive, heq]⟩
      simp only [hgone', hch', bind, Except.bind, pure, Except.pure, Bool.not_false, if_true,
        hc, true_and, Option.some.injEq, exists_eq_left']
      by_cases h1 : crystal.getPosition.getDistance position < DETECT_CRYSTALS_DISTANCE
      · by_cases h2 : crystal.getPosition.getDistance position < closest.2
        · left
          simp only [h1, h2, and_self, if_true, and_true]
          exact hall
        · right
          simp [h1, h2]
      · right
        simp [h1]

theorem isEligible_distance_lt (g : Game R) (position : Vector3 R) (c : Nat)
    (h : isEligible g position c) :
    crystalDistance g position c < (DETECT_CRYSTALS_DISTANCE : R) := by
  obtain ⟨-, crystal, hsome, -, -, hdist⟩ := h
  simpa only [crystalDistance, hsome] using hdist

theorem updateCrystalChased_scan (g : Game R) (position : Vector3 R) (k : Nat)
    (hk : k ≤ g.getTotalCrystalCount) :
    ∃ closest : Nat × R,
      (List.range k).foldlM (updateCrystalChased_step g position)
        ((NO_CRYSTAL, FAR_AWAY) : Nat × R) = .ok closest ∧
      ScanResult g position k closest := by
  induction k with
  | zero =>
    refine ⟨(NO_CRYSTAL, FAR_AWAY), rfl, Or.inl ⟨rfl, rfl, ?_⟩⟩
    intro c hc
    exact absurd hc (Nat.not_lt_zero c)
  | succ k ih =>
    obtain ⟨closest, hfold, hres⟩ := ih (Nat.le_of_succ_le hk)
    have hklt : k < g.getTotalCrystalCount := hk
    have hrun : ∀ next : Nat × R, updateCrystalChased_step g position closest k = .ok next →
        (List.range (k + 1)).foldlM (updateCrystalChased_step g position)
          ((NO_CRYSTAL, FAR_AWAY) : Nat × R) = .ok next := by
      intro next hnext
      rw [List.range_succ, List.foldlM_append, hfold]
      show (List.foldlM (updateCrystalChased_step g position) closest [k]) = _
      rw [List.foldlM_cons, hnext]
      rfl
    rcases updateCrystalChased_step_ok g position closest k hklt with
      ⟨helig, hlt, hstep⟩ | ⟨hnot, hstep⟩
    · refine ⟨_, hrun _ hstep, Or.inr ⟨Nat.lt_succ_self k, helig, rfl, ?_⟩⟩
      intro c hc hce
      rcases Nat.lt_succ_iff_lt_or_eq.mp hc with hck | hck
      · rcases hres with ⟨-, -, hnone⟩ | ⟨-, -, -, hmin⟩
        · exact absurd hce (hnone c hck)
        · have := (hmin c hck hce).1
          have hlt' : crystalDistance g position k < crystalDistance g position c :=
            lt_of_lt_of_le hlt this
          exact ⟨hlt'.le, fun heq => absurd heq hlt'.ne⟩
      · subst hck
        exact ⟨le_rfl, fun _ => le_rfl⟩
    · refine ⟨_, hrun _ hstep, ?_⟩
      rcases hres with ⟨h1, h2, hnone⟩ | ⟨h1, h2, h3, hmin⟩
      · refine Or.inl ⟨h1, h2, ?_⟩
        intro c hc hce
        rcases Nat.lt_succ_iff_lt_or_eq.mp hc with hck | hck
        · exact hnone c hck hce
        · subst hck
          apply hnot
          refine ⟨hce, ?_⟩
          rw [h2]
          exact far_away_gt _ (isEligible_distance_lt g position c hce)
      · refine Or.inr ⟨Nat.lt_succ_of_lt h1, h2, h3, ?_⟩
        intro c hc hce
        rcases Nat.lt_succ_iff_lt_or_eq.mp hc with hck | hck
        · exact hmin c hck hce
        · subst hck
          have hle : closest.2 ≤ crystalDistance g position c := by
            by_contra hcon
            exact hnot ⟨hce, not_le.mp hcon⟩
          exact ⟨hle, fun _ => h1.le⟩

theorem getDrone_ok {R : Type} (g : Game R) (d : Nat) (self : Spaceship R)
    (h : g.mv_drones[d]? = some self) : g.getDrone d = .ok self := by
  simp only [Game.getDrone, h]
  rfl

theorem setDrone_getElem? {R : Type} (g : Game R) (d : Nat) (self drone : Spaceship R)
    (h : g.mv_drones[d]? = some self) : (g.setDrone d drone).mv_drones[d]? = some drone := by
  obtain ⟨hlt, -⟩ := List.getElem?_eq_some.mp h
  simp [Game.setDrone, List.getElem?_set_self hlt]

theorem setDrone_setDrone {R : Type} (g : Game R) (d : Nat) (a b : Spaceship R) :
    (g.setDrone d a).setDrone d b = g.setDrone d b := by
  simp [Game.setDrone]

theorem setDrone_self {R : Type} (g : Game R) (d : Nat) (self : Spaceship R)
    (h : g.mv_drones[d]? = some self) : g.setDrone d self = g := by
  obtain ⟨hlt, -⟩ := List.getElem?_eq_some.mp h
  have : g.mv_drones.set d self = g.mv_drones := by
    apply List.ext_getElem?
    intro n
    by_cases hn : d = n
    · subst hn
      rw [List.getElem?_set_self hlt, h]
    · rw [List.getElem?_set_ne hn]
  simp [Game.setDrone, this]

theorem no_crystal_not_lt {R : Type} (g : Game R) : ¬ (NO_CRYSTAL < g.getTotalCrystalCount) := by
  have := getTotalCrystalCount_lt g
  simp only [NO_CRYSTAL, UINT_MAX, UINT_RANGE] at *
  omega

/-- A drone with a valid assignment keeps it: `updateCrystalChased` changes nothing. -/
theorem updateCrystalChased_valid (g : Game R) (d : Nat) (self : Spaceship R)
    (hself : g.mv_drones[d]? = some self) (hvalid : hasValidAssignment g self) :
    updateCrystalChased g d = .ok g := by
  obtain ⟨hlt, crystal, hsome, hgone⟩ := hvalid
  obtain ⟨crystal', hsome', hget⟩ := getCrystal_ok g _ hlt
  have hc : crystal' = crystal := by
    rw [hsome] at hsome'
    exact (Option.some.inj hsome').symm
  subst hc
  have hne : self.m_crystal_chased_index ≠ NO_CRYSTAL := by
    intro h
    rw [h] at hlt
    exact no_crystal_not_lt g hlt
  simp [updateCrystalChased, getDrone_ok g d self hself, hlt, hget, hgone, hne, bind,
    Except.bind, pure, Except.pure]

/-- A drone without a valid assignment has its index cleared and then scans all crystals of
the game as it then is. -/
theorem updateCrystalChased_invalid (g : Game R) (d : Nat) (self : Spaceship R)
    (hself : g.mv_drones[d]? = some self) (hinvalid : ¬ hasValidAssignment g self) :
    ∃ closest : Nat × R,
      ScanResult (g.setDrone d { self with m_crystal_chased_index := NO_CRYSTAL })
        self.getPosition g.getTotalCrystalCount closest ∧
      updateCrystalChased g d = .ok
        (g.setDrone d { self with m_crystal_chased_index := closest.1 }) := by
  have hg1 : ∀ g1 : Game R, g1 = g.setDrone d { self with m_crystal_chased_index := NO_CRYSTAL } →
      (do
        let self ← g1.getDrone d
        if self.m_crystal_chased_index = NO_CRYSTAL then
          let closest ← (List.range g1.getTotalCrystalCount).foldlM
            (updateCrystalChased_step g1 self.getPosition) (NO_CRYSTAL, FAR_AWAY)
          if closest.1 ≠ NO_CRYSTAL then
            return g1.setDrone d { self with m_crystal_chased_index := closest.1 }
          else
            return g1
        else
          return g1 : Except AssertFailed (Game R)) = updateCrystalChased g d := by
    intro g1 hg1
    subst hg1
    simp only [updateCrystalChased, getDrone_ok g d self hself, bind, Except.bind]
    by_cases hlt : self.m_crystal_chased_index < g.getTotalCrystalCount
    · obtain ⟨crystal, hsome, hget⟩ := getCrystal_ok g _ hlt
      have hgone : crystal.isGone = true := by
        by_contra hcon
        exact hinvalid ⟨hlt, crystal, hsome, by simpa using hcon⟩
      simp [hlt, hget, hgone, pure, Except.pure]
    · simp [hlt, pure, Except.pure]
  obtain ⟨closest, hfold, hres⟩ := updateCrystalChased_scan
    (g.setDrone d { self with m_crystal_chased_index := NO_CRYSTAL }) self.getPosition
    g.getTotalCrystalCount le_rfl
  refine ⟨closest, hres, ?_⟩
  rw [← hg1 _ rfl]
  have hget1 := getDrone_ok (g.setDrone d { self with m_crystal_chased_index := NO_CRYSTAL }) d
    { self with m_crystal_chased_index := NO_CRYSTAL }
    (setDrone_getElem? g d self _ hself)
  have hcount : (g.setDrone d { self with m_crystal_chased_index := NO_CRYSTAL }).getTotalCrystalCount
      = g.getTotalCrystalCount := rfl
  have hpos : Entity.getPosition
      ({ self with m_crystal_chased_index := NO_CRYSTAL } : Spaceship R).toEntity
      = self.getPosition := rfl
  simp only [hget1, bind, Except.bind, hcount, hpos, hfold, if_true]
  by_cases hc : closest.1 = NO_CRYSTAL
  · simp [hc, pure, Except.pure, setDrone_setDrone]
  · simp [hc, pure, Except.pure, setDrone_setDrone]

end ChaseTheorems

/-! ### Which assertion can fail where -/

section AssertionSites

theorem bind_eq_error {α β : Type} (x : Except AssertFailed α) (f : α → Except AssertFailed β)
    (e : AssertFailed) :
    (x >>= f) = .error e ↔ x = .error e ∨ ∃ a, x = .ok a ∧ f a = .error e := by
  cases x with
  | error e' => simp [bind, Except.bind]
  | ok a => simp [bind, Except.bind]

theorem map_eq_error {α β : Type} (x : Except AssertFailed α) (f : α → β) (e : AssertFailed) :
    (f <$> x) = .error e ↔ x = .error e := by
  cases x with
  | error e' => simp [Functor.map, Except.map]
  | ok a => simp [Functor.map, Except.map]

theorem cassert_eq_error (site e : AssertFailed) (cond : Prop) [Decidable cond] :
    cassert site cond = .error e ↔ ¬ cond ∧ site = e := by
  by_cases h : cond <;> simp [cassert, h]

theorem pure_ne_error {α : Type} (a : α) (e : AssertFailed) :
    (pure a : Except AssertFailed α) ≠ .error e := by
  simp [pure, Except.pure]

variable {R : Type} [LinearOrderedField R] [HasSqrt R]

open SteeringBehaviours Spaceship

theorem getMinArrivalTime_ne_crystalNotGone (a s d : R) :
    getMinArrivalTime a s d ≠ .error .crystalNotGone := by
  intro h
  simp [getMinArrivalTime, bind_eq_error, map_eq_error, cassert_eq_error, pure_ne_error] at h

theorem getOptimalSpeedAtDistance_ne_crystalNotGone (a s d : R) :
    getOptimalSpeedAtDistance a s d ≠ .error .crystalNotGone := by
  intro h
  simp [getOptimalSpeedAtDistance, bind_eq_error, map_eq_error, cassert_eq_error, pure_ne_error,
    getMinArrivalTime_ne_crystalNotGone] at h

theorem arrival0_ne_crystalNotGone (p : Vector3 R) (s a : R) :
    arrival0 p s a ≠ .error .crystalNotGone := by
  intro h
  simp [arrival0, bind_eq_error, map_eq_error, cassert_eq_error, pure_ne_error,
    getOptimalSpeedAtDistance_ne_crystalNotGone] at h

theorem arrival_ne_crystalNotGone (p q v w : Vector3 R) (s a : R) :
    arrival p q v w s a ≠ .error .crystalNotGone := by
  intro h
  simp [arrival, bind_eq_error, map_eq_error, cassert_eq_error, pure_ne_error,
    arrival0_ne_crystalNotGone] at h

theorem pursue_ne_crystalNotGone (agent : Spaceship R) (target : Entity R) (s a : R) :
    pursue agent target s a ≠ .error .crystalNotGone := by
  intro h
  simp [pursue, bind_eq_error, map_eq_error, cassert_eq_error, pure_ne_error,
    getMinArrivalTime_ne_crystalNotGone, arrival_ne_crystalNotGone] at h

theorem escort_ne_crystalNotGone (X : Externals R) (agent : Spaceship R) (target : Entity R)
    (offset : Vector3 R) (a : R) :
    escort X agent target offset a ≠ .error .crystalNotGone := by
  intro h
  simp [escort, bind_eq_error, map_eq_error, cassert_eq_error, pure_ne_error,
    getMinArrivalTime_ne_crystalNotGone, arrival_ne_crystalNotGone] at h

theorem getAvoidDistance_ne_crystalNotGone (agent : Spaceship R) (target : Entity R) (a : R) :
    getAvoidDistance agent target a ≠ .error .crystalNotGone := by
  intro h
  simp [getAvoidDistance, bind_eq_error, map_eq_error, cassert_eq_error, pure_ne_error] at h

theorem isAvoid_ne_crystalNotGone (agent : Spaceship R) (target : Entity R) (a : R) :
    isAvoid agent target a ≠ .error .crystalNotGone := by
  intro h
  simp only [isAvoid, bind_eq_error, map_eq_error, cassert_eq_error, pure_ne_error,
    getAvoidDistance_ne_crystalNotGone] at h
  rcases h with h | ⟨-, -, h | ⟨x, -, h⟩⟩
  · simp at h
  · exact h
  · split at h <;> exact pure_ne_error _ _ h

theorem avoid_ne_crystalNotGone (agent : Spaceship R) (target : Entity R) (a m : R) :
    avoid agent target a m ≠ .error .crystalNotGone := by
  intro h
  simp [avoid, bind_eq_error, map_eq_error, cassert_eq_error, pure_ne_error,
    getAvoidDistance_ne_crystalNotGone, isAvoid_ne_crystalNotGone] at h

theorem calculateDesiredVelocity_avoid_ne_crystalNotGone (self : Spaceship R) (m : R)
    (asteroids : List (Asteroid R)) :
    calculateDesiredVelocity_avoid self m asteroids ≠ .error .crystalNotGone := by
  induction asteroids with
  | nil =>
    intro h
    simp [calculateDesiredVelocity_avoid, pure, Except.pure] at h
  | cons asteroid rest ih =>
    intro h
    simp only [calculateDesiredVelocity_avoid, bind_eq_error, map_eq_error] at h
    rcases h with h | ⟨b, -, h⟩
    · exact isAvoid_ne_crystalNotGone _ _ _ h
    · cases b with
      | true =>
        simp only [if_true, bind_eq_error] at h
        rcases h with h | ⟨v, -, h⟩
        · exact avoid_ne_crystalNotGone _ _ _ _ h
        · exact pure_ne_error _ _ h
      | false => exact ih (by simpa using h)

theorem getNormalized_ne_crystalNotGone (v : Vector3 R) :
    v.getNormalized ≠ .error .crystalNotGone := by
  intro h
  simp [Vector3.getNormalized, bind_eq_error, map_eq_error, cassert_eq_error, pure_ne_error] at h

theorem thrustManoeuver_ne_crystalNotGone (self : Spaceship R) (dt : R) (dir : Vector3 R)
    (f : R) : self.thrustManoeuver dt dir f ≠ .error .crystalNotGone := by
  intro h
  simp [thrustManoeuver, bind_eq_error, map_eq_error, cassert_eq_error, pure_ne_error] at h

theorem thrustMainEngine_ne_crystalNotGone (self : Spaceship R) (dt : R) :
    self.thrustMainEngine dt ≠ .error .crystalNotGone := by
  intro h
  simp [thrustMainEngine, bind_eq_error, map_eq_error, cassert_eq_error, pure_ne_error] at h

theorem flyToMatchVelocity_ne_crystalNotGone (X : Externals R) (self : Spaceship R) (dt : R)
    (desired : Vector3 R) : self.flyToMatchVelocity X dt desired ≠ .error .crystalNotGone := by
  intro h
  simp only [flyToMatchVelocity, bind_eq_error, cassert_eq_error] at h
  rcases h with h | ⟨-, -, h⟩
  · simp at h
  · split at h
    · simp [bind_eq_error, map_eq_error, cassert_eq_error, pure_ne_error] at h
    · split at h
      · simp [bind_eq_error, map_eq_error, cassert_eq_error, pure_ne_error,
          getNormalized_ne_crystalNotGone, thrustManoeuver_ne_crystalNotGone] at h
      · split at h
        · simp [bind_eq_error, map_eq_error, cassert_eq_error, pure_ne_error] at h
        · simp [bind_eq_error, map_eq_error, cassert_eq_error, pure_ne_error,
            thrustMainEngine_ne_crystalNotGone] at h

theorem getCrystal_ne_crystalNotGone (g : Game R) (c : Nat) :
    g.getCrystal c ≠ .error .crystalNotGone := by
  intro h
  simp only [Game.getCrystal, bind_eq_error, cassert_eq_error] at h
  rcases h with h | ⟨-, -, h⟩
  · simp at h
  · split at h
    · exact pure_ne_error _ _ h
    · simp [throw, throwThe, MonadExceptOf.throw] at h

/-- With a chased index that is `NO_CRYSTAL` or valid, `calculateDesiredVelocity` does not
fail the assertion `!crystal.isGone()`. -/
theorem calculateDesiredVelocity_ne_crystalNotGone (X : Externals R) (self : Spaceship R)
    (dt : R) (g : Game R)
    (h : self.m_crystal_chased_index = NO_CRYSTAL ∨ hasValidAssignment g self) :
    self.calculateDesiredVelocity X dt g ≠ .error .crystalNotGone := by
  intro herr
  simp only [calculateDesiredVelocity, bind_eq_error] at herr
  rcases herr with herr | ⟨o, -, herr⟩
  · exact calculateDesiredVelocity_avoid_ne_crystalNotGone _ _ _ herr
  · cases o with
    | some desired => exact pure_ne_error _ _ herr
    | none =>
      simp only at herr
      split at herr
      · rename_i hlt
        rcases h with h | ⟨-, crystal, hsome, hgone⟩
        · rw [h] at hlt
          exact no_crystal_not_lt g hlt
        · obtain ⟨crystal', hsome', hget⟩ := getCrystal_ok g _ hlt
          have hc : crystal' = crystal := by
            rw [hsome] at hsome'
            exact (Option.some.inj hsome').symm
          subst hc
          simp only [hget, bind_eq_error, cassert_eq_error] at herr
          rcases herr with herr | ⟨c, hc, herr | ⟨-, -, herr⟩⟩
          · simp at herr
          · cases hc
            exact herr.1 hgone
          · exact pursue_ne_crystalNotGone _ _ _ _ herr
      · exact escort_ne_crystalNotGone _ _ _ _ _ herr

end AssertionSites

/-! ### Evaluation on the x-axis -/

section AxisEvaluation

open SteeringBehaviours Spaceship

@[simp] theorem Vector3.mk_add_mk {R : Type} [LinearOrderedField R] (a b c d e f : R) :
    (⟨a, b, c⟩ : Vector3 R) + ⟨d, e, f⟩ = ⟨a + d, b + e, c + f⟩ := rfl

@[simp] theorem Vector3.mk_sub_mk {R : Type} [LinearOrderedField R] (a b c d e f : R) :
    (⟨a, b, c⟩ : Vector3 R) - ⟨d, e, f⟩ = ⟨a - d, b - e, c - f⟩ := rfl

@[simp] theorem Vector3.mk_mul {R : Type} [LinearOrderedField R] (a b c k : R) :
    (⟨a, b, c⟩ : Vector3 R) * k = ⟨a * k, b * k, c * k⟩ := rfl

@[simp] theorem Vector3.isZero_mk {R : Type} [LinearOrderedField R] (a b c : R) :
    (⟨a, b, c⟩ : Vector3 R).isZero = decide (a = 0 ∧ b = 0 ∧ c = 0) := rfl

@[simp] theorem Vector3.getNorm_axis (a : ℝ) : (⟨a, 0, 0⟩ : Vector3 ℝ).getNorm = |a| := by
  simp only [Vector3.getNorm, Vector3.getNormSquared, sqrt_real, mul_zero, add_zero]
  exact Real.sqrt_mul_self_eq_abs a

theorem Vector3.getDistance_axis (a b : ℝ) :
    (⟨a, 0, 0⟩ : Vector3 ℝ).getDistance ⟨b, 0, 0⟩ = |a - b| := by
  simp [Vector3.getDistance]

theorem scenario_isAvoid_station :
    isAvoid (Scenario.drone (6105 : ℝ) (-20) 955 true NO_CRYSTAL)
      (Scenario.asteroid (5000 : ℝ) 0 false).toEntity 25 = .ok false := by
  simp [isAvoid, getAvoidDistance, cassert, Scenario.drone, Scenario.asteroid, Scenario.body,
    Entity.getPosition, Entity.getVelocity, Entity.getRadius, Vector3.getDistance, bind,
    Except.bind, pure, Except.pure]
  norm_num

end AxisEvaluation

/-! ### What the operations leave unchanged -/

section Frames

theorem bind_eq_ok {α β : Type} (x : Except AssertFailed α) (f : α → Except AssertFailed β)
    (b : β) : (x >>= f) = .ok b ↔ ∃ a, x = .ok a ∧ f a = .ok b := by
  cases x with
  | error e => simp [bind, Except.bind]
  | ok a => simp [bind, Except.bind]

theorem map_eq_ok {α β : Type} (x : Except AssertFailed α) (f : α → β) (b : β) :
    (f <$> x) = .ok b ↔ ∃ a, x = .ok a ∧ f a = b := by
  cases x with
  | error e => simp [Functor.map, Except.map]
  | ok a => simp [Functor.map, Except.map]

theorem cassert_eq_ok (site : AssertFailed) (cond : Prop) [Decidable cond] (u : Unit) :
    cassert site cond = .ok u ↔ cond := by
  by_cases h : cond <;> simp [cassert, h]

theorem pure_eq_ok {α : Type} (a b : α) : (pure a : Except AssertFailed α) = .ok b ↔ a = b := by
  simp [pure, Except.pure]

variable {R : Type} [LinearOrderedField R] [HasSqrt R]

open Spaceship

theorem markDead_ok (self self' : Spaceship R) (h : self.markDead = .ok self') :
    self' = { self with m_is_alive := false } := by
  simp only [markDead, bind_eq_ok, map_eq_ok, cassert_eq_ok, pure_eq_ok] at h
  obtain ⟨-, -, rfl⟩ := h
  rfl

theorem thrustManoeuver_ok (self self' : Spaceship R) (dt : R) (dir : Vector3 R) (f : R)
    (h : self.thrustManoeuver dt dir f = .ok self') :
    self' = { self with
      m_velocity := self.m_velocity + dir * (self.m_acceleration_manoeuver * dt * f) } := by
  simp only [thrustManoeuver, bind_eq_ok, map_eq_ok, cassert_eq_ok, pure_eq_ok] at h
  obtain ⟨-, -, -, -, -, -, -, -, -, -, -, -, rfl⟩ := h
  rfl

theorem thrustMainEngine_ok (self self' : Spaceship R) (dt : R)
    (h : self.thrustMainEngine dt = .ok self') :
    self' = { self with
      m_velocity := self.m_velocity + self.m_coords.forward * self.m_acceleration_main * dt } := by
  simp only [thrustMainEngine, bind_eq_ok, map_eq_ok, cassert_eq_ok, pure_eq_ok] at h
  obtain ⟨-, -, -, -, -, -, -, -, rfl⟩ := h
  rfl

/-- Steering the ship changes neither its alive flag nor its chased index. -/
theorem flyToMatchVelocity_frame (X : Externals R) (self self' : Spaceship R) (dt : R)
    (desired : Vector3 R) (h : self.flyToMatchVelocity X dt desired = .ok self') :
    self'.m_is_alive = self.m_is_alive ∧
      self'.m_crystal_chased_index = self.m_crystal_chased_index := by
  simp only [flyToMatchVelocity, bind_eq_ok, cassert_eq_ok] at h
  obtain ⟨-, -, h⟩ := h
  split at h
  · simp only [bind_eq_ok, map_eq_ok, cassert_eq_ok, pure_eq_ok] at h
    obtain ⟨s, rfl, -, -, rfl⟩ := h
    exact ⟨rfl, rfl⟩
  · split at h
    · simp only [bind_eq_ok, map_eq_ok, cassert_eq_ok, pure_eq_ok] at h
      obtain ⟨dir, -, s, hs, -, -, rfl⟩ := h
      rw [thrustManoeuver_ok _ _ _ _ _ hs]
      exact ⟨rfl, rfl⟩
    · split at h
      · simp only [bind_eq_ok, map_eq_ok, cassert_eq_ok, pure_eq_ok] at h
        obtain ⟨s, rfl, -, -, rfl⟩ := h
        exact ⟨rfl, rfl⟩
      · simp only [bind_eq_ok, map_eq_ok, cassert_eq_ok, pure_eq_ok] at h
        obtain ⟨s, hs, -, -, rfl⟩ := h
        rw [thrustMainEngine_ok _ _ _ hs]
        exact ⟨rfl, rfl⟩

theorem getDrone_eq_ok {R : Type} (g : Game R) (d : Nat) (self : Spaceship R) :
    g.getDrone d = .ok self ↔ g.mv_drones[d]? = some self := by
  unfold Game.getDrone
  cases h : g.mv_drones[d]? with
  | none => simp [throw, throwThe, MonadExceptOf.throw]
  | some drone => simp [pure, Except.pure]

/-- The outcome of `updateCrystalChased` on an existing drone: only the chased index of that
drone changes; it is kept when valid, and otherwise it becomes `NO_CRYSTAL` or an eligible
crystal of the game in which the drone chases nothing. -/
theorem updateCrystalChased_outcome (g : Game R) (d : Nat) (self : Spaceship R)
    (hself : g.mv_drones[d]? = some self) :
    ∃ chosen : Nat,
      updateCrystalChased g d = .ok (g.setDrone d { self with m_crystal_chased_index := chosen }) ∧
      ((hasValidAssignment g self ∧ chosen = self.m_crystal_chased_index) ∨
        (¬ hasValidAssignment g self ∧
          (chosen = NO_CRYSTAL ∨
            isEligible (g.setDrone d { self with m_crystal_chased_index := NO_CRYSTAL })
              self.getPosition chosen))) := by
  by_cases hv : hasValidAssignment g self
  · refine ⟨self.m_crystal_chased_index, ?_, Or.inl ⟨hv, rfl⟩⟩
    rw [updateCrystalChased_valid g d self hself hv]
    exact congrArg _ (setDrone_self g d self hself).symm
  · obtain ⟨closest, hres, hrun⟩ := updateCrystalChased_invalid g d self hself hv
    refine ⟨closest.1, hrun, Or.inr ⟨hv, ?_⟩⟩
    rcases hres with ⟨h, -, -⟩ | ⟨-, h, -, -⟩
    · exact Or.inl h
    · exact Or.inr h

/-- The outcome of `Spaceship::updateAI` when it returns: the game changes only in the drone
`d`, whose alive flag is kept and whose chased index is the one `updateCrystalChased` chose. -/
theorem updateAI_outcome (X : Externals R) (dt : R) (g g' : Game R) (d : Nat)
    (h : Spaceship.updateAI X dt g d = .ok g') :
    ∃ (self self' : Spaceship R) (chosen : Nat), g.mv_drones[d]? = some self ∧
      updateCrystalChased g d = .ok (g.setDrone d { self with m_crystal_chased_index := chosen }) ∧
      g' = g.setDrone d self' ∧ self'.m_is_alive = self.m_is_alive ∧
      self'.m_crystal_chased_index = chosen ∧
      ((hasValidAssignment g self ∧ chosen = self.m_crystal_chased_index) ∨
        (¬ hasValidAssignment g self ∧
          (chosen = NO_CRYSTAL ∨
            isEligible (g.setDrone d { self with m_crystal_chased_index := NO_CRYSTAL })
              self.getPosition chosen))) := by
  simp only [Spaceship.updateAI, bind_eq_ok, cassert_eq_ok, pure_eq_ok] at h
  obtain ⟨-, -, g1, hg1, self1, hself1, desired, -, self', hfly, -, -, rfl⟩ := h
  cases hd : g.mv_drones[d]? with
  | none =>
    have : g.getDrone d = .error .indexInRange := by
      simp [Game.getDrone, hd, throw, throwThe, MonadExceptOf.throw]
    simp [updateCrystalChased, this, bind, Except.bind] at hg1
  | some self =>
    obtain ⟨chosen, hrun, hcases⟩ := updateCrystalChased_outcome g d self hd
    rw [hrun] at hg1
    cases hg1
    rw [getDrone_eq_ok, setDrone_getElem? g d self _ hd] at hself1
    cases hself1
    obtain ⟨halive, hidx⟩ := flyToMatchVelocity_frame X _ _ _ _ hfly
    exact ⟨self, self', chosen, rfl, hrun, setDrone_setDrone g d _ _, halive, hidx, hcases⟩


end Frames

/-! ### Mutual exclusion among the living drones -/

section Exclusion

theorem foldlM_invariant {α β : Type} (P : α → Prop) (f : α → β → Except AssertFailed α)
    (hstep : ∀ a b a', P a → f a b = .ok a' → P a') (l : List β) :
    ∀ a a', P a → l.foldlM f a = .ok a' → P a' := by
  induction l with
  | nil =>
    intro a a' ha h
    simp only [List.foldlM_nil, pure_eq_ok] at h
    exact h ▸ ha
  | cons b l ih =>
    intro a a' ha h
    simp only [List.foldlM_cons, bind_eq_ok] at h
    obtain ⟨a1, h1, h2⟩ := h
    exact ih a1 a' (hstep a b a1 ha h1) h2

theorem foldl_invariant {α β : Type} (P : α → Prop) (f : α → β → α)
    (hstep : ∀ a b, P a → P (f a b)) (l : List β) : ∀ a, P a → P (l.foldl f a) := by
  induction l with
  | nil => exact fun a ha => ha
  | cons b l ih => exact fun a ha => ih (f a b) (hstep a b ha)

variable {R : Type} [LinearOrderedField R] [HasSqrt R]

open Spaceship

theorem livingChaseExclusive_setDrone (g : Game R) (d : Nat) (self' : Spaceship R)
    (hg : g.livingChaseExclusive)
    (hother : self'.m_is_alive = true → self'.m_crystal_chased_index ≠ NO_CRYSTAL →
      ∀ (j : Nat) (dj : Spaceship R), j ≠ d → g.mv_drones[j]? = some dj → dj.m_is_alive = true →
        dj.m_crystal_chased_index ≠ self'.m_crystal_chased_index) :
    (g.setDrone d self').livingChaseExclusive := by
  intro i j di dj hi hj hij hai haj heq
  simp only [Game.setDrone] at hi hj
  by_cases hid : d = i
  · subst hid
    have hjd : j ≠ d := fun h => hij h.symm
    rw [List.getElem?_set_ne (Ne.symm hjd)] at hj
    have hdi : di = self' := by
      by_cases hlt : d < g.mv_drones.length
      · rw [List.getElem?_set_self hlt] at hi
        exact (Option.some.inj hi).symm
      · rw [List.set_eq_of_length_le (not_lt.mp hlt)] at hi
        rw [List.getElem?_eq_none (not_lt.mp hlt)] at hi
        cases hi
    subst hdi
    by_contra hne
    exact hother hai hne j dj hjd hj haj heq.symm
  · rw [List.getElem?_set_ne hid] at hi
    by_cases hjd : d = j
    · subst hjd
      have hdj : dj = self' := by
        by_cases hlt : d < g.mv_drones.length
        · rw [List.getElem?_set_self hlt] at hj
          exact (Option.some.inj hj).symm
        · rw [List.set_eq_of_length_le (not_lt.mp hlt)] at hj
          rw [List.getElem?_eq_none (not_lt.mp hlt)] at hj
          cases hj
      subst hdj
      by_contra hne
      have hne' : dj.m_crystal_chased_index ≠ NO_CRYSTAL := fun h => hne (heq.trans h)
      exact hother haj hne' i di (Ne.symm hid) hi hai heq
    · rw [List.getElem?_set_ne hjd] at hj
      exact hg i j di dj hi hj hij hai haj heq

/-- One drone's AI step keeps the living drones on distinct crystals. -/
theorem spaceship_updateAI_livingChaseExclusive (X : Externals R) (dt : R) (g g' : Game R)
    (d : Nat) (hg : g.livingChaseExclusive) (h : Spaceship.updateAI X dt g d = .ok g') :
    g'.livingChaseExclusive := by
  obtain ⟨self, self', chosen, hself, -, rfl, halive, hidx, hcases⟩ :=
    updateAI_outcome X dt g g' d h
  apply livingChaseExclusive_setDrone g d self' hg
  intro hal hne j dj hjd hj haj heq
  rw [hidx] at hne heq
  rcases hcases with ⟨-, hkeep⟩ | ⟨-, hno | helig⟩
  · rw [hkeep] at hne heq
    exact hne (hg d j self dj hself hj (Ne.symm hjd) (halive ▸ hal) haj heq.symm)
  · exact hne hno
  · obtain ⟨-, -, -, -, hall, -⟩ := helig
    have hmem : dj ∈ (g.setDrone d
        { self with m_crystal_chased_index := NO_CRYSTAL }).mv_drones := by
      apply List.mem_iff_getElem?.mpr
      refine ⟨j, ?_⟩
      simp only [Game.setDrone]
      rw [List.getElem?_set_ne (Ne.symm hjd)]
      exact hj
    exact hall dj hmem haj heq

/-- The AI tick of `Game::updateAI` keeps the living drones on distinct crystals. -/
theorem updateAI_livingChaseExclusive (X : Externals R) (dt : R) (g g' : Game R)
    (hg : g.livingChaseExclusive) (h : Game.updateAI X dt g = .ok g') :
    g'.livingChaseExclusive := by
  refine foldlM_invariant (fun g => g.livingChaseExclusive) _ ?_ _ g g' hg h
  intro a d a' ha hstep
  simp only [bind_eq_ok] at hstep
  obtain ⟨drone, -, hstep⟩ := hstep
  split at hstep
  · exact spaceship_updateAI_livingChaseExclusive X dt a a' d ha hstep
  · rw [pure_eq_ok] at hstep
    exact hstep ▸ ha

theorem dronesFade_refl (g : Game R) : g.dronesFade g :=
  fun _ b hb => ⟨b, hb, rfl, id⟩

theorem dronesFade_of_eq (g g' : Game R) (h : g'.mv_drones = g.mv_drones) : g.dronesFade g' := by
  intro i b hb
  rw [h] at hb
  exact ⟨b, hb, rfl, id⟩

theorem dronesFade_trans (g g' g'' : Game R) (h : g.dronesFade g') (h' : g'.dronesFade g'') :
    g.dronesFade g'' := by
  intro i c hc
  obtain ⟨b, hb, hbc, hbc'⟩ := h' i c hc
  obtain ⟨a, ha, hab, hab'⟩ := h i b hb
  exact ⟨a, ha, hbc.trans hab, fun hca => hab' (hbc' hca)⟩

theorem livingChaseExclusive_of_fade (g g' : Game R) (hg : g.livingChaseExclusive)
    (h : g.dronesFade g') : g'.livingChaseExclusive := by
  intro i j di dj hi hj hij hai haj heq
  obtain ⟨ai, hai', hidx, hal⟩ := h i di hi
  obtain ⟨aj, haj', hjdx, hal'⟩ := h j dj hj
  rw [hidx]
  apply hg i j ai aj hai' haj' hij (hal hai) (hal' haj)
  rw [← hidx, ← hjdx]
  exact heq

theorem updatePhysics_dronesFade (X : Externals R) (dt : R) (g : Game R) :
    g.dronesFade (g.updatePhysics X dt) := by
  intro i b hb
  simp only [Game.updatePhysics, List.getElem?_map, Option.map_eq_some'] at hb
  obtain ⟨a, ha, rfl⟩ := hb
  refine ⟨a, ha, ?_, ?_⟩
  · split <;> rfl
  · split
    · exact id
    · exact id

theorem handleCollisions_ship_fade (X : Externals R) (asteroid : Asteroid R)
    (ship ship' : Spaceship R) (h : Game.handleCollisions_ship X asteroid ship = .ok ship') :
    ship'.m_crystal_chased_index = ship.m_crystal_chased_index ∧
      (ship'.m_is_alive = true → ship.m_is_alive = true) := by
  unfold Game.handleCollisions_ship at h
  split at h
  · rw [markDead_ok _ _ h]
    exact ⟨rfl, fun hf => by simp at hf⟩
  · rw [pure_eq_ok] at h
    subst h
    exact ⟨rfl, id⟩

theorem mapM_getElem? {α β : Type} (f : α → Except AssertFailed β) (l : List α) :
    ∀ (l' : List β), l.mapM f = .ok l' →
      ∀ (i : Nat) (b : β), l'[i]? = some b → ∃ a, l[i]? = some a ∧ f a = .ok b := by
  induction l with
  | nil =>
    intro l' h i b hb
    simp only [List.mapM_nil, pure_eq_ok] at h
    subst h
    simp at hb
  | cons x xs ih =>
    intro l' h i b hb
    simp only [List.mapM_cons, bind_eq_ok, pure_eq_ok] at h
    obtain ⟨y, hy, ys, hys, rfl⟩ := h
    cases i with
    | zero =>
      simp only [List.getElem?_cons_zero, Option.some.injEq] at hb
      subst hb
      exact ⟨x, by simp, hy⟩
    | succ i =>
      simp only [List.getElem?_cons_succ] at hb
      obtain ⟨a, ha, hfa⟩ := ih ys hys i b hb
      exact ⟨a, by simpa using ha, hfa⟩

theorem handleCollisions_asteroidPair_drones (X : Externals R) (a : Nat) (g : Game R) (a2 : Nat) :
    (Game.handleCollisions_asteroidPair X a g a2).mv_drones = g.mv_drones := by
  unfold Game.handleCollisions_asteroidPair
  split
  · split <;> rfl
  · rfl

theorem handleCollisions_crystalAsteroid_drones (X : Externals R) (a : Nat) (g : Game R)
    (c : Nat) : (Game.handleCollisions_crystalAsteroid X a g c).mv_drones = g.mv_drones := by
  unfold Game.handleCollisions_crystalAsteroid
  split
  · split
    · split <;> rfl
    · rfl
  · rfl

theorem handleCollisions_asteroid_dronesFade (X : Externals R) (g g' : Game R) (a : Nat)
    (h : Game.handleCollisions_asteroid X g a = .ok g') : g.dronesFade g' := by
  simp only [Game.handleCollisions_asteroid] at h
  have h1 : ∀ l : List Nat,
      (l.foldl (Game.handleCollisions_asteroidPair X a) g).mv_drones = g.mv_drones :=
    fun l => foldl_invariant (fun g1 => g1.mv_drones = g.mv_drones) _
      (fun g1 b hg1 => (handleCollisions_asteroidPair_drones X a g1 b).trans hg1) l g rfl
  have h2 : ∀ (g0 : Game R) (l : List Nat),
      (l.foldl (Game.handleCollisions_crystalAsteroid X a) g0).mv_drones = g0.mv_drones :=
    fun g0 l => foldl_invariant (fun g1 => g1.mv_drones = g0.mv_drones) _
      (fun g1 b hg1 => (handleCollisions_crystalAsteroid_drones X a g1 b).trans hg1) l g0 rfl
  split at h
  · simp [throw, throwThe, MonadExceptOf.throw] at h
  · rename_i asteroid _
    simp only [bind_eq_ok, pure_eq_ok] at h
    obtain ⟨player, -, drones, hdrones, rfl⟩ := h
    intro i b hb
    obtain ⟨x, hx, hfx⟩ := mapM_getElem? _ _ drones hdrones i b hb
    rw [h2, h1] at hx
    exact ⟨x, hx, handleCollisions_ship_fade X asteroid x b hfx⟩

theorem handleCollisions_dronesFade (X : Externals R) (g g' : Game R)
    (h : Game.handleCollisions X g = .ok g') : g.dronesFade g' := by
  simp only [Game.handleCollisions] at h
  have h0 : g.dronesFade (Game.handleCollisions_crystals X g) := dronesFade_of_eq _ _ rfl
  exact foldlM_invariant (fun g1 => g.dronesFade g1) _
    (fun g1 a g2 hg1 hstep =>
      dronesFade_trans g g1 g2 hg1 (handleCollisions_asteroid_dronesFade X g1 g2 a hstep))
    _ _ g' h0 h

theorem addCrystal_drones (X : Externals R) (u p v : Vector3 R) (g : Game R) :
    (Game.addCrystal X u p v g).mv_drones = g.mv_drones := by
  unfold Game.addCrystal
  simp only
  split <;> rfl

theorem addCrystal_fold_drones (X : Externals R) (f : Nat → Vector3 R) (p v : Vector3 R)
    (l : List Nat) (g : Game R) :
    (l.foldl (fun (g : Game R) (c : Nat) => Game.addCrystal X (f c) p v g) g).mv_drones
      = g.mv_drones :=
  foldl_invariant (fun g1 => g1.mv_drones = g.mv_drones)
    (fun (g : Game R) (c : Nat) => Game.addCrystal X (f c) p v g)
    (fun g1 _ hg1 => (addCrystal_drones X _ _ _ g1).trans hg1) l g rfl

theorem knockOffCrystals_asteroid_drones (X : Externals R) (rand : Nat → Nat → Vector3 R)
    (g g' : Game R) (a : Nat) (h : Game.knockOffCrystals_asteroid X rand g a = .ok g') :
    g'.mv_drones = g.mv_drones := by
  simp only [Game.knockOffCrystals_asteroid] at h
  split at h
  · simp [throw, throwThe, MonadExceptOf.throw] at h
  · split at h
    · simp only [bind_eq_ok] at h
      obtain ⟨n, -, h⟩ := h
      split at h
      · simp only [bind_eq_ok, pure_eq_ok] at h
        obtain ⟨k, -, h⟩ := h
        rw [← h]
        dsimp only
        exact addCrystal_fold_drones X (rand a) _ _ _ g
      · rw [pure_eq_ok] at h
        rw [h]
    · rw [pure_eq_ok] at h
      rw [h]

theorem knockOffCrystals_drones (X : Externals R) (rand : Nat → Nat → Vector3 R)
    (g g' : Game R) (h : Game.knockOffCrystals X rand g = .ok g') :
    g'.mv_drones = g.mv_drones :=
  foldlM_invariant (fun g1 => g1.mv_drones = g.mv_drones) _
    (fun g1 a g2 hg1 hstep => (knockOffCrystals_asteroid_drones X rand g1 g2 a hstep).trans hg1)
    _ g g' rfl h

/-- In every reachable state the living drones chase pairwise different crystals. -/
theorem reachable_livingChaseExclusive (X : Externals R) (g : Game R)
    (h : Game.Reachable X g) : g.livingChaseExclusive := by
  induction h with
  | init g hinit =>
    obtain ⟨-, -, -, -, -, -, hall⟩ := hinit
    intro i j di dj hi hj _ _ _ _
    exact (hall di (List.mem_iff_getElem?.mpr ⟨i, hi⟩)).2.1
  | update g g' dt _ _ hstep ih =>
    simp only [Game.update, bind_eq_ok] at hstep
    obtain ⟨g1, hai, hcol⟩ := hstep
    have h1 := updateAI_livingChaseExclusive X dt g g1 ih hai
    have h2 := livingChaseExclusive_of_fade _ _ h1 (updatePhysics_dronesFade X dt g1)
    exact livingChaseExclusive_of_fade _ _ h2 (handleCollisions_dronesFade X _ g' hcol)
  | knockOffCrystals g g' rand _ _ hstep ih =>
    exact livingChaseExclusive_of_fade _ _ ih
      (dronesFade_of_eq _ _ (knockOffCrystals_drones X rand g g' hstep))


end Exclusion

/-! ### The claims on the crystal-chase assignment -/

section ChaseClaims

variable {R : Type} [LinearOrderedField R] [HasSqrt R]

open Spaceship

/-- For a drone without a valid assignment, clearing its own index does not change which
crystals are eligible: its stale index is not the index of a drifting crystal. -/
theorem isEligible_cleared_iff (g : Game R) (d : Nat) (self : Spaceship R)
    (hself : g.mv_drones[d]? = some self) (hinvalid : ¬ hasValidAssignment g self)
    (position : Vector3 R) (c : Nat) :
    isEligible (g.setDrone d { self with m_crystal_chased_index := NO_CRYSTAL }) position c ↔
      isEligible g position c := by
  have hcount : (g.setDrone d
      { self with m_crystal_chased_index := NO_CRYSTAL }).getTotalCrystalCount
        = g.getTotalCrystalCount := rfl
  have hcr : (g.setDrone d { self with m_crystal_chased_index := NO_CRYSTAL }).mv_crystals
      = g.mv_crystals := rfl
  unfold isEligible
  rw [hcount, hcr]
  constructor
  · rintro ⟨hc, crystal, hsome, hgone, hall, hdist⟩
    refine ⟨hc, crystal, hsome, hgone, ?_, hdist⟩
    intro drone hmem halive heq
    obtain ⟨n, hn⟩ := List.mem_iff_getElem?.mp hmem
    by_cases hnd : d = n
    · subst hnd
      rw [hself] at hn
      cases hn
      apply hinvalid
      unfold Spaceship.getCrystalChased at heq
      exact ⟨heq ▸ hc, crystal, heq ▸ hsome, hgone⟩
    · refine hall drone (List.mem_iff_getElem?.mpr ⟨n, ?_⟩) halive heq
      simp only [Game.setDrone]
      rw [List.getElem?_set_ne hnd]
      exact hn
  · rintro ⟨hc, crystal, hsome, hgone, hall, hdist⟩
    refine ⟨hc, crystal, hsome, hgone, ?_, hdist⟩
    intro drone hmem halive heq
    obtain ⟨n, hn⟩ := List.mem_iff_getElem?.mp hmem
    simp only [Game.setDrone] at hn
    by_cases hnd : d = n
    · subst hnd
      obtain ⟨hlt, -⟩ := List.getElem?_eq_some.mp hself
      rw [List.getElem?_set_self hlt] at hn
      cases hn
      unfold Spaceship.getCrystalChased at heq
      simp only at heq
      rw [← heq] at hc
      exact no_crystal_not_lt g hc
    · rw [List.getElem?_set_ne hnd] at hn
      exact hall drone (List.mem_iff_getElem?.mpr ⟨n, hn⟩) halive heq

/-- C6: a drone that enters `updateCrystalChased` without a valid assignment ends with the
lowest-index crystal among those of minimal distance in the eligible set (not gone, chased by
no living drone, nearer than 1000); when no crystal is eligible it ends with `NO_CRYSTAL`.
Nothing else in the game changes. -/
theorem C6_updateCrystalChased_nearest_eligible (g : Game R) (d : Nat) (self : Spaceship R)
    (hself : g.mv_drones[d]? = some self) (hinvalid : ¬ hasValidAssignment g self) :
    ∃ chosen : Nat,
      updateCrystalChased g d
        = .ok (g.setDrone d { self with m_crystal_chased_index := chosen }) ∧
      ((∀ c, ¬ isEligible g self.getPosition c) → chosen = NO_CRYSTAL) ∧
      ((∃ c, isEligible g self.getPosition c) →
        isEligible g self.getPosition chosen ∧
        ∀ c, isEligible g self.getPosition c →
          crystalDistance g self.getPosition chosen ≤ crystalDistance g self.getPosition c ∧
          (crystalDistance g self.getPosition chosen = crystalDistance g self.getPosition c →
            chosen ≤ c)) := by
  obtain ⟨closest, hres, hrun⟩ := updateCrystalChased_invalid g d self hself hinvalid
  have hiff := isEligible_cleared_iff g d self hself hinvalid self.getPosition
  refine ⟨closest.1, hrun, ?_, ?_⟩
  · intro hnone
    rcases hres with ⟨h, -, -⟩ | ⟨-, h, -, -⟩
    · exact h
    · exact absurd ((hiff _).mp h) (hnone _)
  · rintro ⟨c0, hc0⟩
    rcases hres with ⟨-, -, hnone⟩ | ⟨-, helig, hdist, hmin⟩
    · exact absurd ((hiff c0).mpr hc0) (hnone c0 hc0.1)
    · refine ⟨(hiff _).mp helig, ?_⟩
      intro c hc
      have := hmin c hc.1 ((hiff c).mpr hc)
      rw [hdist] at this
      exact this

/-- C7: after `updateCrystalChased` the drone's chased index is `NO_CRYSTAL` or the index of
an existing crystal that is not gone, nothing but that index has changed, and `updateAI` can
therefore not fail the assertion `!crystal.isGone()` of `calculateDesiredVelocity`. -/
theorem C7_chased_index_valid_after_update (X : Externals R) (dt : R) (g : Game R) (d : Nat)
    (self : Spaceship R) (hself : g.mv_drones[d]? = some self) :
    (∃ chosen : Nat,
      updateCrystalChased g d
        = .ok (g.setDrone d { self with m_crystal_chased_index := chosen }) ∧
      (chosen = NO_CRYSTAL ∨
        (chosen < g.getTotalCrystalCount ∧
          ∃ crystal, g.getCrystal chosen = .ok crystal ∧ crystal.isGone = false))) ∧
    Spaceship.updateAI X dt g d ≠ .error .crystalNotGone := by
  obtain ⟨chosen, hrun, hcases⟩ := updateCrystalChased_outcome g d self hself
  have hvalid : chosen = NO_CRYSTAL ∨
      hasValidAssignment (g.setDrone d { self with m_crystal_chased_index := chosen })
        { self with m_crystal_chased_index := chosen } := by
    rcases hcases with ⟨hv, hkeep⟩ | ⟨-, hno | helig⟩
    · right
      rw [hkeep]
      exact hv
    · exact Or.inl hno
    · right
      obtain ⟨hc, crystal, hsome, hgone, -, -⟩ := helig
      exact ⟨hc, crystal, hsome, hgone⟩
  constructor
  · refine ⟨chosen, hrun, ?_⟩
    rcases hvalid with hno | ⟨hc, crystal, hsome, hgone⟩
    · exact Or.inl hno
    · right
      refine ⟨hc, crystal, ?_, hgone⟩
      obtain ⟨crystal', hsome', hget⟩ := getCrystal_ok g chosen hc
      have : crystal' = crystal := by
        have h1 : g.mv_crystals[chosen]? = some crystal := hsome
        rw [h1] at hsome'
        exact (Option.some.inj hsome').symm
      rw [hget, this]
  · intro herr
    simp only [Spaceship.updateAI, bind_eq_error, cassert_eq_error, hrun] at herr
    rcases herr with herr | ⟨-, -, herr⟩
    · simp at herr
    · rcases herr with herr | ⟨g1, hg1, herr⟩
      · cases herr
      · cases hg1
        rw [getDrone_ok _ d _ (setDrone_getElem? g d self _ hself)] at herr
        rcases herr with herr | ⟨s1, hs1, herr⟩
        · cases herr
        · cases hs1
          rcases herr with herr | ⟨desired, -, herr⟩
          · exact calculateDesiredVelocity_ne_crystalNotGone X _ dt _ hvalid herr
          · rcases herr with herr | ⟨s2, -, herr⟩
            · exact flyToMatchVelocity_ne_crystalNotGone X _ dt desired herr
            · rcases herr with herr | ⟨-, -, herr⟩
              · simp at herr
              · exact pure_ne_error _ _ herr

/-- C5 (amended): in every state reachable by `update` and `knockOffCrystals`, after the AI
tick no crystal index other than `NO_CRYSTAL` is the chased index of two different living
drones. -/
theorem C5_living_drones_chase_distinct_crystals (X : Externals R) (g g' : Game R) (dt : R)
    (hreach : Game.Reachable X g) (htick : Game.updateAI X dt g = .ok g') :
    g'.livingChaseExclusive :=
  updateAI_livingChaseExclusive X dt g g' (reachable_livingChaseExclusive X g hreach) htick

end ChaseClaims

/-! ### Steering over the reals: no assertion fails -/

section RealSteering

open SteeringBehaviours Spaceship

theorem ok_bind {α β : Type} (a : α) (f : α → Except AssertFailed β) :
    ((Except.ok a : Except AssertFailed α) >>= f) = f a := rfl

theorem getNorm_nonneg (v : Vector3 ℝ) : 0 ≤ v.getNorm := Real.sqrt_nonneg _

theorem getDistance_nonneg (p q : Vector3 ℝ) : 0 ≤ p.getDistance q := Real.sqrt_nonneg _

theorem arrival0_eq (p : Vector3 ℝ) (s a : ℝ) (hs : 0 ≤ s) (ha : 0 < a) :
    arrival0 p s a = .ok (p.getCopyWithNormSafe (Real.sqrt (s * s + 2 * a * p.getNorm))) := by
  simp only [arrival0, cassert, ge_iff_le, gt_iff_lt, hs, ha, if_true,
    getOptimalSpeedAtDistance_eq a s p.getNorm ha hs (getNorm_nonneg p), ok_bind,
    Real.sqrt_nonneg]
  rfl

theorem arrival_eq (p q v w : Vector3 ℝ) (s a : ℝ) (hs : 0 ≤ s) (ha : 0 < a) :
    arrival p q v w s a
      = .ok ((q - p).getCopyWithNormSafe (Real.sqrt (s * s + 2 * a * (q - p).getNorm)) + w) := by
  simp only [arrival, cassert, ge_iff_le, gt_iff_lt, hs, ha, if_true, arrival0_eq _ s a hs ha,
    ok_bind]
  rfl

theorem pursue_ok (agent : Spaceship ℝ) (target : Entity ℝ) (s a : ℝ) (hs : 0 ≤ s)
    (ha : 0 < a) : ∃ v, pursue agent target s a = .ok v := by
  simp only [pursue, cassert, ge_iff_le, gt_iff_lt, hs, ha, if_true,
    getMinArrivalTime_eq a s _ ha hs (getDistance_nonneg _ _), arrival_eq _ _ _ _ s a hs ha,
    ok_bind]
  exact ⟨_, rfl⟩

theorem escort_ok (X : Externals ℝ) (agent : Spaceship ℝ) (target : Entity ℝ)
    (offset : Vector3 ℝ) (a : ℝ) (ha : 0 < a) : ∃ v, escort X agent target offset a = .ok v := by
  simp only [escort, cassert, ge_iff_le, gt_iff_lt, ha, if_true,
    getMinArrivalTime_eq a 0 _ ha le_rfl (getDistance_nonneg _ _),
    arrival_eq _ _ _ _ 0 a le_rfl ha, ok_bind]
  exact ⟨_, rfl⟩

variable {R : Type} [LinearOrderedField R] [HasSqrt R]

theorem getAvoidDistance_eq (agent : Spaceship R) (target : Entity R) (a : R) (ha : 0 < a) :
    getAvoidDistance agent target a
      = .ok (target.getRadius + (target.getVelocity - agent.getVelocity).getNorm / a * 10) := by
  simp only [getAvoidDistance, cassert, gt_iff_lt, ha, if_true, ok_bind]
  rfl

theorem isAvoid_eq (agent : Spaceship R) (target : Entity R) (a : R) (ha : 0 < a) :
    isAvoid agent target a
      = .ok (decide (agent.getPosition.getDistance target.getPosition <
          target.getRadius + (target.getVelocity - agent.getVelocity).getNorm / a * 10)) := by
  simp only [isAvoid, cassert, gt_iff_lt, ha, if_true, getAvoidDistance_eq agent target a ha,
    ok_bind]
  by_cases h : agent.getPosition.getDistance target.getPosition <
      target.getRadius + (target.getVelocity - agent.getVelocity).getNorm / a * 10
  · simp [h, bind, Except.bind, pure, Except.pure]
  · simp [h, bind, Except.bind, pure, Except.pure]

theorem avoid_eq (agent : Spaceship R) (target : Entity R) (a m : R) (ha : 0 < a) (hm : 0 < m)
    (h : isAvoid agent target a = .ok true) :
    avoid agent target a m = .ok (agent.getVelocity +
      (agent.getPosition - target.getPosition).getCopyWithNormSafe m) := by
  have h' := h
  rw [isAvoid_eq agent target a ha] at h'
  have hlt : agent.getPosition.getDistance target.getPosition <
      target.getRadius + (target.getVelocity - agent.getVelocity).getNorm / a * 10 := by
    simpa using h'
  simp only [avoid, cassert, gt_iff_lt, ha, hm, if_true, h, getAvoidDistance_eq agent target a ha,
    ok_bind]
  simp [hlt, bind, Except.bind, pure, Except.pure]

theorem calculateDesiredVelocity_avoid_ok (self : Spaceship R) (m : R)
    (ha : 0 < self.m_acceleration_manoeuver) (hm : 0 < m) (asteroids : List (Asteroid R)) :
    ∃ o, calculateDesiredVelocity_avoid self m asteroids = .ok o := by
  induction asteroids with
  | nil => exact ⟨none, rfl⟩
  | cons asteroid rest ih =>
    simp only [calculateDesiredVelocity_avoid]
    cases hb : decide (self.getPosition.getDistance asteroid.getPosition <
        asteroid.getRadius +
          (asteroid.getVelocity - self.getVelocity).getNorm / self.m_acceleration_manoeuver * 10)
    · rw [isAvoid_eq self asteroid.toEntity _ ha, hb]
      exact ih
    · have hav : isAvoid self asteroid.toEntity self.m_acceleration_manoeuver = .ok true := by
        rw [isAvoid_eq self asteroid.toEntity _ ha, hb]
      rw [hav, avoid_eq self asteroid.toEntity _ m ha hm hav]
      exact ⟨_, rfl⟩

end RealSteering

section RealAI

open SteeringBehaviours Spaceship

theorem invariant_iff {R : Type} [LinearOrderedField R] (self : Spaceship R) :
    self.invariant = true ↔ 0 < self.m_acceleration_main ∧ 0 < self.m_acceleration_manoeuver ∧
      0 < self.m_rotation_rate_radians := by
  unfold Spaceship.invariant
  by_cases h1 : self.m_acceleration_main ≤ 0
  · simp [h1, not_lt.mpr h1]
  · by_cases h2 : self.m_acceleration_manoeuver ≤ 0
    · simp [h1, h2, not_lt.mpr h2]
    · by_cases h3 : self.m_rotation_rate_radians ≤ 0
      · simp [h1, h2, h3, not_lt.mpr h3]
      · simp [h1, h2, h3, not_le.mp h1, not_le.mp h2, not_le.mp h3]

theorem isUnit_normalized (v : Vector3 ℝ) (hv : v.isZero = false) :
    (v * (1 / v.getNorm)).isUnit = true := by
  obtain ⟨x, y, z⟩ := v
  simp only [Vector3.isZero_mk, decide_eq_false_iff_not] at hv
  have hN : 0 < x * x + y * y + z * z := by
    by_contra hcon
    have h0 : x * x + y * y + z * z = 0 :=
      le_antisymm (not_lt.mp hcon)
        (by nlinarith [mul_self_nonneg x, mul_self_nonneg y, mul_self_nonneg z])
    apply hv
    refine ⟨?_, ?_, ?_⟩ <;> nlinarith [mul_self_nonneg x, mul_self_nonneg y, mul_self_nonneg z]
  have hn : Real.sqrt (x * x + y * y + z * z) * Real.sqrt (x * x + y * y + z * z)
      = x * x + y * y + z * z := Real.mul_self_sqrt hN.le
  have hpos : 0 < Real.sqrt (x * x + y * y + z * z) := Real.sqrt_pos.mpr hN
  simp only [Vector3.mk_mul, Vector3.isUnit, Vector3.getNormSquared, Vector3.getNorm, sqrt_real,
    decide_eq_true_eq]
  have hsum : x * (1 / Real.sqrt (x * x + y * y + z * z)) *
        (x * (1 / Real.sqrt (x * x + y * y + z * z))) +
      y * (1 / Real.sqrt (x * x + y * y + z * z)) *
        (y * (1 / Real.sqrt (x * x + y * y + z * z))) +
      z * (1 / Real.sqrt (x * x + y * y + z * z)) *
        (z * (1 / Real.sqrt (x * x + y * y + z * z)))
      = (x * x + y * y + z * z) /
        (Real.sqrt (x * x + y * y + z * z) * Real.sqrt (x * x + y * y + z * z)) := by
    field_simp
  rw [hsum, hn]
  exact div_self hN.ne'

/-- Over the reals `flyToMatchVelocity` returns for every ship that satisfies the class
invariant and has a unit forward axis, whatever the desired velocity. -/
theorem flyToMatchVelocity_ok (X : Externals ℝ) (self : Spaceship ℝ) (dt : ℝ)
    (desired : Vector3 ℝ) (hdt : 0 < dt) (hinit : self.isInitialized = true)
    (hinv : self.invariant = true) (hfwd : self.m_coords.forward.isUnit = true) :
    ∃ self', self.flyToMatchVelocity X dt desired = .ok self' := by
  obtain ⟨h1, h2, h3⟩ := (invariant_iff self).mp hinv
  simp only [flyToMatchVelocity, cassert, gt_iff_lt, hdt, if_true, ok_bind]
  split
  · simp only [pure, Except.pure, ok_bind, hinv, if_true]
    exact ⟨_, rfl⟩
  · rename_i hz
    have hz' : (desired - self.getVelocity).isZero = false := by simpa using hz
    split
    · have hunit := isUnit_normalized _ hz'
      have hfrac : 0 ≤ (desired - self.getVelocity).getNorm * (1 / 5) /
          (self.m_acceleration_manoeuver * dt) :=
        div_nonneg (mul_nonneg (getNorm_nonneg _) (by norm_num)) (mul_pos h2 hdt).le
      have hinv' : ∀ w : Vector3 ℝ,
          Spaceship.invariant ({ self with m_velocity := w } : Spaceship ℝ) = true := by
        intro w
        exact (invariant_iff _).mpr ⟨h1, h2, h3⟩
      simp only [Vector3.getNormalized, cassert, hz', if_true, ok_bind, pure, Except.pure,
        thrustManoeuver, hinit, ge_iff_le, hdt.le, hunit]
      split
      · simp only [zero_le_one, le_refl, if_true, ok_bind, hinv']
        exact ⟨_, rfl⟩
      · rename_i hle
        simp only [hfrac, not_lt.mp hle, if_true, ok_bind, hinv']
        exact ⟨_, rfl⟩
    · split
      · have hinv' : ∀ c : CoordinateSystem ℝ,
            Spaceship.invariant ({ self with m_coords := c } : Spaceship ℝ) = true := by
          intro c
          exact (invariant_iff _).mpr ⟨h1, h2, h3⟩
        simp only [pure, Except.pure, ok_bind, hinv', if_true]
        exact ⟨_, rfl⟩
      · have hinv' : ∀ w : Vector3 ℝ,
            Spaceship.invariant ({ self with m_velocity := w } : Spaceship ℝ) = true := by
          intro w
          exact (invariant_iff _).mpr ⟨h1, h2, h3⟩
        simp only [thrustMainEngine, cassert, hinit, ge_iff_le, hdt.le, hfwd, if_true, ok_bind,
          hinv', pure, Except.pure]
        exact ⟨_, rfl⟩

end RealAI

section RealTick

open SteeringBehaviours Spaceship

/-- After `updateCrystalChased` the chosen index is `NO_CRYSTAL` or a valid assignment. -/
theorem updateCrystalChased_chosen_valid {R : Type} [LinearOrderedField R] [HasSqrt R]
    (g : Game R) (d : Nat) (self : Spaceship R) (chosen : Nat)
    (hcases : (hasValidAssignment g self ∧ chosen = self.m_crystal_chased_index) ∨
      (¬ hasValidAssignment g self ∧
        (chosen = NO_CRYSTAL ∨
          isEligible (g.setDrone d { self with m_crystal_chased_index := NO_CRYSTAL })
            self.getPosition chosen))) :
    chosen = NO_CRYSTAL ∨
      hasValidAssignment (g.setDrone d { self with m_crystal_chased_index := chosen })
        { self with m_crystal_chased_index := chosen } := by
  rcases hcases with ⟨hv, hkeep⟩ | ⟨-, hno | helig⟩
  · right
    rw [hkeep]
    exact hv
  · exact Or.inl hno
  · right
    obtain ⟨hc, crystal, hsome, hgone, -, -⟩ := helig
    exact ⟨hc, crystal, hsome, hgone⟩

theorem flyToMatchVelocity_invariant {R : Type} [LinearOrderedField R] [HasSqrt R]
    (X : Externals R) (self self' : Spaceship R) (dt : R) (desired : Vector3 R)
    (h : self.flyToMatchVelocity X dt desired = .ok self') : self'.invariant = true := by
  simp only [flyToMatchVelocity, bind_eq_ok, cassert_eq_ok] at h
  obtain ⟨-, -, h⟩ := h
  split at h
  · simp only [bind_eq_ok, cassert_eq_ok, pure_eq_ok] at h
    obtain ⟨s, -, -, hinv, rfl⟩ := h
    exact hinv
  · split at h
    · simp only [bind_eq_ok, cassert_eq_ok, pure_eq_ok] at h
      obtain ⟨dir, -, s, -, -, hinv, rfl⟩ := h
      exact hinv
    · split at h
      · simp only [bind_eq_ok, cassert_eq_ok, pure_eq_ok] at h
        obtain ⟨s, -, -, hinv, rfl⟩ := h
        exact hinv
      · simp only [bind_eq_ok, cassert_eq_ok, pure_eq_ok] at h
        obtain ⟨s, -, -, hinv, rfl⟩ := h
        exact hinv

/-- Over the reals `calculateDesiredVelocity` returns for a ship that satisfies the class
invariant and whose chased index is `NO_CRYSTAL` or valid. -/
theorem calculateDesiredVelocity_ok (X : Externals ℝ) (self : Spaceship ℝ) (dt : ℝ)
    (g : Game ℝ) (hdt : 0 < dt) (hinv : self.invariant = true)
    (h : self.m_crystal_chased_index = NO_CRYSTAL ∨ hasValidAssignment g self) :
    ∃ v, self.calculateDesiredVelocity X dt g = .ok v := by
  obtain ⟨-, h2, -⟩ := (invariant_iff self).mp hinv
  obtain ⟨o, ho⟩ := calculateDesiredVelocity_avoid_ok self (self.m_acceleration_manoeuver * dt)
    h2 (mul_pos h2 hdt) g.mv_asteroids
  simp only [calculateDesiredVelocity, ho, ok_bind]
  cases o with
  | some desired => exact ⟨desired, rfl⟩
  | none =>
    simp only
    split
    · rename_i hlt
      rcases h with h | ⟨-, crystal, hsome, hgone⟩
      · rw [h] at hlt
        exact absurd hlt (no_crystal_not_lt g)
      · obtain ⟨crystal', hsome', hget⟩ := getCrystal_ok g _ hlt
        have hc : crystal' = crystal := by
          rw [hsome] at hsome'
          exact (Option.some.inj hsome').symm
        subst hc
        simp only [hget, ok_bind, cassert, hgone, if_true]
        exact pursue_ok self _ _ _ (by simp [INTERCEPT_SPEED]) h2
    · exact escort_ok X self _ _ _ h2

/-- Over the reals `Spaceship::updateAI` returns for a positive time step on a drone that
satisfies the class invariant and has a unit forward axis. -/
theorem spaceship_updateAI_ok (X : Externals ℝ) (dt : ℝ) (g : Game ℝ) (d : Nat)
    (self : Spaceship ℝ) (hself : g.mv_drones[d]? = some self) (hdt : 0 < dt)
    (hinit : self.isInitialized = true) (hinv : self.invariant = true)
    (hfwd : self.m_coords.forward.isUnit = true) :
    ∃ g', Spaceship.updateAI X dt g d = .ok g' := by
  obtain ⟨chosen, hrun, hcases⟩ := updateCrystalChased_outcome g d self hself
  have hvalid := updateCrystalChased_chosen_valid g d self chosen hcases
  have hinv1 : Spaceship.invariant
      ({ self with m_crystal_chased_index := chosen } : Spaceship ℝ) = true :=
    (invariant_iff _).mpr ((invariant_iff self).mp hinv)
  obtain ⟨desired, hdes⟩ := calculateDesiredVelocity_ok X
    { self with m_crystal_chased_index := chosen } dt
    (g.setDrone d { self with m_crystal_chased_index := chosen }) hdt hinv1 hvalid
  obtain ⟨self', hfly⟩ := flyToMatchVelocity_ok X
    { self with m_crystal_chased_index := chosen } dt desired hdt hinit hinv1 hfwd
  have hinv' := flyToMatchVelocity_invariant X _ _ _ _ hfly
  refine ⟨(g.setDrone d { self with m_crystal_chased_index := chosen }).setDrone d self', ?_⟩
  simp only [Spaceship.updateAI, cassert, gt_iff_lt, hdt, if_true, ok_bind, hrun,
    getDrone_ok _ d _ (setDrone_getElem? g d self _ hself), hdes, hfly, hinv']
  rfl

end RealTick

section Choices

open SteeringBehaviours Spaceship

variable {R : Type} [LinearOrderedField R] [HasSqrt R]

/-- A drone without a valid assignment for which no crystal is eligible ends with
`NO_CRYSTAL`. -/
theorem updateCrystalChased_none (g : Game R) (d : Nat) (self : Spaceship R)
    (hself : g.mv_drones[d]? = some self) (hinvalid : ¬ hasValidAssignment g self)
    (hnone : ∀ c, ¬ isEligible g self.getPosition c) :
    updateCrystalChased g d
      = .ok (g.setDrone d { self with m_crystal_chased_index := NO_CRYSTAL }) := by
  obtain ⟨closest, hres, hrun⟩ := updateCrystalChased_invalid g d self hself hinvalid
  rcases hres with ⟨h, -, -⟩ | ⟨-, h, -, -⟩
  · rw [hrun, h]
  · exact absurd ((isEligible_cleared_iff g d self hself hinvalid _ _).mp h) (hnone _)

/-- A drone without a valid assignment takes crystal 0 when that crystal is eligible and no
eligible crystal is strictly nearer. -/
theorem updateCrystalChased_first (g : Game R) (d : Nat) (self : Spaceship R)
    (hself : g.mv_drones[d]? = some self) (hinvalid : ¬ hasValidAssignment g self)
    (hzero : isEligible g self.getPosition 0)
    (hmin : ∀ c, isEligible g self.getPosition c →
      crystalDistance g self.getPosition 0 ≤ crystalDistance g self.getPosition c) :
    updateCrystalChased g d = .ok (g.setDrone d { self with m_crystal_chased_index := 0 }) := by
  obtain ⟨closest, hres, hrun⟩ := updateCrystalChased_invalid g d self hself hinvalid
  have hiff := isEligible_cleared_iff g d self hself hinvalid self.getPosition
  rcases hres with ⟨-, -, hnone⟩ | ⟨-, helig, hdist, hbest⟩
  · exact absurd ((hiff 0).mpr hzero) (hnone 0 hzero.1)
  · have h0 := hbest 0 hzero.1 ((hiff 0).mpr hzero)
    have h1 := hmin closest.1 ((hiff _).mp helig)
    have heq : closest.2 = crystalDistance g self.getPosition 0 := by
      apply le_antisymm h0.1
      rw [hdist]
      exact h1
    have hz : closest.1 = 0 := Nat.le_zero.mp (h0.2 heq)
    rw [hrun, hz]

theorem getMinArrivalTime_zero (a : ℝ) (ha : 0 < a) : getMinArrivalTime a 0 0 = .ok 0 := by
  rw [getMinArrivalTime_eq a 0 0 ha le_rfl le_rfl]
  simp

/-- A drone that is exactly at its escort point is told to match the velocity of the ship it
escorts. -/
theorem escort_at_station (X : Externals ℝ) (agent : Spaceship ℝ) (target : Entity ℝ)
    (offset : Vector3 ℝ) (a : ℝ) (ha : 0 < a)
    (hat : agent.getPosition = target.getPosition + X.localToWorld target.m_coords offset) :
    escort X agent target offset a = .ok target.getVelocity := by
  have hd : agent.getPosition.getDistance
      (target.getPosition + X.localToWorld target.m_coords offset) = 0 := by
    rw [← hat]
    obtain ⟨x, y, z⟩ := agent.getPosition
    simp [Vector3.getDistance, Vector3.getNorm, Vector3.getNormSquared]
  simp only [escort, cassert, gt_iff_lt, ha, if_true, ok_bind, hd, getMinArrivalTime_zero a ha,
    AHEAD_TIME_FACTOR, arrival_eq _ _ _ _ 0 a le_rfl ha]
  rw [← hat]
  obtain ⟨x, y, z⟩ := agent.getPosition
  obtain ⟨u, v, w⟩ := agent.getVelocity
  obtain ⟨u', v', w'⟩ := target.getVelocity
  simp [Vector3.getCopyWithNormSafe, Vector3.ZERO]

/-- A ship whose velocity already is the desired velocity is left as it is. -/
theorem flyToMatchVelocity_same (X : Externals ℝ) (self : Spaceship ℝ) (dt : ℝ) (hdt : 0 < dt)
    (hinv : self.invariant = true) :
    self.flyToMatchVelocity X dt self.getVelocity = .ok self := by
  have hz : (self.getVelocity - self.getVelocity).isZero = true := by
    obtain ⟨x, y, z⟩ := self.getVelocity
    simp
  simp only [flyToMatchVelocity, cassert, gt_iff_lt, hdt, if_true, ok_bind, hz, pure,
    Except.pure, hinv]

end Choices

section AxisCalculus

open SteeringBehaviours Spaceship

theorem Vector3.getNormalized_axis_pos (a : ℝ) (ha : 0 < a) :
    (⟨a, 0, 0⟩ : Vector3 ℝ).getNormalized = .ok ⟨1, 0, 0⟩ := by
  have hz : (⟨a, 0, 0⟩ : Vector3 ℝ).isZero = false := by simp [ha.ne']
  simp only [Vector3.getNormalized, cassert, hz, if_true, ok_bind, Vector3.getNorm_axis,
    abs_of_pos ha, Vector3.mk_mul, zero_mul, pure, Except.pure]
  rw [mul_one_div_cancel ha.ne']

theorem Vector3.getCopyWithNorm_axis_pos (a n : ℝ) (ha : 0 < a) :
    (⟨a, 0, 0⟩ : Vector3 ℝ).getCopyWithNorm n = .ok ⟨n, 0, 0⟩ := by
  have hz : (⟨a, 0, 0⟩ : Vector3 ℝ).isZero = false := by simp [ha.ne']
  simp only [Vector3.getCopyWithNorm, cassert, hz, if_true, ok_bind, Vector3.getNorm_axis,
    abs_of_pos ha, Vector3.mk_mul, zero_mul, pure, Except.pure]
  rw [mul_div_cancel₀ n ha.ne']

theorem Vector3.getCopyWithNormSafe_axis_pos (a n : ℝ) (ha : 0 < a) :
    (⟨a, 0, 0⟩ : Vector3 ℝ).getCopyWithNormSafe n = ⟨n, 0, 0⟩ := by
  have hz : (⟨a, 0, 0⟩ : Vector3 ℝ).isZero = false := by simp [ha.ne']
  simp only [Vector3.getCopyWithNormSafe, hz, Bool.false_eq_true, if_false,
    Vector3.getNorm_axis, abs_of_pos ha, Vector3.mk_mul, zero_mul]
  rw [mul_div_cancel₀ n ha.ne']

theorem Vector3.getCopyWithNormSafe_axis_neg (a n : ℝ) (ha : a < 0) :
    (⟨a, 0, 0⟩ : Vector3 ℝ).getCopyWithNormSafe n = ⟨-n, 0, 0⟩ := by
  have hz : (⟨a, 0, 0⟩ : Vector3 ℝ).isZero = false := by simp [ha.ne]
  simp only [Vector3.getCopyWithNormSafe, hz, Bool.false_eq_true, if_false,
    Vector3.getNorm_axis, abs_of_neg ha, Vector3.mk_mul, zero_mul]
  congr 1
  rw [div_neg, mul_neg, mul_div_cancel₀ n ha.ne]

theorem Vector3.isNormLessThan_axis (a l : ℝ) :
    (⟨a, 0, 0⟩ : Vector3 ℝ).isNormLessThan l = decide (|a| < l) := by
  simp only [Vector3.isNormLessThan, Vector3.getNorm_axis]

end AxisCalculus

section KnockOffLemmas

variable {R : Type} [LinearOrderedField R] [HasSqrt R]

/-- With no gone crystal in the collection `addCrystal` appends the new crystal. -/
theorem addCrystal_append (X : Externals R) (u p v : Vector3 R) (g : Game R)
    (hall : ∀ c ∈ g.mv_crystals, c.isGone = false) :
    Game.addCrystal X u p v g = { g with mv_crystals := g.mv_crystals ++
      [{ toEntity := X.newCrystalBody p (v + u * (Game.CRYSTAL_KNOCK_OFF_SPEED : R)),
         m_is_gone := false }] } := by
  have hnone : g.mv_crystals.findIdx? (fun crystal => crystal.isGone) = none := by
    rw [List.findIdx?_eq_none_iff]
    intro c hc
    simp [hall c hc]
  simp only [Game.addCrystal, hnone, if_true]

theorem addCrystal_fold_append (X : Externals R) (f : Nat → Vector3 R) (p v : Vector3 R)
    (n : Nat) (g : Game R) (hall : ∀ c ∈ g.mv_crystals, c.isGone = false) :
    (List.range n).foldl (fun (g : Game R) (c : Nat) => Game.addCrystal X (f c) p v g) g
      = { g with mv_crystals := g.mv_crystals ++ (List.range n).map (fun c =>
          ({ toEntity := X.newCrystalBody p (v + f c * (Game.CRYSTAL_KNOCK_OFF_SPEED : R)),
             m_is_gone := false } : Crystal R)) } := by
  induction n with
  | zero => simp
  | succ n ih =>
    rw [List.range_succ, List.foldl_append, ih, List.map_append, List.foldl_cons, List.foldl_nil,
      addCrystal_append]
    · simp
    · intro c hc
      simp only [List.mem_append, List.mem_map] at hc
      rcases hc with hc | ⟨i, -, rfl⟩
      · exact hall c hc
      · rfl

end KnockOffLemmas

/-! ### The scenario, step by step -/

section Trace

open SteeringBehaviours Spaceship

theorem range_one : List.range 1 = [0] := rfl

theorem range_five : List.range 5 = [0, 1, 2, 3, 4] := rfl

theorem scenario_start_isInitial : Game.isInitial (Scenario.start : Game ℝ) := by
  refine ⟨rfl, rfl, rfl, rfl, ?_, rfl, ?_⟩
  · simp [Scenario.start, Scenario.player, Spaceship.invariant]
  · intro drone hmem
    simp only [Scenario.start, List.mem_cons, List.mem_singleton, List.not_mem_nil,
      or_false] at hmem
    rcases hmem with rfl | rfl | rfl | rfl | rfl <;>
      simp [Scenario.drone, Spaceship.invariant]

theorem scenario_rand_isUnit (a c : Nat) : ((Scenario.rand a c : Vector3 ℝ)).isUnit = true := by
  simp [Scenario.rand, Vector3.isUnit, Vector3.getNormSquared]

theorem scenario_knockOff_asteroid :
    Game.knockOffCrystals_asteroid Scenario.env Scenario.rand (Scenario.start : Game ℝ) 0
      = .ok Scenario.knocked := by
  have h0 : (Scenario.start : Game ℝ).mv_asteroids[0]? = some (Scenario.asteroid 5000 0 true) :=
    rfl
  have hcr : (Scenario.asteroid (5000 : ℝ) 0 true).isCrystals = true := rfl
  have hsub : (Scenario.start : Game ℝ).m_player.getPosition
      - (Scenario.asteroid (5000 : ℝ) 0 true).getPosition = ⟨150, 0, 0⟩ := by
    show (⟨5150 - 5000, 0 - 0, 0 - 0⟩ : Vector3 ℝ) = ⟨150, 0, 0⟩
    norm_num
  have hrad : ∀ v : Vector3 ℝ, (Scenario.env : Externals ℝ).getRadiusForDirection
      (Scenario.asteroid 5000 0 true) v = 100 := fun _ => rfl
  have hlt : (⟨150, 0, 0⟩ : Vector3 ℝ).isNormLessThan (100 + Game.CRYSTAL_KNOCK_OFF_RANGE)
      = true := by
    rw [Vector3.isNormLessThan_axis]
    simp only [Game.CRYSTAL_KNOCK_OFF_RANGE, decide_eq_true_eq]
    norm_num
  have hall : ∀ c ∈ (Scenario.start : Game ℝ).mv_crystals, c.isGone = false := by
    intro c hc
    simp [Scenario.start] at hc
  simp only [Game.knockOffCrystals_asteroid, h0, hcr, if_true, hsub,
    Vector3.getNormalized_axis_pos 150 (by norm_num), ok_bind, hrad, hlt,
    Vector3.getCopyWithNorm_axis_pos 150 100 (by norm_num), Game.CRYSTAL_KNOCK_OFF_COUNT,
    addCrystal_fold_append _ _ _ _ 10 _ hall, pure, Except.pure]
  congr 1
  simp [Scenario.knocked, Scenario.start, Scenario.asteroid, Scenario.crystal, Scenario.body,
    Asteroid.removeCrystals, Scenario.env, Model.externals, Scenario.rand,
    Game.CRYSTAL_KNOCK_OFF_SPEED, Entity.getPosition, Entity.getVelocity, List.range_succ,
    List.replicate]
  norm_num

theorem scenario_knockOff :
    Game.knockOffCrystals Scenario.env Scenario.rand (Scenario.start : Game ℝ)
      = .ok Scenario.knocked := by
  show List.foldlM _ _ (List.range 1) = _
  rw [range_one, List.foldlM_cons, scenario_knockOff_asteroid]
  rfl

end Trace

section TraceFirstTick

open SteeringBehaviours Spaceship

/-- The three stages of `Spaceship::updateAI` put together. -/
theorem spaceship_updateAI_eq {R : Type} [LinearOrderedField R] [HasSqrt R] (X : Externals R)
    (dt : R) (g : Game R) (d : Nat) (self self' : Spaceship R) (chosen : Nat)
    (desired : Vector3 R) (hself : g.mv_drones[d]? = some self) (hdt : 0 < dt)
    (hrun : updateCrystalChased g d
      = .ok (g.setDrone d { self with m_crystal_chased_index := chosen }))
    (hdes : Spaceship.calculateDesiredVelocity X { self with m_crystal_chased_index := chosen } dt
      (g.setDrone d { self with m_crystal_chased_index := chosen }) = .ok desired)
    (hfly : Spaceship.flyToMatchVelocity X { self with m_crystal_chased_index := chosen } dt
      desired = .ok self') :
    Spaceship.updateAI X dt g d = .ok (g.setDrone d self') := by
  have hinv' := flyToMatchVelocity_invariant X _ _ _ _ hfly
  simp only [Spaceship.updateAI, cassert, gt_iff_lt, hdt, if_true, ok_bind, hrun,
    getDrone_ok _ d _ (setDrone_getElem? g d self _ hself), hdes, hfly, hinv', pure,
    Except.pure, setDrone_setDrone]

theorem scenario_crystal_lookup (x v : ℝ) (c : Nat) (hc : c < 10) :
    (List.replicate 10 (Scenario.crystal x v))[c]? = some (Scenario.crystal x v) := by
  rw [List.getElem?_replicate]
  simp [hc]

theorem scenario_count (g : Game ℝ) (x v : ℝ)
    (h : g.mv_crystals = List.replicate 10 (Scenario.crystal x v)) :
    g.getTotalCrystalCount = 10 := by
  simp [Game.getTotalCrystalCount, h, UINT_RANGE]

/-- In the scenario, with all ten crystals at `x`, a drone at `p` that chases nothing finds
crystal 0 eligible exactly when it is nearer than 1000 and no living drone chases it. -/
theorem scenario_eligible_zero (g : Game ℝ) (x v p : ℝ)
    (hcr : g.mv_crystals = List.replicate 10 (Scenario.crystal x v))
    (hfree : ∀ drone ∈ g.mv_drones, drone.isAlive = true → drone.getCrystalChased ≠ 0)
    (hnear : |x - p| < 1000) : isEligible g ⟨p, 0, 0⟩ 0 := by
  refine ⟨by rw [scenario_count g x v hcr]; norm_num, Scenario.crystal x v, ?_, rfl, hfree, ?_⟩
  · rw [hcr]
    exact scenario_crystal_lookup x v 0 (by norm_num)
  · show (⟨x, 0, 0⟩ : Vector3 ℝ).getDistance ⟨p, 0, 0⟩ < DETECT_CRYSTALS_DISTANCE
    rw [Vector3.getDistance_axis]
    exact hnear

theorem scenario_distance (g : Game ℝ) (x v p : ℝ)
    (hcr : g.mv_crystals = List.replicate 10 (Scenario.crystal x v)) (c : Nat)
    (hc : c < g.getTotalCrystalCount) : crystalDistance g ⟨p, 0, 0⟩ c = |x - p| := by
  rw [scenario_count g x v hcr] at hc
  simp only [crystalDistance, hcr, scenario_crystal_lookup x v c hc]
  show (⟨x, 0, 0⟩ : Vector3 ℝ).getDistance ⟨p, 0, 0⟩ = _
  rw [Vector3.getDistance_axis]

/-- In the scenario a drone at `p` without a valid assignment takes crystal 0 when the
crystals are nearer than 1000 and no living drone chases crystal 0. -/
theorem scenario_takes_zero (g : Game ℝ) (d : Nat) (self : Spaceship ℝ) (x v p : ℝ)
    (hself : g.mv_drones[d]? = some self) (hpos : self.getPosition = ⟨p, 0, 0⟩)
    (hno : self.m_crystal_chased_index = NO_CRYSTAL)
    (hcr : g.mv_crystals = List.replicate 10 (Scenario.crystal x v))
    (hfree : ∀ drone ∈ g.mv_drones, drone.isAlive = true → drone.getCrystalChased ≠ 0)
    (hnear : |x - p| < 1000) :
    updateCrystalChased g d = .ok (g.setDrone d { self with m_crystal_chased_index := 0 }) := by
  have hinvalid : ¬ hasValidAssignment g self := by
    rintro ⟨hlt, -⟩
    rw [hno] at hlt
    exact no_crystal_not_lt g hlt
  apply updateCrystalChased_first g d self hself hinvalid
  · rw [hpos]
    exact scenario_eligible_zero g x v p hcr hfree hnear
  · intro c hc
    rw [hpos, scenario_distance g x v p hcr 0 (by rw [scenario_count g x v hcr]; norm_num),
      scenario_distance g x v p hcr c hc.1]

/-- In the scenario a drone at `p` without a valid assignment stays without one when the
crystals are 1000 or more away. -/
theorem scenario_takes_none (g : Game ℝ) (d : Nat) (self : Spaceship ℝ) (x v p : ℝ)
    (hself : g.mv_drones[d]? = some self) (hpos : self.getPosition = ⟨p, 0, 0⟩)
    (hno : self.m_crystal_chased_index = NO_CRYSTAL)
    (hcr : g.mv_crystals = List.replicate 10 (Scenario.crystal x v))
    (hfar : 1000 ≤ |x - p|) :
    updateCrystalChased g d = .ok g := by
  have hinvalid : ¬ hasValidAssignment g self := by
    rintro ⟨hlt, -⟩
    rw [hno] at hlt
    exact no_crystal_not_lt g hlt
  have hsame : ({ self with m_crystal_chased_index := NO_CRYSTAL } : Spaceship ℝ) = self := by
    rw [← hno]
  rw [updateCrystalChased_none g d self hself hinvalid, hsame, setDrone_self g d self hself]
  intro c hc
  have hd := isEligible_distance_lt g self.getPosition c hc
  rw [hpos, scenario_distance g x v p hcr c hc.1] at hd
  simp only [DETECT_CRYSTALS_DISTANCE] at hd
  exact absurd hd (not_lt.mpr hfar)

end TraceFirstTick

section TraceSteering

open SteeringBehaviours Spaceship

/-- Drone 0 of the scenario, inside the avoidance radius of the asteroid, is told to
change its velocity from -20 to 5 along the axis, away from the asteroid. -/
theorem scenario_drone0_desired (g : Game ℝ)
    (hast : g.mv_asteroids = [Scenario.asteroid 5000 0 false]) :
    Spaceship.calculateDesiredVelocity Scenario.env (Scenario.drone 5050 (-20) (-100) true 0) 1 g
      = .ok ⟨5, 0, 0⟩ := by
  have ha : (0 : ℝ) < (Scenario.drone (5050 : ℝ) (-20) (-100) true 0).m_acceleration_manoeuver := by
    show (0 : ℝ) < 25
    norm_num
  have hav : isAvoid (Scenario.drone (5050 : ℝ) (-20) (-100) true 0)
      (Scenario.asteroid (5000 : ℝ) 0 false).toEntity
      (Scenario.drone (5050 : ℝ) (-20) (-100) true 0).m_acceleration_manoeuver = .ok true := by
    rw [isAvoid_eq _ _ _ ha]
    simp only [Scenario.drone, Scenario.asteroid, Scenario.body, Entity.getPosition,
      Entity.getVelocity, Entity.getRadius, Vector3.getDistance, Vector3.mk_sub_mk, sub_zero,
      Vector3.getNorm_axis]
    norm_num
  have hm : (0 : ℝ) <
      (Scenario.drone (5050 : ℝ) (-20) (-100) true 0).m_acceleration_manoeuver * 1 := by
    show (0 : ℝ) < 25 * 1
    norm_num
  simp only [Spaceship.calculateDesiredVelocity, hast, calculateDesiredVelocity_avoid, hav,
    ok_bind, if_true, avoid_eq _ _ _ _ ha hm hav, pure, Except.pure]
  congr 1
  show (⟨-20, 0, 0⟩ : Vector3 ℝ) +
    ((⟨5050, 0, 0⟩ : Vector3 ℝ) - ⟨5000, 0, 0⟩).getCopyWithNormSafe (25 * 1) = ⟨5, 0, 0⟩
  rw [Vector3.mk_sub_mk]
  norm_num
  rw [Vector3.getCopyWithNormSafe_axis_pos 50 25 (by norm_num)]
  norm_num

/-- Drone 0 of the scenario fires its manoeuvring engines at a fifth of their strength. -/
theorem scenario_drone0_fly :
    Spaceship.flyToMatchVelocity Scenario.env (Scenario.drone (5050 : ℝ) (-20) (-100) true 0) 1
      ⟨5, 0, 0⟩ = .ok (Scenario.drone 5050 (-15) (-100) true 0) := by
  have hrel : (⟨5, 0, 0⟩ : Vector3 ℝ)
      - (Scenario.drone (5050 : ℝ) (-20) (-100) true 0).getVelocity = ⟨25, 0, 0⟩ := by
    show (⟨5, 0, 0⟩ : Vector3 ℝ) - ⟨-20, 0, 0⟩ = ⟨25, 0, 0⟩
    rw [Vector3.mk_sub_mk]
    norm_num
  have hz : (⟨25, 0, 0⟩ : Vector3 ℝ).isZero = false := by simp
  have hlt : (⟨25, 0, 0⟩ : Vector3 ℝ).isNormLessThan MAIN_ENGINE_MIN_CHANGE = true := by
    rw [Vector3.isNormLessThan_axis]
    simp only [MAIN_ENGINE_MIN_CHANGE, decide_eq_true_eq]
    norm_num
  have hunit : (⟨1, 0, 0⟩ : Vector3 ℝ).isUnit = true := by
    simp [Vector3.isUnit, Vector3.getNormSquared]
  have hacc : (Scenario.drone (5050 : ℝ) (-20) (-100) true 0).m_acceleration_manoeuver = 25 :=
    rfl
  have hinit : (Scenario.drone (5050 : ℝ) (-20) (-100) true 0).isInitialized = true := rfl
  have hfrac : (⟨25, 0, 0⟩ : Vector3 ℝ).getNorm * (1 / 5) / (25 * 1) = 1 / 5 := by
    rw [Vector3.getNorm_axis]
    norm_num
  have hinv : ∀ w : Vector3 ℝ, Spaceship.invariant
      ({ Scenario.drone (5050 : ℝ) (-20) (-100) true 0 with m_velocity := w } : Spaceship ℝ)
        = true := by
    intro w
    apply (invariant_iff _).mpr
    refine ⟨?_, ?_, ?_⟩
    · show (0 : ℝ) < 250
      norm_num
    · show (0 : ℝ) < 25
      norm_num
    · show (0 : ℝ) < 1
      norm_num
  simp only [Spaceship.flyToMatchVelocity, cassert, gt_iff_lt, zero_lt_one, if_true, ok_bind,
    hrel, hz, Bool.false_eq_true, if_false, hlt, hacc, hfrac,
    Vector3.getNormalized_axis_pos 25 (by norm_num), Spaceship.thrustManoeuver, hinit,
    ge_iff_le, zero_le_one, hunit, hinv, pure, Except.pure]
  norm_num
  simp only [Scenario.drone, Scenario.body, Vector3.mk_mul, Vector3.mk_add_mk]
  norm_num
  simp [Spaceship.invariant, ok_bind]

end TraceSteering

section TraceStation

open SteeringBehaviours Spaceship

/-- A drone of the scenario that holds station 955 ahead of the player, away from the
asteroid and with no crystal to chase, is told to keep its velocity. -/
theorem scenario_station_desired (g : Game ℝ)
    (hast : g.mv_asteroids = [Scenario.asteroid 5000 0 false])
    (hplayer : g.m_player = Scenario.player 5150 (-20)) :
    Spaceship.calculateDesiredVelocity Scenario.env
      (Scenario.drone 6105 (-20) 955 true NO_CRYSTAL) 1 g = .ok ⟨-20, 0, 0⟩ := by
  have hacc : (Scenario.drone (6105 : ℝ) (-20) 955 true NO_CRYSTAL).m_acceleration_manoeuver
      = 25 := rfl
  have hidx : (Scenario.drone (6105 : ℝ) (-20) 955 true NO_CRYSTAL).m_crystal_chased_index
      = NO_CRYSTAL := rfl
  have hesc : escort Scenario.env (Scenario.drone (6105 : ℝ) (-20) 955 true NO_CRYSTAL)
      (Scenario.player (5150 : ℝ) (-20)).toEntity
      (Scenario.drone (6105 : ℝ) (-20) 955 true NO_CRYSTAL).m_escort_offset 25
        = .ok ⟨-20, 0, 0⟩ := by
    rw [escort_at_station _ _ _ _ 25 (by norm_num)]
    · rfl
    · show (⟨6105, 0, 0⟩ : Vector3 ℝ) = ⟨5150, 0, 0⟩ +
        ((⟨1, 0, 0⟩ : Vector3 ℝ) * 955 + (⟨0, 1, 0⟩ : Vector3 ℝ) * 0 +
          (⟨0, 0, 1⟩ : Vector3 ℝ) * 0)
      simp only [Vector3.mk_mul, Vector3.mk_add_mk]
      norm_num
  simp only [Spaceship.calculateDesiredVelocity, hast, calculateDesiredVelocity_avoid, hacc,
    scenario_isAvoid_station, ok_bind, Bool.false_eq_true, if_false, hidx, no_crystal_not_lt,
    Game.getPlayer, hplayer, hesc, pure, Except.pure]

/-- The AI step of a station-keeping drone of the scenario changes nothing. -/
theorem scenario_station_tick (g : Game ℝ) (d : Nat)
    (hself : g.mv_drones[d]? = some (Scenario.drone 6105 (-20) 955 true NO_CRYSTAL))
    (hast : g.mv_asteroids = [Scenario.asteroid 5000 0 false])
    (hplayer : g.m_player = Scenario.player 5150 (-20))
    (hcr : g.mv_crystals = List.replicate 10 (Scenario.crystal 5100 10)) :
    Spaceship.updateAI Scenario.env 1 g d = .ok g := by
  have hsame : ({ Scenario.drone (6105 : ℝ) (-20) 955 true NO_CRYSTAL with
      m_crystal_chased_index := NO_CRYSTAL } : Spaceship ℝ)
        = Scenario.drone 6105 (-20) 955 true NO_CRYSTAL := rfl
  have hrun : updateCrystalChased g d = .ok (g.setDrone d
      { Scenario.drone (6105 : ℝ) (-20) 955 true NO_CRYSTAL with
        m_crystal_chased_index := NO_CRYSTAL }) := by
    rw [hsame, setDrone_self g d _ hself]
    exact scenario_takes_none g d _ 5100 10 6105 hself rfl rfl hcr (by norm_num)
  have hinv : (Scenario.drone (6105 : ℝ) (-20) 955 true NO_CRYSTAL).invariant = true := by
    simp [Scenario.drone, Spaceship.invariant]
  have h := spaceship_updateAI_eq Scenario.env 1 g d _
    (Scenario.drone (6105 : ℝ) (-20) 955 true NO_CRYSTAL) NO_CRYSTAL ⟨-20, 0, 0⟩ hself
    zero_lt_one hrun
    (by rw [hsame]; exact scenario_station_desired _ hast hplayer)
    (by rw [hsame]; exact flyToMatchVelocity_same Scenario.env _ 1 zero_lt_one hinv)
  rw [h, setDrone_self g d _ hself]

theorem updateAI_step_alive {R : Type} [LinearOrderedField R] [HasSqrt R] (X : Externals R)
    (dt : R) (g g' : Game R) (d : Nat) (drone : Spaceship R)
    (hd : g.mv_drones[d]? = some drone) (halive : drone.isAlive = true)
    (h : Spaceship.updateAI X dt g d = .ok g') :
    (do
      let drone ← g.getDrone d
      if drone.isAlive then Spaceship.updateAI X dt g d else pure g) = .ok g' := by
  simp only [getDrone_ok g d drone hd, ok_bind, halive, if_true, h]

theorem updateAI_step_dead {R : Type} [LinearOrderedField R] [HasSqrt R] (X : Externals R)
    (dt : R) (g : Game R) (d : Nat) (drone : Spaceship R)
    (hd : g.mv_drones[d]? = some drone) (hdead : drone.isAlive = false) :
    (do
      let drone ← g.getDrone d
      if drone.isAlive then Spaceship.updateAI X dt g d else pure g) = .ok g := by
  simp only [getDrone_ok g d drone hd, ok_bind, hdead, Bool.false_eq_true, if_false]
  rfl

/-- The AI tick of the first `update (1)` of the scenario. -/
theorem scenario_first_updateAI :
    Game.updateAI Scenario.env 1 (Scenario.knocked : Game ℝ) = .ok Scenario.afterFirstAI := by
  have h0 : Spaceship.updateAI Scenario.env 1 (Scenario.knocked : Game ℝ) 0
      = .ok Scenario.afterFirstAI := by
    have hrun := scenario_takes_zero (Scenario.knocked : Game ℝ) 0
      (Scenario.drone 5050 (-20) (-100) true NO_CRYSTAL) 5100 10 5050 rfl rfl rfl rfl
      (by
        intro drone hmem
        simp only [Scenario.knocked, Scenario.start, List.mem_cons, List.mem_singleton,
          List.not_mem_nil, or_false] at hmem
        rcases hmem with rfl | rfl | rfl | rfl | rfl <;>
          simp [Scenario.drone, Spaceship.getCrystalChased, NO_CRYSTAL, UINT_MAX])
      (by norm_num)
    have h := spaceship_updateAI_eq Scenario.env 1 (Scenario.knocked : Game ℝ) 0 _
      (Scenario.drone 5050 (-15) (-100) true 0) 0 ⟨5, 0, 0⟩ rfl zero_lt_one hrun
      (scenario_drone0_desired _ rfl) scenario_drone0_fly
    rw [h]
    rfl
  have hk : ∀ d : Nat, (Scenario.afterFirstAI : Game ℝ).mv_drones[d]?
      = some (Scenario.drone 6105 (-20) 955 true NO_CRYSTAL) →
      (do
        let drone ← (Scenario.afterFirstAI : Game ℝ).getDrone d
        if drone.isAlive then Spaceship.updateAI Scenario.env 1 Scenario.afterFirstAI d
        else pure Scenario.afterFirstAI) = .ok (Scenario.afterFirstAI : Game ℝ) :=
    fun d hd => updateAI_step_alive _ _ _ _ d _ hd rfl
      (scenario_station_tick _ d hd rfl rfl rfl)
  show List.foldlM _ _ (List.range 5) = _
  rw [range_five]
  simp only [List.foldlM_cons, List.foldlM_nil]
  rw [updateAI_step_alive Scenario.env 1 (Scenario.knocked : Game ℝ) Scenario.afterFirstAI 0
    (Scenario.drone 5050 (-20) (-100) true NO_CRYSTAL) rfl rfl h0, ok_bind, hk 1 rfl, ok_bind, hk 2 rfl, ok_bind,
    hk 3 rfl, ok_bind, hk 4 rfl, ok_bind]
  rfl

end TraceStation

section TracePhysics

open SteeringBehaviours Spaceship

/-- One step of gravity integration for a body on the positive x-axis, the source at the
origin. -/
theorem gravityStep_axis (G dt M r0 x v m r : ℝ) (hx : 0 < x) :
    Model.gravityStep G dt (Scenario.body 0 0 M r0) (Scenario.body x v m r)
      = Scenario.body (x + (v - G * M / (x * x) * dt) * dt) (v - G * M / (x * x) * dt) m r := by
  have hsrc : (Scenario.body (0 : ℝ) 0 M r0).getPosition - (Scenario.body x v m r).getPosition
      = ⟨-x, 0, 0⟩ := by
    show (⟨0 - x, 0 - 0, 0 - 0⟩ : Vector3 ℝ) = ⟨-x, 0, 0⟩
    simp
  have hnx : -x < 0 := by linarith
  simp only [Model.gravityStep, hsrc, Vector3.getNorm_axis, abs_neg, abs_of_pos hx,
    Vector3.getCopyWithNormSafe_axis_neg (-x) _ hnx, Entity.getMass]
  simp only [Scenario.body, Vector3.mk_mul, Vector3.mk_add_mk, zero_mul, add_zero]
  congr 2
  · congr 1
    ring
  · congr 1
    ring

theorem scenario_physics_value (x v : ℝ) (hx : x ≠ 0) :
    v - Scenario.GRAVITY * 50000000000000000 / (x * x) * 1 = v - 3337000 / (x * x) := by
  simp only [Scenario.GRAVITY]
  field_simp
  ring

theorem scenario_drone_physics (x v off : ℝ) (alive : Bool) (chased : Nat) (hx : 0 < x) :
    Game.spaceshipUpdatePhysics Scenario.env 1 Scenario.blackHole
        (Scenario.drone x v off alive chased)
      = Scenario.drone (x + (v - 3337000 / (x * x))) (v - 3337000 / (x * x)) off alive
          chased := by
  have h := gravityStep_axis Scenario.GRAVITY 1 50000000000000000 50 x v 100 2 hx
  rw [scenario_physics_value x v hx.ne', mul_one] at h
  show ({ Scenario.drone x v off alive chased with
    toEntity := Model.gravityStep Scenario.GRAVITY 1 (Scenario.body 0 0 50000000000000000 50)
      (Scenario.body x v 100 2) } : Spaceship ℝ) = _
  rw [h]
  rfl

theorem scenario_player_physics (x v : ℝ) (hx : 0 < x) :
    Game.spaceshipUpdatePhysics Scenario.env 1 Scenario.blackHole (Scenario.player x v)
      = Scenario.player (x + (v - 3337000 / (x * x))) (v - 3337000 / (x * x)) := by
  have h := gravityStep_axis Scenario.GRAVITY 1 50000000000000000 50 x v 1000 4 hx
  rw [scenario_physics_value x v hx.ne', mul_one] at h
  show ({ Scenario.player x v with
    toEntity := Model.gravityStep Scenario.GRAVITY 1 (Scenario.body 0 0 50000000000000000 50)
      (Scenario.body x v 1000 4) } : Spaceship ℝ) = _
  rw [h]
  rfl

theorem scenario_crystal_physics (x v : ℝ) (hx : 0 < x) :
    Game.crystalUpdatePhysics Scenario.env 1 Scenario.blackHole (Scenario.crystal x v)
      = Scenario.crystal (x + (v - 3337000 / (x * x))) (v - 3337000 / (x * x)) := by
  have h := gravityStep_axis Scenario.GRAVITY 1 50000000000000000 50 x v 1 2 hx
  rw [scenario_physics_value x v hx.ne', mul_one] at h
  show ({ Scenario.crystal x v with
    toEntity := Model.gravityStep Scenario.GRAVITY 1 (Scenario.body 0 0 50000000000000000 50)
      (Scenario.body x v 1 2) } : Crystal ℝ) = _
  rw [h]
  rfl

theorem scenario_asteroid_physics (x v : ℝ) (crystals : Bool) (hx : 0 < x) :
    (Scenario.env : Externals ℝ).asteroidUpdatePhysics 1 Scenario.blackHole
        (Scenario.asteroid x v crystals)
      = Scenario.asteroid (x + (v - 3337000 / (x * x))) (v - 3337000 / (x * x)) crystals := by
  have h := gravityStep_axis Scenario.GRAVITY 1 50000000000000000 50 x v 1000000 100 hx
  rw [scenario_physics_value x v hx.ne', mul_one] at h
  show ({ Scenario.asteroid x v crystals with
    toEntity := Model.gravityStep Scenario.GRAVITY 1 (Scenario.body 0 0 50000000000000000 50)
      (Scenario.body x v 1000000 100) } : Asteroid ℝ) = _
  rw [h]
  rfl

/-- The physics step of the first `update (1)` of the scenario. -/
theorem scenario_first_updatePhysics :
    Game.updatePhysics Scenario.env 1 (Scenario.afterFirstAI : Game ℝ)
      = Scenario.afterFirstPhysics := by
  have ha : (Scenario.env : Externals ℝ).asteroidUpdatePhysics 1 Scenario.blackHole
      (Scenario.asteroid 5000 0 false)
        = Scenario.asteroid (124996663 / 25000) (-3337 / 25000) false := by
    rw [scenario_asteroid_physics 5000 0 false (by norm_num)]
    norm_num
  have hc : Game.crystalUpdatePhysics Scenario.env 1 Scenario.blackHole
      (Scenario.crystal (5100 : ℝ) 10)
        = Scenario.crystal (132907763 / 26010) (256763 / 26010) := by
    rw [scenario_crystal_physics 5100 10 (by norm_num)]
    norm_num
  have hp : Game.spaceshipUpdatePhysics Scenario.env 1 Scenario.blackHole
      (Scenario.player (5150 : ℝ) (-20))
        = Scenario.player (272114176 / 53045) (-1067574 / 53045) := by
    rw [scenario_player_physics 5150 (-20) (by norm_num)]
    norm_num
  have hd0 : Game.spaceshipUpdatePhysics Scenario.env 1 Scenario.blackHole
      (Scenario.drone (5050 : ℝ) (-15) (-100) true 0)
        = Scenario.drone (256803501 / 51005) (-771749 / 51005) (-100) true 0 := by
    rw [scenario_drone_physics 5050 (-15) (-100) true 0 (by norm_num)]
    norm_num
  have hd1 : Game.spaceshipUpdatePhysics Scenario.env 1 Scenario.blackHole
      (Scenario.drone (6105 : ℝ) (-20) 955 true NO_CRYSTAL)
        = Scenario.drone (9071634005 / 1490841) (-29950300 / 1490841) 955 true NO_CRYSTAL := by
    rw [scenario_drone_physics 6105 (-20) 955 true NO_CRYSTAL (by norm_num)]
    norm_num
  have hgone : (Scenario.crystal (5100 : ℝ) 10).isGone = false := rfl
  have hal0 : (Scenario.drone (5050 : ℝ) (-15) (-100) true 0).isAlive = true := rfl
  have hal1 : (Scenario.drone (6105 : ℝ) (-20) 955 true NO_CRYSTAL).isAlive = true := rfl
  have halp : (Scenario.player (5150 : ℝ) (-20)).isAlive = true := rfl
  simp only [Game.updatePhysics, Scenario.afterFirstAI, Scenario.knocked, Scenario.start,
    List.map_cons, List.map_nil, List.map_replicate, ha, hc, hp, hd0, hd1, hgone, hal0, hal1,
    halp, Bool.not_false, if_true, Scenario.afterFirstPhysics]

end TracePhysics

section TraceCollisions

open SteeringBehaviours Spaceship

theorem isCollision_axis (x v m r y w n s ra rb : ℝ) :
    Model.isCollision (Scenario.body x v m r) ra (Scenario.body y w n s) rb
      = decide (|x - y| < ra + rb) := by
  show decide ((⟨x, 0, 0⟩ : Vector3 ℝ).getDistance ⟨y, 0, 0⟩ < ra + rb) = _
  rw [Vector3.getDistance_axis]

theorem scenario_ship_crystal_far (ship : Spaceship ℝ) (x v m c w : ℝ)
    (hship : ship.toEntity = Scenario.body x v m ship.m_radius)
    (hfar : ship.m_radius + 2 ≤ |x - c|) :
    (Scenario.env : Externals ℝ).isCollisionSpaceshipCrystal ship (Scenario.crystal c w)
      = false := by
  show Model.isCollision ship.toEntity ship.m_radius (Scenario.body c w 1 2) 2 = false
  rw [hship, isCollision_axis]
  simp only [decide_eq_false_iff_not, not_lt]
  exact hfar

/-- The first loop of `handleCollisions` in the scenario: no ship touches a crystal. -/
theorem scenario_first_crystals :
    Game.handleCollisions_crystals Scenario.env (Scenario.afterFirstPhysics : Game ℝ)
      = Scenario.afterFirstPhysics := by
  have hp : (Scenario.env : Externals ℝ).isCollisionSpaceshipCrystal
      (Scenario.player (272114176 / 53045) (-1067574 / 53045))
      (Scenario.crystal (132907763 / 26010) (256763 / 26010)) = false := by
    apply scenario_ship_crystal_far _ (272114176 / 53045) (-1067574 / 53045) 1000 _ _ rfl
    show (4 : ℝ) + 2 ≤ _
    rw [abs_of_pos (by norm_num)]
    norm_num
  have hd0 : (Scenario.env : Externals ℝ).isCollisionSpaceshipCrystal
      (Scenario.drone (256803501 / 51005) (-771749 / 51005) (-100) true 0)
      (Scenario.crystal (132907763 / 26010) (256763 / 26010)) = false := by
    apply scenario_ship_crystal_far _ (256803501 / 51005) (-771749 / 51005) 100 _ _ rfl
    show (2 : ℝ) + 2 ≤ _
    rw [abs_of_neg (by norm_num)]
    norm_num
  have hd1 : (Scenario.env : Externals ℝ).isCollisionSpaceshipCrystal
      (Scenario.drone (9071634005 / 1490841) (-29950300 / 1490841) 955 true NO_CRYSTAL)
      (Scenario.crystal (132907763 / 26010) (256763 / 26010)) = false := by
    apply scenario_ship_crystal_far _ (9071634005 / 1490841) (-29950300 / 1490841) 100 _ _ rfl
    show (2 : ℝ) + 2 ≤ _
    rw [abs_of_pos (by norm_num)]
    norm_num
  have hone : Game.handleCollisions_crystal Scenario.env
      (Scenario.afterFirstPhysics : Game ℝ).m_player
      (Scenario.afterFirstPhysics : Game ℝ).mv_drones
      (Scenario.crystal (132907763 / 26010) (256763 / 26010))
        = (Scenario.crystal (132907763 / 26010) (256763 / 26010), false) := by
    have hgone : (Scenario.crystal (132907763 / 26010 : ℝ) (256763 / 26010)).isGone = false :=
      rfl
    simp only [Game.handleCollisions_crystal, hgone, Bool.not_false, if_true,
      Scenario.afterFirstPhysics, hp, Bool.false_eq_true, if_false, List.any_cons, hd0, hd1,
      List.any_nil, Bool.or_self]
  simp only [Game.handleCollisions_crystals]
  have hmap : (Scenario.afterFirstPhysics : Game ℝ).mv_crystals.map
      (Game.handleCollisions_crystal Scenario.env (Scenario.afterFirstPhysics : Game ℝ).m_player
        (Scenario.afterFirstPhysics : Game ℝ).mv_drones)
      = List.replicate 10 (Scenario.crystal (132907763 / 26010) (256763 / 26010), false) := by
    show (List.replicate 10 (Scenario.crystal (132907763 / 26010 : ℝ) (256763 / 26010))).map _
      = _
    rw [List.map_replicate, hone]
  rw [hmap]
  simp [Scenario.afterFirstPhysics, List.replicate]

end TraceCollisions

section TraceAsteroid

open SteeringBehaviours Spaceship

theorem scenario_ship_asteroid (ship : Spaceship ℝ) (x v m c w : ℝ) (crystals : Bool)
    (hship : ship.toEntity = Scenario.body x v m ship.m_radius) :
    (Scenario.env : Externals ℝ).isCollisionSpaceshipAsteroid ship
        (Scenario.asteroid c w crystals)
      = decide (|x - c| < ship.m_radius + 100) := by
  show Model.isCollision ship.toEntity ship.m_radius (Scenario.body c w 1000000 100) 100 = _
  rw [hship, isCollision_axis]

/-- The second loop of `handleCollisions` in the scenario: drone 0 is inside the collision
sphere of the asteroid and dies; nothing else touches the asteroid. -/
theorem scenario_first_asteroid :
    Game.handleCollisions_asteroid Scenario.env (Scenario.afterFirstPhysics : Game ℝ) 0
      = .ok Scenario.afterFirstUpdate := by
  have hpairs : List.range' (0 + 1)
      ((Scenario.afterFirstPhysics : Game ℝ).mv_asteroids.length - (0 + 1)) = [] := rfl
  have hca : ∀ c : Nat, Game.handleCollisions_crystalAsteroid Scenario.env 0
      (Scenario.afterFirstPhysics : Game ℝ) c = Scenario.afterFirstPhysics := by
    intro c
    unfold Game.handleCollisions_crystalAsteroid
    by_cases hc : c < 10
    · have h1 : (Scenario.afterFirstPhysics : Game ℝ).mv_crystals[c]?
          = some (Scenario.crystal (132907763 / 26010) (256763 / 26010)) :=
        scenario_crystal_lookup _ _ c hc
      have h2 : (Scenario.afterFirstPhysics : Game ℝ).mv_asteroids[0]?
          = some (Scenario.asteroid (124996663 / 25000 : ℝ) (-3337 / 25000) false) := rfl
      have h3 : (Scenario.env : Externals ℝ).isCollisionCrystalAsteroid
          (Scenario.crystal (132907763 / 26010) (256763 / 26010))
          (Scenario.asteroid (124996663 / 25000) (-3337 / 25000) false) = false := by
        show Model.isCollision (Scenario.body (132907763 / 26010 : ℝ) (256763 / 26010) 1 2) 2
          (Scenario.body (124996663 / 25000 : ℝ) (-3337 / 25000) 1000000 100) 100 = false
        rw [isCollision_axis, abs_of_pos (by norm_num)]
        simp only [decide_eq_false_iff_not, not_lt]
        norm_num
      simp only [h1, h2, h3, Bool.false_eq_true, if_false]
      split <;> rfl
    · have h1 : (Scenario.afterFirstPhysics : Game ℝ).mv_crystals[c]? = none := by
        apply List.getElem?_eq_none
        simp only [Scenario.afterFirstPhysics, List.length_replicate]
        exact not_lt.mp hc
      simp only [h1]
  have hfold : ∀ l : List Nat, l.foldl (Game.handleCollisions_crystalAsteroid Scenario.env 0)
      (Scenario.afterFirstPhysics : Game ℝ) = Scenario.afterFirstPhysics :=
    fun l => foldl_invariant (fun g => g = (Scenario.afterFirstPhysics : Game ℝ)) _
      (fun g c hg => by rw [hg]; exact hca c) l _ rfl
  have hast : (Scenario.afterFirstPhysics : Game ℝ).mv_asteroids[0]?
      = some (Scenario.asteroid (124996663 / 25000 : ℝ) (-3337 / 25000) false) := rfl
  have hp : Game.handleCollisions_ship Scenario.env
      (Scenario.asteroid (124996663 / 25000 : ℝ) (-3337 / 25000) false)
      (Scenario.afterFirstPhysics : Game ℝ).m_player
        = .ok (Scenario.afterFirstPhysics : Game ℝ).m_player := by
    unfold Game.handleCollisions_ship
    rw [scenario_ship_asteroid _ (272114176 / 53045) (-1067574 / 53045) 1000 _ _ _ rfl]
    have : ¬ (|(272114176 / 53045 : ℝ) - 124996663 / 25000| <
        (Scenario.afterFirstPhysics : Game ℝ).m_player.m_radius + 100) := by
      show ¬ (|(272114176 / 53045 : ℝ) - 124996663 / 25000| < 4 + 100)
      rw [abs_of_pos (by norm_num)]
      norm_num
    simp only [this, decide_False, Bool.false_eq_true, if_false]
    rfl
  have hd0 : Game.handleCollisions_ship Scenario.env
      (Scenario.asteroid (124996663 / 25000 : ℝ) (-3337 / 25000) false)
      (Scenario.drone (256803501 / 51005) (-771749 / 51005) (-100) true 0)
        = .ok (Scenario.drone (256803501 / 51005) (-771749 / 51005) (-100) false 0) := by
    unfold Game.handleCollisions_ship
    rw [scenario_ship_asteroid _ (256803501 / 51005) (-771749 / 51005) 100 _ _ _ rfl]
    have : |(256803501 / 51005 : ℝ) - 124996663 / 25000| <
        (Scenario.drone (256803501 / 51005 : ℝ) (-771749 / 51005) (-100) true 0).m_radius
          + 100 := by
      show |(256803501 / 51005 : ℝ) - 124996663 / 25000| < 2 + 100
      rw [abs_of_pos (by norm_num)]
      norm_num
    simp only [this, decide_True, if_true, Spaceship.markDead, cassert, ok_bind]
    simp [Scenario.drone, Spaceship.invariant, pure, Except.pure, ok_bind]
  have hd1 : Game.handleCollisions_ship Scenario.env
      (Scenario.asteroid (124996663 / 25000 : ℝ) (-3337 / 25000) false)
      (Scenario.drone (9071634005 / 1490841) (-29950300 / 1490841) 955 true NO_CRYSTAL)
        = .ok (Scenario.drone (9071634005 / 1490841) (-29950300 / 1490841) 955 true
            NO_CRYSTAL) := by
    unfold Game.handleCollisions_ship
    rw [scenario_ship_asteroid _ (9071634005 / 1490841) (-29950300 / 1490841) 100 _ _ _ rfl]
    have : ¬ (|(9071634005 / 1490841 : ℝ) - 124996663 / 25000| <
        (Scenario.drone (9071634005 / 1490841 : ℝ) (-29950300 / 1490841) 955 true
          NO_CRYSTAL).m_radius + 100) := by
      show ¬ (|(9071634005 / 1490841 : ℝ) - 124996663 / 25000| < 2 + 100)
      rw [abs_of_pos (by norm_num)]
      norm_num
    simp only [this, decide_False, Bool.false_eq_true, if_false]
    rfl
  have hdrones : (Scenario.afterFirstPhysics : Game ℝ).mv_drones.mapM
      (Game.handleCollisions_ship Scenario.env
        (Scenario.asteroid (124996663 / 25000 : ℝ) (-3337 / 25000) false))
      = .ok (Scenario.afterFirstUpdate : Game ℝ).mv_drones := by
    simp only [Scenario.afterFirstPhysics, List.mapM_cons, List.mapM_nil, hd0, hd1, ok_bind,
      pure, Except.pure]
    rfl
  simp only [Game.handleCollisions_asteroid, hpairs, List.foldl_nil, hfold, hast, hp, hdrones,
    ok_bind, pure, Except.pure]
  rfl

/-- The collision handling of the first `update (1)` of the scenario. -/
theorem scenario_first_handleCollisions :
    Game.handleCollisions Scenario.env (Scenario.afterFirstPhysics : Game ℝ)
      = .ok Scenario.afterFirstUpdate := by
  simp only [Game.handleCollisions, scenario_first_crystals]
  show List.foldlM _ _ (List.range 1) = _
  rw [range_one, List.foldlM_cons, scenario_first_asteroid]
  rfl

/-- The first `update (1)` of the scenario. -/
theorem scenario_first_update :
    Game.update Scenario.env 1 (Scenario.knocked : Game ℝ) = .ok Scenario.afterFirstUpdate := by
  simp only [Game.update, scenario_first_updateAI, ok_bind, scenario_first_updatePhysics,
    scenario_first_handleCollisions]

/-- The state of the scenario after the first `update (1)` is reachable. -/
theorem scenario_reachable :
    Game.Reachable Scenario.env (Scenario.afterFirstUpdate : Game ℝ) :=
  Game.Reachable.update _ _ 1
    (Game.Reachable.knockOffCrystals _ _ Scenario.rand
      (Game.Reachable.init _ scenario_start_isInitial) scenario_rand_isUnit scenario_knockOff)
    zero_lt_one scenario_first_update

end TraceAsteroid

section TraceSecondTick

open SteeringBehaviours Spaceship

/-- Over the reals the AI step of an initialised drone that satisfies the class invariant and
has a unit forward axis returns; it changes that drone only, keeps its alive flag and gives it the index
that `updateCrystalChased` chose. -/
theorem spaceship_updateAI_ok_frame (X : Externals ℝ) (dt : ℝ) (g : Game ℝ) (d : Nat)
    (self : Spaceship ℝ) (hself : g.mv_drones[d]? = some self) (hdt : 0 < dt)
    (hinit : self.isInitialized = true) (hinv : self.invariant = true)
    (hfwd : self.m_coords.forward.isUnit = true) :
    ∃ self' : Spaceship ℝ, Spaceship.updateAI X dt g d = .ok (g.setDrone d self') ∧
      self'.m_is_alive = self.m_is_alive ∧
      ∀ chosen : Nat, updateCrystalChased g d
          = .ok (g.setDrone d { self with m_crystal_chased_index := chosen }) →
        self'.m_crystal_chased_index = chosen := by
  obtain ⟨g', hg'⟩ := spaceship_updateAI_ok X dt g d self hself hdt hinit hinv hfwd
  obtain ⟨self0, self', chosen', hself0, hrun', rfl, halive, hidx, -⟩ :=
    updateAI_outcome X dt g g' d hg'
  rw [hself] at hself0
  cases hself0
  refine ⟨self', hg', halive, ?_⟩
  intro chosen hrun
  rw [hrun'] at hrun
  have heq := congrArg (fun g : Game ℝ => g.mv_drones[d]?) (Except.ok.inj hrun)
  simp only [setDrone_getElem? g d self _ hself, Option.some.injEq] at heq
  rw [hidx]
  exact congrArg Spaceship.m_crystal_chased_index heq

theorem scenario_station_invariant (x v : ℝ) :
    (Scenario.drone x v 955 true NO_CRYSTAL).invariant = true ∧
      (Scenario.drone x v 955 true NO_CRYSTAL).m_coords.forward.isUnit = true := by
  constructor
  · simp [Scenario.drone, Spaceship.invariant]
  · simp [Scenario.drone, Scenario.body, Vector3.isUnit, Vector3.getNormSquared]

/-- The AI tick of the second `update (1)` of the scenario returns, and afterwards the dead
drone 0 and the living drone 1 both have the chased index 0. -/
theorem scenario_second_updateAI :
    ∃ g' : Game ℝ, Game.updateAI Scenario.env 1 (Scenario.afterFirstUpdate : Game ℝ) = .ok g' ∧
      ∃ d0 d1 : Spaceship ℝ, g'.mv_drones[0]? = some d0 ∧ g'.mv_drones[1]? = some d1 ∧
        d0.m_is_alive = false ∧ d1.m_is_alive = true ∧
        d0.m_crystal_chased_index = 0 ∧ d1.m_crystal_chased_index = 0 := by
  obtain ⟨hinv, hfwd⟩ := scenario_station_invariant (9071634005 / 1490841) (-29950300 / 1490841)
  have hrun := scenario_takes_zero (Scenario.afterFirstUpdate : Game ℝ) 1
    (Scenario.drone (9071634005 / 1490841) (-29950300 / 1490841) 955 true NO_CRYSTAL)
    (132907763 / 26010) (256763 / 26010) (9071634005 / 1490841) rfl rfl rfl rfl
    (by
      intro drone hmem
      simp only [Scenario.afterFirstUpdate, List.mem_cons, List.mem_singleton,
        List.not_mem_nil, or_false] at hmem
      rcases hmem with rfl | rfl | rfl | rfl | rfl <;>
        simp [Scenario.drone, Spaceship.getCrystalChased, Spaceship.isAlive, NO_CRYSTAL,
          UINT_MAX])
    (by
      rw [abs_of_neg (by norm_num)]
      norm_num)
  obtain ⟨s1, h1, hal1, hidx1⟩ := spaceship_updateAI_ok_frame Scenario.env 1
    (Scenario.afterFirstUpdate : Game ℝ) 1 _ rfl zero_lt_one rfl hinv hfwd
  obtain ⟨s2, h2, -, -⟩ := spaceship_updateAI_ok_frame Scenario.env 1
    ((Scenario.afterFirstUpdate : Game ℝ).setDrone 1 s1) 2
    (Scenario.drone (9071634005 / 1490841) (-29950300 / 1490841) 955 true NO_CRYSTAL) rfl
    zero_lt_one rfl hinv hfwd
  obtain ⟨s3, h3, -, -⟩ := spaceship_updateAI_ok_frame Scenario.env 1
    (((Scenario.afterFirstUpdate : Game ℝ).setDrone 1 s1).setDrone 2 s2) 3
    (Scenario.drone (9071634005 / 1490841) (-29950300 / 1490841) 955 true NO_CRYSTAL) rfl
    zero_lt_one rfl hinv hfwd
  obtain ⟨s4, h4, -, -⟩ := spaceship_updateAI_ok_frame Scenario.env 1
    ((((Scenario.afterFirstUpdate : Game ℝ).setDrone 1 s1).setDrone 2 s2).setDrone 3 s3) 4
    (Scenario.drone (9071634005 / 1490841) (-29950300 / 1490841) 955 true NO_CRYSTAL) rfl
    zero_lt_one rfl hinv hfwd
  refine ⟨((((Scenario.afterFirstUpdate : Game ℝ).setDrone 1 s1).setDrone 2 s2).setDrone 3
    s3).setDrone 4 s4, ?_, _, s1, rfl, rfl, rfl, hal1, rfl, hidx1 0 hrun⟩
  have e0 := updateAI_step_dead Scenario.env 1 (Scenario.afterFirstUpdate : Game ℝ) 0
    (Scenario.drone (256803501 / 51005) (-771749 / 51005) (-100) false 0) rfl rfl
  have e1 := updateAI_step_alive Scenario.env 1 (Scenario.afterFirstUpdate : Game ℝ) _ 1
    (Scenario.drone (9071634005 / 1490841) (-29950300 / 1490841) 955 true NO_CRYSTAL)
    rfl rfl h1
  have e2 := updateAI_step_alive Scenario.env 1
    ((Scenario.afterFirstUpdate : Game ℝ).setDrone 1 s1) _ 2
    (Scenario.drone (9071634005 / 1490841) (-29950300 / 1490841) 955 true NO_CRYSTAL)
    rfl rfl h2
  have e3 := updateAI_step_alive Scenario.env 1
    (((Scenario.afterFirstUpdate : Game ℝ).setDrone 1 s1).setDrone 2 s2) _ 3
    (Scenario.drone (9071634005 / 1490841) (-29950300 / 1490841) 955 true NO_CRYSTAL)
    rfl rfl h3
  have e4 := updateAI_step_alive Scenario.env 1
    ((((Scenario.afterFirstUpdate : Game ℝ).setDrone 1 s1).setDrone 2 s2).setDrone 3 s3) _ 4
    (Scenario.drone (9071634005 / 1490841) (-29950300 / 1490841) 955 true NO_CRYSTAL)
    rfl rfl h4
  show List.foldlM _ _ (List.range 5) = _
  rw [range_five]
  simp only [List.foldlM_cons, List.foldlM_nil]
  rw [e0, ok_bind, e1, ok_bind, e2, ok_bind, e3, ok_bind, e4, ok_bind]
  rfl

end TraceSecondTick

/-! ### The claims on the scenario -/

section ScenarioClaims

open SteeringBehaviours Spaceship

/-- C5 as stated fails: the state of the scenario after `knockOffCrystals` and one
`update (1)` is reachable, the next AI tick returns, and afterwards crystal 0 is the chased
index of both drone 0 (dead) and drone 1 (alive). -/
theorem C5_counterexample :
    Game.Reachable Scenario.env (Scenario.afterFirstUpdate : Game ℝ) ∧
      ∃ g' : Game ℝ, Game.updateAI Scenario.env 1 (Scenario.afterFirstUpdate : Game ℝ) = .ok g' ∧
        ¬ g'.chaseExclusive := by
  refine ⟨scenario_reachable, ?_⟩
  obtain ⟨g', hrun, d0, d1, h0, h1, -, -, hi0, hi1⟩ := scenario_second_updateAI
  refine ⟨g', hrun, ?_⟩
  intro hex
  have := hex 0 1 d0 d1 h0 h1 (by decide) (hi0.trans hi1.symm)
  rw [hi0] at this
  simp [NO_CRYSTAL, UINT_MAX] at this

theorem scenario_knocked_invalid :
    ¬ hasValidAssignment (Scenario.knocked : Game ℝ)
      (Scenario.drone (5050 : ℝ) (-20) (-100) true NO_CRYSTAL) :=
  fun h => no_crystal_not_lt _ h.1

/-- Witness of C6: drone 0 of the scenario right after `knockOffCrystals`. -/
theorem C6_updateCrystalChased_nearest_eligible_witness :
    (Scenario.knocked : Game ℝ).mv_drones[0]?
        = some (Scenario.drone (5050 : ℝ) (-20) (-100) true NO_CRYSTAL) ∧
      ¬ hasValidAssignment (Scenario.knocked : Game ℝ)
        (Scenario.drone (5050 : ℝ) (-20) (-100) true NO_CRYSTAL) ∧
      ∃ chosen : Nat,
        updateCrystalChased (Scenario.knocked : Game ℝ) 0
          = .ok ((Scenario.knocked : Game ℝ).setDrone 0
              { Scenario.drone (5050 : ℝ) (-20) (-100) true NO_CRYSTAL with
                m_crystal_chased_index := chosen }) ∧
        ((∀ c, ¬ isEligible (Scenario.knocked : Game ℝ)
            (Scenario.drone (5050 : ℝ) (-20) (-100) true NO_CRYSTAL).getPosition c) →
          chosen = NO_CRYSTAL) ∧
        ((∃ c, isEligible (Scenario.knocked : Game ℝ)
            (Scenario.drone (5050 : ℝ) (-20) (-100) true NO_CRYSTAL).getPosition c) →
          isEligible (Scenario.knocked : Game ℝ)
            (Scenario.drone (5050 : ℝ) (-20) (-100) true NO_CRYSTAL).getPosition chosen ∧
          ∀ c, isEligible (Scenario.knocked : Game ℝ)
              (Scenario.drone (5050 : ℝ) (-20) (-100) true NO_CRYSTAL).getPosition c →
            crystalDistance (Scenario.knocked : Game ℝ)
                (Scenario.drone (5050 : ℝ) (-20) (-100) true NO_CRYSTAL).getPosition chosen ≤
              crystalDistance (Scenario.knocked : Game ℝ)
                (Scenario.drone (5050 : ℝ) (-20) (-100) true NO_CRYSTAL).getPosition c ∧
            (crystalDistance (Scenario.knocked : Game ℝ)
                (Scenario.drone (5050 : ℝ) (-20) (-100) true NO_CRYSTAL).getPosition chosen =
              crystalDistance (Scenario.knocked : Game ℝ)
                (Scenario.drone (5050 : ℝ) (-20) (-100) true NO_CRYSTAL).getPosition c →
              chosen ≤ c)) :=
  ⟨rfl, scenario_knocked_invalid,
    C6_updateCrystalChased_nearest_eligible (Scenario.knocked : Game ℝ) 0 _ rfl
      scenario_knocked_invalid⟩

/-- Witness of C7: drone 0 of the scenario right after `knockOffCrystals`. -/
theorem C7_chased_index_valid_after_update_witness :
    (Scenario.knocked : Game ℝ).mv_drones[0]?
        = some (Scenario.drone (5050 : ℝ) (-20) (-100) true NO_CRYSTAL) ∧
      ((∃ chosen : Nat,
        updateCrystalChased (Scenario.knocked : Game ℝ) 0
          = .ok ((Scenario.knocked : Game ℝ).setDrone 0
              { Scenario.drone (5050 : ℝ) (-20) (-100) true NO_CRYSTAL with
                m_crystal_chased_index := chosen }) ∧
        (chosen = NO_CRYSTAL ∨
          (chosen < (Scenario.knocked : Game ℝ).getTotalCrystalCount ∧
            ∃ crystal, (Scenario.knocked : Game ℝ).getCrystal chosen = .ok crystal ∧
              crystal.isGone = false))) ∧
      Spaceship.updateAI Scenario.env 1 (Scenario.knocked : Game ℝ) 0
        ≠ .error .crystalNotGone) :=
  ⟨rfl, C7_chased_index_valid_after_update Scenario.env 1 (Scenario.knocked : Game ℝ) 0 _ rfl⟩

end ScenarioClaims

/-! ### The decision priority of a drone -/

section Priority

open SteeringBehaviours Spaceship

variable {R : Type} [LinearOrderedField R] [HasSqrt R]

/-- The loop over the asteroids stops at the first asteroid that trips `isAvoid`. -/
theorem calculateDesiredVelocity_avoid_first (self : Spaceship R) (m : R)
    (before after : List (Asteroid R)) (asteroid : Asteroid R)
    (hbefore : ∀ b ∈ before,
      isAvoid self b.toEntity self.m_acceleration_manoeuver = .ok false)
    (hfirst : isAvoid self asteroid.toEntity self.m_acceleration_manoeuver = .ok true) :
    calculateDesiredVelocity_avoid self m (before ++ asteroid :: after)
      = (avoid self asteroid.toEntity self.m_acceleration_manoeuver m >>= fun v =>
          pure (some v)) := by
  induction before with
  | nil =>
    simp only [List.nil_append, calculateDesiredVelocity_avoid, hfirst, ok_bind, if_true]
  | cons b rest ih =>
    have hb := hbefore b (List.mem_cons_self b rest)
    simp only [List.cons_append, calculateDesiredVelocity_avoid, hb, ok_bind,
      Bool.false_eq_true, if_false]
    exact ih (fun x hx => hbefore x (List.mem_cons_of_mem b hx))

/-- The loop over the asteroids finds nothing when no asteroid trips `isAvoid`. -/
theorem calculateDesiredVelocity_avoid_none (self : Spaceship R) (m : R)
    (asteroids : List (Asteroid R))
    (hall : ∀ b ∈ asteroids,
      isAvoid self b.toEntity self.m_acceleration_manoeuver = .ok false) :
    calculateDesiredVelocity_avoid self m asteroids = .ok none := by
  induction asteroids with
  | nil => rfl
  | cons b rest ih =>
    have hb := hall b (List.mem_cons_self b rest)
    simp only [calculateDesiredVelocity_avoid, hb, ok_bind, Bool.false_eq_true, if_false]
    exact ih (fun x hx => hall x (List.mem_cons_of_mem b hx))

/-- C8: `calculateDesiredVelocity` follows a fixed priority. If some asteroid trips
`isAvoid`, the result is `avoid` against the first such asteroid in storage order, with
`max_delta_speed` the manoeuvre acceleration times `delta_time`. Otherwise, if the chased
index is in range and that crystal is not gone, the result is `pursue` of that crystal with
impact speed 100. Otherwise, with the chased index out of range, the result is `escort` of
the player at the drone's escort offset. -/
theorem C8_calculateDesiredVelocity_priority (X : Externals R) (self : Spaceship R) (dt : R)
    (g : Game R) :
    (∀ (before after : List (Asteroid R)) (asteroid : Asteroid R),
      g.mv_asteroids = before ++ asteroid :: after →
      (∀ b ∈ before, isAvoid self b.toEntity self.m_acceleration_manoeuver = .ok false) →
      isAvoid self asteroid.toEntity self.m_acceleration_manoeuver = .ok true →
      self.calculateDesiredVelocity X dt g
        = avoid self asteroid.toEntity self.m_acceleration_manoeuver
            (self.m_acceleration_manoeuver * dt)) ∧
    ((∀ b ∈ g.mv_asteroids,
        isAvoid self b.toEntity self.m_acceleration_manoeuver = .ok false) →
      ∀ crystal : Crystal R, self.m_crystal_chased_index < g.getTotalCrystalCount →
        g.mv_crystals[self.m_crystal_chased_index]? = some crystal → crystal.isGone = false →
        self.calculateDesiredVelocity X dt g
          = pursue self crystal.toEntity 100 self.m_acceleration_manoeuver) ∧
    ((∀ b ∈ g.mv_asteroids,
        isAvoid self b.toEntity self.m_acceleration_manoeuver = .ok false) →
      ¬ self.m_crystal_chased_index < g.getTotalCrystalCount →
      self.calculateDesiredVelocity X dt g
        = escort X self g.m_player.toEntity self.m_escort_offset
            self.m_acceleration_manoeuver) := by
  refine ⟨?_, ?_, ?_⟩
  · intro before after asteroid hsplit hbefore hfirst
    simp only [Spaceship.calculateDesiredVelocity, hsplit,
      calculateDesiredVelocity_avoid_first self _ before after asteroid hbefore hfirst]
    cases avoid self asteroid.toEntity self.m_acceleration_manoeuver
        (self.m_acceleration_manoeuver * dt) with
    | error e => rfl
    | ok v => rfl
  · intro hall crystal hlt hsome hgone
    obtain ⟨crystal', hsome', hget⟩ := getCrystal_ok g _ hlt
    have hc : crystal' = crystal := by
      rw [hsome] at hsome'
      exact (Option.some.inj hsome').symm
    subst hc
    simp only [Spaceship.calculateDesiredVelocity,
      calculateDesiredVelocity_avoid_none self _ g.mv_asteroids hall, ok_bind, hlt, if_true,
      hget, cassert, hgone, INTERCEPT_SPEED]
  · intro hall hlt
    simp only [Spaceship.calculateDesiredVelocity,
      calculateDesiredVelocity_avoid_none self _ g.mv_asteroids hall, ok_bind, hlt, if_false,
      Game.getPlayer]

end Priority

/-! ### The priority on the scenario -/

section PriorityScenario

open SteeringBehaviours Spaceship

/-- A drone of the scenario on station, whatever it chases, is outside the avoidance radius
of the asteroid. -/
theorem scenario_isAvoid_far (chased : Nat) :
    isAvoid (Scenario.drone (6105 : ℝ) (-20) 955 true chased)
      (Scenario.asteroid (5000 : ℝ) 0 false).toEntity
      (Scenario.drone (6105 : ℝ) (-20) 955 true chased).m_acceleration_manoeuver
        = .ok false := by
  have ha : (0 : ℝ) < (Scenario.drone (6105 : ℝ) (-20) 955 true chased).m_acceleration_manoeuver := by
    show (0 : ℝ) < 25
    norm_num
  rw [isAvoid_eq _ _ _ ha]
  simp only [Scenario.drone, Scenario.asteroid, Scenario.body, Entity.getPosition,
    Entity.getVelocity, Entity.getRadius, Vector3.getDistance, Vector3.mk_sub_mk, sub_zero,
    Vector3.getNorm_axis]
  norm_num

/-- Drone 0 of the scenario is inside the avoidance radius of the asteroid. -/
theorem scenario_isAvoid_near :
    isAvoid (Scenario.drone (5050 : ℝ) (-20) (-100) true 0)
      (Scenario.asteroid (5000 : ℝ) 0 false).toEntity
      (Scenario.drone (5050 : ℝ) (-20) (-100) true 0).m_acceleration_manoeuver = .ok true := by
  have ha : (0 : ℝ) < (Scenario.drone (5050 : ℝ) (-20) (-100) true 0).m_acceleration_manoeuver := by
    show (0 : ℝ) < 25
    norm_num
  rw [isAvoid_eq _ _ _ ha]
  simp only [Scenario.drone, Scenario.asteroid, Scenario.body, Entity.getPosition,
    Entity.getVelocity, Entity.getRadius, Vector3.getDistance, Vector3.mk_sub_mk, sub_zero,
    Vector3.getNorm_axis]
  norm_num

/-- The three branches of C8 on the scenario after `knockOffCrystals`: drone 0, inside the
avoidance radius, avoids the asteroid with a speed change of at most 25 * 1; a drone on
station that chases crystal 0 pursues it at impact speed 100; a drone on station that chases
nothing escorts the player. -/
theorem C8_calculateDesiredVelocity_priority_witness :
    Spaceship.calculateDesiredVelocity Scenario.env
        (Scenario.drone (5050 : ℝ) (-20) (-100) true 0) 1 Scenario.knocked
      = avoid (Scenario.drone (5050 : ℝ) (-20) (-100) true 0)
          (Scenario.asteroid (5000 : ℝ) 0 false).toEntity 25 (25 * 1) ∧
    Spaceship.calculateDesiredVelocity Scenario.env
        (Scenario.drone (6105 : ℝ) (-20) 955 true 0) 1 Scenario.knocked
      = pursue (Scenario.drone (6105 : ℝ) (-20) 955 true 0)
          (Scenario.crystal (5100 : ℝ) 10).toEntity 100 25 ∧
    Spaceship.calculateDesiredVelocity Scenario.env
        (Scenario.drone (6105 : ℝ) (-20) 955 true NO_CRYSTAL) 1 Scenario.knocked
      = escort Scenario.env (Scenario.drone (6105 : ℝ) (-20) 955 true NO_CRYSTAL)
          (Scenario.player (5150 : ℝ) (-20)).toEntity ⟨955, 0, 0⟩ 25 := by
  refine ⟨?_, ?_, ?_⟩
  · exact (C8_calculateDesiredVelocity_priority Scenario.env
      (Scenario.drone (5050 : ℝ) (-20) (-100) true 0) 1 Scenario.knocked).1
      [] [] (Scenario.asteroid (5000 : ℝ) 0 false) rfl
      (fun b hb => absurd hb (List.not_mem_nil b)) scenario_isAvoid_near
  · refine (C8_calculateDesiredVelocity_priority Scenario.env
      (Scenario.drone (6105 : ℝ) (-20) 955 true 0) 1 Scenario.knocked).2.1
      ?_ (Scenario.crystal (5100 : ℝ) 10) ?_ rfl rfl
    · intro b hb
      have hb' : b = Scenario.asteroid (5000 : ℝ) 0 false := List.mem_singleton.mp hb
      rw [hb']
      exact scenario_isAvoid_far 0
    · show 0 < (List.replicate 10 (Scenario.crystal (5100 : ℝ) 10)).length % UINT_RANGE
      rw [List.length_replicate]
      decide
  · refine (C8_calculateDesiredVelocity_priority Scenario.env
      (Scenario.drone (6105 : ℝ) (-20) 955 true NO_CRYSTAL) 1 Scenario.knocked).2.2 ?_ ?_
    · intro b hb
      have hb' : b = Scenario.asteroid (5000 : ℝ) 0 false := List.mem_singleton.mp hb
      rw [hb']
      exact scenario_isAvoid_far NO_CRYSTAL
    · exact no_crystal_not_lt _

end PriorityScenario

/-! ### The direction of the avoidance steering -/

section AvoidDirection

open SteeringBehaviours Spaceship

theorem Vector3.dotProduct_add (u w v : Vector3 ℝ) :
    (u + w).dotProduct v = u.dotProduct v + w.dotProduct v := by
  show (u.x + w.x) * v.x + (u.y + w.y) * v.y + (u.z + w.z) * v.z
    = u.x * v.x + u.y * v.y + u.z * v.z + (w.x * v.x + w.y * v.y + w.z * v.z)
  ring

theorem Vector3.add_sub_cancel (u w : Vector3 ℝ) : u + w - u = w := by
  show (⟨u.x + w.x - u.x, u.y + w.y - u.y, u.z + w.z - u.z⟩ : Vector3 ℝ) = w
  cases w
  simp

theorem Vector3.getNormSquared_nonneg (v : Vector3 ℝ) : 0 ≤ v.getNormSquared := by
  show 0 ≤ v.x * v.x + v.y * v.y + v.z * v.z
  nlinarith [mul_self_nonneg v.x, mul_self_nonneg v.y, mul_self_nonneg v.z]

theorem Vector3.getNorm_mul_self (v : Vector3 ℝ) : v.getNorm * v.getNorm = v.getNormSquared :=
  Real.mul_self_sqrt (Vector3.getNormSquared_nonneg v)

theorem Vector3.isZero_sub (p q : Vector3 ℝ) : (p - q).isZero = true ↔ p = q := by
  cases p with
  | mk a b c =>
    cases q with
    | mk x y z =>
      simp only [Vector3.mk_sub_mk, Vector3.isZero_mk, decide_eq_true_eq, Vector3.mk.injEq,
        sub_eq_zero]

theorem Vector3.getNorm_pos (v : Vector3 ℝ) (h : v.isZero = false) : 0 < v.getNorm := by
  have hne : v.getNormSquared ≠ 0 := by
    intro h0
    have hx : v.x = 0 := by
      have : v.x * v.x + v.y * v.y + v.z * v.z = 0 := h0
      nlinarith [mul_self_nonneg v.x, mul_self_nonneg v.y, mul_self_nonneg v.z]
    have hy : v.y = 0 := by
      have : v.x * v.x + v.y * v.y + v.z * v.z = 0 := h0
      nlinarith [mul_self_nonneg v.x, mul_self_nonneg v.y, mul_self_nonneg v.z]
    have hz : v.z = 0 := by
      have : v.x * v.x + v.y * v.y + v.z * v.z = 0 := h0
      nlinarith [mul_self_nonneg v.x, mul_self_nonneg v.y, mul_self_nonneg v.z]
    have : v.isZero = true := by
      simp only [Vector3.isZero, decide_eq_true_eq]
      exact ⟨hx, hy, hz⟩
    rw [h] at this
    exact Bool.false_ne_true this
  exact Real.sqrt_pos.mpr (lt_of_le_of_ne (Vector3.getNormSquared_nonneg v) (Ne.symm hne))

/-- The vector of norm `m` along `v` has the component `m * |v|` along `v`. -/
theorem Vector3.getCopyWithNormSafe_dotProduct (v : Vector3 ℝ) (m : ℝ) :
    (v.getCopyWithNormSafe m).dotProduct v = m * v.getNorm := by
  cases hz : v.isZero with
  | true =>
    have hv : v.x = 0 ∧ v.y = 0 ∧ v.z = 0 := by
      simpa only [Vector3.isZero, decide_eq_true_eq] using hz
    have hn : v.getNorm = 0 := by
      simp only [Vector3.getNorm, Vector3.getNormSquared, sqrt_real, hv.1, hv.2.1, hv.2.2,
        mul_zero, add_zero, Real.sqrt_zero]
    simp only [Vector3.getCopyWithNormSafe, hz, if_true, hn, mul_zero]
    show (0 : ℝ) * v.x + 0 * v.y + 0 * v.z = 0
    ring
  | false =>
    have hpos := Vector3.getNorm_pos v hz
    simp only [Vector3.getCopyWithNormSafe, hz, Bool.false_eq_true, if_false]
    show v.x * (m / v.getNorm) * v.x + v.y * (m / v.getNorm) * v.y
      + v.z * (m / v.getNorm) * v.z = m * v.getNorm
    have hsq : v.x * v.x + v.y * v.y + v.z * v.z = v.getNorm * v.getNorm :=
      (Vector3.getNorm_mul_self v).symm
    have : v.x * (m / v.getNorm) * v.x + v.y * (m / v.getNorm) * v.y
        + v.z * (m / v.getNorm) * v.z = m / v.getNorm * (v.x * v.x + v.y * v.y + v.z * v.z) := by
      ring
    rw [this, hsq]
    field_simp
    ring

/-- C9 refuted: the drone `Scenario.diving`, 50 from the centre of `Scenario.rock` and closing
at 30, is inside the avoidance radius, and with a speed change of at most 25 `avoid` returns
the velocity -5 along the axis, still toward the centre: its component away from the centre
is -250. -/
theorem C9_counterexample :
    isAvoid (Scenario.diving : Spaceship ℝ) Scenario.rock 25 = .ok true ∧
    avoid (Scenario.diving : Spaceship ℝ) Scenario.rock 25 25 = .ok ⟨-5, 0, 0⟩ ∧
    (⟨-5, 0, 0⟩ : Vector3 ℝ).dotProduct
      ((Scenario.diving : Spaceship ℝ).getPosition - (Scenario.rock : Entity ℝ).getPosition)
        = -250 ∧
    ¬ (0 < (⟨-5, 0, 0⟩ : Vector3 ℝ).dotProduct
      ((Scenario.diving : Spaceship ℝ).getPosition - (Scenario.rock : Entity ℝ).getPosition)) := by
  have hav : isAvoid (Scenario.diving : Spaceship ℝ) Scenario.rock 25 = .ok true := by
    rw [isAvoid_eq _ _ _ (by norm_num)]
    simp only [Scenario.diving, Scenario.rock, Scenario.drone, Scenario.body,
      Entity.getPosition, Entity.getVelocity, Entity.getRadius, Vector3.getDistance,
      Vector3.mk_sub_mk, sub_zero, Vector3.getNorm_axis]
    norm_num
  have hdot : (⟨-5, 0, 0⟩ : Vector3 ℝ).dotProduct
      ((Scenario.diving : Spaceship ℝ).getPosition - (Scenario.rock : Entity ℝ).getPosition)
        = -250 := by
    show (-5 : ℝ) * (50 - 0) + 0 * (0 - 0) + 0 * (0 - 0) = -250
    norm_num
  refine ⟨hav, ?_, hdot, ?_⟩
  · rw [avoid_eq _ _ _ _ (by norm_num) (by norm_num) hav]
    congr 1
    show (⟨-30, 0, 0⟩ : Vector3 ℝ) +
      ((⟨50, 0, 0⟩ : Vector3 ℝ) - ⟨0, 0, 0⟩).getCopyWithNormSafe 25 = ⟨-5, 0, 0⟩
    rw [Vector3.mk_sub_mk]
    norm_num
    rw [Vector3.getCopyWithNormSafe_axis_pos 50 25 (by norm_num)]
    norm_num
  · rw [hdot]
    norm_num

/-- C9 (amended): for a drone inside the avoidance radius of an obstacle (with
`max_acceleration > 0` and `max_delta_speed > 0`), `avoid` returns a velocity whose component
along `dronePosition - obstaclePosition` is that of the current velocity plus
`max_delta_speed` times the distance between the centres. So the change of velocity asked for
has a strictly positive component away from the centre whenever the two centres differ, and
the returned velocity itself has one exactly when the current velocity does not close on the
centre faster than `max_delta_speed`. -/
theorem C9_avoid_velocity_change_points_away (agent : Spaceship ℝ) (target : Entity ℝ)
    (a m : ℝ) (ha : 0 < a) (hm : 0 < m) (h : isAvoid agent target a = .ok true) :
    ∃ v, avoid agent target a m = .ok v ∧
      v.dotProduct (agent.getPosition - target.getPosition)
        = agent.getVelocity.dotProduct (agent.getPosition - target.getPosition)
          + m * agent.getPosition.getDistance target.getPosition ∧
      (agent.getPosition ≠ target.getPosition →
        0 < (v - agent.getVelocity).dotProduct (agent.getPosition - target.getPosition)) ∧
      (0 < v.dotProduct (agent.getPosition - target.getPosition) ↔
        -(m * agent.getPosition.getDistance target.getPosition)
          < agent.getVelocity.dotProduct (agent.getPosition - target.getPosition)) := by
  refine ⟨_, avoid_eq agent target a m ha hm h, ?_, ?_, ?_⟩
  · rw [Vector3.dotProduct_add, Vector3.getCopyWithNormSafe_dotProduct]
    rfl
  · intro hne
    rw [Vector3.add_sub_cancel, Vector3.getCopyWithNormSafe_dotProduct]
    have hz : (agent.getPosition - target.getPosition).isZero = false := by
      cases hz : (agent.getPosition - target.getPosition).isZero with
      | false => rfl
      | true => exact absurd ((Vector3.isZero_sub _ _).mp hz) hne
    exact mul_pos hm (Vector3.getNorm_pos _ hz)
  · rw [Vector3.dotProduct_add, Vector3.getCopyWithNormSafe_dotProduct]
    show _ ↔ -(m * (agent.getPosition - target.getPosition).getNorm) < _
    constructor
    · intro hpos
      linarith
    · intro hpos
      linarith

/-- The amended C9 on the diving drone of the counterexample: the returned velocity -5 differs
from the current velocity -30 by 25 along the axis, away from the centre. -/
theorem C9_avoid_velocity_change_points_away_witness :
    ∃ v, avoid (Scenario.diving : Spaceship ℝ) Scenario.rock 25 25 = .ok v ∧
      v.dotProduct ((Scenario.diving : Spaceship ℝ).getPosition
          - (Scenario.rock : Entity ℝ).getPosition)
        = (Scenario.diving : Spaceship ℝ).getVelocity.dotProduct
            ((Scenario.diving : Spaceship ℝ).getPosition - (Scenario.rock : Entity ℝ).getPosition)
          + 25 * (Scenario.diving : Spaceship ℝ).getPosition.getDistance
              (Scenario.rock : Entity ℝ).getPosition ∧
      ((Scenario.diving : Spaceship ℝ).getPosition ≠ (Scenario.rock : Entity ℝ).getPosition →
        0 < (v - (Scenario.diving : Spaceship ℝ).getVelocity).dotProduct
          ((Scenario.diving : Spaceship ℝ).getPosition
            - (Scenario.rock : Entity ℝ).getPosition)) ∧
      (0 < v.dotProduct ((Scenario.diving : Spaceship ℝ).getPosition
          - (Scenario.rock : Entity ℝ).getPosition) ↔
        -(25 * (Scenario.diving : Spaceship ℝ).getPosition.getDistance
            (Scenario.rock : Entity ℝ).getPosition)
          < (Scenario.diving : Spaceship ℝ).getVelocity.dotProduct
              ((Scenario.diving : Spaceship ℝ).getPosition
                - (Scenario.rock : Entity ℝ).getPosition)) :=
  C9_avoid_velocity_change_points_away Scenario.diving Scenario.rock 25 25 (by norm_num)
    (by norm_num) (by
      rw [isAvoid_eq _ _ _ (by norm_num)]
      simp only [Scenario.diving, Scenario.rock, Scenario.drone, Scenario.body,
        Entity.getPosition, Entity.getVelocity, Entity.getRadius, Vector3.getDistance,
        Vector3.mk_sub_mk, sub_zero, Vector3.getNorm_axis]
      norm_num)

end AvoidDirection

/-! ### Crystals collected in `handleCollisions` -/

section Collecting

variable {R : Type} [LinearOrderedField R] [HasSqrt R]

open Spaceship

/-- One crystal in the first loop: it is gone afterwards exactly when it was gone before or
has been claimed, and only a drifting crystal is claimed. -/
theorem handleCollisions_crystal_spec (X : Externals R) (player : Spaceship R)
    (drones : List (Spaceship R)) (crystal : Crystal R) :
    (Game.handleCollisions_crystal X player drones crystal).1.isGone
        = (crystal.isGone || (Game.handleCollisions_crystal X player drones crystal).2) ∧
    ((Game.handleCollisions_crystal X player drones crystal).2 = true →
      crystal.isGone = false) := by
  unfold Game.handleCollisions_crystal
  cases hg : crystal.isGone with
  | true => simp [hg]
  | false =>
    simp only [Bool.not_false, if_true, Bool.false_or]
    split
    · exact ⟨rfl, fun _ => trivial⟩
    · split
      · exact ⟨rfl, fun _ => trivial⟩
      · exact ⟨hg, fun _ => trivial⟩

/-- The counter after the first loop: one wrapping increment per claim. -/
theorem collected_fold (results : List (Crystal R × Bool)) :
    ∀ collected : Nat, collected < UINT_RANGE →
      results.foldl (fun (collected : Nat) (result : Crystal R × Bool) =>
          if result.2 then (collected + 1) % UINT_RANGE else collected) collected
        = (collected + results.countP (fun result => result.2)) % UINT_RANGE := by
  induction results with
  | nil =>
    intro collected h
    simp only [List.foldl_nil, List.countP_nil, Nat.add_zero]
    exact (Nat.mod_eq_of_lt h).symm
  | cons r rest ih =>
    intro collected h
    cases hr : r.2 with
    | true =>
      simp only [List.foldl_cons, hr, if_true, List.countP_cons, if_true]
      rw [ih _ (Nat.mod_lt _ (by decide))]
      simp only [UINT_RANGE]
      omega
    | false =>
      simp only [List.foldl_cons, hr, Bool.false_eq_true, if_false, List.countP_cons]
      rw [ih _ h]
      rfl

/-- The gone flags after the first loop, against the claims. -/
theorem crystals_loop_counts (X : Externals R) (player : Spaceship R)
    (drones : List (Spaceship R)) (crystals : List (Crystal R)) :
    ((crystals.map Crystal.isGone).zip
        (((crystals.map (Game.handleCollisions_crystal X player drones)).map
          (fun result => result.1)).map Crystal.isGone)).countP
        (fun pair => !pair.1 && pair.2)
      = (crystals.map (Game.handleCollisions_crystal X player drones)).countP
          (fun result => result.2) ∧
    (crystals.map (Game.handleCollisions_crystal X player drones)).countP
          (fun result => result.2)
      + ((((crystals.map (Game.handleCollisions_crystal X player drones)).map
          (fun result => result.1)).map Crystal.isGone)).countP (fun gone => !gone)
      = (crystals.map Crystal.isGone).countP (fun gone => !gone) := by
  induction crystals with
  | nil => exact ⟨rfl, rfl⟩
  | cons c rest ih =>
    obtain ⟨h1, h2⟩ := handleCollisions_crystal_spec X player drones c
    obtain ⟨ih1, ih2⟩ := ih
    simp only [List.map_cons, List.zip_cons_cons, List.countP_cons, h1, ih1]
    cases hc : c.isGone with
    | true =>
      cases hb : (Game.handleCollisions_crystal X player drones c).2 with
      | true =>
        rw [h2 hb] at hc
        exact absurd hc Bool.false_ne_true
      | false =>
        simp only [Bool.not_true, Bool.false_and, Bool.or_false, Bool.false_eq_true, if_false,
          Nat.add_zero, true_and]
        exact ih2
    | false =>
      cases hb : (Game.handleCollisions_crystal X player drones c).2 with
      | true =>
        simp only [Bool.not_false, Bool.true_and, Bool.false_or, if_true, Bool.not_true,
          Bool.false_eq_true, if_false, Nat.add_zero, true_and]
        omega
      | false =>
        simp only [Bool.not_false, Bool.true_and, Bool.false_or, Bool.false_eq_true, if_false,
          Nat.add_zero, if_true, true_and]
        omega

/-- The first loop of `handleCollisions`: slots, claims and counter. -/
theorem handleCollisions_crystals_counts (X : Externals R) (g : Game R)
    (hrange : g.m_crystals_collected < UINT_RANGE) :
    (Game.handleCollisions_crystals X g).goneFlags.length = g.goneFlags.length ∧
    g.claimedCount (Game.handleCollisions_crystals X g)
        + (Game.handleCollisions_crystals X g).driftingCount = g.driftingCount ∧
    (Game.handleCollisions_crystals X g).m_crystals_collected
      = (g.m_crystals_collected + g.claimedCount (Game.handleCollisions_crystals X g))
          % UINT_RANGE := by
  obtain ⟨h1, h2⟩ := crystals_loop_counts X g.m_player g.mv_drones g.mv_crystals
  refine ⟨?_, ?_, ?_⟩
  · simp only [Game.goneFlags, Game.handleCollisions_crystals, List.length_map]
  · show _ + _ = (g.mv_crystals.map Crystal.isGone).countP (fun gone => !gone)
    rw [← h2, ← h1]
    rfl
  · show List.foldl _ _ _ = _
    rw [collected_fold _ _ hrange, ← h1]
    rfl

end Collecting

/-! ### The second loop of `handleCollisions` leaves the crystals' flags and the counter -/

section CollisionFrame

theorem foldlM_total {α β : Type} (Q : α → Prop) (f : α → β → Except AssertFailed α)
    (l : List β) (hstep : ∀ a b, b ∈ l → Q a → ∃ a', f a b = .ok a' ∧ Q a') :
    ∀ a, Q a → ∃ a', l.foldlM f a = .ok a' ∧ Q a' := by
  induction l with
  | nil => exact fun a ha => ⟨a, rfl, ha⟩
  | cons b l ih =>
    intro a ha
    obtain ⟨a1, h1, hq1⟩ := hstep a b (List.mem_cons_self b l) ha
    obtain ⟨a2, h2, hq2⟩ :=
      ih (fun a0 b0 hb0 hq0 => hstep a0 b0 (List.mem_cons_of_mem b hb0) hq0) a1 hq1
    exact ⟨a2, by simp only [List.foldlM_cons, h1, ok_bind, h2], hq2⟩

theorem mapM_total {α β : Type} (f : α → Except AssertFailed β) (Qa : α → Prop)
    (Qb : β → Prop) (hf : ∀ x, Qa x → ∃ y, f x = .ok y ∧ Qb y) (l : List α)
    (hl : ∀ x ∈ l, Qa x) : ∃ l', l.mapM f = .ok l' ∧ ∀ y ∈ l', Qb y := by
  induction l with
  | nil => exact ⟨[], rfl, fun y hy => absurd hy (List.not_mem_nil y)⟩
  | cons x xs ih =>
    obtain ⟨y, hy, hqy⟩ := hf x (hl x (List.mem_cons_self x xs))
    obtain ⟨ys, hys, hqys⟩ := ih (fun z hz => hl z (List.mem_cons_of_mem x hz))
    refine ⟨y :: ys, ?_, ?_⟩
    · simp only [List.mapM_cons, hy, ok_bind, hys]
      rfl
    · intro z hz
      rcases List.mem_cons.mp hz with rfl | hz
      · exact hqy
      · exact hqys z hz

theorem map_set_same {α β : Type} (f : α → β) (l : List α) (c : Nat) (x y : α)
    (hx : l[c]? = some x) (hxy : f y = f x) : (l.set c y).map f = l.map f := by
  obtain ⟨hlt, -⟩ := List.getElem?_eq_some.mp hx
  apply List.ext_getElem?
  intro n
  by_cases hn : c = n
  · subst hn
    rw [List.getElem?_map, List.getElem?_map, List.getElem?_set_self hlt, hx]
    simp only [Option.map_some', hxy]
  · rw [List.getElem?_map, List.getElem?_map, List.getElem?_set_ne hn]

variable {R : Type} [LinearOrderedField R] [HasSqrt R]

open Spaceship

theorem handleCollisions_asteroidPair_frame (X : Externals R) (a : Nat) (g : Game R)
    (a2 : Nat) :
    (Game.handleCollisions_asteroidPair X a g a2).mv_crystals = g.mv_crystals ∧
    (Game.handleCollisions_asteroidPair X a g a2).m_crystals_collected
      = g.m_crystals_collected ∧
    (Game.handleCollisions_asteroidPair X a g a2).m_player = g.m_player ∧
    (Game.handleCollisions_asteroidPair X a g a2).mv_asteroids.length
      = g.mv_asteroids.length := by
  unfold Game.handleCollisions_asteroidPair
  split
  · split
    · exact ⟨rfl, rfl, rfl, by simp only [List.length_set]⟩
    · exact ⟨rfl, rfl, rfl, rfl⟩
  · exact ⟨rfl, rfl, rfl, rfl⟩

theorem handleCollisions_crystalAsteroid_frame (X : Externals R) (a : Nat) (g : Game R)
    (c : Nat) :
    (Game.handleCollisions_crystalAsteroid X a g c).goneFlags = g.goneFlags ∧
    (Game.handleCollisions_crystalAsteroid X a g c).m_crystals_collected
      = g.m_crystals_collected ∧
    (Game.handleCollisions_crystalAsteroid X a g c).m_player = g.m_player ∧
    (Game.handleCollisions_crystalAsteroid X a g c).mv_asteroids.length
      = g.mv_asteroids.length := by
  unfold Game.handleCollisions_crystalAsteroid
  split
  · rename_i crystal asteroid hc ha
    split
    · split
      · refine ⟨?_, rfl, rfl, by simp only [List.length_set]⟩
        exact map_set_same Crystal.isGone g.mv_crystals c crystal _ hc rfl
      · exact ⟨rfl, rfl, rfl, rfl⟩
    · exact ⟨rfl, rfl, rfl, rfl⟩
  · exact ⟨rfl, rfl, rfl, rfl⟩

/-- The two inner loops of the second loop, for asteroid `a`. -/
theorem handleCollisions_inner_frame (X : Externals R) (a : Nat) (g : Game R)
    (pairs crystals : List Nat) :
    ((crystals.foldl (Game.handleCollisions_crystalAsteroid X a)
        (pairs.foldl (Game.handleCollisions_asteroidPair X a) g)).goneFlags = g.goneFlags ∧
    (crystals.foldl (Game.handleCollisions_crystalAsteroid X a)
        (pairs.foldl (Game.handleCollisions_asteroidPair X a) g)).m_crystals_collected
      = g.m_crystals_collected) ∧
    (crystals.foldl (Game.handleCollisions_crystalAsteroid X a)
        (pairs.foldl (Game.handleCollisions_asteroidPair X a) g)).m_player = g.m_player ∧
    (crystals.foldl (Game.handleCollisions_crystalAsteroid X a)
        (pairs.foldl (Game.handleCollisions_asteroidPair X a) g)).mv_drones = g.mv_drones ∧
    (crystals.foldl (Game.handleCollisions_crystalAsteroid X a)
        (pairs.foldl (Game.handleCollisions_asteroidPair X a) g)).mv_asteroids.length
      = g.mv_asteroids.length := by
  have h1 := foldl_invariant
    (fun g1 : Game R => (g1.goneFlags = g.goneFlags ∧
      g1.m_crystals_collected = g.m_crystals_collected) ∧ g1.m_player = g.m_player ∧
      g1.mv_drones = g.mv_drones ∧ g1.mv_asteroids.length = g.mv_asteroids.length)
    (Game.handleCollisions_asteroidPair X a)
    (fun g1 b hg1 => by
      obtain ⟨e1, e2, e3, e4⟩ := handleCollisions_asteroidPair_frame X a g1 b
      refine ⟨⟨?_, e2.trans hg1.1.2⟩, e3.trans hg1.2.1,
        (handleCollisions_asteroidPair_drones X a g1 b).trans hg1.2.2.1, e4.trans hg1.2.2.2⟩
      show (Game.handleCollisions_asteroidPair X a g1 b).mv_crystals.map Crystal.isGone = _
      rw [e1]
      exact hg1.1.1)
    pairs g ⟨⟨rfl, rfl⟩, rfl, rfl, rfl⟩
  exact foldl_invariant
    (fun g1 : Game R => (g1.goneFlags = g.goneFlags ∧
      g1.m_crystals_collected = g.m_crystals_collected) ∧ g1.m_player = g.m_player ∧
      g1.mv_drones = g.mv_drones ∧ g1.mv_asteroids.length = g.mv_asteroids.length)
    (Game.handleCollisions_crystalAsteroid X a)
    (fun g1 b hg1 => by
      obtain ⟨e1, e2, e3, e4⟩ := handleCollisions_crystalAsteroid_frame X a g1 b
      exact ⟨⟨e1.trans hg1.1.1, e2.trans hg1.1.2⟩, e3.trans hg1.2.1,
        (handleCollisions_crystalAsteroid_drones X a g1 b).trans hg1.2.2.1,
        e4.trans hg1.2.2.2⟩)
    crystals _ h1

/-- One round of the second loop changes neither a gone flag nor the counter. -/
theorem handleCollisions_asteroid_frame (X : Externals R) (g g' : Game R) (a : Nat)
    (h : Game.handleCollisions_asteroid X g a = .ok g') :
    g'.goneFlags = g.goneFlags ∧ g'.m_crystals_collected = g.m_crystals_collected := by
  simp only [Game.handleCollisions_asteroid] at h
  split at h
  · simp [throw, throwThe, MonadExceptOf.throw] at h
  · simp only [bind_eq_ok, pure_eq_ok] at h
    obtain ⟨player, -, drones, -, rfl⟩ := h
    exact (handleCollisions_inner_frame X a g _ _).1

theorem handleCollisions_ship_total (X : Externals R) (asteroid : Asteroid R)
    (ship : Spaceship R) (hinv : ship.invariant = true) :
    ∃ ship', Game.handleCollisions_ship X asteroid ship = .ok ship' ∧
      ship'.invariant = true := by
  unfold Game.handleCollisions_ship
  split
  · refine ⟨{ ship with m_is_alive := false }, ?_, hinv⟩
    have hinv' : ({ ship with m_is_alive := false } : Spaceship R).invariant = true := hinv
    simp only [markDead, cassert, hinv', if_true, ok_bind]
    rfl
  · exact ⟨ship, rfl, hinv⟩

/-- One round of the second loop returns when every ship satisfies its class invariant. -/
theorem handleCollisions_asteroid_total (X : Externals R) (n : Nat) (g : Game R) (a : Nat)
    (ha : a < n)
    (hq : g.mv_asteroids.length = n ∧ g.m_player.invariant = true ∧
      ∀ drone ∈ g.mv_drones, drone.invariant = true) :
    ∃ g', Game.handleCollisions_asteroid X g a = .ok g' ∧
      (g'.mv_asteroids.length = n ∧ g'.m_player.invariant = true ∧
        ∀ drone ∈ g'.mv_drones, drone.invariant = true) := by
  obtain ⟨hlen, hplayer, hdrones⟩ := hq
  obtain ⟨-, e3, e4, e5⟩ := handleCollisions_inner_frame X a g
    (List.range' (a + 1) (g.mv_asteroids.length - (a + 1)))
    (List.range (List.foldl (Game.handleCollisions_asteroidPair X a) g
      (List.range' (a + 1) (g.mv_asteroids.length - (a + 1)))).mv_crystals.length)
  simp only [Game.handleCollisions_asteroid]
  generalize List.foldl (Game.handleCollisions_crystalAsteroid X a) _ _ = g2 at e3 e4 e5 ⊢
  split
  · rename_i hnone
    rw [List.getElem?_eq_none_iff, e5, hlen] at hnone
    omega
  · rename_i asteroid hsome
    obtain ⟨player, hp, hpinv⟩ := handleCollisions_ship_total X asteroid _ (e3 ▸ hplayer)
    obtain ⟨drones, hd, hdinv⟩ := mapM_total (Game.handleCollisions_ship X asteroid)
      (fun s => s.invariant = true) (fun s => s.invariant = true)
      (handleCollisions_ship_total X asteroid) _ (e4 ▸ hdrones)
    refine ⟨{ g2 with m_player := player, mv_drones := drones }, ?_, ?_⟩
    · simp only [hp, hd, ok_bind]
      rfl
    · exact ⟨e5.trans hlen, hpinv, hdinv⟩

end CollisionFrame

/-! ### The counter of collected crystals -/

section CollectedClaims

variable {R : Type} [LinearOrderedField R] [HasSqrt R]

open Spaceship

theorem getNonGoneCrystalCount_eq (g : Game R) :
    g.getNonGoneCrystalCount = g.driftingCount % UINT_RANGE := by
  simp only [Game.getNonGoneCrystalCount, Game.driftingCount, Game.goneFlags, List.countP_map]
  rfl

theorem driftingCount_le (g : Game R) : g.driftingCount ≤ g.mv_crystals.length := by
  have h := List.countP_le_length (fun gone : Bool => !gone) (l := g.goneFlags)
  simpa only [Game.goneFlags, List.length_map] using h

/-- The whole of `handleCollisions` changes the gone flags and the counter as its first loop
does. -/
theorem handleCollisions_frame (X : Externals R) (g g' : Game R)
    (h : Game.handleCollisions X g = .ok g') :
    g'.goneFlags = (Game.handleCollisions_crystals X g).goneFlags ∧
    g'.m_crystals_collected = (Game.handleCollisions_crystals X g).m_crystals_collected := by
  simp only [Game.handleCollisions] at h
  exact foldlM_invariant
    (fun g1 : Game R => g1.goneFlags = (Game.handleCollisions_crystals X g).goneFlags ∧
      g1.m_crystals_collected = (Game.handleCollisions_crystals X g).m_crystals_collected)
    _
    (fun g1 a g2 hg1 hstep => by
      obtain ⟨e1, e2⟩ := handleCollisions_asteroid_frame X g1 g2 a hstep
      exact ⟨e1.trans hg1.1, e2.trans hg1.2⟩)
    _ _ g' ⟨rfl, rfl⟩ h

/-- The call `handleCollisions` returns when every ship satisfies its class invariant. -/
theorem handleCollisions_total (X : Externals R) (g : Game R)
    (hplayer : g.m_player.invariant = true)
    (hdrones : ∀ drone ∈ g.mv_drones, drone.invariant = true) :
    ∃ g', Game.handleCollisions X g = .ok g' := by
  simp only [Game.handleCollisions]
  obtain ⟨g', hg', -⟩ := foldlM_total
    (fun g1 : Game R => g1.mv_asteroids.length = g.mv_asteroids.length ∧
      g1.m_player.invariant = true ∧ ∀ drone ∈ g1.mv_drones, drone.invariant = true)
    (Game.handleCollisions_asteroid X)
    (List.range (Game.handleCollisions_crystals X g).mv_asteroids.length)
    (fun g1 a ha hq =>
      handleCollisions_asteroid_total X g.mv_asteroids.length g1 a (List.mem_range.mp ha) hq)
    (Game.handleCollisions_crystals X g) ⟨rfl, hplayer, hdrones⟩
  exact ⟨g', hg'⟩

/-- C10: in one call of `handleCollisions` on a state whose counter is an `unsigned int`, the
crystal slots stay in place and `m_crystals_collected` grows, with the wrap of `unsigned int`,
by exactly the number of slots that change from drifting to gone, each counted once; the
drifting crystals decrease by the same number. So in `unsigned int` arithmetic
`collected' - collected = nonGoneCount - nonGoneCount'`, and the same holds for the plain
numbers when the counter cannot wrap. The call returns whenever the player and the drones
satisfy their class invariant. -/
theorem C10_handleCollisions_counts_each_claim_once (X : Externals R) (g : Game R)
    (hrange : g.m_crystals_collected < UINT_RANGE) :
    (∀ g', Game.handleCollisions X g = .ok g' →
      g'.mv_crystals.length = g.mv_crystals.length ∧
      g.claimedCount g' + g'.driftingCount = g.driftingCount ∧
      g'.m_crystals_collected = (g.m_crystals_collected + g.claimedCount g') % UINT_RANGE ∧
      Game.unsignedSub g'.m_crystals_collected g.m_crystals_collected
        = Game.unsignedSub g.getNonGoneCrystalCount g'.getNonGoneCrystalCount ∧
      (g.m_crystals_collected + g.mv_crystals.length < UINT_RANGE →
        g'.m_crystals_collected = g.m_crystals_collected + g.claimedCount g' ∧
        g'.getNonGoneCrystalCount + g.claimedCount g' = g.getNonGoneCrystalCount ∧
        g'.m_crystals_collected - g.m_crystals_collected
          = g.getNonGoneCrystalCount - g'.getNonGoneCrystalCount)) ∧
    (g.m_player.invariant = true → (∀ drone ∈ g.mv_drones, drone.invariant = true) →
      ∃ g', Game.handleCollisions X g = .ok g') := by
  refine ⟨?_, handleCollisions_total X g⟩
  intro g' h
  obtain ⟨hflags, hcollected⟩ := handleCollisions_frame X g g' h
  obtain ⟨hlen, hcount, hcounter⟩ := handleCollisions_crystals_counts X g hrange
  have hclaimed : g.claimedCount g' = g.claimedCount (Game.handleCollisions_crystals X g) := by
    simp only [Game.claimedCount, hflags]
  have hdrift : g'.driftingCount = (Game.handleCollisions_crystals X g).driftingCount := by
    simp only [Game.driftingCount, hflags]
  rw [← hclaimed, ← hdrift] at hcount
  rw [← hclaimed, ← hcollected] at hcounter
  have hlen' : g'.mv_crystals.length = g.mv_crystals.length := by
    have h1 : g'.goneFlags.length = g.goneFlags.length := by rw [hflags, hlen]
    simpa only [Game.goneFlags, List.length_map] using h1
  have hle := driftingCount_le g
  have hn := getNonGoneCrystalCount_eq g
  have hn' := getNonGoneCrystalCount_eq g'
  simp only [UINT_RANGE] at hrange hcounter hn hn'
  refine ⟨hlen', hcount, ?_, ?_, ?_⟩
  · simp only [UINT_RANGE]
    exact hcounter
  · simp only [Game.unsignedSub, UINT_RANGE]
    omega
  · simp only [UINT_RANGE]
    intro hwrap
    omega

end CollectedClaims

/-! ### A pickup with several claimants -/

section Pickup

open Spaceship

theorem scenario_drone_overlap (x v o c w : ℝ) (alive : Bool) (chased : Nat) :
    (Scenario.env : Externals ℝ).isCollisionSpaceshipCrystal (Scenario.drone x v o alive chased)
      (Scenario.crystal c w) = decide (|x - c| < 2 + 2) := by
  show Model.isCollision (Scenario.body x v 100 2) 2 (Scenario.body c w 1 2) 2 = _
  rw [isCollision_axis]

theorem scenario_player_overlap (x v c w : ℝ) :
    (Scenario.env : Externals ℝ).isCollisionSpaceshipCrystal (Scenario.player x v)
      (Scenario.crystal c w) = decide (|x - c| < 4 + 2) := by
  show Model.isCollision (Scenario.body x v 1000 4) 4 (Scenario.body c w 1 2) 2 = _
  rw [isCollision_axis]

/-- Crystal 0 of `Scenario.pickup` is claimed by the player, although drones 0 and 1 overlap
it as well. -/
theorem scenario_pickup_crystal0 :
    Game.handleCollisions_crystal Scenario.env (Scenario.pickup : Game ℝ).m_player
      (Scenario.pickup : Game ℝ).mv_drones (Scenario.crystal 5150 0)
      = (Scenario.goneCrystal 5150 0, true) := by
  have hp : (Scenario.env : Externals ℝ).isCollisionSpaceshipCrystal
      (Scenario.pickup : Game ℝ).m_player (Scenario.crystal 5150 0) = true := by
    show (Scenario.env : Externals ℝ).isCollisionSpaceshipCrystal
      (Scenario.player 5150 (-20)) (Scenario.crystal 5150 0) = true
    rw [scenario_player_overlap]
    norm_num
  have hg : (Scenario.crystal (5150 : ℝ) 0).isGone = false := rfl
  simp only [Game.handleCollisions_crystal, hg, Bool.not_false, if_true, hp]
  rfl

/-- Crystal 1 of `Scenario.pickup` is claimed once, by the first of the two drones that
overlap it. -/
theorem scenario_pickup_crystal1 :
    Game.handleCollisions_crystal Scenario.env (Scenario.pickup : Game ℝ).m_player
      (Scenario.pickup : Game ℝ).mv_drones (Scenario.crystal 9000 0)
      = (Scenario.goneCrystal 9000 0, true) := by
  have hp : (Scenario.env : Externals ℝ).isCollisionSpaceshipCrystal
      (Scenario.pickup : Game ℝ).m_player (Scenario.crystal 9000 0) = false := by
    show (Scenario.env : Externals ℝ).isCollisionSpaceshipCrystal
      (Scenario.player 5150 (-20)) (Scenario.crystal 9000 0) = false
    rw [scenario_player_overlap]
    norm_num [abs_lt]
  have hd : (Scenario.pickup : Game ℝ).mv_drones.any
      (fun drone => (Scenario.env : Externals ℝ).isCollisionSpaceshipCrystal drone
        (Scenario.crystal 9000 0)) = true := by
    simp only [Scenario.pickup, List.any_cons, List.any_nil, scenario_drone_overlap]
    norm_num [abs_lt]
  have hg : (Scenario.crystal (9000 : ℝ) 0).isGone = false := rfl
  simp only [Game.handleCollisions_crystal, hg, Bool.not_false, if_true, hp,
    Bool.false_eq_true, if_false, hd]
  rfl

/-- Crystal 3 of `Scenario.pickup` is out of reach of every ship. -/
theorem scenario_pickup_crystal3 :
    Game.handleCollisions_crystal Scenario.env (Scenario.pickup : Game ℝ).m_player
      (Scenario.pickup : Game ℝ).mv_drones (Scenario.crystal 20000 0)
      = (Scenario.crystal 20000 0, false) := by
  have hp : (Scenario.env : Externals ℝ).isCollisionSpaceshipCrystal
      (Scenario.pickup : Game ℝ).m_player (Scenario.crystal 20000 0) = false := by
    show (Scenario.env : Externals ℝ).isCollisionSpaceshipCrystal
      (Scenario.player 5150 (-20)) (Scenario.crystal 20000 0) = false
    rw [scenario_player_overlap]
    norm_num [abs_lt]
  have hd : (Scenario.pickup : Game ℝ).mv_drones.any
      (fun drone => (Scenario.env : Externals ℝ).isCollisionSpaceshipCrystal drone
        (Scenario.crystal 20000 0)) = false := by
    simp only [Scenario.pickup, List.any_cons, List.any_nil, scenario_drone_overlap]
    norm_num [abs_lt]
  have hg : (Scenario.crystal (20000 : ℝ) 0).isGone = false := rfl
  simp only [Game.handleCollisions_crystal, hg, Bool.not_false, if_true, hp,
    Bool.false_eq_true, if_false, hd]

/-- The call `handleCollisions` on `Scenario.pickup`. -/
theorem scenario_pickup_handleCollisions :
    Game.handleCollisions Scenario.env (Scenario.pickup : Game ℝ) = .ok Scenario.afterPickup := by
  have hcrystals : Game.handleCollisions_crystals Scenario.env (Scenario.pickup : Game ℝ)
      = Scenario.afterPickup := by
    have hlist : (Scenario.pickup : Game ℝ).mv_crystals
        = [Scenario.crystal 5150 0, Scenario.crystal 9000 0, Scenario.goneCrystal 5150 0,
            Scenario.crystal 20000 0] := rfl
    have hgone : Game.handleCollisions_crystal Scenario.env (Scenario.pickup : Game ℝ).m_player
        (Scenario.pickup : Game ℝ).mv_drones (Scenario.goneCrystal 5150 0)
          = (Scenario.goneCrystal 5150 0, false) := rfl
    simp only [Game.handleCollisions_crystals, hlist, List.map_cons, List.map_nil,
      scenario_pickup_crystal0, scenario_pickup_crystal1, scenario_pickup_crystal3, hgone,
      List.foldl_cons, List.foldl_nil, if_true, Bool.false_eq_true, if_false]
    rfl
  simp only [Game.handleCollisions, hcrystals]
  rfl

/-- C10 on `Scenario.pickup`, where the player and two drones overlap crystal 0 and two
drones overlap crystal 1: the call returns `Scenario.afterPickup`, two slots change from
drifting to gone and the counter goes from 7 to 9. -/
theorem C10_handleCollisions_counts_each_claim_once_witness :
    Game.handleCollisions Scenario.env (Scenario.pickup : Game ℝ) = .ok Scenario.afterPickup ∧
    (Scenario.pickup : Game ℝ).claimedCount Scenario.afterPickup = 2 ∧
    (Scenario.afterPickup : Game ℝ).m_crystals_collected = 9 ∧
    (Scenario.afterPickup : Game ℝ).mv_crystals.length
      = (Scenario.pickup : Game ℝ).mv_crystals.length ∧
    (Scenario.pickup : Game ℝ).claimedCount Scenario.afterPickup
        + (Scenario.afterPickup : Game ℝ).driftingCount
      = (Scenario.pickup : Game ℝ).driftingCount ∧
    (Scenario.afterPickup : Game ℝ).m_crystals_collected
      = ((Scenario.pickup : Game ℝ).m_crystals_collected
          + (Scenario.pickup : Game ℝ).claimedCount Scenario.afterPickup) % UINT_RANGE ∧
    Game.unsignedSub (Scenario.afterPickup : Game ℝ).m_crystals_collected
        (Scenario.pickup : Game ℝ).m_crystals_collected
      = Game.unsignedSub (Scenario.pickup : Game ℝ).getNonGoneCrystalCount
          (Scenario.afterPickup : Game ℝ).getNonGoneCrystalCount :=
  have hall := (C10_handleCollisions_counts_each_claim_once Scenario.env
    (Scenario.pickup : Game ℝ) (by decide)).1 Scenario.afterPickup
    scenario_pickup_handleCollisions
  ⟨scenario_pickup_handleCollisions, rfl, rfl, hall.1, hall.2.1, hall.2.2.1, hall.2.2.2.1⟩

end Pickup

/-! ### Dead ships and crystals -/

section DeadShips

open Spaceship

/-- The first loop of `handleCollisions` never reads the alive flag of a drone: a dead drone
that overlaps a drifting crystal claims it. -/
theorem handleCollisions_crystal_drone {R : Type} [LinearOrderedField R] [HasSqrt R]
    (X : Externals R) (player : Spaceship R) (drones : List (Spaceship R))
    (crystal : Crystal R) (drone : Spaceship R) (hgone : crystal.isGone = false)
    (hmem : drone ∈ drones) (hhit : X.isCollisionSpaceshipCrystal drone crystal = true) :
    Game.handleCollisions_crystal X player drones crystal = (crystal.markGone, true) := by
  have hany : drones.any (fun drone => X.isCollisionSpaceshipCrystal drone crystal) = true :=
    List.any_eq_true.mpr ⟨drone, hmem, hhit⟩
  unfold Game.handleCollisions_crystal
  simp only [hgone, Bool.not_false, if_true, hany]
  split <;> rfl

/-- C11 fails on the code: in `Scenario.wreck` the drifting crystal 0 is overlapped by the dead
drone 0 and by no other ship (the player and the four living drones are out of reach), and
`handleCollisions` marks it gone and increments the counter of collected crystals from 0
to 1. -/
theorem C11_dead_drone_claims_crystal :
    (∀ drone ∈ (Scenario.wreck : Game ℝ).mv_drones,
      (Scenario.env : Externals ℝ).isCollisionSpaceshipCrystal drone (Scenario.crystal 9000 0)
        = true → drone.isAlive = false) ∧
    (Scenario.env : Externals ℝ).isCollisionSpaceshipCrystal (Scenario.wreck : Game ℝ).m_player
      (Scenario.crystal 9000 0) = false ∧
    (Scenario.wreck : Game ℝ).mv_crystals = [Scenario.crystal 9000 0] ∧
    (Scenario.crystal (9000 : ℝ) 0).isGone = false ∧
    Game.handleCollisions Scenario.env (Scenario.wreck : Game ℝ) = .ok Scenario.afterWreck ∧
    (Scenario.afterWreck : Game ℝ).mv_crystals.map Crystal.isGone = [true] ∧
    (Scenario.wreck : Game ℝ).m_crystals_collected = 0 ∧
    (Scenario.afterWreck : Game ℝ).m_crystals_collected = 1 := by
  have hp : (Scenario.env : Externals ℝ).isCollisionSpaceshipCrystal
      (Scenario.wreck : Game ℝ).m_player (Scenario.crystal 9000 0) = false := by
    show (Scenario.env : Externals ℝ).isCollisionSpaceshipCrystal
      (Scenario.player 5150 (-20)) (Scenario.crystal 9000 0) = false
    rw [scenario_player_overlap]
    norm_num [abs_lt]
  have hd0 : (Scenario.env : Externals ℝ).isCollisionSpaceshipCrystal
      (Scenario.drone 9001 0 3851 false NO_CRYSTAL) (Scenario.crystal 9000 0) = true := by
    rw [scenario_drone_overlap]
    norm_num [abs_lt]
  have hd1 : (Scenario.env : Externals ℝ).isCollisionSpaceshipCrystal
      (Scenario.drone 6105 (-20) 955 true NO_CRYSTAL) (Scenario.crystal 9000 0) = false := by
    rw [scenario_drone_overlap]
    norm_num [abs_lt]
  have hcrystal : Game.handleCollisions_crystal Scenario.env (Scenario.wreck : Game ℝ).m_player
      (Scenario.wreck : Game ℝ).mv_drones (Scenario.crystal 9000 0)
        = (Scenario.goneCrystal 9000 0, true) :=
    handleCollisions_crystal_drone Scenario.env _ _ _
      (Scenario.drone 9001 0 3851 false NO_CRYSTAL) rfl (List.mem_cons_self _ _) hd0
  have hcrystals : Game.handleCollisions_crystals Scenario.env (Scenario.wreck : Game ℝ)
      = Scenario.afterWreck := by
    have hlist : (Scenario.wreck : Game ℝ).mv_crystals = [Scenario.crystal 9000 0] := rfl
    simp only [Game.handleCollisions_crystals, hlist, List.map_cons, List.map_nil, hcrystal,
      List.foldl_cons, List.foldl_nil, if_true]
    rfl
  refine ⟨?_, hp, rfl, rfl, ?_, rfl, rfl, rfl⟩
  · intro drone hmem hhit
    simp only [Scenario.wreck, List.mem_cons, List.mem_singleton, List.not_mem_nil,
      or_false, or_self] at hmem
    rcases hmem with rfl | rfl
    · rfl
    · rw [hd1] at hhit
      exact absurd hhit Bool.false_ne_true
  · simp only [Game.handleCollisions, hcrystals]
    rfl

end DeadShips

/-! ### Ships and asteroids in `handleCollisions` -/

section ShipsAndAsteroids

theorem foldl_invariant_mem {α β : Type} (P : α → Prop) (f : α → β → α) (l : List β)
    (hstep : ∀ a b, b ∈ l → P a → P (f a b)) : ∀ a, P a → P (l.foldl f a) := by
  induction l with
  | nil => exact fun a ha => ha
  | cons b l ih =>
    exact fun a ha =>
      ih (fun a0 b0 hb0 h0 => hstep a0 b0 (List.mem_cons_of_mem b hb0) h0) (f a b)
        (hstep a b (List.mem_cons_self b l) ha)

theorem mapM_eq_map {α β : Type} (f : α → Except AssertFailed β) (h : α → β)
    (hf : ∀ x y, f x = .ok y → y = h x) (l : List α) :
    ∀ l', l.mapM f = .ok l' → l' = l.map h := by
  induction l with
  | nil =>
    intro l' hl
    simp only [List.mapM_nil, pure_eq_ok] at hl
    subst hl
    rfl
  | cons x xs ih =>
    intro l' hl
    simp only [List.mapM_cons, bind_eq_ok, pure_eq_ok] at hl
    obtain ⟨y, hy, ys, hys, rfl⟩ := hl
    rw [List.map_cons, hf x y hy, ih ys hys]

variable {R : Type} [LinearOrderedField R] [HasSqrt R]

open Spaceship

theorem sameOrDead_refl (ship : Spaceship R) : ship.sameOrDead ship := Or.inl rfl

theorem sameOrDead_trans (a b c : Spaceship R) (hab : a.sameOrDead b) (hbc : b.sameOrDead c) :
    a.sameOrDead c := by
  rcases hab with rfl | rfl
  · exact hbc
  · rcases hbc with rfl | rfl
    · exact Or.inr rfl
    · exact Or.inr rfl

theorem sameOrDead_entity (a b : Spaceship R) (h : a.sameOrDead b) :
    b.toEntity = a.toEntity ∧ (b.m_is_alive = true → a.m_is_alive = true) := by
  rcases h with rfl | rfl
  · exact ⟨rfl, id⟩
  · exact ⟨rfl, fun hf => by simp at hf⟩

/-- The ship-asteroid check: the ship is marked dead exactly when the check finds a collision,
and nothing else about it changes. -/
theorem handleCollisions_ship_result (X : Externals R) (asteroid : Asteroid R)
    (ship ship' : Spaceship R) (h : Game.handleCollisions_ship X asteroid ship = .ok ship') :
    ship' = if X.isCollisionSpaceshipAsteroid ship asteroid then
      { ship with m_is_alive := false } else ship := by
  unfold Game.handleCollisions_ship at h
  split at h
  · rename_i hhit
    rw [markDead_ok _ _ h, if_pos hhit]
  · rename_i hmiss
    rw [pure_eq_ok] at h
    rw [if_neg hmiss, h]

theorem handleCollisions_asteroidPair_asteroids (X : Externals R) (a : Nat) (g : Game R)
    (a2 j : Nat) (hj : j < a) (ha2 : a < a2) :
    (Game.handleCollisions_asteroidPair X a g a2).mv_asteroids[j]? = g.mv_asteroids[j]? := by
  unfold Game.handleCollisions_asteroidPair
  split
  · split
    · show ((g.mv_asteroids.set a _).set a2 _)[j]? = _
      rw [List.getElem?_set_ne (by omega), List.getElem?_set_ne (by omega)]
    · rfl
  · rfl

theorem handleCollisions_crystalAsteroid_asteroids (X : Externals R) (a : Nat) (g : Game R)
    (c j : Nat) (hj : j < a) :
    (Game.handleCollisions_crystalAsteroid X a g c).mv_asteroids[j]? = g.mv_asteroids[j]? := by
  unfold Game.handleCollisions_crystalAsteroid
  split
  · split
    · split
      · show (g.mv_asteroids.set a _)[j]? = _
        rw [List.getElem?_set_ne (by omega)]
      · rfl
    · rfl
  · rfl

/-- One round of the second loop, for asteroid `a`: the asteroids before `a` are not touched,
and every ship is checked against asteroid `a` as it is after the bounces of the round. -/
theorem handleCollisions_asteroid_result (X : Externals R) (g g' : Game R) (a : Nat)
    (h : Game.handleCollisions_asteroid X g a = .ok g') :
    (∀ j, j < a → g'.mv_asteroids[j]? = g.mv_asteroids[j]?) ∧
    ∃ asteroid, g'.mv_asteroids[a]? = some asteroid ∧
      g'.m_player = (if X.isCollisionSpaceshipAsteroid g.m_player asteroid then
        { g.m_player with m_is_alive := false } else g.m_player) ∧
      g'.mv_drones = g.mv_drones.map (fun drone =>
        if X.isCollisionSpaceshipAsteroid drone asteroid then
          { drone with m_is_alive := false } else drone) := by
  obtain ⟨-, e3, e4, -⟩ := handleCollisions_inner_frame X a g
    (List.range' (a + 1) (g.mv_asteroids.length - (a + 1)))
    (List.range (List.foldl (Game.handleCollisions_asteroidPair X a) g
      (List.range' (a + 1) (g.mv_asteroids.length - (a + 1)))).mv_crystals.length)
  have hkeep : ∀ j, j < a →
      (List.foldl (Game.handleCollisions_crystalAsteroid X a)
        (List.foldl (Game.handleCollisions_asteroidPair X a) g
          (List.range' (a + 1) (g.mv_asteroids.length - (a + 1))))
        (List.range (List.foldl (Game.handleCollisions_asteroidPair X a) g
          (List.range' (a + 1) (g.mv_asteroids.length - (a + 1)))).mv_crystals.length)
        ).mv_asteroids[j]? = g.mv_asteroids[j]? := by
    intro j hj
    have h1 := foldl_invariant_mem
      (fun g1 : Game R => g1.mv_asteroids[j]? = g.mv_asteroids[j]?)
      (Game.handleCollisions_asteroidPair X a)
      (List.range' (a + 1) (g.mv_asteroids.length - (a + 1)))
      (fun g1 a2 ha2 hg1 =>
        (handleCollisions_asteroidPair_asteroids X a g1 a2 j hj
          (by have := (List.mem_range'_1.mp ha2).1; omega)).trans hg1)
      g rfl
    exact foldl_invariant (fun g1 : Game R => g1.mv_asteroids[j]? = g.mv_asteroids[j]?)
      (Game.handleCollisions_crystalAsteroid X a)
      (fun g1 c hg1 => (handleCollisions_crystalAsteroid_asteroids X a g1 c j hj).trans hg1)
      _ _ h1
  simp only [Game.handleCollisions_asteroid] at h
  generalize List.foldl (Game.handleCollisions_crystalAsteroid X a) _ _ = g2 at e3 e4 hkeep h
  split at h
  · simp [throw, throwThe, MonadExceptOf.throw] at h
  · rename_i asteroid hsome
    simp only [bind_eq_ok, pure_eq_ok] at h
    obtain ⟨player, hplayer, drones, hdrones, rfl⟩ := h
    refine ⟨hkeep, asteroid, hsome, ?_, ?_⟩
    · show player = _
      rw [← e3]
      exact handleCollisions_ship_result X asteroid _ _ hplayer
    · show drones = _
      rw [← e4]
      exact mapM_eq_map _ _ (handleCollisions_ship_result X asteroid) _ _ hdrones

end ShipsAndAsteroids

/-! ### Ship-asteroid contact is lethal and moves no ship -/

section LethalContact

variable {R : Type} [LinearOrderedField R] [HasSqrt R]

open Spaceship

theorem foldlM_range_succ {α : Type} (f : α → Nat → Except AssertFailed α) (k : Nat) (a a' : α)
    (h : (List.range (k + 1)).foldlM f a = .ok a') :
    ∃ a1, (List.range k).foldlM f a = .ok a1 ∧ f a1 k = .ok a' := by
  rw [List.range_succ, List.foldlM_append, bind_eq_ok] at h
  obtain ⟨a1, h1, h2⟩ := h
  refine ⟨a1, h1, ?_⟩
  simpa only [List.foldlM_cons, List.foldlM_nil, bind_eq_ok, pure_eq_ok, exists_eq_right]
    using h2

/-- The state after the first `k` rounds of the second loop of `handleCollisions`. -/
theorem handleCollisions_rounds (X : Externals R) (g0 : Game R) :
    ∀ (k : Nat) (g' : Game R),
      (List.range k).foldlM (Game.handleCollisions_asteroid X) g0 = .ok g' →
      g0.m_player.sameOrDead g'.m_player ∧
      g'.mv_drones.length = g0.mv_drones.length ∧
      (∀ (i : Nat) (drone drone' : Spaceship R), g0.mv_drones[i]? = some drone → g'.mv_drones[i]? = some drone' →
        drone.sameOrDead drone') ∧
      ∀ (a : Nat) (asteroid : Asteroid R), a < k → g'.mv_asteroids[a]? = some asteroid →
        (X.isCollisionSpaceshipAsteroid g0.m_player asteroid = true →
          g'.m_player.m_is_alive = false) ∧
        ∀ (i : Nat) (drone drone' : Spaceship R), g0.mv_drones[i]? = some drone → g'.mv_drones[i]? = some drone' →
          X.isCollisionSpaceshipAsteroid drone asteroid = true → drone'.m_is_alive = false := by
  intro k
  induction k with
  | zero =>
    intro g' h
    simp only [List.range_zero, List.foldlM_nil, pure_eq_ok] at h
    subst h
    refine ⟨sameOrDead_refl _, rfl, ?_, ?_⟩
    · intro i drone drone' h1 h2
      rw [h1] at h2
      exact Option.some.inj h2 ▸ sameOrDead_refl _
    · intro a asteroid ha
      omega
  | succ k ih =>
    intro g' h
    obtain ⟨g1, hg1, hstep⟩ := foldlM_range_succ _ k g0 g' h
    obtain ⟨hplayer, hlen, hdrones, hchecked⟩ := ih g1 hg1
    obtain ⟨hkeep, asteroid, hsome, hp, hd⟩ := handleCollisions_asteroid_result X g1 g' k hstep
    have hstepPlayer : g1.m_player.sameOrDead g'.m_player := by
      rw [hp]
      split
      · exact Or.inr rfl
      · exact Or.inl rfl
    have hstepDrone : ∀ (i : Nat) (drone1 drone' : Spaceship R), g1.mv_drones[i]? = some drone1 →
        g'.mv_drones[i]? = some drone' →
        drone' = (if X.isCollisionSpaceshipAsteroid drone1 asteroid then
          { drone1 with m_is_alive := false } else drone1) := by
      intro i drone1 drone' h1 h2
      rw [hd, List.getElem?_map, h1] at h2
      exact (Option.some.inj h2).symm
    have hlen' : g'.mv_drones.length = g1.mv_drones.length := by
      rw [hd, List.length_map]
    have hmid : ∀ (i : Nat) (drone' : Spaceship R), g'.mv_drones[i]? = some drone' →
        ∃ drone1, g1.mv_drones[i]? = some drone1 := by
      intro i drone' h2
      have hi : i < g1.mv_drones.length := by
        rw [← hlen']
        exact (List.getElem?_eq_some.mp h2).1
      exact ⟨g1.mv_drones[i], List.getElem?_eq_getElem hi⟩
    refine ⟨sameOrDead_trans _ _ _ hplayer hstepPlayer, hlen'.trans hlen, ?_, ?_⟩
    · intro i drone drone' h0 h2
      obtain ⟨drone1, h1⟩ := hmid i drone' h2
      refine sameOrDead_trans _ _ _ (hdrones i drone drone1 h0 h1) ?_
      rw [hstepDrone i drone1 drone' h1 h2]
      split
      · exact Or.inr rfl
      · exact Or.inl rfl
    · intro a asteroid' ha hsome'
      by_cases hak : a < k
      · rw [hkeep a hak] at hsome'
        obtain ⟨c1, c2⟩ := hchecked a asteroid' hak hsome'
        refine ⟨fun hhit => ?_, fun i drone drone' h0 h2 hhit => ?_⟩
        · cases hal : g'.m_player.m_is_alive with
          | false => rfl
          | true =>
            have := (sameOrDead_entity _ _ hstepPlayer).2 hal
            rw [c1 hhit] at this
            exact absurd this Bool.false_ne_true
        · obtain ⟨drone1, h1⟩ := hmid i drone' h2
          have hdead1 := c2 i drone drone1 h0 h1 hhit
          rw [hstepDrone i drone1 drone' h1 h2]
          split
          · rfl
          · exact hdead1
      · have hak' : a = k := by omega
        subst hak'
        rw [hsome] at hsome'
        have hast : asteroid = asteroid' := Option.some.inj hsome'
        subst hast
        refine ⟨fun hhit => ?_, fun i drone drone' h0 h2 hhit => ?_⟩
        · rw [hp]
          rcases hplayer with h1 | h1
          · rw [h1, if_pos hhit]
          · rw [h1]
            split <;> rfl
        · obtain ⟨drone1, h1⟩ := hmid i drone' h2
          rw [hstepDrone i drone1 drone' h1 h2]
          rcases hdrones i drone drone1 h0 h1 with h3 | h3
          · rw [h3, if_pos hhit]
          · rw [h3]
            split <;> rfl

end LethalContact

/-! ### The claim on ship-asteroid contact -/

section LethalContactClaim

variable {R : Type} [LinearOrderedField R] [HasSqrt R]

open Spaceship

theorem handleCollisions_asteroid_length (X : Externals R) (g g' : Game R) (a : Nat)
    (h : Game.handleCollisions_asteroid X g a = .ok g') :
    g'.mv_asteroids.length = g.mv_asteroids.length := by
  obtain ⟨-, -, -, e5⟩ := handleCollisions_inner_frame X a g
    (List.range' (a + 1) (g.mv_asteroids.length - (a + 1)))
    (List.range (List.foldl (Game.handleCollisions_asteroidPair X a) g
      (List.range' (a + 1) (g.mv_asteroids.length - (a + 1)))).mv_crystals.length)
  simp only [Game.handleCollisions_asteroid] at h
  generalize List.foldl (Game.handleCollisions_crystalAsteroid X a) _ _ = g2 at e5 h
  split at h
  · simp [throw, throwThe, MonadExceptOf.throw] at h
  · simp only [bind_eq_ok, pure_eq_ok] at h
    obtain ⟨player, -, drones, -, rfl⟩ := h
    exact e5

theorem handleCollisions_length (X : Externals R) (g g' : Game R)
    (h : Game.handleCollisions X g = .ok g') :
    g'.mv_asteroids.length = g.mv_asteroids.length := by
  simp only [Game.handleCollisions] at h
  exact foldlM_invariant (fun g1 : Game R => g1.mv_asteroids.length = g.mv_asteroids.length)
    _ (fun g1 a g2 hg1 hstep => (handleCollisions_asteroid_length X g1 g2 a hstep).trans hg1)
    _ (Game.handleCollisions_crystals X g) g' rfl h

/-- C12: after a call of `handleCollisions` every ship (the player or a drone) is the ship it
was before, except that it may have died: its position and velocity are unchanged, so contact
with an asteroid exchanges no momentum. Every ship that overlaps an asteroid, the asteroid
taken as it is after the bounces of the call, which is how the call checks it, is dead
afterwards. -/
theorem C12_asteroid_contact_kills_and_moves_no_ship (X : Externals R) (g g' : Game R)
    (h : Game.handleCollisions X g = .ok g') :
    (g.m_player.sameOrDead g'.m_player ∧
      g'.m_player.getPosition = g.m_player.getPosition ∧
      g'.m_player.getVelocity = g.m_player.getVelocity) ∧
    g'.mv_drones.length = g.mv_drones.length ∧
    (∀ (i : Nat) (drone drone' : Spaceship R), g.mv_drones[i]? = some drone →
      g'.mv_drones[i]? = some drone' →
      drone.sameOrDead drone' ∧ drone'.getPosition = drone.getPosition ∧
        drone'.getVelocity = drone.getVelocity) ∧
    ∀ (a : Nat) (asteroid : Asteroid R), g'.mv_asteroids[a]? = some asteroid →
      (X.isCollisionSpaceshipAsteroid g.m_player asteroid = true →
        g'.m_player.isAlive = false) ∧
      ∀ (i : Nat) (drone drone' : Spaceship R), g.mv_drones[i]? = some drone →
        g'.mv_drones[i]? = some drone' →
        X.isCollisionSpaceshipAsteroid drone asteroid = true → drone'.isAlive = false := by
  have hlen := handleCollisions_length X g g' h
  simp only [Game.handleCollisions] at h
  obtain ⟨hplayer, hdlen, hdrones, hchecked⟩ := handleCollisions_rounds X _ _ g' h
  have hp := sameOrDead_entity _ _ hplayer
  refine ⟨⟨hplayer, ?_, ?_⟩, hdlen, ?_, ?_⟩
  · show g'.m_player.toEntity.m_coords.position = _
    rw [hp.1]
    rfl
  · show g'.m_player.toEntity.m_velocity = _
    rw [hp.1]
    rfl
  · intro i drone drone' h0 h2
    have hd := hdrones i drone drone' h0 h2
    have he := sameOrDead_entity _ _ hd
    refine ⟨hd, ?_, ?_⟩
    · show drone'.toEntity.m_coords.position = _
      rw [he.1]
      rfl
    · show drone'.toEntity.m_velocity = _
      rw [he.1]
      rfl
  · intro a asteroid hsome
    have ha : a < g'.mv_asteroids.length := (List.getElem?_eq_some.mp hsome).1
    rw [hlen] at ha
    exact hchecked a asteroid ha hsome

end LethalContactClaim

/-- C12 on the first `update (1)` of the scenario: the call of `handleCollisions` leaves the
velocity of the player and the number of drones, and drone 0, which overlaps the asteroid,
is dead afterwards. -/
theorem C12_asteroid_contact_kills_and_moves_no_ship_witness :
    Game.handleCollisions Scenario.env (Scenario.afterFirstPhysics : Game ℝ)
      = .ok Scenario.afterFirstUpdate ∧
    (Scenario.afterFirstUpdate : Game ℝ).m_player.getVelocity
      = (Scenario.afterFirstPhysics : Game ℝ).m_player.getVelocity ∧
    (Scenario.afterFirstUpdate : Game ℝ).mv_drones.length
      = (Scenario.afterFirstPhysics : Game ℝ).mv_drones.length ∧
    ∀ (a : Nat) (asteroid : Asteroid ℝ),
      (Scenario.afterFirstUpdate : Game ℝ).mv_asteroids[a]? = some asteroid →
      ∀ (i : Nat) (drone drone' : Spaceship ℝ),
        (Scenario.afterFirstPhysics : Game ℝ).mv_drones[i]? = some drone →
        (Scenario.afterFirstUpdate : Game ℝ).mv_drones[i]? = some drone' →
        (Scenario.env : Externals ℝ).isCollisionSpaceshipAsteroid drone asteroid = true →
        drone'.isAlive = false :=
  have hall := C12_asteroid_contact_kills_and_moves_no_ship Scenario.env
    (Scenario.afterFirstPhysics : Game ℝ) Scenario.afterFirstUpdate
    scenario_first_handleCollisions
  ⟨scenario_first_handleCollisions, hall.1.2.2, hall.2.1,
    fun a asteroid hsome => (hall.2.2.2 a asteroid hsome).2⟩

/-! ### The alive flag never returns -/

section AliveFlag

theorem countP_le_of_pointwise {α : Type} (p : α → Bool) :
    ∀ (l l' : List α), l'.length = l.length →
      (∀ (i : Nat) (a a' : α), l[i]? = some a → l'[i]? = some a' → p a' = true → p a = true) →
      l'.countP p ≤ l.countP p := by
  intro l
  induction l with
  | nil =>
    intro l' hlen _
    have : l' = [] := List.length_eq_zero.mp hlen
    subst this
    exact Nat.le_refl _
  | cons a l ih =>
    intro l' hlen hpt
    cases l' with
    | nil => simp at hlen
    | cons a' l' =>
      have htail := ih l' (by simpa using hlen)
        (fun i b b' hb hb' => hpt (i + 1) b b' (by simpa using hb) (by simpa using hb'))
      have hhead := hpt 0 a a' (by simp) (by simp)
      simp only [List.countP_cons]
      cases ha' : p a' with
      | false =>
        simp only [Bool.false_eq_true, if_false, Nat.add_zero]
        exact Nat.le_trans htail (Nat.le_add_right _ _)
      | true =>
        rw [hhead ha']
        simp only [if_true]
        omega

variable {R : Type} [LinearOrderedField R] [HasSqrt R]

open Spaceship

theorem shipsFade_refl (g : Game R) : g.shipsFade g :=
  ⟨id, rfl, fun _ drone drone' h h' hal => by
    rw [h] at h'
    exact Option.some.inj h' ▸ hal⟩

theorem shipsFade_trans (g g' g'' : Game R) (h : g.shipsFade g') (h' : g'.shipsFade g'') :
    g.shipsFade g'' := by
  obtain ⟨hp, hlen, hd⟩ := h
  obtain ⟨hp', hlen', hd'⟩ := h'
  refine ⟨fun hal => hp (hp' hal), hlen'.trans hlen, ?_⟩
  intro i drone drone'' h0 h2 hal
  have hi : i < g'.mv_drones.length := by
    rw [← hlen']
    exact (List.getElem?_eq_some.mp h2).1
  have h1 : g'.mv_drones[i]? = some g'.mv_drones[i] := List.getElem?_eq_getElem hi
  exact hd i drone _ h0 h1 (hd' i _ drone'' h1 h2 hal)

theorem shipsFade_of_eq (g g' : Game R) (hplayer : g'.m_player.m_is_alive = g.m_player.m_is_alive)
    (hdrones : g'.mv_drones = g.mv_drones) : g.shipsFade g' := by
  refine ⟨fun hal => ?_, by rw [hdrones], ?_⟩
  · show g.m_player.m_is_alive = true
    rw [← hplayer]
    exact hal
  · intro i drone drone' h h' hal
    rw [hdrones, h] at h'
    exact Option.some.inj h' ▸ hal

theorem spaceship_updateAI_shipsFade (X : Externals R) (dt : R) (g g' : Game R) (d : Nat)
    (h : Spaceship.updateAI X dt g d = .ok g') : g.shipsFade g' := by
  obtain ⟨self, self', chosen, hself, -, rfl, halive, -, -⟩ := updateAI_outcome X dt g g' d h
  refine ⟨id, ?_, ?_⟩
  · show (g.mv_drones.set d self').length = _
    rw [List.length_set]
  · intro i drone drone' h0 h2 hal
    have h2' : (g.mv_drones.set d self')[i]? = some drone' := h2
    by_cases hid : d = i
    · subst hid
      have hlt : d < g.mv_drones.length := (List.getElem?_eq_some.mp h0).1
      rw [List.getElem?_set_self hlt] at h2'
      rw [hself] at h0
      have e1 : self' = drone' := Option.some.inj h2'
      have e0 : self = drone := Option.some.inj h0
      subst e1 e0
      show self.m_is_alive = true
      rw [← halive]
      exact hal
    · rw [List.getElem?_set_ne hid, h0] at h2'
      exact Option.some.inj h2' ▸ hal

theorem updateAI_shipsFade (X : Externals R) (dt : R) (g g' : Game R)
    (h : Game.updateAI X dt g = .ok g') : g.shipsFade g' := by
  refine foldlM_invariant (fun g1 => g.shipsFade g1) _ ?_ _ g g' (shipsFade_refl g) h
  intro a d a' ha hstep
  simp only [bind_eq_ok] at hstep
  obtain ⟨drone, -, hstep⟩ := hstep
  split at hstep
  · exact shipsFade_trans _ _ _ ha (spaceship_updateAI_shipsFade X dt a a' d hstep)
  · rw [pure_eq_ok] at hstep
    exact hstep ▸ ha

theorem updatePhysics_shipsFade (X : Externals R) (dt : R) (g : Game R) :
    g.shipsFade (g.updatePhysics X dt) := by
  refine ⟨?_, ?_, ?_⟩
  · intro hal
    simp only [Game.updatePhysics] at hal
    split at hal
    · rename_i h
      exact h
    · exact hal
  · simp only [Game.updatePhysics, List.length_map]
  · intro i drone drone' h0 h2 hal
    simp only [Game.updatePhysics, List.getElem?_map, h0, Option.map_some',
      Option.some.injEq] at h2
    subst h2
    split at hal
    · rename_i h
      exact h
    · exact hal

theorem handleCollisions_shipsFade (X : Externals R) (g g' : Game R)
    (h : Game.handleCollisions X g = .ok g') : g.shipsFade g' := by
  simp only [Game.handleCollisions] at h
  obtain ⟨hplayer, hdlen, hdrones, -⟩ := handleCollisions_rounds X _ _ g' h
  exact ⟨(sameOrDead_entity _ _ hplayer).2, hdlen,
    fun i drone drone' h0 h2 => (sameOrDead_entity _ _ (hdrones i drone drone' h0 h2)).2⟩

theorem update_shipsFade (X : Externals R) (dt : R) (g g' : Game R)
    (h : Game.update X dt g = .ok g') : g.shipsFade g' := by
  simp only [Game.update, bind_eq_ok] at h
  obtain ⟨g1, hai, hcol⟩ := h
  exact shipsFade_trans _ _ _ (updateAI_shipsFade X dt g g1 hai)
    (shipsFade_trans _ _ _ (updatePhysics_shipsFade X dt g1)
      (handleCollisions_shipsFade X _ g' hcol))

end AliveFlag

/-! ### The pool of crystal slots -/

section CrystalPool

variable {R : Type} [LinearOrderedField R] [HasSqrt R]

/-- The index `addCrystal` finds is the lowest gone slot. -/
theorem findIdx?_gone_iff (crystals : List (Crystal R)) (c : Nat) :
    crystals.findIdx? (fun crystal => crystal.isGone) = some c ↔
      ∃ crystal, crystals[c]? = some crystal ∧ crystal.isGone = true ∧
        ∀ (j : Nat) (other : Crystal R), j < c → crystals[j]? = some other →
          other.isGone = false := by
  rw [List.findIdx?_eq_some_iff_getElem]
  constructor
  · rintro ⟨hlt, hgone, hbefore⟩
    refine ⟨crystals[c], List.getElem?_eq_getElem hlt, hgone, ?_⟩
    intro j other hj hother
    obtain ⟨hjlt, rfl⟩ := List.getElem?_eq_some.mp hother
    simpa using hbefore j hj
  · rintro ⟨crystal, hsome, hgone, hbefore⟩
    obtain ⟨hlt, rfl⟩ := List.getElem?_eq_some.mp hsome
    refine ⟨hlt, hgone, ?_⟩
    intro j hj
    have := hbefore j _ hj (List.getElem?_eq_getElem (Nat.lt_trans hj hlt))
    simp [this]

/-- The two ways `addCrystal` ends, by what the search for a gone slot finds. -/
theorem addCrystal_result (X : Externals R) (u p v : Vector3 R) (g : Game R) :
    (∀ c, g.mv_crystals.findIdx? (fun crystal => crystal.isGone) = some c →
      c ≠ Game.EXPAND_VECTOR →
      Game.addCrystal X u p v g
        = { g with mv_crystals := g.mv_crystals.set c (Game.createdCrystal X u p v) }) ∧
    (g.mv_crystals.findIdx? (fun crystal => crystal.isGone) = none ∨
        g.mv_crystals.findIdx? (fun crystal => crystal.isGone) = some Game.EXPAND_VECTOR →
      Game.addCrystal X u p v g
        = { g with mv_crystals := g.mv_crystals ++ [Game.createdCrystal X u p v] }) := by
  refine ⟨?_, ?_⟩
  · intro c hc hne
    simp only [Game.addCrystal, hc, hne, if_false]
    rfl
  · rintro (h | h)
    · simp only [Game.addCrystal, h, if_true]
      rfl
    · simp only [Game.addCrystal, h, if_true]
      rfl

/-- The call `addCrystal` changes nothing but the collection of crystals. -/
theorem addCrystal_frame (X : Externals R) (u p v : Vector3 R) (g : Game R) :
    Game.addCrystal X u p v g
      = { g with mv_crystals := (Game.addCrystal X u p v g).mv_crystals } := by
  unfold Game.addCrystal
  simp only
  split <;> rfl

/-- Each call of `addCrystal` adds one drifting crystal. -/
theorem addCrystal_driftingCount (X : Externals R) (u p v : Vector3 R) (g : Game R) :
    (Game.addCrystal X u p v g).driftingCount = g.driftingCount + 1 := by
  obtain ⟨hset, happend⟩ := addCrystal_result X u p v g
  have happ : ({ g with mv_crystals := g.mv_crystals ++ [Game.createdCrystal X u p v] }
      : Game R).driftingCount = g.driftingCount + 1 := by
    simp only [Game.driftingCount, Game.goneFlags, List.map_append, List.countP_append,
      List.map_cons, List.map_nil, List.countP_cons, List.countP_nil]
    rfl
  cases hfind : g.mv_crystals.findIdx? (fun crystal => crystal.isGone) with
  | none => rw [happend (Or.inl hfind), happ]
  | some c =>
    by_cases hc : c = Game.EXPAND_VECTOR
    · rw [happend (Or.inr (hc ▸ hfind)), happ]
    · rw [hset c hfind hc]
      obtain ⟨crystal, hsome, hgone, -⟩ := (findIdx?_gone_iff g.mv_crystals c).mp hfind
      obtain ⟨hlt, hget⟩ := List.getElem?_eq_some.mp hsome
      have hlt' : c < (g.mv_crystals.map Crystal.isGone).length := by
        rw [List.length_map]
        exact hlt
      have hflag : (g.mv_crystals.map Crystal.isGone)[c] = true := by
        rw [List.getElem_map, hget]
        exact hgone
      simp only [Game.driftingCount, Game.goneFlags, List.map_set]
      rw [List.countP_set _ _ _ _ hlt', hflag]
      show _ - 0 + 1 = _
      rfl

end CrystalPool

/-! ### `addCrystal` is a first-fit pool -/

section FirstFit

variable {R : Type} [LinearOrderedField R] [HasSqrt R]

/-- C15: `addCrystal` on a collection with room for one more slot in the `unsigned int`
indices. If some slot is gone, the created crystal replaces the lowest-index gone slot and the
size is unchanged; if none is gone, it is appended and the size grows by one. Every other
slot is as before, nothing but the collection of crystals changes, the collection never
shrinks, and `getNonGoneCrystalCount` increases by exactly one. -/
theorem C15_addCrystal_first_fit (X : Externals R) (u p v : Vector3 R) (g : Game R)
    (hroom : g.mv_crystals.length < UINT_MAX) :
    (∀ (c : Nat) (crystal : Crystal R), g.mv_crystals[c]? = some crystal →
      crystal.isGone = true →
      (∀ (j : Nat) (other : Crystal R), j < c → g.mv_crystals[j]? = some other →
        other.isGone = false) →
      (Game.addCrystal X u p v g).mv_crystals
          = g.mv_crystals.set c (Game.createdCrystal X u p v) ∧
        (Game.addCrystal X u p v g).mv_crystals.length = g.mv_crystals.length) ∧
    ((∀ crystal ∈ g.mv_crystals, crystal.isGone = false) →
      (Game.addCrystal X u p v g).mv_crystals
          = g.mv_crystals ++ [Game.createdCrystal X u p v] ∧
        (Game.addCrystal X u p v g).mv_crystals.length = g.mv_crystals.length + 1) ∧
    (∀ (j : Nat) (other : Crystal R), g.mv_crystals[j]? = some other →
      (Game.addCrystal X u p v g).mv_crystals[j]? = some other ∨
        (other.isGone = true ∧
          (Game.addCrystal X u p v g).mv_crystals[j]? = some (Game.createdCrystal X u p v))) ∧
    Game.addCrystal X u p v g
      = { g with mv_crystals := (Game.addCrystal X u p v g).mv_crystals } ∧
    g.mv_crystals.length ≤ (Game.addCrystal X u p v g).mv_crystals.length ∧
    (Game.addCrystal X u p v g).getNonGoneCrystalCount = g.getNonGoneCrystalCount + 1 := by
  obtain ⟨hset, happend⟩ := addCrystal_result X u p v g
  have hindex : ∀ c, g.mv_crystals.findIdx? (fun crystal => crystal.isGone) = some c →
      c ≠ Game.EXPAND_VECTOR := by
    intro c hc
    obtain ⟨crystal, hsome, -, -⟩ := (findIdx?_gone_iff g.mv_crystals c).mp hc
    have hlt : c < g.mv_crystals.length := (List.getElem?_eq_some.mp hsome).1
    show c ≠ UINT_MAX
    omega
  refine ⟨?_, ?_, ?_, addCrystal_frame X u p v g, ?_, ?_⟩
  · intro c crystal hsome hgone hfirst
    have hfind := (findIdx?_gone_iff g.mv_crystals c).mpr ⟨crystal, hsome, hgone, hfirst⟩
    rw [hset c hfind (hindex c hfind)]
    exact ⟨rfl, List.length_set _ _ _⟩
  · intro hall
    have hnone : g.mv_crystals.findIdx? (fun crystal => crystal.isGone) = none := by
      rw [List.findIdx?_eq_none_iff]
      intro c hc
      simp [hall c hc]
    rw [happend (Or.inl hnone)]
    exact ⟨rfl, by simp⟩
  · intro j other hother
    have hjlt : j < g.mv_crystals.length := (List.getElem?_eq_some.mp hother).1
    cases hfind : g.mv_crystals.findIdx? (fun crystal => crystal.isGone) with
    | none =>
      rw [happend (Or.inl hfind)]
      left
      show (g.mv_crystals ++ [Game.createdCrystal X u p v])[j]? = some other
      rw [List.getElem?_append_left hjlt]
      exact hother
    | some c =>
      rw [hset c hfind (hindex c hfind)]
      show (g.mv_crystals.set c (Game.createdCrystal X u p v))[j]? = some other ∨
        (other.isGone = true ∧
          (g.mv_crystals.set c (Game.createdCrystal X u p v))[j]?
            = some (Game.createdCrystal X u p v))
      by_cases hcj : c = j
      · subst hcj
        right
        obtain ⟨crystal, hsome, hgone, -⟩ := (findIdx?_gone_iff g.mv_crystals c).mp hfind
        rw [hother] at hsome
        rw [Option.some.inj hsome]
        exact ⟨hgone, List.getElem?_set_self hjlt⟩
      · left
        rw [List.getElem?_set_ne hcj]
        exact hother
  · cases hfind : g.mv_crystals.findIdx? (fun crystal => crystal.isGone) with
    | none =>
      rw [happend (Or.inl hfind)]
      show _ ≤ (g.mv_crystals ++ [Game.createdCrystal X u p v]).length
      simp
    | some c =>
      rw [hset c hfind (hindex c hfind)]
      show _ ≤ (g.mv_crystals.set c (Game.createdCrystal X u p v)).length
      simp
  · have hcount := addCrystal_driftingCount X u p v g
    have hle := driftingCount_le g
    rw [getNonGoneCrystalCount_eq, getNonGoneCrystalCount_eq, hcount]
    simp only [UINT_MAX] at hroom
    simp only [UINT_RANGE]
    omega

end FirstFit

/-- C15 on `Scenario.pickup`, whose lowest gone slot is slot 2: the created crystal replaces
slot 2, the four slots stay four, and one more crystal is not gone. -/
theorem C15_addCrystal_first_fit_witness :
    (Game.addCrystal Scenario.env ⟨1, 0, 0⟩ ⟨5100, 0, 0⟩ ⟨0, 0, 0⟩
        (Scenario.pickup : Game ℝ)).mv_crystals
      = (Scenario.pickup : Game ℝ).mv_crystals.set 2
          (Game.createdCrystal Scenario.env ⟨1, 0, 0⟩ ⟨5100, 0, 0⟩ ⟨0, 0, 0⟩) ∧
    (Game.addCrystal Scenario.env ⟨1, 0, 0⟩ ⟨5100, 0, 0⟩ ⟨0, 0, 0⟩
        (Scenario.pickup : Game ℝ)).mv_crystals.length
      = (Scenario.pickup : Game ℝ).mv_crystals.length ∧
    (Game.addCrystal Scenario.env ⟨1, 0, 0⟩ ⟨5100, 0, 0⟩ ⟨0, 0, 0⟩
        (Scenario.pickup : Game ℝ)).getNonGoneCrystalCount
      = (Scenario.pickup : Game ℝ).getNonGoneCrystalCount + 1 :=
  have hall := C15_addCrystal_first_fit Scenario.env ⟨1, 0, 0⟩ ⟨5100, 0, 0⟩ ⟨0, 0, 0⟩
    (Scenario.pickup : Game ℝ) (by decide)
  have hslot := hall.1 2 (Scenario.goneCrystal 5150 0) rfl rfl (by
    intro j other hj hother
    have hcases : j = 0 ∨ j = 1 := by omega
    rcases hcases with rfl | rfl
    · exact (Option.some.inj hother) ▸ rfl
    · exact (Option.some.inj hother) ▸ rfl)
  ⟨hslot.1, hslot.2, hall.2.2.2.2.2⟩

/-! ### What `knockOffCrystals` does to one asteroid -/

section KnockOffResult

variable {R : Type} [LinearOrderedField R] [HasSqrt R]

open Spaceship

/-- The ten calls of `addCrystal` for one asteroid change nothing but the crystals. -/
theorem addCrystal_fold_frame (X : Externals R) (f : Nat → Vector3 R) (p v : Vector3 R)
    (l : List Nat) (g : Game R) :
    l.foldl (fun (g : Game R) (c : Nat) => Game.addCrystal X (f c) p v g) g
      = { g with mv_crystals :=
          (l.foldl (fun (g : Game R) (c : Nat) => Game.addCrystal X (f c) p v g) g).mv_crystals } :=
  foldl_invariant (fun g1 : Game R => g1 = { g with mv_crystals := g1.mv_crystals })
    (fun (g : Game R) (c : Nat) => Game.addCrystal X (f c) p v g)
    (fun g1 c hg1 => by
      show Game.addCrystal X (f c) p v g1 = _
      rw [addCrystal_frame X (f c) p v g1]
      show ({ g1 with mv_crystals := _ } : Game R) = _
      rw [hg1])
    l g rfl

/-- The outcome of one round of `knockOffCrystals`: the asteroid `a` either keeps its state,
because it carries no crystals or the player is out of range, or it is in range, ten crystals
are created at the knock-off position and its payload flag is cleared. -/
theorem knockOffCrystals_asteroid_result (X : Externals R) (rand : Nat → Nat → Vector3 R)
    (g g' : Game R) (a : Nat) (h : Game.knockOffCrystals_asteroid X rand g a = .ok g') :
    ∃ asteroid, g.mv_asteroids[a]? = some asteroid ∧
      ((asteroid.isCrystals = false ∧ g' = g) ∨
        (asteroid.isCrystals = true ∧
          ∃ direction,
            (g.m_player.getPosition - asteroid.getPosition).getNormalized = .ok direction ∧
            (((g.m_player.getPosition - asteroid.getPosition).isNormLessThan
                (X.getRadiusForDirection asteroid direction + Game.CRYSTAL_KNOCK_OFF_RANGE)
                  = false ∧ g' = g) ∨
              ((g.m_player.getPosition - asteroid.getPosition).isNormLessThan
                (X.getRadiusForDirection asteroid direction + Game.CRYSTAL_KNOCK_OFF_RANGE)
                  = true ∧
                ∃ to_surface,
                  (g.m_player.getPosition - asteroid.getPosition).getCopyWithNorm
                    (X.getRadiusForDirection asteroid direction) = .ok to_surface ∧
                  g' = { g with
                    mv_crystals := ((List.range Game.CRYSTAL_KNOCK_OFF_COUNT).foldl
                      (fun (g : Game R) (c : Nat) =>
                        Game.addCrystal X (rand a c) (asteroid.getPosition + to_surface)
                          asteroid.getVelocity g) g).mv_crystals
                    mv_asteroids := g.mv_asteroids.set a asteroid.removeCrystals })))) := by
  simp only [Game.knockOffCrystals_asteroid] at h
  split at h
  · simp [throw, throwThe, MonadExceptOf.throw] at h
  · rename_i asteroid hsome
    refine ⟨asteroid, hsome, ?_⟩
    split at h
    · rename_i hcrystals
      right
      refine ⟨hcrystals, ?_⟩
      simp only [bind_eq_ok] at h
      obtain ⟨direction, hdirection, h⟩ := h
      refine ⟨direction, hdirection, ?_⟩
      split at h
      · rename_i hnear
        right
        refine ⟨hnear, ?_⟩
        simp only [bind_eq_ok, pure_eq_ok] at h
        obtain ⟨to_surface, hsurface, h⟩ := h
        refine ⟨to_surface, hsurface, ?_⟩
        rw [← h, addCrystal_fold_frame X (rand a) _ _ _ g]
      · rename_i hfar
        left
        rw [pure_eq_ok] at h
        exact ⟨by simpa using hfar, h.symm⟩
    · rename_i hnone
      left
      rw [pure_eq_ok] at h
      exact ⟨by simpa using hnone, h.symm⟩

theorem knockOffCrystals_asteroid_player (X : Externals R) (rand : Nat → Nat → Vector3 R)
    (g g' : Game R) (a : Nat) (h : Game.knockOffCrystals_asteroid X rand g a = .ok g') :
    g'.m_player = g.m_player := by
  obtain ⟨asteroid, -, hcases⟩ := knockOffCrystals_asteroid_result X rand g g' a h
  rcases hcases with ⟨-, rfl⟩ | ⟨-, direction, -, ⟨-, rfl⟩ | ⟨-, to_surface, -, rfl⟩⟩
  · rfl
  · rfl
  · rfl

theorem knockOffCrystals_player (X : Externals R) (rand : Nat → Nat → Vector3 R)
    (g g' : Game R) (h : Game.knockOffCrystals X rand g = .ok g') :
    g'.m_player = g.m_player :=
  foldlM_invariant (fun g1 => g1.m_player = g.m_player) _
    (fun g1 a g2 hg1 hstep => (knockOffCrystals_asteroid_player X rand g1 g2 a hstep).trans hg1)
    _ g g' rfl h

end KnockOffResult

/-! ### The commands of the player -/

section PlayerCommands

variable {R : Type} [LinearOrderedField R] [HasSqrt R]

open Spaceship

theorem rotateAroundForward_alive (Y : Rotations R) (self self' : Spaceship R) (dt : R)
    (back : Bool) (h : self.rotateAroundForward Y dt back = .ok self') :
    self'.m_is_alive = self.m_is_alive := by
  simp only [rotateAroundForward, bind_eq_ok, map_eq_ok, cassert_eq_ok, pure_eq_ok] at h
  obtain ⟨-, -, -, -, rfl⟩ := h
  split <;> rfl

theorem rotateAroundUp_alive (Y : Rotations R) (self self' : Spaceship R) (dt : R)
    (back : Bool) (h : self.rotateAroundUp Y dt back = .ok self') :
    self'.m_is_alive = self.m_is_alive := by
  simp only [rotateAroundUp, bind_eq_ok, map_eq_ok, cassert_eq_ok, pure_eq_ok] at h
  obtain ⟨-, -, -, -, rfl⟩ := h
  split <;> rfl

theorem rotateAroundRight_alive (Y : Rotations R) (self self' : Spaceship R) (dt : R)
    (back : Bool) (h : self.rotateAroundRight Y dt back = .ok self') :
    self'.m_is_alive = self.m_is_alive := by
  simp only [rotateAroundRight, bind_eq_ok, map_eq_ok, cassert_eq_ok, pure_eq_ok] at h
  obtain ⟨-, -, -, -, rfl⟩ := h
  split <;> rfl

theorem thrustMainEngine_alive (self self' : Spaceship R) (dt : R)
    (h : self.thrustMainEngine dt = .ok self') : self'.m_is_alive = self.m_is_alive := by
  rw [thrustMainEngine_ok _ _ _ h]

theorem thrustManoeuver_alive (self self' : Spaceship R) (dt : R) (dir : Vector3 R) (f : R)
    (h : self.thrustManoeuver dt dir f = .ok self') : self'.m_is_alive = self.m_is_alive := by
  rw [thrustManoeuver_ok _ _ _ _ _ h]

/-- A command of the player changes the player ship only, and not its alive flag. -/
theorem playerCommand_frame (Y : Rotations R) (command : Game.PlayerCommand) (dt : R)
    (g g' : Game R) (h : Game.playerCommand Y command dt g = .ok g') :
    g'.m_player.m_is_alive = g.m_player.m_is_alive ∧ g'.mv_drones = g.mv_drones := by
  cases command with
  | mainEngine =>
    simp only [Game.playerCommand, Game.playerMainEngine, bind_eq_ok, pure_eq_ok] at h
    obtain ⟨player, hplayer, rfl⟩ := h
    exact ⟨thrustMainEngine_alive _ _ _ hplayer, rfl⟩
  | manoeuverForward =>
    simp only [Game.playerCommand, Game.playerManoeuverForward, bind_eq_ok, pure_eq_ok] at h
    obtain ⟨player, hplayer, rfl⟩ := h
    exact ⟨thrustManoeuver_alive _ _ _ _ _ hplayer, rfl⟩
  | manoeuverBackward =>
    simp only [Game.playerCommand, Game.playerManoeuverBackward, bind_eq_ok, pure_eq_ok] at h
    obtain ⟨player, hplayer, rfl⟩ := h
    exact ⟨thrustManoeuver_alive _ _ _ _ _ hplayer, rfl⟩
  | manoeuverUp =>
    simp only [Game.playerCommand, Game.playerManoeuverUp, bind_eq_ok, pure_eq_ok] at h
    obtain ⟨player, hplayer, rfl⟩ := h
    exact ⟨thrustManoeuver_alive _ _ _ _ _ hplayer, rfl⟩
  | manoeuverDown =>
    simp only [Game.playerCommand, Game.playerManoeuverDown, bind_eq_ok, pure_eq_ok] at h
    obtain ⟨player, hplayer, rfl⟩ := h
    exact ⟨thrustManoeuver_alive _ _ _ _ _ hplayer, rfl⟩
  | manoeuverRight =>
    simp only [Game.playerCommand, Game.playerManoeuverRight, bind_eq_ok, pure_eq_ok] at h
    obtain ⟨player, hplayer, rfl⟩ := h
    exact ⟨thrustManoeuver_alive _ _ _ _ _ hplayer, rfl⟩
  | manoeuverLeft =>
    simp only [Game.playerCommand, Game.playerManoeuverLeft, bind_eq_ok, pure_eq_ok] at h
    obtain ⟨player, hplayer, rfl⟩ := h
    exact ⟨thrustManoeuver_alive _ _ _ _ _ hplayer, rfl⟩
  | rotateClockwise =>
    simp only [Game.playerCommand, Game.playerRotateClockwise, bind_eq_ok, pure_eq_ok] at h
    obtain ⟨player, hplayer, rfl⟩ := h
    exact ⟨rotateAroundForward_alive Y _ _ _ _ hplayer, rfl⟩
  | rotateCounterClockwise =>
    simp only [Game.playerCommand, Game.playerRotateCounterClockwise, bind_eq_ok, pure_eq_ok] at h
    obtain ⟨player, hplayer, rfl⟩ := h
    exact ⟨rotateAroundForward_alive Y _ _ _ _ hplayer, rfl⟩
  | rotateUp =>
    simp only [Game.playerCommand, Game.playerRotateUp, bind_eq_ok, pure_eq_ok] at h
    obtain ⟨player, hplayer, rfl⟩ := h
    exact ⟨rotateAroundRight_alive Y _ _ _ _ hplayer, rfl⟩
  | rotateDown =>
    simp only [Game.playerCommand, Game.playerRotateDown, bind_eq_ok, pure_eq_ok] at h
    obtain ⟨player, hplayer, rfl⟩ := h
    exact ⟨rotateAroundRight_alive Y _ _ _ _ hplayer, rfl⟩
  | rotateRight =>
    simp only [Game.playerCommand, Game.playerRotateRight, bind_eq_ok, pure_eq_ok] at h
    obtain ⟨player, hplayer, rfl⟩ := h
    exact ⟨rotateAroundUp_alive Y _ _ _ _ hplayer, rfl⟩
  | rotateLeft =>
    simp only [Game.playerCommand, Game.playerRotateLeft, bind_eq_ok, pure_eq_ok] at h
    obtain ⟨player, hplayer, rfl⟩ := h
    exact ⟨rotateAroundUp_alive Y _ _ _ _ hplayer, rfl⟩

/-- Every operation on the game leaves dead ships dead. -/
theorem operation_shipsFade (X : Externals R) (Y : Rotations R) (g g' : Game R)
    (h : Game.Operation X Y g g') : g.shipsFade g' := by
  cases h with
  | update dt _ hstep => exact update_shipsFade X dt g g' hstep
  | knockOffCrystals rand hstep =>
    exact shipsFade_of_eq g g' (congrArg _ (knockOffCrystals_player X rand g g' hstep))
      (knockOffCrystals_drones X rand g g' hstep)
  | player command dt hstep =>
    obtain ⟨hplayer, hdrones⟩ := playerCommand_frame Y command dt g g' hstep
    exact shipsFade_of_eq g g' hplayer hdrones

end PlayerCommands

/-! ### The claim on the alive flag -/

section AliveFlagClaim

variable {R : Type} [LinearOrderedField R] [HasSqrt R]

open Spaceship

/-- C13: across `update` with a positive time step, `knockOffCrystals`, and every thrust or
rotation command of the player, a ship that is dead before is dead afterwards: the player, and
each drone at its index, the number of drones being unchanged. So the number of living drones
does not increase, `getLivingDroneCount` does not increase when the number of drones fits an
`unsigned int`, and `isOver` stays true once it is true. -/
theorem C13_dead_ships_stay_dead (X : Externals R) (Y : Rotations R) (g g' : Game R)
    (hop : Game.Operation X Y g g') :
    (g.m_player.isAlive = false → g'.m_player.isAlive = false) ∧
    g'.mv_drones.length = g.mv_drones.length ∧
    (∀ (i : Nat) (drone : Spaceship R), g.mv_drones[i]? = some drone → drone.isAlive = false →
      ∃ drone', g'.mv_drones[i]? = some drone' ∧ drone'.isAlive = false) ∧
    g'.mv_drones.countP (fun drone => drone.isAlive)
      ≤ g.mv_drones.countP (fun drone => drone.isAlive) ∧
    (g.mv_drones.length < UINT_RANGE → g'.getLivingDroneCount ≤ g.getLivingDroneCount) ∧
    (g.isOver = true → g'.isOver = true) := by
  obtain ⟨hplayer, hlen, hdrones⟩ := operation_shipsFade X Y g g' hop
  have hdead : g.m_player.isAlive = false → g'.m_player.isAlive = false := by
    intro hd
    cases hal : g'.m_player.isAlive with
    | false => rfl
    | true =>
      rw [hplayer hal] at hd
      exact absurd hd (by decide)
  have hcount := countP_le_of_pointwise (fun drone : Spaceship R => drone.isAlive)
    g.mv_drones g'.mv_drones hlen hdrones
  refine ⟨hdead, hlen, ?_, hcount, ?_, ?_⟩
  · intro i drone h0 hd
    have hi : i < g'.mv_drones.length := by
      rw [hlen]
      exact (List.getElem?_eq_some.mp h0).1
    refine ⟨g'.mv_drones[i], List.getElem?_eq_getElem hi, ?_⟩
    cases hal : (g'.mv_drones[i]).isAlive with
    | false => rfl
    | true =>
      rw [hdrones i drone _ h0 (List.getElem?_eq_getElem hi) hal] at hd
      exact absurd hd (by decide)
  · intro hfit
    have hle := List.countP_le_length (fun drone : Spaceship R => drone.isAlive)
      (l := g.mv_drones)
    simp only [Game.getLivingDroneCount]
    simp only [UINT_RANGE] at hfit ⊢
    omega
  · intro hover
    simp only [Game.isOver, Bool.not_eq_true'] at hover ⊢
    exact hdead hover

end AliveFlagClaim

/-! ### Gone crystals stay gone across `update` -/

section GoneFlag

variable {R : Type} [LinearOrderedField R] [HasSqrt R]

open Spaceship

theorem spaceship_updateAI_crystals (X : Externals R) (dt : R) (g g' : Game R) (d : Nat)
    (h : Spaceship.updateAI X dt g d = .ok g') : g'.mv_crystals = g.mv_crystals := by
  obtain ⟨self, self', chosen, -, -, rfl, -, -, -⟩ := updateAI_outcome X dt g g' d h
  rfl

/-- The AI tick touches no crystal. -/
theorem updateAI_crystals (X : Externals R) (dt : R) (g g' : Game R)
    (h : Game.updateAI X dt g = .ok g') : g'.mv_crystals = g.mv_crystals := by
  refine foldlM_invariant (fun g1 => g1.mv_crystals = g.mv_crystals) _ ?_ _ g g' rfl h
  intro a d a' ha hstep
  simp only [bind_eq_ok] at hstep
  obtain ⟨drone, -, hstep⟩ := hstep
  split at hstep
  · exact (spaceship_updateAI_crystals X dt a a' d hstep).trans ha
  · rw [pure_eq_ok] at hstep
    exact hstep ▸ ha

/-- The physics step changes no gone flag. -/
theorem updatePhysics_goneFlags (X : Externals R) (dt : R) (g : Game R) :
    (g.updatePhysics X dt).goneFlags = g.goneFlags := by
  simp only [Game.goneFlags, Game.updatePhysics, List.map_map]
  apply List.map_congr_left
  intro crystal _
  simp only [Function.comp]
  split <;> rfl

/-- The first loop of `handleCollisions` only sets gone flags. -/
theorem handleCollisions_crystals_flags (X : Externals R) (g : Game R) (i : Nat)
    (h : g.goneFlags[i]? = some true) :
    (Game.handleCollisions_crystals X g).goneFlags[i]? = some true := by
  simp only [Game.goneFlags, Game.handleCollisions_crystals, List.getElem?_map,
    Option.map_eq_some'] at h ⊢
  obtain ⟨crystal, hsome, hgone⟩ := h
  refine ⟨(Game.handleCollisions_crystal X g.m_player g.mv_drones crystal).1,
    ⟨(Game.handleCollisions_crystal X g.m_player g.mv_drones crystal), ⟨crystal, hsome, rfl⟩,
      rfl⟩, ?_⟩
  rw [(handleCollisions_crystal_spec X g.m_player g.mv_drones crystal).1, hgone]
  rfl

/-- Across `update` the gone flags only change from false to true, and the number of drifting
crystals does not increase. -/
theorem update_goneFlags (X : Externals R) (dt : R) (g g' : Game R)
    (h : Game.update X dt g = .ok g') :
    g'.goneFlags.length = g.goneFlags.length ∧
    (∀ i : Nat, g.goneFlags[i]? = some true → g'.goneFlags[i]? = some true) ∧
    g'.driftingCount ≤ g.driftingCount := by
  simp only [Game.update, bind_eq_ok] at h
  obtain ⟨g1, hai, hcol⟩ := h
  have h1 : g1.goneFlags = g.goneFlags := by
    simp only [Game.goneFlags, updateAI_crystals X dt g g1 hai]
  have h2 := updatePhysics_goneFlags X dt g1
  obtain ⟨h3, -⟩ := handleCollisions_frame X _ g' hcol
  obtain ⟨-, hcount⟩ := crystals_loop_counts X (g1.updatePhysics X dt).m_player
    (g1.updatePhysics X dt).mv_drones (g1.updatePhysics X dt).mv_crystals
  refine ⟨?_, ?_, ?_⟩
  · rw [h3, ← h1, ← h2]
    simp only [Game.goneFlags, Game.handleCollisions_crystals, List.length_map]
  · intro i hi
    rw [h3]
    apply handleCollisions_crystals_flags
    rw [h2, h1]
    exact hi
  · have hd' : g'.driftingCount
        = (Game.handleCollisions_crystals X (g1.updatePhysics X dt)).driftingCount := by
      simp only [Game.driftingCount, h3]
    have hd : g.driftingCount = (g1.updatePhysics X dt).driftingCount := by
      simp only [Game.driftingCount, h2, h1]
    rw [hd', hd]
    have : (Game.handleCollisions_crystals X (g1.updatePhysics X dt)).driftingCount
        ≤ (g1.updatePhysics X dt).driftingCount := by
      show List.countP _ _ ≤ List.countP _ _
      exact hcount ▸ Nat.le_add_left _ _
    exact this

/-- C14: across `update`, for every time step with which it returns and so for every positive
one, every crystal slot that is gone before is gone afterwards, at the
same index of a collection of the same size; so the number of crystals that are not gone does
not increase, and neither does `getNonGoneCrystalCount` when the number of slots fits an
`unsigned int`. -/
theorem C14_gone_crystals_stay_gone (X : Externals R) (dt : R) (g g' : Game R)
    (h : Game.update X dt g = .ok g') :
    g'.mv_crystals.length = g.mv_crystals.length ∧
    (∀ (i : Nat) (crystal : Crystal R), g.mv_crystals[i]? = some crystal →
      crystal.isGone = true →
      ∃ crystal', g'.mv_crystals[i]? = some crystal' ∧ crystal'.isGone = true) ∧
    g'.driftingCount ≤ g.driftingCount ∧
    (g.mv_crystals.length < UINT_RANGE →
      g'.getNonGoneCrystalCount ≤ g.getNonGoneCrystalCount) := by
  obtain ⟨hlen, hflags, hcount⟩ := update_goneFlags X dt g g' h
  refine ⟨by simpa only [Game.goneFlags, List.length_map] using hlen, ?_, hcount, ?_⟩
  · intro i crystal hsome hgone
    have hi : g.goneFlags[i]? = some true := by
      simp only [Game.goneFlags, List.getElem?_map, hsome, Option.map_some', hgone]
    have hi' := hflags i hi
    simp only [Game.goneFlags, List.getElem?_map, Option.map_eq_some'] at hi'
    exact hi'
  · intro hfit
    have hle := driftingCount_le g
    rw [getNonGoneCrystalCount_eq, getNonGoneCrystalCount_eq]
    simp only [UINT_RANGE] at hfit ⊢
    omega

end GoneFlag

/-! ### The rounds of `knockOffCrystals` -/

section KnockOffRounds

theorem foldlM_fixed {α β : Type} (f : α → β → Except AssertFailed α) (a : α) (l : List β)
    (h : ∀ b ∈ l, f a b = .ok a) : l.foldlM f a = .ok a := by
  induction l with
  | nil => rfl
  | cons b l ih =>
    rw [List.foldlM_cons, h b (List.mem_cons_self b l), ok_bind]
    exact ih (fun b0 hb0 => h b0 (List.mem_cons_of_mem b hb0))

variable {R : Type} [LinearOrderedField R] [HasSqrt R]

open Spaceship

theorem addCrystal_fold_driftingCount (X : Externals R) (f : Nat → Vector3 R)
    (p v : Vector3 R) (l : List Nat) :
    ∀ g : Game R,
      (l.foldl (fun (g : Game R) (c : Nat) => Game.addCrystal X (f c) p v g) g).driftingCount
        = g.driftingCount + l.length := by
  induction l with
  | nil => exact fun g => rfl
  | cons c l ih =>
    intro g
    rw [List.foldl_cons, ih, addCrystal_driftingCount, List.length_cons]
    omega

/-- A round for an asteroid without crystals does nothing. -/
theorem knockOffCrystals_asteroid_empty (X : Externals R) (rand : Nat → Nat → Vector3 R)
    (g : Game R) (a : Nat) (asteroid : Asteroid R) (hsome : g.mv_asteroids[a]? = some asteroid)
    (hempty : asteroid.isCrystals = false) :
    Game.knockOffCrystals_asteroid X rand g a = .ok g := by
  simp only [Game.knockOffCrystals_asteroid, hsome, hempty, Bool.false_eq_true, if_false]
  rfl

/-- A round for an asteroid out of range of the player does nothing. -/
theorem knockOffCrystals_asteroid_far (X : Externals R) (rand : Nat → Nat → Vector3 R)
    (g : Game R) (a : Nat) (asteroid : Asteroid R) (direction : Vector3 R)
    (hsome : g.mv_asteroids[a]? = some asteroid)
    (hdirection : (g.m_player.getPosition - asteroid.getPosition).getNormalized = .ok direction)
    (hfar : (g.m_player.getPosition - asteroid.getPosition).isNormLessThan
      (X.getRadiusForDirection asteroid direction + Game.CRYSTAL_KNOCK_OFF_RANGE) = false) :
    Game.knockOffCrystals_asteroid X rand g a = .ok g := by
  simp only [Game.knockOffCrystals_asteroid, hsome]
  split
  · simp only [hdirection, ok_bind, hfar, Bool.false_eq_true, if_false]
    rfl
  · rfl

/-- The range test of the spec, on an asteroid the code has found a direction for. -/
theorem inKnockOffRange_eq (X : Externals R) (g : Game R) (asteroid : Asteroid R)
    (direction : Vector3 R) (hcrystals : asteroid.isCrystals = true)
    (hdirection : (g.m_player.getPosition - asteroid.getPosition).getNormalized = .ok direction) :
    Game.inKnockOffRange X g asteroid
      = (g.m_player.getPosition - asteroid.getPosition).isNormLessThan
          (X.getRadiusForDirection asteroid direction + Game.CRYSTAL_KNOCK_OFF_RANGE) := by
  simp only [Game.inKnockOffRange, hcrystals, hdirection, Bool.true_and]

theorem inKnockOffRange_empty (X : Externals R) (g : Game R) (asteroid : Asteroid R)
    (hempty : asteroid.isCrystals = false) : Game.inKnockOffRange X g asteroid = false := by
  simp only [Game.inKnockOffRange, hempty, Bool.false_and]

theorem inKnockOffRange_player (X : Externals R) (g g1 : Game R) (asteroid : Asteroid R)
    (h : g1.m_player = g.m_player) :
    Game.inKnockOffRange X g1 asteroid = Game.inKnockOffRange X g asteroid := by
  simp only [Game.inKnockOffRange, h]

end KnockOffRounds

/-! ### The state after the first rounds of `knockOffCrystals` -/

section KnockOffInvariant

variable {R : Type} [LinearOrderedField R] [HasSqrt R]

open Spaceship

theorem countP_take_succ {α : Type} (p : α → Bool) (l : List α) (k : Nat) (x : α)
    (h : l[k]? = some x) :
    (l.take (k + 1)).countP p = (l.take k).countP p + if p x then 1 else 0 := by
  rw [List.take_succ, h, List.countP_append]
  simp only [Option.toList, List.countP_cons, List.countP_nil, Nat.zero_add]

/-- The state after the first `k` rounds of `knockOffCrystals`. -/
theorem knockOffCrystals_rounds (X : Externals R) (rand : Nat → Nat → Vector3 R)
    (g : Game R) :
    ∀ (k : Nat) (g' : Game R),
      (List.range k).foldlM (Game.knockOffCrystals_asteroid X rand) g = .ok g' →
      g'.m_player = g.m_player ∧
      g'.mv_asteroids.length = g.mv_asteroids.length ∧
      (∀ (a : Nat) (asteroid : Asteroid R), g.mv_asteroids[a]? = some asteroid →
        g'.mv_asteroids[a]? = some
          (if a < k ∧ Game.inKnockOffRange X g asteroid = true then asteroid.removeCrystals
            else asteroid)) ∧
      g'.driftingCount = g.driftingCount + Game.CRYSTAL_KNOCK_OFF_COUNT *
        (g.mv_asteroids.take k).countP (Game.inKnockOffRange X g) ∧
      (∀ (a : Nat) (asteroid : Asteroid R), a < k → g.mv_asteroids[a]? = some asteroid →
        asteroid.isCrystals = true →
        ∃ direction,
          (g.m_player.getPosition - asteroid.getPosition).getNormalized = .ok direction) := by
  intro k
  induction k with
  | zero =>
    intro g' h
    simp only [List.range_zero, List.foldlM_nil, pure_eq_ok] at h
    subst h
    refine ⟨rfl, rfl, ?_, ?_, ?_⟩
    · intro a asteroid hsome
      simp only [Nat.not_lt_zero, false_and, if_false]
      exact hsome
    · simp only [List.take_zero, List.countP_nil, Nat.mul_zero, Nat.add_zero]
    · intro a asteroid ha
      omega
  | succ k ih =>
    intro g' h
    obtain ⟨g1, hg1, hstep⟩ := foldlM_range_succ _ k g g' h
    obtain ⟨hplayer, hlen, hasteroids, hcount, hdirs⟩ := ih g1 hg1
    obtain ⟨asteroid, hsome1, hcases⟩ := knockOffCrystals_asteroid_result X rand g1 g' k hstep
    have hk : k < g.mv_asteroids.length := by
      rw [← hlen]
      exact (List.getElem?_eq_some.mp hsome1).1
    have hsome : g.mv_asteroids[k]? = some asteroid := by
      have h0 := hasteroids k g.mv_asteroids[k] (List.getElem?_eq_getElem hk)
      simp only [Nat.lt_irrefl, false_and, if_false] at h0
      rw [hsome1] at h0
      rw [List.getElem?_eq_getElem hk, ← Option.some.inj h0]
    have htake := countP_take_succ (Game.inKnockOffRange X g) g.mv_asteroids k asteroid hsome
    -- the rounds before `k` and an idle round `k`
    have hidle : Game.inKnockOffRange X g asteroid = false → g' = g1 →
        (asteroid.isCrystals = true → ∃ direction,
          (g.m_player.getPosition - asteroid.getPosition).getNormalized = .ok direction) →
        g'.m_player = g.m_player ∧
        g'.mv_asteroids.length = g.mv_asteroids.length ∧
        (∀ (a : Nat) (asteroid : Asteroid R), g.mv_asteroids[a]? = some asteroid →
          g'.mv_asteroids[a]? = some
            (if a < k + 1 ∧ Game.inKnockOffRange X g asteroid = true then
              asteroid.removeCrystals else asteroid)) ∧
        g'.driftingCount = g.driftingCount + Game.CRYSTAL_KNOCK_OFF_COUNT *
          (g.mv_asteroids.take (k + 1)).countP (Game.inKnockOffRange X g) ∧
        (∀ (a : Nat) (asteroid : Asteroid R), a < k + 1 → g.mv_asteroids[a]? = some asteroid →
          asteroid.isCrystals = true →
          ∃ direction,
            (g.m_player.getPosition - asteroid.getPosition).getNormalized = .ok direction) := by
      intro hout heq hdir
      subst heq
      refine ⟨hplayer, hlen, ?_, ?_, ?_⟩
      · intro a other hother
        rw [hasteroids a other hother]
        by_cases hak : a = k
        · subst hak
          rw [hsome] at hother
          have : asteroid = other := Option.some.inj hother
          subst this
          simp only [Nat.lt_irrefl, false_and, if_false, hout, Bool.false_eq_true, and_false]
        · have hiff : a < k + 1 ↔ a < k := by omega
          simp only [hiff]
      · rw [htake, hout, hcount]
        simp only [Bool.false_eq_true, if_false, Nat.add_zero]
      · intro a other ha hother hcr
        by_cases hak : a = k
        · subst hak
          rw [hsome] at hother
          have : asteroid = other := Option.some.inj hother
          subst this
          exact hdir hcr
        · exact hdirs a other (by omega) hother hcr
    rcases hcases with ⟨hempty, rfl⟩ | ⟨hcr, direction, hdirection, ⟨hfar, rfl⟩ | hnear⟩
    · exact hidle (inKnockOffRange_empty X g asteroid hempty) rfl
        (fun hcr => by rw [hempty] at hcr; exact absurd hcr Bool.false_ne_true)
    · rw [hplayer] at hdirection hfar
      exact hidle ((inKnockOffRange_eq X g asteroid direction hcr hdirection).trans hfar) rfl
        (fun _ => ⟨direction, hdirection⟩)
    · obtain ⟨hin, to_surface, -, hg'⟩ := hnear
      rw [hplayer] at hdirection hin
      have hrange : Game.inKnockOffRange X g asteroid = true :=
        (inKnockOffRange_eq X g asteroid direction hcr hdirection).trans hin
      have hfold := addCrystal_fold_driftingCount X (rand k) (asteroid.getPosition + to_surface)
        asteroid.getVelocity (List.range Game.CRYSTAL_KNOCK_OFF_COUNT) g1
      rw [List.length_range] at hfold
      generalize List.foldl _ g1 (List.range Game.CRYSTAL_KNOCK_OFF_COUNT) = gfold at hg' hfold
      subst hg'
      refine ⟨hplayer, ?_, ?_, ?_, ?_⟩
      · show (g1.mv_asteroids.set k asteroid.removeCrystals).length = _
        rw [List.length_set, hlen]
      · intro a other hother
        show (g1.mv_asteroids.set k asteroid.removeCrystals)[a]? = _
        by_cases hak : k = a
        · subst hak
          rw [hsome] at hother
          have : asteroid = other := Option.some.inj hother
          subst this
          rw [List.getElem?_set_self (by rw [hlen]; exact hk)]
          simp only [Nat.lt_succ_self, hrange, and_self, if_true]
        · rw [List.getElem?_set_ne hak, hasteroids a other hother]
          have hiff : a < k + 1 ↔ a < k := by omega
          simp only [hiff]
      · rw [htake, hrange]
        show gfold.driftingCount = _
        rw [hfold, hcount]
        simp only [if_true, Nat.mul_add, Nat.mul_one]
        omega
      · intro a other ha hother hcr'
        by_cases hak : a = k
        · subst hak
          rw [hsome] at hother
          have : asteroid = other := Option.some.inj hother
          subst this
          exact ⟨direction, hdirection⟩
        · exact hdirs a other (by omega) hother hcr'

end KnockOffInvariant

/-! ### When `knockOffCrystals` returns -/

section KnockOffTotal

variable {R : Type} [LinearOrderedField R] [HasSqrt R]

theorem Vector3.isZero_sub_of_ne (p q : Vector3 R) (h : p ≠ q) : (p - q).isZero = false := by
  obtain ⟨a, b, c⟩ := p
  obtain ⟨x, y, z⟩ := q
  simp only [Vector3.mk_sub_mk, Vector3.isZero_mk, decide_eq_false_iff_not, sub_eq_zero]
  intro hall
  exact h (by rw [hall.1, hall.2.1, hall.2.2])

/-- A round of `knockOffCrystals` returns when the asteroid carries no crystals or the player
is not at its centre. -/
theorem knockOffCrystals_asteroid_total (X : Externals R) (rand : Nat → Nat → Vector3 R)
    (g : Game R) (a : Nat) (asteroid : Asteroid R) (hsome : g.mv_asteroids[a]? = some asteroid)
    (hz : asteroid.isCrystals = true →
      (g.m_player.getPosition - asteroid.getPosition).isZero = false) :
    ∃ g', Game.knockOffCrystals_asteroid X rand g a = .ok g' := by
  cases hcr : asteroid.isCrystals with
  | false => exact ⟨g, knockOffCrystals_asteroid_empty X rand g a asteroid hsome hcr⟩
  | true =>
    have hzero := hz hcr
    have hdirection : (g.m_player.getPosition - asteroid.getPosition).getNormalized
        = .ok ((g.m_player.getPosition - asteroid.getPosition)
            * (1 / (g.m_player.getPosition - asteroid.getPosition).getNorm)) := by
      simp only [Vector3.getNormalized, cassert, hzero, if_true, ok_bind]
      rfl
    cases hnear : (g.m_player.getPosition - asteroid.getPosition).isNormLessThan
        (X.getRadiusForDirection asteroid ((g.m_player.getPosition - asteroid.getPosition)
          * (1 / (g.m_player.getPosition - asteroid.getPosition).getNorm))
          + Game.CRYSTAL_KNOCK_OFF_RANGE) with
    | false =>
      exact ⟨g, knockOffCrystals_asteroid_far X rand g a asteroid _ hsome hdirection hnear⟩
    | true =>
      have hcopy : ∀ r : R, (g.m_player.getPosition - asteroid.getPosition).getCopyWithNorm r
          = .ok ((g.m_player.getPosition - asteroid.getPosition)
              * (r / (g.m_player.getPosition - asteroid.getPosition).getNorm)) := by
        intro r
        simp only [Vector3.getCopyWithNorm, cassert, hzero, if_true, ok_bind]
        rfl
      simp only [Game.knockOffCrystals_asteroid, hsome, hcr, if_true, hdirection, ok_bind,
        hnear, hcopy]
      exact ⟨_, rfl⟩

/-- The call `knockOffCrystals` returns when the player is not exactly at the centre of an
asteroid that carries crystals. -/
theorem knockOffCrystals_total (X : Externals R) (rand : Nat → Nat → Vector3 R) (g : Game R)
    (hclear : ∀ asteroid ∈ g.mv_asteroids, asteroid.isCrystals = true →
      g.m_player.getPosition ≠ asteroid.getPosition) :
    ∃ g', Game.knockOffCrystals X rand g = .ok g' := by
  obtain ⟨g', hg', -⟩ := foldlM_total
    (fun g1 : Game R => g1.m_player = g.m_player ∧
      g1.mv_asteroids.length = g.mv_asteroids.length ∧
      ∀ asteroid ∈ g1.mv_asteroids, asteroid.isCrystals = true →
        g.m_player.getPosition ≠ asteroid.getPosition)
    (Game.knockOffCrystals_asteroid X rand) (List.range g.mv_asteroids.length)
    (fun g1 a ha hq => by
      obtain ⟨hplayer, hlen, hclear1⟩ := hq
      have ha' : a < g1.mv_asteroids.length := by
        rw [hlen]
        exact List.mem_range.mp ha
      have hsome : g1.mv_asteroids[a]? = some g1.mv_asteroids[a] :=
        List.getElem?_eq_getElem ha'
      have hmem : g1.mv_asteroids[a] ∈ g1.mv_asteroids :=
        List.mem_iff_getElem?.mpr ⟨a, hsome⟩
      obtain ⟨g2, hg2⟩ := knockOffCrystals_asteroid_total X rand g1 a _ hsome
        (fun hcr => by
          rw [hplayer]
          exact Vector3.isZero_sub_of_ne _ _ (hclear1 _ hmem hcr))
      refine ⟨g2, hg2, (knockOffCrystals_asteroid_player X rand g1 g2 a hg2).trans hplayer, ?_⟩
      obtain ⟨asteroid, -, hcases⟩ := knockOffCrystals_asteroid_result X rand g1 g2 a hg2
      rcases hcases with ⟨-, rfl⟩ | ⟨-, direction, -, ⟨-, rfl⟩ | ⟨-, to_surface, -, rfl⟩⟩
      · exact ⟨hlen, hclear1⟩
      · exact ⟨hlen, hclear1⟩
      · refine ⟨?_, ?_⟩
        · show (g1.mv_asteroids.set a asteroid.removeCrystals).length = _
          rw [List.length_set, hlen]
        · intro other hother hcr
          have hother' : other ∈ g1.mv_asteroids.set a asteroid.removeCrystals := hother
          rcases List.mem_or_eq_of_mem_set hother' with hold | hnew
          · exact hclear1 other hold hcr
          · rw [hnew] at hcr
            exact absurd hcr (by simp [Asteroid.removeCrystals, Asteroid.isCrystals]))
    g ⟨rfl, rfl, hclear⟩
  exact ⟨g', hg'⟩

end KnockOffTotal

/-! ### The claim on `knockOffCrystals` -/

section KnockOffClaim

variable {R : Type} [LinearOrderedField R] [HasSqrt R]

open Spaceship

/-- C16: a call of `knockOffCrystals` returns whenever the player is not exactly at the centre
of an asteroid that carries crystals. When it returns, it has added exactly
`CRYSTAL_KNOCK_OFF_COUNT = 10` crystals that are not gone for each asteroid that carries
crystals and whose centre is closer to the player than `getRadiusForDirection` of the
direction to the player plus 200 (`getNonGoneCrystalCount` grows by that number when the count
cannot wrap), and it has cleared the payload flag of exactly those asteroids, leaving every
other asteroid as it is. A second call made on the resulting state returns that state
unchanged, whatever the random draws. -/
theorem C16_knockOffCrystals_spawns_ten_per_asteroid_in_range (X : Externals R)
    (rand : Nat → Nat → Vector3 R) (g : Game R) :
    ((∀ asteroid ∈ g.mv_asteroids, asteroid.isCrystals = true →
        g.m_player.getPosition ≠ asteroid.getPosition) →
      ∃ g', Game.knockOffCrystals X rand g = .ok g') ∧
    ∀ g', Game.knockOffCrystals X rand g = .ok g' →
      g'.driftingCount = g.driftingCount
        + 10 * g.mv_asteroids.countP (Game.inKnockOffRange X g) ∧
      (g.mv_crystals.length + 10 * g.mv_asteroids.length < UINT_RANGE →
        g'.getNonGoneCrystalCount = g.getNonGoneCrystalCount
          + 10 * g.mv_asteroids.countP (Game.inKnockOffRange X g)) ∧
      g'.mv_asteroids.length = g.mv_asteroids.length ∧
      (∀ (a : Nat) (asteroid : Asteroid R), g.mv_asteroids[a]? = some asteroid →
        g'.mv_asteroids[a]? = some
          (if Game.inKnockOffRange X g asteroid = true then asteroid.removeCrystals
            else asteroid)) ∧
      ∀ rand' : Nat → Nat → Vector3 R, Game.knockOffCrystals X rand' g' = .ok g' := by
  refine ⟨knockOffCrystals_total X rand g, ?_⟩
  intro g' h
  obtain ⟨hplayer, hlen, hasteroids, hcount, hdirs⟩ :=
    knockOffCrystals_rounds X rand g g.mv_asteroids.length g' h
  rw [List.take_length] at hcount
  have hasteroids' : ∀ (a : Nat) (asteroid : Asteroid R), g.mv_asteroids[a]? = some asteroid →
      g'.mv_asteroids[a]? = some
        (if Game.inKnockOffRange X g asteroid = true then asteroid.removeCrystals
          else asteroid) := by
    intro a asteroid hsome
    rw [hasteroids a asteroid hsome]
    have ha : a < g.mv_asteroids.length := (List.getElem?_eq_some.mp hsome).1
    simp only [ha, true_and]
  have hcount' : g'.driftingCount = g.driftingCount
      + 10 * g.mv_asteroids.countP (Game.inKnockOffRange X g) := hcount
  refine ⟨hcount', ?_, hlen, hasteroids', ?_⟩
  · intro hfit
    have h1 := driftingCount_le g
    have h2 := List.countP_le_length (Game.inKnockOffRange X g) (l := g.mv_asteroids)
    rw [getNonGoneCrystalCount_eq, getNonGoneCrystalCount_eq, hcount']
    simp only [UINT_RANGE] at hfit ⊢
    omega
  · intro rand'
    apply foldlM_fixed
    intro a ha
    have ha' : a < g.mv_asteroids.length := by
      rw [← hlen]
      exact List.mem_range.mp ha
    have hsome : g.mv_asteroids[a]? = some g.mv_asteroids[a] := List.getElem?_eq_getElem ha'
    have hsome' := hasteroids' a _ hsome
    cases hin : Game.inKnockOffRange X g g.mv_asteroids[a] with
    | true =>
      rw [hin, if_pos rfl] at hsome'
      exact knockOffCrystals_asteroid_empty X rand' g' a _ hsome' rfl
    | false =>
      rw [hin] at hsome'
      simp only [Bool.false_eq_true, if_false] at hsome'
      cases hcr : (g.mv_asteroids[a]).isCrystals with
      | false => exact knockOffCrystals_asteroid_empty X rand' g' a _ hsome' hcr
      | true =>
        obtain ⟨direction, hdirection⟩ := hdirs a _ ha' hsome hcr
        have hfar := (inKnockOffRange_eq X g _ direction hcr hdirection).symm.trans hin
        rw [← hplayer] at hdirection hfar
        exact knockOffCrystals_asteroid_far X rand' g' a _ direction hsome' hdirection hfar

end KnockOffClaim

/-- C16 on the start of the scenario, where the one asteroid is in range of the player: the
ten crystals of `Scenario.knocked` are ten times the number of asteroids in range, and a
second call changes nothing. -/
theorem C16_knockOffCrystals_spawns_ten_per_asteroid_in_range_witness :
    (Scenario.knocked : Game ℝ).driftingCount = (Scenario.start : Game ℝ).driftingCount
      + 10 * (Scenario.start : Game ℝ).mv_asteroids.countP
          (Game.inKnockOffRange Scenario.env (Scenario.start : Game ℝ)) ∧
    Game.knockOffCrystals Scenario.env Scenario.rand (Scenario.knocked : Game ℝ)
      = .ok Scenario.knocked :=
  have hall := (C16_knockOffCrystals_spawns_ten_per_asteroid_in_range Scenario.env Scenario.rand
    (Scenario.start : Game ℝ)).2 Scenario.knocked scenario_knockOff
  ⟨hall.1, hall.2.2.2.2 Scenario.rand⟩

/-! ### Where the knocked-off crystals are created -/

section CreatedCrystals

theorem Vector3.getNorm_smul (v : Vector3 ℝ) (k : ℝ) : (v * k).getNorm = |k| * v.getNorm := by
  obtain ⟨x, y, z⟩ := v
  simp only [Vector3.mk_mul, Vector3.getNorm, Vector3.getNormSquared, sqrt_real]
  have hsum : x * k * (x * k) + y * k * (y * k) + z * k * (z * k)
      = k * k * (x * x + y * y + z * z) := by ring
  rw [hsum, Real.sqrt_mul (mul_self_nonneg k), Real.sqrt_mul_self_eq_abs]

theorem Vector3.getNorm_of_isUnit (v : Vector3 ℝ) (h : v.isUnit = true) : v.getNorm = 1 := by
  simp only [Vector3.isUnit, decide_eq_true_eq] at h
  simp only [Vector3.getNorm, sqrt_real, h, Real.sqrt_one]

theorem Vector3.smul_smul (v : Vector3 ℝ) (a b : ℝ) : v * a * b = v * (a * b) := by
  obtain ⟨x, y, z⟩ := v
  simp only [Vector3.mk_mul, mul_assoc]

theorem getNormalized_eq_ok (v direction : Vector3 ℝ) (h : v.getNormalized = .ok direction) :
    v.isZero = false ∧ direction = v * (1 / v.getNorm) := by
  simp only [Vector3.getNormalized, bind_eq_ok, map_eq_ok, cassert_eq_ok, pure_eq_ok] at h
  obtain ⟨-, hz, h⟩ := h
  exact ⟨hz, h.symm⟩

theorem getCopyWithNorm_eq_ok (v w : Vector3 ℝ) (r : ℝ) (h : v.getCopyWithNorm r = .ok w) :
    w = v * (r / v.getNorm) := by
  simp only [Vector3.getCopyWithNorm, bind_eq_ok, map_eq_ok, cassert_eq_ok, pure_eq_ok] at h
  obtain ⟨-, -, h⟩ := h
  exact h.symm

/-- The vector from the centre to the knock-off position is the direction to the player, scaled
by the radius in that direction. -/
theorem knock_off_offset (v direction w : Vector3 ℝ) (r : ℝ)
    (hdirection : v.getNormalized = .ok direction) (hw : v.getCopyWithNorm r = .ok w) :
    w = direction * r ∧ direction.getNorm = 1 := by
  obtain ⟨hz, rfl⟩ := getNormalized_eq_ok v direction hdirection
  rw [getCopyWithNorm_eq_ok v w r hw, Vector3.smul_smul]
  refine ⟨?_, Vector3.getNorm_of_isUnit _ (isUnit_normalized v hz)⟩
  congr 1
  ring

variable {R : Type} [LinearOrderedField R] [HasSqrt R]

/-- Each slot after `addCrystal` is the slot as it was or holds the created crystal. -/
theorem addCrystal_slots (X : Externals R) (u p v : Vector3 R) (g : Game R) (i : Nat)
    (crystal : Crystal R) (h : (Game.addCrystal X u p v g).mv_crystals[i]? = some crystal) :
    g.mv_crystals[i]? = some crystal ∨ crystal = Game.createdCrystal X u p v := by
  obtain ⟨hset, happend⟩ := addCrystal_result X u p v g
  have happ : ∀ hg : Game.addCrystal X u p v g
      = { g with mv_crystals := g.mv_crystals ++ [Game.createdCrystal X u p v] },
      g.mv_crystals[i]? = some crystal ∨ crystal = Game.createdCrystal X u p v := by
    intro hg
    rw [hg] at h
    have h' : (g.mv_crystals ++ [Game.createdCrystal X u p v])[i]? = some crystal := h
    by_cases hi : i < g.mv_crystals.length
    · rw [List.getElem?_append_left hi] at h'
      exact Or.inl h'
    · rw [List.getElem?_append_right (not_lt.mp hi)] at h'
      right
      have hmem : crystal ∈ [Game.createdCrystal X u p v] :=
        List.mem_iff_getElem?.mpr ⟨_, h'⟩
      exact List.mem_singleton.mp hmem
  cases hfind : g.mv_crystals.findIdx? (fun crystal => crystal.isGone) with
  | none => exact happ (happend (Or.inl hfind))
  | some c =>
    by_cases hc : c = Game.EXPAND_VECTOR
    · exact happ (happend (Or.inr (hc ▸ hfind)))
    · rw [hset c hfind hc] at h
      have h' : (g.mv_crystals.set c (Game.createdCrystal X u p v))[i]? = some crystal := h
      by_cases hci : c = i
      · subst hci
        have hlt : c < g.mv_crystals.length := by
          have := (List.getElem?_eq_some.mp h').1
          simpa using this
        rw [List.getElem?_set_self hlt] at h'
        exact Or.inr (Option.some.inj h').symm
      · rw [List.getElem?_set_ne hci] at h'
        exact Or.inl h'

/-- Each slot after the calls of `addCrystal` for one asteroid is the slot as it was or holds
a crystal created by one of the calls. -/
theorem addCrystal_fold_slots (X : Externals R) (f : Nat → Vector3 R) (p v : Vector3 R)
    (l : List Nat) :
    ∀ (g : Game R) (i : Nat) (crystal : Crystal R),
      (l.foldl (fun (g : Game R) (c : Nat) => Game.addCrystal X (f c) p v g) g).mv_crystals[i]?
        = some crystal →
      g.mv_crystals[i]? = some crystal ∨
        ∃ c ∈ l, crystal = Game.createdCrystal X (f c) p v := by
  induction l with
  | nil => exact fun g i crystal h => Or.inl h
  | cons c l ih =>
    intro g i crystal h
    rw [List.foldl_cons] at h
    rcases ih _ i crystal h with h1 | ⟨c', hc', hcr⟩
    · rcases addCrystal_slots X (f c) p v g i crystal h1 with h2 | h2
      · exact Or.inl h2
      · exact Or.inr ⟨c, List.mem_cons_self c l, h2⟩
    · exact Or.inr ⟨c', List.mem_cons_of_mem c hc', hcr⟩

end CreatedCrystals

/-! ### The crystals that `knockOffCrystals` creates -/

section CreatedByKnockOff

variable {R : Type} [LinearOrderedField R] [HasSqrt R]

/-- After the first `k` rounds of `knockOffCrystals` each slot is the slot as it was or holds a
crystal created for an asteroid in range, at that asteroid's knock-off position. -/
theorem knockOffCrystals_rounds_slots (X : Externals R) (rand : Nat → Nat → Vector3 R)
    (g : Game R) :
    ∀ (k : Nat) (g' : Game R),
      (List.range k).foldlM (Game.knockOffCrystals_asteroid X rand) g = .ok g' →
      ∀ (i : Nat) (crystal : Crystal R), g'.mv_crystals[i]? = some crystal →
        g.mv_crystals[i]? = some crystal ∨
          ∃ (a : Nat) (asteroid : Asteroid R) (direction to_surface : Vector3 R) (c : Nat),
            g.mv_asteroids[a]? = some asteroid ∧
            Game.inKnockOffRange X g asteroid = true ∧
            (g.m_player.getPosition - asteroid.getPosition).getNormalized = .ok direction ∧
            (g.m_player.getPosition - asteroid.getPosition).getCopyWithNorm
              (X.getRadiusForDirection asteroid direction) = .ok to_surface ∧
            c < Game.CRYSTAL_KNOCK_OFF_COUNT ∧
            crystal = Game.createdCrystal X (rand a c) (asteroid.getPosition + to_surface)
              asteroid.getVelocity := by
  intro k
  induction k with
  | zero =>
    intro g' h i crystal hcrystal
    simp only [List.range_zero, List.foldlM_nil, pure_eq_ok] at h
    subst h
    exact Or.inl hcrystal
  | succ k ih =>
    intro g' h i crystal hcrystal
    obtain ⟨g1, hg1, hstep⟩ := foldlM_range_succ _ k g g' h
    obtain ⟨hplayer, hlen, hasteroids, -, -⟩ := knockOffCrystals_rounds X rand g k g1 hg1
    obtain ⟨asteroid, hsome1, hcases⟩ := knockOffCrystals_asteroid_result X rand g1 g' k hstep
    have hk : k < g.mv_asteroids.length := by
      rw [← hlen]
      exact (List.getElem?_eq_some.mp hsome1).1
    have hsome : g.mv_asteroids[k]? = some asteroid := by
      have h0 := hasteroids k g.mv_asteroids[k] (List.getElem?_eq_getElem hk)
      simp only [Nat.lt_irrefl, false_and, if_false] at h0
      rw [hsome1] at h0
      rw [List.getElem?_eq_getElem hk, ← Option.some.inj h0]
    rcases hcases with ⟨-, rfl⟩ | ⟨hcr, direction, hdirection, ⟨-, rfl⟩ | hnear⟩
    · exact ih g' hg1 i crystal hcrystal
    · exact ih g' hg1 i crystal hcrystal
    · obtain ⟨hin, to_surface, hsurface, hg'⟩ := hnear
      rw [hplayer] at hdirection hin hsurface
      have hfold := addCrystal_fold_slots X (rand k) (asteroid.getPosition + to_surface)
        asteroid.getVelocity (List.range Game.CRYSTAL_KNOCK_OFF_COUNT) g1 i crystal
      generalize List.foldl _ g1 (List.range Game.CRYSTAL_KNOCK_OFF_COUNT) = gfold at hg' hfold
      subst hg'
      rcases hfold hcrystal with hold | ⟨c, hc, hnew⟩
      · exact ih g1 hg1 i crystal hold
      · exact Or.inr ⟨k, asteroid, direction, to_surface, c, hsome,
          (inKnockOffRange_eq X g asteroid direction hcr hdirection).trans hin, hdirection,
          hsurface, List.mem_range.mp hc, hnew⟩

end CreatedByKnockOff

/-- C17: after a call of `knockOffCrystals` with unit random draws, every crystal slot either
is as before or holds a crystal created for an asteroid in range of the player. Such a crystal
is not gone, it sits at the centre of the asteroid plus the unit direction to the player times
`getRadiusForDirection` of that direction, so on the ray to the player at exactly that distance
from the centre, and its velocity differs from the velocity of the asteroid by a vector of norm
`CRYSTAL_KNOCK_OFF_SPEED = 10`. The constructor of `Crystal` is assumed to store the position
and the velocity it is given, and the radius of an asteroid to be nonnegative. -/
theorem C17_created_crystals_on_surface_toward_player (X : Externals ℝ)
    (rand : Nat → Nat → Vector3 ℝ) (g g' : Game ℝ)
    (hunit : ∀ a c, (rand a c).isUnit = true)
    (hbody : ∀ position velocity : Vector3 ℝ,
      (X.newCrystalBody position velocity).getPosition = position ∧
      (X.newCrystalBody position velocity).getVelocity = velocity)
    (hradius : ∀ asteroid ∈ g.mv_asteroids, ∀ direction : Vector3 ℝ,
      0 ≤ X.getRadiusForDirection asteroid direction)
    (h : Game.knockOffCrystals X rand g = .ok g') :
    ∀ (i : Nat) (crystal : Crystal ℝ), g'.mv_crystals[i]? = some crystal →
      g.mv_crystals[i]? = some crystal ∨
        ∃ (a : Nat) (asteroid : Asteroid ℝ) (direction : Vector3 ℝ) (c : Nat),
          g.mv_asteroids[a]? = some asteroid ∧
          Game.inKnockOffRange X g asteroid = true ∧
          (g.m_player.getPosition - asteroid.getPosition).getNormalized = .ok direction ∧
          c < Game.CRYSTAL_KNOCK_OFF_COUNT ∧
          crystal.isGone = false ∧
          crystal.getPosition = asteroid.getPosition
            + direction * X.getRadiusForDirection asteroid direction ∧
          crystal.getPosition.getDistance asteroid.getPosition
            = X.getRadiusForDirection asteroid direction ∧
          (crystal.getVelocity - asteroid.getVelocity).getNorm = 10 := by
  intro i crystal hcrystal
  rcases knockOffCrystals_rounds_slots X rand g _ g' h i crystal hcrystal with
    hold | ⟨a, asteroid, direction, to_surface, c, hsome, hin, hdirection, hsurface, hc, rfl⟩
  · exact Or.inl hold
  · right
    obtain ⟨hoffset, hnorm⟩ := knock_off_offset _ direction to_surface _ hdirection hsurface
    have hr := hradius asteroid (List.mem_iff_getElem?.mpr ⟨a, hsome⟩) direction
    have hpos : (Game.createdCrystal X (rand a c) (asteroid.getPosition + to_surface)
        asteroid.getVelocity).getPosition = asteroid.getPosition
          + direction * X.getRadiusForDirection asteroid direction := by
      rw [← hoffset]
      exact (hbody _ _).1
    have hvel : (Game.createdCrystal X (rand a c) (asteroid.getPosition + to_surface)
        asteroid.getVelocity).getVelocity = asteroid.getVelocity
          + rand a c * (10 : ℝ) := (hbody _ _).2
    refine ⟨a, asteroid, direction, c, hsome, hin, hdirection, hc, rfl, hpos, ?_, ?_⟩
    · rw [hpos]
      show (asteroid.getPosition + direction * X.getRadiusForDirection asteroid direction
        - asteroid.getPosition).getNorm = _
      rw [Vector3.add_sub_cancel, Vector3.getNorm_smul, hnorm, abs_of_nonneg hr, mul_one]
    · rw [hvel, Vector3.add_sub_cancel, Vector3.getNorm_smul,
        Vector3.getNorm_of_isUnit _ (hunit a c)]
      norm_num

/-- C17 on the scenario: slot 0 of `Scenario.knocked`, which is not a slot of the start, holds
a crystal created at the surface point of the asteroid toward the player, with a velocity that
differs from the asteroid's by a vector of norm 10. -/
theorem C17_created_crystals_on_surface_toward_player_witness :
    (Scenario.start : Game ℝ).mv_crystals[0]? = some (Scenario.crystal 5100 10) ∨
      ∃ (a : Nat) (asteroid : Asteroid ℝ) (direction : Vector3 ℝ) (c : Nat),
        (Scenario.start : Game ℝ).mv_asteroids[a]? = some asteroid ∧
        Game.inKnockOffRange Scenario.env (Scenario.start : Game ℝ) asteroid = true ∧
        ((Scenario.start : Game ℝ).m_player.getPosition - asteroid.getPosition).getNormalized
          = .ok direction ∧
        c < Game.CRYSTAL_KNOCK_OFF_COUNT ∧
        (Scenario.crystal (5100 : ℝ) 10).isGone = false ∧
        (Scenario.crystal (5100 : ℝ) 10).getPosition = asteroid.getPosition
          + direction * (Scenario.env : Externals ℝ).getRadiusForDirection asteroid direction ∧
        (Scenario.crystal (5100 : ℝ) 10).getPosition.getDistance asteroid.getPosition
          = (Scenario.env : Externals ℝ).getRadiusForDirection asteroid direction ∧
        ((Scenario.crystal (5100 : ℝ) 10).getVelocity - asteroid.getVelocity).getNorm = 10 :=
  C17_created_crystals_on_surface_toward_player Scenario.env Scenario.rand
    (Scenario.start : Game ℝ) Scenario.knocked scenario_rand_isUnit
    (fun _ _ => ⟨rfl, rfl⟩)
    (fun asteroid hmem direction => by
      have hast : asteroid = Scenario.asteroid 5000 0 true := List.mem_singleton.mp hmem
      rw [hast]
      show (0 : ℝ) ≤ 100
      norm_num)
    scenario_knockOff 0 (Scenario.crystal 5100 10) rfl

/-! ### `update` with a time step of zero -/

section ZeroStep

theorem foldlM_first_error {α β : Type} (f : α → β → Except AssertFailed α) (a : α)
    (e : AssertFailed) (l : List β) (hall : ∀ b ∈ l, f a b = .ok a ∨ f a b = .error e)
    (hsome : ∃ b ∈ l, f a b = .error e) : l.foldlM f a = .error e := by
  induction l with
  | nil =>
    obtain ⟨b, hb, -⟩ := hsome
    exact absurd hb (List.not_mem_nil b)
  | cons b l ih =>
    rw [List.foldlM_cons]
    rcases hall b (List.mem_cons_self b l) with hok | herr
    · rw [hok, ok_bind]
      apply ih (fun b0 hb0 => hall b0 (List.mem_cons_of_mem b hb0))
      obtain ⟨b1, hb1, h1⟩ := hsome
      rcases List.mem_cons.mp hb1 with rfl | hb1
      · rw [hok] at h1
        exact absurd h1 (by simp)
      · exact ⟨b1, hb1, h1⟩
    · rw [herr]
      rfl

variable {R : Type} [LinearOrderedField R] [HasSqrt R]

open Spaceship

/-- A drone's AI step with a time step that is not positive fails its first assertion. -/
theorem spaceship_updateAI_not_positive (X : Externals R) (dt : R) (hdt : ¬ 0 < dt) (g : Game R)
    (d : Nat) : Spaceship.updateAI X dt g d = .error .precondition := by
  simp only [Spaceship.updateAI, cassert, gt_iff_lt, hdt, if_false]
  rfl

/-- The step of `Game::updateAI` for the index of a dead drone does nothing. -/
theorem updateAI_round_dead (X : Externals R) (dt : R) (g : Game R) (d : Nat)
    (drone : Spaceship R) (hsome : g.mv_drones[d]? = some drone) (hdead : drone.isAlive = false) :
    (do
      let drone ← g.getDrone d
      if drone.isAlive then Spaceship.updateAI X dt g d else pure g) = .ok g := by
  rw [(getDrone_eq_ok g d drone).mpr hsome, ok_bind, hdead]
  rfl

/-- The step of `Game::updateAI` for a living drone, with a time step that is not positive. -/
theorem updateAI_round_living (X : Externals R) (dt : R) (hdt : ¬ 0 < dt) (g : Game R) (d : Nat)
    (drone : Spaceship R) (hsome : g.mv_drones[d]? = some drone) (hlive : drone.isAlive = true) :
    (do
      let drone ← g.getDrone d
      if drone.isAlive then Spaceship.updateAI X dt g d else pure g)
      = .error .precondition := by
  rw [(getDrone_eq_ok g d drone).mpr hsome, ok_bind, hlive, if_pos rfl]
  exact spaceship_updateAI_not_positive X dt hdt g d

/-- With a living drone, the AI tick with a time step that is not positive fails the
precondition `delta_time > 0` of `Spaceship::updateAI`. -/
theorem updateAI_not_positive (X : Externals R) (dt : R) (hdt : ¬ 0 < dt) (g : Game R)
    (hliving : ∃ drone ∈ g.mv_drones, drone.isAlive = true) :
    Game.updateAI X dt g = .error .precondition := by
  apply foldlM_first_error
  · intro d hd
    have hd' : d < g.mv_drones.length := List.mem_range.mp hd
    have hsome : g.mv_drones[d]? = some g.mv_drones[d] := List.getElem?_eq_getElem hd'
    cases hal : (g.mv_drones[d]).isAlive with
    | false => exact Or.inl (updateAI_round_dead X dt g d _ hsome hal)
    | true => exact Or.inr (updateAI_round_living X dt hdt g d _ hsome hal)
  · obtain ⟨drone, hmem, hlive⟩ := hliving
    obtain ⟨d, hsome⟩ := List.mem_iff_getElem?.mp hmem
    have hd : d < g.mv_drones.length := (List.getElem?_eq_some.mp hsome).1
    exact ⟨d, List.mem_range.mpr hd, updateAI_round_living X dt hdt g d drone hsome hlive⟩

/-- With no living drone the AI tick does nothing, whatever the time step. -/
theorem updateAI_all_dead (X : Externals R) (dt : R) (g : Game R)
    (hdead : ∀ drone ∈ g.mv_drones, drone.isAlive = false) :
    Game.updateAI X dt g = .ok g := by
  apply foldlM_fixed
  intro d hd
  have hd' : d < g.mv_drones.length := List.mem_range.mp hd
  have hsome : g.mv_drones[d]? = some g.mv_drones[d] := List.getElem?_eq_getElem hd'
  exact updateAI_round_dead X dt g d _ hsome
    (hdead _ (List.mem_iff_getElem?.mpr ⟨d, hsome⟩))

/-- A physics step that leaves every body as it is leaves the game as it is. -/
theorem updatePhysics_pause (X : Externals R) (g : Game R)
    (hentity : ∀ black_hole e : Entity R, X.entityUpdatePhysics 0 black_hole e = e)
    (hasteroid : ∀ (black_hole : Entity R) (asteroid : Asteroid R),
      X.asteroidUpdatePhysics 0 black_hole asteroid = asteroid) :
    g.updatePhysics X 0 = g := by
  have h1 : g.mv_asteroids.map (X.asteroidUpdatePhysics 0 g.m_black_hole) = g.mv_asteroids := by
    conv_rhs => rw [← List.map_id g.mv_asteroids]
    exact List.map_congr_left (fun asteroid _ => hasteroid _ asteroid)
  have h2 : g.mv_crystals.map (fun crystal =>
      if !crystal.isGone then Game.crystalUpdatePhysics X 0 g.m_black_hole crystal
      else crystal) = g.mv_crystals := by
    conv_rhs => rw [← List.map_id g.mv_crystals]
    apply List.map_congr_left
    intro crystal _
    simp only [Game.crystalUpdatePhysics, hentity, ite_self, id]
  have h3 : (if g.m_player.isAlive then
      Game.spaceshipUpdatePhysics X 0 g.m_black_hole g.m_player else g.m_player)
        = g.m_player := by
    simp only [Game.spaceshipUpdatePhysics, hentity, ite_self]
  have h4 : g.mv_drones.map (fun drone =>
      if drone.isAlive then Game.spaceshipUpdatePhysics X 0 g.m_black_hole drone
      else drone) = g.mv_drones := by
    conv_rhs => rw [← List.map_id g.mv_drones]
    apply List.map_congr_left
    intro drone _
    simp only [Game.spaceshipUpdatePhysics, hentity, ite_self, id]
  simp only [Game.updatePhysics, h1, h2, h3, h4]

end ZeroStep

/-! ### A pause with two overlapping asteroids -/

section PauseScenario

open Spaceship

theorem mapM_fixed {α : Type} (f : α → Except AssertFailed α) (l : List α)
    (h : ∀ x ∈ l, f x = .ok x) : l.mapM f = .ok l := by
  induction l with
  | nil => rfl
  | cons x xs ih =>
    rw [List.mapM_cons, h x (List.mem_cons_self x xs), ok_bind,
      ih (fun y hy => h y (List.mem_cons_of_mem x hy)), ok_bind]
    rfl

theorem Vector3.add_smul_zero (v w : Vector3 ℝ) : v + w * (0 : ℝ) = v := by
  obtain ⟨a, b, c⟩ := v
  obtain ⟨x, y, z⟩ := w
  simp only [Vector3.mk_mul, Vector3.mk_add_mk, mul_zero, add_zero]

/-- A gravity step of length zero leaves a body as it is. -/
theorem gravityStep_zero (G : ℝ) (black_hole e : Entity ℝ) :
    Model.gravityStep G 0 black_hole e = e := by
  simp only [Model.gravityStep, Vector3.add_smul_zero]

/-- A ship that does not overlap the asteroid passes the ship-asteroid check unchanged. -/
theorem handleCollisions_ship_miss {R : Type} [LinearOrderedField R] [HasSqrt R]
    (X : Externals R) (asteroid : Asteroid R) (ship : Spaceship R)
    (h : X.isCollisionSpaceshipAsteroid ship asteroid = false) :
    Game.handleCollisions_ship X asteroid ship = .ok ship := by
  simp only [Game.handleCollisions_ship, h, Bool.false_eq_true, if_false]
  rfl

/-- The elastic bounce of two bodies of equal mass on the x-axis, the second to the right of
the first: they exchange their velocities. -/
theorem elastic_axis (x v y w m r s : ℝ) (hxy : x < y) (hm : 0 < m) :
    Model.elastic (Scenario.body x v m r) (Scenario.body y w m s)
      = (Scenario.body x w m r, Scenario.body y v m s) := by
  have hdiff : (Scenario.body y w m s).getPosition - (Scenario.body x v m r).getPosition
      = (⟨y - x, 0, 0⟩ : Vector3 ℝ) := by
    show (⟨y - x, 0 - 0, 0 - 0⟩ : Vector3 ℝ) = ⟨y - x, 0, 0⟩
    simp
  have hvel : (Scenario.body x v m r).m_velocity - (Scenario.body y w m s).m_velocity
      = (⟨v - w, 0, 0⟩ : Vector3 ℝ) := by
    show (⟨v - w, 0 - 0, 0 - 0⟩ : Vector3 ℝ) = ⟨v - w, 0, 0⟩
    simp
  have hmm : m + m ≠ 0 := by linarith
  simp only [Model.elastic, hdiff, hvel,
    Vector3.getCopyWithNormSafe_axis_pos (y - x) 1 (by linarith), Vector3.dotProduct]
  simp only [Scenario.body, Vector3.mk_mul, Vector3.mk_sub_mk, Vector3.mk_add_mk, zero_mul,
    mul_zero, add_zero, sub_zero, one_mul, mul_one]
  have h1 : v - 2 * m * m / (m + m) * (v - w) / m = w := by
    field_simp
    ring
  have h2 : w + 2 * m * m / (m + m) * (v - w) / m = v := by
    field_simp
    ring
  rw [h1, h2]

end PauseScenario

/-! ### `update (0)` on the paused scenario -/

section PauseTrace

open Spaceship

theorem scenario_paused_dead :
    ∀ drone ∈ (Scenario.paused : Game ℝ).mv_drones, drone.isAlive = false := by
  intro drone hmem
  simp only [Scenario.paused, List.mem_cons, List.mem_singleton, List.not_mem_nil, or_false,
    or_self] at hmem
  rw [hmem]
  rfl

/-- No ship of the paused scenario is near an asteroid at 5000 or 5150. -/
theorem scenario_paused_ships (c w : ℝ) (hc : c ≤ 5150) :
    Game.handleCollisions_ship Scenario.env (Scenario.asteroid c w false)
        (Scenario.player (9000 : ℝ) 0) = .ok (Scenario.player 9000 0) ∧
    (Scenario.paused : Game ℝ).mv_drones.mapM
        (Game.handleCollisions_ship Scenario.env (Scenario.asteroid c w false))
      = .ok (Scenario.paused : Game ℝ).mv_drones := by
  refine ⟨?_, ?_⟩
  · apply handleCollisions_ship_miss
    rw [scenario_ship_asteroid _ 9000 0 1000 _ _ _ rfl]
    show decide (|(9000 : ℝ) - c| < 4 + 100) = false
    rw [abs_of_pos (by linarith)]
    simp only [decide_eq_false_iff_not, not_lt]
    linarith
  · apply mapM_fixed
    intro drone hmem
    simp only [Scenario.paused, List.mem_cons, List.mem_singleton, List.not_mem_nil, or_false,
      or_self] at hmem
    rw [hmem]
    apply handleCollisions_ship_miss
    rw [scenario_ship_asteroid _ 9010 0 100 _ _ _ rfl]
    show decide (|(9010 : ℝ) - c| < 2 + 100) = false
    rw [abs_of_pos (by linarith)]
    simp only [decide_eq_false_iff_not, not_lt]
    linarith

/-- The round of the second loop for asteroid 0: the two asteroids bounce. -/
theorem scenario_paused_round0 :
    Game.handleCollisions_asteroid Scenario.env (Scenario.paused : Game ℝ) 0
      = .ok Scenario.afterPaused := by
  have hpairs : List.range' (0 + 1) ((Scenario.paused : Game ℝ).mv_asteroids.length - (0 + 1))
      = [1] := rfl
  have hhit : (Scenario.env : Externals ℝ).isCollisionAsteroidAsteroid
      (Scenario.asteroid 5000 10 false) (Scenario.asteroid 5150 (-10) false) = true := by
    show Model.isCollision (Scenario.body (5000 : ℝ) 10 1000000 100) 100
      (Scenario.body (5150 : ℝ) (-10) 1000000 100) 100 = true
    rw [isCollision_axis]
    norm_num [abs_lt]
  have hbounce : (Scenario.env : Externals ℝ).elastic
      (Scenario.asteroid (5000 : ℝ) 10 false).toEntity
      (Scenario.asteroid (5150 : ℝ) (-10) false).toEntity
        = (Scenario.body 5000 (-10) 1000000 100, Scenario.body 5150 10 1000000 100) :=
    elastic_axis 5000 10 5150 (-10) 1000000 100 100 (by norm_num) (by norm_num)
  have hpair : Game.handleCollisions_asteroidPair Scenario.env 0 (Scenario.paused : Game ℝ) 1
      = Scenario.afterPaused := by
    have h0 : (Scenario.paused : Game ℝ).mv_asteroids[0]?
        = some (Scenario.asteroid 5000 10 false) := rfl
    have h1 : (Scenario.paused : Game ℝ).mv_asteroids[1]?
        = some (Scenario.asteroid (5150 : ℝ) (-10) false) := rfl
    simp only [Game.handleCollisions_asteroidPair, h0, h1, hhit, if_true, hbounce]
    rfl
  have hcrystals : List.range (Scenario.afterPaused : Game ℝ).mv_crystals.length = [] := rfl
  have hast : (Scenario.afterPaused : Game ℝ).mv_asteroids[0]?
      = some (Scenario.asteroid (5000 : ℝ) (-10) false) := rfl
  obtain ⟨hp, hd⟩ := scenario_paused_ships 5000 (-10) (by norm_num)
  have hp' : Game.handleCollisions_ship Scenario.env (Scenario.asteroid (5000 : ℝ) (-10) false)
      (Scenario.afterPaused : Game ℝ).m_player = .ok (Scenario.player 9000 0) := hp
  have hd' : (Scenario.afterPaused : Game ℝ).mv_drones.mapM
      (Game.handleCollisions_ship Scenario.env (Scenario.asteroid (5000 : ℝ) (-10) false))
        = .ok (Scenario.paused : Game ℝ).mv_drones := hd
  simp only [Game.handleCollisions_asteroid, hpairs, List.foldl_cons, List.foldl_nil, hpair,
    hcrystals, hast, hp', hd', ok_bind]
  rfl

/-- The round of the second loop for asteroid 1: nothing is left to do. -/
theorem scenario_paused_round1 :
    Game.handleCollisions_asteroid Scenario.env (Scenario.afterPaused : Game ℝ) 1
      = .ok Scenario.afterPaused := by
  have hpairs : List.range' (1 + 1)
      ((Scenario.afterPaused : Game ℝ).mv_asteroids.length - (1 + 1)) = [] := rfl
  have hcrystals : List.range (Scenario.afterPaused : Game ℝ).mv_crystals.length = [] := rfl
  have hast : (Scenario.afterPaused : Game ℝ).mv_asteroids[1]?
      = some (Scenario.asteroid 5150 10 false) := rfl
  obtain ⟨hp, hd⟩ := scenario_paused_ships 5150 10 (by norm_num)
  have hp' : Game.handleCollisions_ship Scenario.env (Scenario.asteroid 5150 10 false)
      (Scenario.afterPaused : Game ℝ).m_player = .ok (Scenario.player 9000 0) := hp
  have hd' : (Scenario.afterPaused : Game ℝ).mv_drones.mapM
      (Game.handleCollisions_ship Scenario.env (Scenario.asteroid 5150 10 false))
        = .ok (Scenario.paused : Game ℝ).mv_drones := hd
  simp only [Game.handleCollisions_asteroid, hpairs, List.foldl_nil, hcrystals, hast, hp', hd',
    ok_bind]
  rfl

/-- The call `update (0)` on the paused scenario returns, and the asteroids have bounced. -/
theorem scenario_paused_update :
    Game.update Scenario.env 0 (Scenario.paused : Game ℝ) = .ok Scenario.afterPaused := by
  have hphysics : (Scenario.paused : Game ℝ).updatePhysics Scenario.env 0 = Scenario.paused :=
    updatePhysics_pause Scenario.env _ (gravityStep_zero _)
      (fun black_hole asteroid => by
        show ({ asteroid with
          toEntity := Model.gravityStep Scenario.GRAVITY 0 black_hole asteroid.toEntity }
            : Asteroid ℝ) = asteroid
        rw [gravityStep_zero])
  have hcollide : Game.handleCollisions Scenario.env (Scenario.paused : Game ℝ)
      = .ok Scenario.afterPaused := by
    have hfirst : Game.handleCollisions_crystals Scenario.env (Scenario.paused : Game ℝ)
        = Scenario.paused := rfl
    simp only [Game.handleCollisions, hfirst]
    show List.foldlM _ _ (List.range 2) = _
    have hrange : List.range 2 = [0, 1] := rfl
    rw [hrange, List.foldlM_cons, scenario_paused_round0, ok_bind, List.foldlM_cons,
      scenario_paused_round1]
    rfl
  simp only [Game.update, updateAI_all_dead Scenario.env 0 _ scenario_paused_dead, ok_bind,
    hphysics, hcollide]

end PauseTrace

/-! ### The claim on `update (0)` -/

section ZeroStepClaim

variable {R : Type} [LinearOrderedField R] [HasSqrt R]

open Spaceship

/-- A call of `handleCollisions` moves no ship. -/
theorem handleCollisions_ships_entity (X : Externals R) (g g' : Game R)
    (h : Game.handleCollisions X g = .ok g') :
    g'.m_player.toEntity = g.m_player.toEntity ∧
    ∀ (i : Nat) (drone drone' : Spaceship R), g.mv_drones[i]? = some drone →
      g'.mv_drones[i]? = some drone' → drone'.toEntity = drone.toEntity := by
  simp only [Game.handleCollisions] at h
  obtain ⟨hplayer, -, hdrones, -⟩ := handleCollisions_rounds X _ _ g' h
  exact ⟨(sameOrDead_entity _ _ hplayer).1,
    fun i drone drone' h0 h2 => (sameOrDead_entity _ _ (hdrones i drone drone' h0 h2)).1⟩

/-- C18 (amended): `update (0)` is a valid pause only when no drone is alive. With a living
drone it fails the precondition `delta_time > 0` of `Spaceship::updateAI`. With no living
drone the AI tick does nothing and `update (0)` is `updatePhysics (0)` followed by
`handleCollisions`; when moreover a physics step of length zero leaves a body as it is,
`update (0)` is `handleCollisions` on the unchanged state: it returns when the ships satisfy
their class invariant, and it leaves the position and the velocity of the player and of every
drone unchanged. -/
theorem C18_update_zero_pauses_without_living_drones (X : Externals R) (g : Game R) :
    ((∃ drone ∈ g.mv_drones, drone.isAlive = true) →
      Game.update X 0 g = .error .precondition) ∧
    ((∀ drone ∈ g.mv_drones, drone.isAlive = false) →
      Game.updateAI X 0 g = .ok g ∧
      Game.update X 0 g = Game.handleCollisions X (g.updatePhysics X 0) ∧
      ((∀ black_hole e : Entity R, X.entityUpdatePhysics 0 black_hole e = e) →
        (∀ (black_hole : Entity R) (asteroid : Asteroid R),
          X.asteroidUpdatePhysics 0 black_hole asteroid = asteroid) →
        Game.update X 0 g = Game.handleCollisions X g ∧
        (g.m_player.invariant = true → (∀ drone ∈ g.mv_drones, drone.invariant = true) →
          ∃ g', Game.update X 0 g = .ok g') ∧
        ∀ g', Game.update X 0 g = .ok g' →
          (g'.m_player.getPosition = g.m_player.getPosition ∧
            g'.m_player.getVelocity = g.m_player.getVelocity) ∧
          ∀ (i : Nat) (drone drone' : Spaceship R), g.mv_drones[i]? = some drone →
            g'.mv_drones[i]? = some drone' →
            drone'.getPosition = drone.getPosition ∧
              drone'.getVelocity = drone.getVelocity)) := by
  refine ⟨?_, ?_⟩
  · intro hliving
    simp only [Game.update, updateAI_not_positive X 0 (lt_irrefl 0) g hliving]
    rfl
  · intro hdead
    have hai := updateAI_all_dead X 0 g hdead
    have hupdate : Game.update X 0 g = Game.handleCollisions X (g.updatePhysics X 0) := by
      simp only [Game.update, hai, ok_bind]
    refine ⟨hai, hupdate, ?_⟩
    intro hentity hasteroid
    have hpause : Game.update X 0 g = Game.handleCollisions X g := by
      rw [hupdate, updatePhysics_pause X g hentity hasteroid]
    refine ⟨hpause, ?_, ?_⟩
    · intro hplayer hdrones
      rw [hpause]
      exact handleCollisions_total X g hplayer hdrones
    · intro g' hg'
      rw [hpause] at hg'
      obtain ⟨hp, hd⟩ := handleCollisions_ships_entity X g g' hg'
      refine ⟨⟨?_, ?_⟩, ?_⟩
      · show g'.m_player.toEntity.m_coords.position = _
        rw [hp]
        rfl
      · show g'.m_player.toEntity.m_velocity = _
        rw [hp]
        rfl
      · intro i drone drone' h0 h2
        have he := hd i drone drone' h0 h2
        refine ⟨?_, ?_⟩
        · show drone'.toEntity.m_coords.position = _
          rw [he]
          rfl
        · show drone'.toEntity.m_velocity = _
          rw [he]
          rfl

end ZeroStepClaim

/-- C18 refuted: at the start of the scenario all five drones are alive and `update (0)`
fails the precondition `delta_time > 0`. In `Scenario.paused` no drone is alive and
`update (0)` returns, but the two overlapping asteroids bounce: their velocities 10 and -10
become -10 and 10. -/
theorem C18_counterexample :
    (∃ drone ∈ (Scenario.start : Game ℝ).mv_drones, drone.isAlive = true) ∧
    Game.update Scenario.env 0 (Scenario.start : Game ℝ) = .error .precondition ∧
    (∀ drone ∈ (Scenario.paused : Game ℝ).mv_drones, drone.isAlive = false) ∧
    Game.update Scenario.env 0 (Scenario.paused : Game ℝ) = .ok Scenario.afterPaused ∧
    (Scenario.paused : Game ℝ).mv_asteroids.map (fun asteroid => asteroid.getVelocity)
      = [⟨10, 0, 0⟩, ⟨-10, 0, 0⟩] ∧
    (Scenario.afterPaused : Game ℝ).mv_asteroids.map (fun asteroid => asteroid.getVelocity)
      = [⟨-10, 0, 0⟩, ⟨10, 0, 0⟩] := by
  have hliving : ∃ drone ∈ (Scenario.start : Game ℝ).mv_drones, drone.isAlive = true :=
    ⟨Scenario.drone 5050 (-20) (-100) true Spaceship.NO_CRYSTAL, List.mem_cons_self _ _, rfl⟩
  refine ⟨hliving, ?_, scenario_paused_dead, scenario_paused_update, rfl, rfl⟩
  simp only [Game.update, updateAI_not_positive Scenario.env 0 (lt_irrefl 0) _ hliving]
  rfl

/-- The amended C18 on `Scenario.paused`, where no drone is alive: `update (0)` is
`handleCollisions` on the unchanged state, it returns, and the player keeps its position and
velocity. -/
theorem C18_update_zero_pauses_without_living_drones_witness :
    Game.update Scenario.env 0 (Scenario.paused : Game ℝ)
      = Game.handleCollisions Scenario.env (Scenario.paused : Game ℝ) ∧
    (∃ g', Game.update Scenario.env 0 (Scenario.paused : Game ℝ) = .ok g') ∧
    (Scenario.afterPaused : Game ℝ).m_player.getPosition
      = (Scenario.paused : Game ℝ).m_player.getPosition ∧
    (Scenario.afterPaused : Game ℝ).m_player.getVelocity
      = (Scenario.paused : Game ℝ).m_player.getVelocity :=
  have hall := ((C18_update_zero_pauses_without_living_drones Scenario.env
    (Scenario.paused : Game ℝ)).2 scenario_paused_dead).2.2 (gravityStep_zero _)
    (fun black_hole asteroid => by
      show ({ asteroid with
        toEntity := Model.gravityStep Scenario.GRAVITY 0 black_hole asteroid.toEntity }
          : Asteroid ℝ) = asteroid
      rw [gravityStep_zero])
  have hships := hall.2.2 Scenario.afterPaused scenario_paused_update
  ⟨hall.1, ⟨Scenario.afterPaused, scenario_paused_update⟩, hships.1.1, hships.1.2⟩

/-! ### Pursue and escort as arrival at looked-ahead positions -/

section Lookahead

open SteeringBehaviours Spaceship

/-- The behaviour `pursue` over the reals, with the lookahead time written out. -/
theorem pursue_lookahead (agent : Spaceship ℝ) (target : Entity ℝ) (s a : ℝ) (hs : 0 ≤ s)
    (ha : 0 < a) :
    pursue agent target s a
      = arrival
          (agent.getPosition + agent.getVelocity *
            ((Real.sqrt (s * s + 2 * a * agent.getPosition.getDistance target.getPosition) - s)
              / a))
          (target.getPosition + target.getVelocity *
            ((Real.sqrt (s * s + 2 * a * agent.getPosition.getDistance target.getPosition) - s)
              / a))
          agent.getVelocity target.getVelocity s a := by
  simp only [pursue, cassert, ge_iff_le, gt_iff_lt, hs, ha, if_true,
    getMinArrivalTime_eq a s _ ha hs (getDistance_nonneg _ _), ok_bind, AHEAD_TIME_FACTOR,
    mul_one]

/-- The behaviour `escort` over the reals, with the lookahead time written out. -/
theorem escort_lookahead (X : Externals ℝ) (agent : Spaceship ℝ) (target : Entity ℝ)
    (offset : Vector3 ℝ) (a : ℝ) (ha : 0 < a) :
    escort X agent target offset a
      = arrival
          (agent.getPosition + agent.getVelocity *
            ((Real.sqrt (0 * 0 + 2 * a * agent.getPosition.getDistance
              (target.getPosition + X.localToWorld target.m_coords offset)) - 0) / a))
          (target.getPosition + X.localToWorld target.m_coords offset + target.getVelocity *
            ((Real.sqrt (0 * 0 + 2 * a * agent.getPosition.getDistance
              (target.getPosition + X.localToWorld target.m_coords offset)) - 0) / a))
          agent.getVelocity target.getVelocity 0 a := by
  simp only [escort, cassert, gt_iff_lt, ha, if_true,
    getMinArrivalTime_eq a 0 _ ha le_rfl (getDistance_nonneg _ _), ok_bind, AHEAD_TIME_FACTOR,
    mul_one]

/-- C20: for `s ≥ 0` and `a > 0`, `pursue (agent, target, s, a)` returns a velocity, and it is
`arrival` between the positions of the agent and of the target advanced by their velocities
times the lookahead `T`, with the current velocities, the impact speed `s` and `a`; the
lookahead `T` is `getMinArrivalTime (a, s, d)` for the current distance `d` between the agent
and the target, computed once. -/
theorem C20_pursue_is_arrival_at_lookahead (agent : Spaceship ℝ) (target : Entity ℝ) (s a : ℝ)
    (hs : 0 ≤ s) (ha : 0 < a) :
    ∃ T : ℝ,
      getMinArrivalTime a s ((agent.getPosition - target.getPosition).getNorm) = .ok T ∧
      pursue agent target s a
        = arrival (agent.getPosition + agent.getVelocity * T)
            (target.getPosition + target.getVelocity * T)
            agent.getVelocity target.getVelocity s a ∧
      ∃ v, pursue agent target s a = .ok v :=
  ⟨_, getMinArrivalTime_eq a s _ ha hs (getNorm_nonneg _), pursue_lookahead agent target s a hs ha,
    pursue_ok agent target s a hs ha⟩

/-- C20 on the diving drone of `Scenario` pursuing the resting obstacle with impact speed 100
and acceleration 25. -/
theorem C20_pursue_is_arrival_at_lookahead_witness :
    ∃ T : ℝ,
      getMinArrivalTime 25 100 (((Scenario.diving : Spaceship ℝ).getPosition
        - (Scenario.rock : Entity ℝ).getPosition).getNorm) = .ok T ∧
      pursue (Scenario.diving : Spaceship ℝ) Scenario.rock 100 25
        = arrival ((Scenario.diving : Spaceship ℝ).getPosition
              + (Scenario.diving : Spaceship ℝ).getVelocity * T)
            ((Scenario.rock : Entity ℝ).getPosition + (Scenario.rock : Entity ℝ).getVelocity * T)
            (Scenario.diving : Spaceship ℝ).getVelocity (Scenario.rock : Entity ℝ).getVelocity
            100 25 ∧
      ∃ v, pursue (Scenario.diving : Spaceship ℝ) Scenario.rock 100 25 = .ok v :=
  C20_pursue_is_arrival_at_lookahead Scenario.diving Scenario.rock 100 25 (by norm_num)
    (by norm_num)

end Lookahead

/-! ### The claim on `escort` -/

section EscortClaim

open SteeringBehaviours Spaceship

theorem Vector3.add_sub_add_right (p q w : Vector3 ℝ) : q + w - (p + w) = q - p := by
  obtain ⟨a, b, c⟩ := p
  obtain ⟨x, y, z⟩ := q
  obtain ⟨u, v, t⟩ := w
  simp only [Vector3.mk_add_mk, Vector3.mk_sub_mk, add_sub_add_right_eq_sub]

/-- The behaviour `arrival` depends on the two positions through their difference only. -/
theorem arrival_shift (p q v w shift : Vector3 ℝ) (s a : ℝ) (hs : 0 ≤ s) (ha : 0 < a) :
    arrival (p + shift) (q + shift) v w s a = arrival p q v w s a := by
  rw [arrival_eq _ _ _ _ s a hs ha, arrival_eq _ _ _ _ s a hs ha, Vector3.add_sub_add_right]

/-- C19 (amended): for `a > 0`, `escort (agent, target, offset, a)` returns a velocity, and it
is the moving-target `arrival` with impact speed 0 between looked-ahead positions: the
position of the agent and the escort point `target.position + localToWorld (offset)`, each
advanced by the velocity of the agent, respectively of the target, times the lookahead
`T = getMinArrivalTime (a, 0, d)`, where `d` is the current distance of the agent from the
escort point. It is `arrival` from the current positions when the agent and the target have
the same velocity. -/
theorem C19_escort_is_arrival_at_lookahead (X : Externals ℝ) (agent : Spaceship ℝ)
    (target : Entity ℝ) (offset : Vector3 ℝ) (a : ℝ) (ha : 0 < a) :
    ∃ T : ℝ,
      getMinArrivalTime a 0 ((agent.getPosition
        - (target.getPosition + X.localToWorld target.m_coords offset)).getNorm) = .ok T ∧
      escort X agent target offset a
        = arrival (agent.getPosition + agent.getVelocity * T)
            (target.getPosition + X.localToWorld target.m_coords offset
              + target.getVelocity * T)
            agent.getVelocity target.getVelocity 0 a ∧
      (∃ v, escort X agent target offset a = .ok v) ∧
      (agent.getVelocity = target.getVelocity →
        escort X agent target offset a
          = arrival agent.getPosition
              (target.getPosition + X.localToWorld target.m_coords offset)
              agent.getVelocity target.getVelocity 0 a) := by
  refine ⟨_, getMinArrivalTime_eq a 0 _ ha le_rfl (getNorm_nonneg _),
    escort_lookahead X agent target offset a ha, escort_ok X agent target offset a ha, ?_⟩
  intro hsame
  rw [escort_lookahead X agent target offset a ha, hsame]
  exact arrival_shift _ _ _ _ _ 0 a le_rfl ha

/-- C19 refuted: a drone at 0 on the axis with velocity 3/2 escorts, with no offset and
`a = 2`, a resting body at 4. The lookahead is 2, so `escort` steers from the looked-ahead
position 3 and returns the velocity 2, while `arrival` from the current position returns 4. -/
theorem C19_counterexample :
    escort Scenario.env (Scenario.drone (0 : ℝ) (3 / 2) 0 true NO_CRYSTAL)
        (Scenario.body 4 0 1000 4) ⟨0, 0, 0⟩ 2 = .ok ⟨2, 0, 0⟩ ∧
    arrival (Scenario.drone (0 : ℝ) (3 / 2) 0 true NO_CRYSTAL).getPosition
        ((Scenario.body (4 : ℝ) 0 1000 4).getPosition
          + (Scenario.env : Externals ℝ).localToWorld (Scenario.body (4 : ℝ) 0 1000 4).m_coords
              ⟨0, 0, 0⟩)
        (Scenario.drone (0 : ℝ) (3 / 2) 0 true NO_CRYSTAL).getVelocity
        (Scenario.body (4 : ℝ) 0 1000 4).getVelocity 0 2 = .ok ⟨4, 0, 0⟩ ∧
    escort Scenario.env (Scenario.drone (0 : ℝ) (3 / 2) 0 true NO_CRYSTAL)
        (Scenario.body 4 0 1000 4) ⟨0, 0, 0⟩ 2
      ≠ arrival (Scenario.drone (0 : ℝ) (3 / 2) 0 true NO_CRYSTAL).getPosition
        ((Scenario.body (4 : ℝ) 0 1000 4).getPosition
          + (Scenario.env : Externals ℝ).localToWorld (Scenario.body (4 : ℝ) 0 1000 4).m_coords
              ⟨0, 0, 0⟩)
        (Scenario.drone (0 : ℝ) (3 / 2) 0 true NO_CRYSTAL).getVelocity
        (Scenario.body (4 : ℝ) 0 1000 4).getVelocity 0 2 := by
  have hpoint : (Scenario.body (4 : ℝ) 0 1000 4).getPosition
      + (Scenario.env : Externals ℝ).localToWorld (Scenario.body (4 : ℝ) 0 1000 4).m_coords
          ⟨0, 0, 0⟩ = ⟨4, 0, 0⟩ := by
    show (⟨4, 0, 0⟩ : Vector3 ℝ) + ((⟨1, 0, 0⟩ : Vector3 ℝ) * (0 : ℝ)
      + (⟨0, 1, 0⟩ : Vector3 ℝ) * (0 : ℝ) + (⟨0, 0, 1⟩ : Vector3 ℝ) * (0 : ℝ)) = ⟨4, 0, 0⟩
    simp only [Vector3.mk_mul, Vector3.mk_add_mk, mul_zero, add_zero]
  have hpos : (Scenario.drone (0 : ℝ) (3 / 2) 0 true NO_CRYSTAL).getPosition = ⟨0, 0, 0⟩ := rfl
  have hvel : (Scenario.drone (0 : ℝ) (3 / 2) 0 true NO_CRYSTAL).getVelocity
      = ⟨3 / 2, 0, 0⟩ := rfl
  have hrest : (Scenario.body (4 : ℝ) 0 1000 4).getVelocity = ⟨0, 0, 0⟩ := rfl
  have h16 : Real.sqrt (0 * 0 + 2 * 2 * 4) = 4 := by
    rw [show (0 * 0 + 2 * 2 * 4 : ℝ) = 4 * 4 by norm_num]
    exact Real.sqrt_mul_self (by norm_num)
  have h4 : Real.sqrt (0 * 0 + 2 * 2 * 1) = 2 := by
    rw [show (0 * 0 + 2 * 2 * 1 : ℝ) = 2 * 2 by norm_num]
    exact Real.sqrt_mul_self (by norm_num)
  have hescort : escort Scenario.env (Scenario.drone (0 : ℝ) (3 / 2) 0 true NO_CRYSTAL)
      (Scenario.body 4 0 1000 4) ⟨0, 0, 0⟩ 2 = .ok ⟨2, 0, 0⟩ := by
    rw [escort_lookahead _ _ _ _ 2 (by norm_num), hpoint, hpos, hvel, hrest,
      Vector3.getDistance_axis, arrival_eq _ _ _ _ 0 2 le_rfl (by norm_num)]
    have hd : |(0 : ℝ) - 4| = 4 := by norm_num [abs_of_neg]
    rw [hd, h16]
    have hrel : (⟨4, 0, 0⟩ : Vector3 ℝ) + (⟨0, 0, 0⟩ : Vector3 ℝ) * ((4 - 0) / 2 : ℝ)
        - ((⟨0, 0, 0⟩ : Vector3 ℝ) + (⟨3 / 2, 0, 0⟩ : Vector3 ℝ) * ((4 - 0) / 2 : ℝ))
          = ⟨1, 0, 0⟩ := by
      simp only [Vector3.mk_mul, Vector3.mk_add_mk, Vector3.mk_sub_mk, Vector3.mk.injEq]
      norm_num
    rw [hrel, Vector3.getNorm_axis, abs_one, h4,
      Vector3.getCopyWithNormSafe_axis_pos 1 2 (by norm_num)]
    simp only [Vector3.mk_add_mk, add_zero]
  have harrival : arrival (Scenario.drone (0 : ℝ) (3 / 2) 0 true NO_CRYSTAL).getPosition
      ((Scenario.body (4 : ℝ) 0 1000 4).getPosition
        + (Scenario.env : Externals ℝ).localToWorld (Scenario.body (4 : ℝ) 0 1000 4).m_coords
            ⟨0, 0, 0⟩)
      (Scenario.drone (0 : ℝ) (3 / 2) 0 true NO_CRYSTAL).getVelocity
      (Scenario.body (4 : ℝ) 0 1000 4).getVelocity 0 2 = .ok ⟨4, 0, 0⟩ := by
    rw [hpoint, hpos, hvel, hrest, arrival_eq _ _ _ _ 0 2 le_rfl (by norm_num)]
    have hrel : (⟨4, 0, 0⟩ : Vector3 ℝ) - ⟨0, 0, 0⟩ = ⟨4, 0, 0⟩ := by
      simp only [Vector3.mk_sub_mk, sub_zero]
    rw [hrel, Vector3.getNorm_axis, abs_of_pos (by norm_num : (0 : ℝ) < 4), h16,
      Vector3.getCopyWithNormSafe_axis_pos 4 4 (by norm_num)]
    simp only [Vector3.mk_add_mk, add_zero]
  refine ⟨hescort, harrival, ?_⟩
  rw [hescort, harrival]
  intro heq
  have h := Except.ok.inj heq
  simp only [Vector3.mk.injEq] at h
  norm_num at h

/-- The amended C19 on the drone and the body of the counterexample. -/
theorem C19_escort_is_arrival_at_lookahead_witness :
    ∃ T : ℝ,
      getMinArrivalTime 2 0 (((Scenario.drone (0 : ℝ) (3 / 2) 0 true NO_CRYSTAL).getPosition
        - ((Scenario.body (4 : ℝ) 0 1000 4).getPosition
            + (Scenario.env : Externals ℝ).localToWorld
                (Scenario.body (4 : ℝ) 0 1000 4).m_coords ⟨0, 0, 0⟩)).getNorm) = .ok T ∧
      escort Scenario.env (Scenario.drone (0 : ℝ) (3 / 2) 0 true NO_CRYSTAL)
          (Scenario.body 4 0 1000 4) ⟨0, 0, 0⟩ 2
        = arrival ((Scenario.drone (0 : ℝ) (3 / 2) 0 true NO_CRYSTAL).getPosition
              + (Scenario.drone (0 : ℝ) (3 / 2) 0 true NO_CRYSTAL).getVelocity * T)
            ((Scenario.body (4 : ℝ) 0 1000 4).getPosition
              + (Scenario.env : Externals ℝ).localToWorld
                  (Scenario.body (4 : ℝ) 0 1000 4).m_coords ⟨0, 0, 0⟩
              + (Scenario.body (4 : ℝ) 0 1000 4).getVelocity * T)
            (Scenario.drone (0 : ℝ) (3 / 2) 0 true NO_CRYSTAL).getVelocity
            (Scenario.body (4 : ℝ) 0 1000 4).getVelocity 0 2 ∧
      (∃ v, escort Scenario.env (Scenario.drone (0 : ℝ) (3 / 2) 0 true NO_CRYSTAL)
          (Scenario.body 4 0 1000 4) ⟨0, 0, 0⟩ 2 = .ok v) :=
  have hall := C19_escort_is_arrival_at_lookahead Scenario.env
    (Scenario.drone (0 : ℝ) (3 / 2) 0 true NO_CRYSTAL) (Scenario.body 4 0 1000 4) ⟨0, 0, 0⟩ 2
    (by norm_num)
  hall.elim (fun T hT => ⟨T, hT.1, hT.2.1, hT.2.2.1⟩)

end EscortClaim

/-! ### The avoidance trigger -/

section AvoidTrigger

open SteeringBehaviours Spaceship

theorem Vector3.getNorm_sub_self (v : Vector3 ℝ) : (v - v).getNorm = 0 := by
  obtain ⟨x, y, z⟩ := v
  simp only [Vector3.mk_sub_mk, sub_self, Vector3.getNorm, Vector3.getNormSquared, sqrt_real,
    mul_zero, add_zero, Real.sqrt_zero]

/-- C21: for `a > 0`, `getAvoidDistance (agent, target, a)` returns
`target.radius + (|target.velocity - agent.velocity| / a) * 10`, and `isAvoid (agent, target, a)`
returns true exactly when `|agent.position - target.position|` is less than that distance. The
distance is at least `target.radius`, and it is `target.radius` when the two velocities are
equal. -/
theorem C21_isAvoid_iff_within_avoid_distance (agent : Spaceship ℝ) (target : Entity ℝ) (a : ℝ)
    (ha : 0 < a) :
    ∃ D : ℝ, getAvoidDistance agent target a = .ok D ∧
      D = target.getRadius + ((target.getVelocity - agent.getVelocity).getNorm / a) * 10 ∧
      (∃ b : Bool, isAvoid agent target a = .ok b ∧
        (b = true ↔ (agent.getPosition - target.getPosition).getNorm < D)) ∧
      target.getRadius ≤ D ∧
      (target.getVelocity = agent.getVelocity → D = target.getRadius) := by
  refine ⟨_, getAvoidDistance_eq agent target a ha, rfl,
    ⟨_, isAvoid_eq agent target a ha, ?_⟩, ?_, ?_⟩
  · rw [decide_eq_true_iff]
    rfl
  · have hn := getNorm_nonneg (target.getVelocity - agent.getVelocity)
    have : 0 ≤ (target.getVelocity - agent.getVelocity).getNorm / a * 10 :=
      mul_nonneg (div_nonneg hn ha.le) (by norm_num)
    linarith
  · intro hsame
    rw [hsame, Vector3.getNorm_sub_self]
    simp

/-- C21 on the diving drone and the resting obstacle of `Scenario`, with `a = 25`. -/
theorem C21_isAvoid_iff_within_avoid_distance_witness :
    ∃ D : ℝ, getAvoidDistance (Scenario.diving : Spaceship ℝ) Scenario.rock 25 = .ok D ∧
      D = (Scenario.rock : Entity ℝ).getRadius
        + (((Scenario.rock : Entity ℝ).getVelocity
            - (Scenario.diving : Spaceship ℝ).getVelocity).getNorm / 25) * 10 ∧
      (∃ b : Bool, isAvoid (Scenario.diving : Spaceship ℝ) Scenario.rock 25 = .ok b ∧
        (b = true ↔ ((Scenario.diving : Spaceship ℝ).getPosition
          - (Scenario.rock : Entity ℝ).getPosition).getNorm < D)) ∧
      (Scenario.rock : Entity ℝ).getRadius ≤ D ∧
      ((Scenario.rock : Entity ℝ).getVelocity = (Scenario.diving : Spaceship ℝ).getVelocity →
        D = (Scenario.rock : Entity ℝ).getRadius) :=
  C21_isAvoid_iff_within_avoid_distance Scenario.diving Scenario.rock 25 (by norm_num)

end AvoidTrigger

/-! ### The arrival velocity -/

section ArrivalVelocity

open SteeringBehaviours Spaceship

theorem Vector3.add_sub_cancel_right (u w : Vector3 ℝ) : u + w - w = u := by
  obtain ⟨a, b, c⟩ := u
  obtain ⟨x, y, z⟩ := w
  simp only [Vector3.mk_add_mk, Vector3.mk_sub_mk]
  simp

/-- C22: for two different positions, `s ≥ 0` and `a > 0`, `arrival` returns a velocity `v`
such that `v - targetVel` is `targetPos - agentPos` scaled by a positive factor, so a vector
in that direction, and its norm is the value of
`getOptimalSpeedAtDistance (a, s, |targetPos - agentPos|)`; the result is the same for every
velocity of the agent. -/
theorem C22_arrival_direction_and_speed (agentPos targetPos agentVel targetVel : Vector3 ℝ)
    (s a : ℝ) (hne : agentPos ≠ targetPos) (hs : 0 ≤ s) (ha : 0 < a) :
    ∃ (v : Vector3 ℝ) (speed : ℝ),
      arrival agentPos targetPos agentVel targetVel s a = .ok v ∧
      getOptimalSpeedAtDistance a s (targetPos - agentPos).getNorm = .ok speed ∧
      (∃ k : ℝ, 0 < k ∧ v - targetVel = (targetPos - agentPos) * k) ∧
      (v - targetVel).getNorm = speed ∧
      ∀ otherVel : Vector3 ℝ, arrival agentPos targetPos otherVel targetVel s a = .ok v := by
  have hz : (targetPos - agentPos).isZero = false := by
    cases hz : (targetPos - agentPos).isZero with
    | false => rfl
    | true => exact absurd ((Vector3.isZero_sub _ _).mp hz).symm hne
  have hd := Vector3.getNorm_pos _ hz
  have hspeed : 0 < Real.sqrt (s * s + 2 * a * (targetPos - agentPos).getNorm) := by
    apply Real.sqrt_pos.mpr
    have h1 : 0 < 2 * a * (targetPos - agentPos).getNorm := by positivity
    nlinarith [mul_self_nonneg s]
  refine ⟨_, _, arrival_eq agentPos targetPos agentVel targetVel s a hs ha,
    getOptimalSpeedAtDistance_eq a s _ ha hs (getNorm_nonneg _), ?_, ?_,
    fun otherVel => arrival_eq agentPos targetPos otherVel targetVel s a hs ha⟩
  · refine ⟨Real.sqrt (s * s + 2 * a * (targetPos - agentPos).getNorm)
      / (targetPos - agentPos).getNorm, div_pos hspeed hd, ?_⟩
    rw [Vector3.add_sub_cancel_right]
    simp only [Vector3.getCopyWithNormSafe, hz, Bool.false_eq_true, if_false]
  · rw [Vector3.add_sub_cancel_right]
    simp only [Vector3.getCopyWithNormSafe, hz, Bool.false_eq_true, if_false]
    rw [Vector3.getNorm_smul, abs_of_pos (div_pos hspeed hd), div_mul_cancel₀ _ hd.ne']

/-- C22 on the axis: from 0 toward 4 with `s = 0` and `a = 2`. -/
theorem C22_arrival_direction_and_speed_witness :
    ∃ (v : Vector3 ℝ) (speed : ℝ),
      arrival ⟨0, 0, 0⟩ ⟨4, 0, 0⟩ ⟨3 / 2, 0, 0⟩ ⟨0, 0, 0⟩ 0 2 = .ok v ∧
      getOptimalSpeedAtDistance 2 0 ((⟨4, 0, 0⟩ : Vector3 ℝ) - ⟨0, 0, 0⟩).getNorm = .ok speed ∧
      (∃ k : ℝ, 0 < k ∧
        v - ⟨0, 0, 0⟩ = ((⟨4, 0, 0⟩ : Vector3 ℝ) - ⟨0, 0, 0⟩) * k) ∧
      (v - ⟨0, 0, 0⟩).getNorm = speed ∧
      ∀ otherVel : Vector3 ℝ,
        arrival ⟨0, 0, 0⟩ ⟨4, 0, 0⟩ otherVel ⟨0, 0, 0⟩ 0 2 = .ok v :=
  C22_arrival_direction_and_speed ⟨0, 0, 0⟩ ⟨4, 0, 0⟩ ⟨3 / 2, 0, 0⟩ ⟨0, 0, 0⟩ 0 2
    (by
      intro h
      have := congrArg Vector3.x h
      norm_num at this)
    le_rfl (by norm_num)

end ArrivalVelocity

/-! ### The optimal speed and the manoeuvring thrust -/

section SpeedAndThrust

open SteeringBehaviours Spaceship

/-- C29: over the reals, for `a > 0`, `s ≥ 0` and `d ≥ 0`, `getOptimalSpeedAtDistance (a, s, d)`
returns `sqrt (s ^ 2 + 2 * a * d)`; so the value does not decrease when the distance grows, and
it does not decrease when the impact speed grows. -/
theorem C29_optimal_speed_is_sqrt_and_monotone (a s d : ℝ) (ha : 0 < a) (hs : 0 ≤ s)
    (hd : 0 ≤ d) :
    getOptimalSpeedAtDistance a s d = .ok (Real.sqrt (s ^ 2 + 2 * a * d)) ∧
    (∀ d' : ℝ, d ≤ d' →
      ∃ v v' : ℝ, getOptimalSpeedAtDistance a s d = .ok v ∧
        getOptimalSpeedAtDistance a s d' = .ok v' ∧ v ≤ v') ∧
    (∀ s' : ℝ, s ≤ s' →
      ∃ v v' : ℝ, getOptimalSpeedAtDistance a s d = .ok v ∧
        getOptimalSpeedAtDistance a s' d = .ok v' ∧ v ≤ v') := by
  refine ⟨?_, ?_, ?_⟩
  · rw [getOptimalSpeedAtDistance_eq a s d ha hs hd, pow_two]
  · intro d' hd'
    refine ⟨_, _, getOptimalSpeedAtDistance_eq a s d ha hs hd,
      getOptimalSpeedAtDistance_eq a s d' ha hs (le_trans hd hd'), ?_⟩
    apply Real.sqrt_le_sqrt
    have : 2 * a * d ≤ 2 * a * d' := by
      apply mul_le_mul_of_nonneg_left hd'
      positivity
    linarith
  · intro s' hs'
    refine ⟨_, _, getOptimalSpeedAtDistance_eq a s d ha hs hd,
      getOptimalSpeedAtDistance_eq a s' d ha (le_trans hs hs') hd, ?_⟩
    apply Real.sqrt_le_sqrt
    have : s * s ≤ s' * s' := mul_self_le_mul_self hs hs'
    linarith

/-- C29 at `a = 2`, `s = 0`, `d = 4`. -/
theorem C29_optimal_speed_is_sqrt_and_monotone_witness :
    getOptimalSpeedAtDistance (2 : ℝ) 0 4 = .ok (Real.sqrt (0 ^ 2 + 2 * 2 * 4)) ∧
    (∀ d' : ℝ, 4 ≤ d' →
      ∃ v v' : ℝ, getOptimalSpeedAtDistance 2 0 4 = .ok v ∧
        getOptimalSpeedAtDistance 2 0 d' = .ok v' ∧ v ≤ v') ∧
    (∀ s' : ℝ, 0 ≤ s' →
      ∃ v v' : ℝ, getOptimalSpeedAtDistance 2 0 4 = .ok v ∧
        getOptimalSpeedAtDistance 2 s' 4 = .ok v' ∧ v ≤ v') :=
  C29_optimal_speed_is_sqrt_and_monotone 2 0 4 (by norm_num) le_rfl (by norm_num)

/-- C23: under the documented preconditions (the ship is initialised, `delta_time ≥ 0`, a
unit direction, `0 ≤ strength_fraction ≤ 1`) and the class invariant that the method asserts
on exit,
`thrustManoeuver` returns the ship with the velocity changed by exactly
`direction_world * (manoeuvre acceleration * delta_time * strength_fraction)` and with nothing
else changed: position, orientation, alive flag, engine constants and chased index. The norm
of the change is `manoeuvre acceleration * delta_time * strength_fraction`, at most
`manoeuvre acceleration * delta_time`, and with `delta_time = 0` the ship is as before. -/
theorem C23_thrustManoeuver_changes_velocity_only (self : Spaceship ℝ) (dt : ℝ)
    (direction : Vector3 ℝ) (fraction : ℝ) (hinit : self.isInitialized = true) (hdt : 0 ≤ dt)
    (hdir : direction.isUnit = true) (hf0 : 0 ≤ fraction) (hf1 : fraction ≤ 1)
    (hinv : self.invariant = true) :
    ∃ self' : Spaceship ℝ, self.thrustManoeuver dt direction fraction = .ok self' ∧
      self' = { self with m_velocity := self.m_velocity
        + direction * (self.m_acceleration_manoeuver * dt * fraction) } ∧
      self'.getVelocity = self.getVelocity
        + direction * (self.m_acceleration_manoeuver * dt * fraction) ∧
      (self'.getPosition = self.getPosition ∧ self'.m_coords = self.m_coords ∧
        self'.m_is_alive = self.m_is_alive ∧
        self'.m_acceleration_main = self.m_acceleration_main ∧
        self'.m_acceleration_manoeuver = self.m_acceleration_manoeuver ∧
        self'.m_rotation_rate_radians = self.m_rotation_rate_radians ∧
        self'.m_crystal_chased_index = self.m_crystal_chased_index) ∧
      (self'.getVelocity - self.getVelocity).getNorm
        = self.m_acceleration_manoeuver * dt * fraction ∧
      (self'.getVelocity - self.getVelocity).getNorm ≤ self.m_acceleration_manoeuver * dt ∧
      (dt = 0 → self' = self) := by
  obtain ⟨-, hacc, -⟩ := (invariant_iff self).mp hinv
  have hinv' : ({ self with m_velocity := self.m_velocity
      + direction * (self.m_acceleration_manoeuver * dt * fraction) } : Spaceship ℝ).invariant
        = true := hinv
  have hrun : self.thrustManoeuver dt direction fraction = .ok { self with m_velocity :=
      self.m_velocity + direction * (self.m_acceleration_manoeuver * dt * fraction) } := by
    simp only [thrustManoeuver, cassert, hinit, ge_iff_le, hdt, hdir, hf0, hf1, if_true,
      ok_bind, hinv']
    rfl
  have hamount : 0 ≤ self.m_acceleration_manoeuver * dt * fraction :=
    mul_nonneg (mul_nonneg hacc.le hdt) hf0
  have hnorm : (self.m_velocity + direction * (self.m_acceleration_manoeuver * dt * fraction)
      - self.m_velocity).getNorm = self.m_acceleration_manoeuver * dt * fraction := by
    rw [Vector3.add_sub_cancel, Vector3.getNorm_smul, Vector3.getNorm_of_isUnit _ hdir,
      abs_of_nonneg hamount, mul_one]
  refine ⟨_, hrun, rfl, rfl, ⟨rfl, rfl, rfl, rfl, rfl, rfl, rfl⟩, hnorm, ?_, ?_⟩
  · show (self.m_velocity + direction * (self.m_acceleration_manoeuver * dt * fraction)
      - self.m_velocity).getNorm ≤ _
    rw [hnorm]
    have : self.m_acceleration_manoeuver * dt * fraction
        ≤ self.m_acceleration_manoeuver * dt * 1 :=
      mul_le_mul_of_nonneg_left hf1 (mul_nonneg hacc.le hdt)
    linarith
  · intro h0
    rw [h0, mul_zero, zero_mul, Vector3.add_smul_zero]

/-- An uninitialised ship fails the first assertion of `thrustManoeuver`. -/
theorem thrustManoeuver_uninitialised (self : Spaceship ℝ) (dt : ℝ) (direction : Vector3 ℝ)
    (fraction : ℝ) (hinit : self.isInitialized = false) :
    self.thrustManoeuver dt direction fraction = .error .precondition := by
  simp only [thrustManoeuver, cassert, hinit, Bool.false_eq_true, if_false]
  rfl

/-- C23 on the diving drone of `Scenario`, an initialised ship: a fifth of the manoeuvring
thrust along the axis for one second. -/
theorem C23_thrustManoeuver_changes_velocity_only_witness :
    (Scenario.diving : Spaceship ℝ).isInitialized = true ∧
    ∃ self' : Spaceship ℝ,
      (Scenario.diving : Spaceship ℝ).thrustManoeuver 1 ⟨1, 0, 0⟩ (1 / 5) = .ok self' ∧
      self'.getVelocity = (Scenario.diving : Spaceship ℝ).getVelocity
        + (⟨1, 0, 0⟩ : Vector3 ℝ)
          * ((Scenario.diving : Spaceship ℝ).m_acceleration_manoeuver * 1 * (1 / 5)) ∧
      (self'.getVelocity - (Scenario.diving : Spaceship ℝ).getVelocity).getNorm
        ≤ (Scenario.diving : Spaceship ℝ).m_acceleration_manoeuver * 1 :=
  ⟨rfl, (C23_thrustManoeuver_changes_velocity_only (Scenario.diving : Spaceship ℝ) 1 ⟨1, 0, 0⟩ (1 / 5)
    rfl (by norm_num) (by simp [Vector3.isUnit, Vector3.getNormSquared]) (by norm_num)
    (by norm_num) (by
      rw [invariant_iff]
      refine ⟨?_, ?_, ?_⟩
      · show (0 : ℝ) < 250
        norm_num
      · show (0 : ℝ) < 25
        norm_num
      · show (0 : ℝ) < 1
        norm_num)).elim
    (fun self' h => ⟨self', h.1, h.2.2.1, h.2.2.2.2.2.1⟩)⟩

end SpeedAndThrust

/-! ### Mutual exclusion and sticky assignments -/

section StickyAssignment

open Spaceship

/-- C25: in every state reachable from an initial state by `Game::update` with a positive
time step and by `Game::knockOffCrystals`, two distinct living drones have the same chased
index only if that index is `NO_CRYSTAL`. -/
theorem C25_living_drones_mutual_exclusion {R : Type} [LinearOrderedField R] [HasSqrt R]
    (X : Externals R) (g : Game R) (h : Game.Reachable X g) :
    ∀ (i j : Nat) (di dj : Spaceship R), g.mv_drones[i]? = some di →
      g.mv_drones[j]? = some dj → i ≠ j → di.isAlive = true → dj.isAlive = true →
      di.getCrystalChased = dj.getCrystalChased → di.getCrystalChased = NO_CRYSTAL :=
  reachable_livingChaseExclusive X g h

/-- C27: if, on entry to `updateCrystalChased` for the drone `mv_drones[d]`, the chased index
is in range and that crystal is not gone, the method returns and leaves the game as it is, so
the chased index of the drone is unchanged; no condition on the distance to the crystal or on
the other crystals is needed. -/
theorem C27_valid_assignment_is_sticky {R : Type} [LinearOrderedField R] [HasSqrt R]
    (g : Game R) (d : Nat) (self : Spaceship R) (crystal : Crystal R)
    (hself : g.mv_drones[d]? = some self)
    (hrange : self.getCrystalChased < g.getTotalCrystalCount)
    (hcrystal : g.mv_crystals[self.getCrystalChased]? = some crystal)
    (hgone : crystal.isGone = false) :
    ∃ g' : Game R, updateCrystalChased g d = .ok g' ∧ g' = g ∧
      ∃ self' : Spaceship R, g'.mv_drones[d]? = some self' ∧
        self'.getCrystalChased = self.getCrystalChased :=
  ⟨g, updateCrystalChased_valid g d self hself ⟨hrange, crystal, hcrystal, hgone⟩, rfl,
    self, hself, rfl⟩

/-- C27 on `Scenario.faithful`: drone 0 keeps crystal 1, which is 14849 away, further than
the detection radius, although crystal 0 is eligible and at distance 1. -/
theorem C27_valid_assignment_is_sticky_witness :
    DETECT_CRYSTALS_DISTANCE
      < (Scenario.crystal 20000 0 : Crystal ℝ).getPosition.getDistance
        (Scenario.drone 5151 (-20) 1 true 1 : Spaceship ℝ).getPosition ∧
    isEligible (Scenario.faithful : Game ℝ)
      (Scenario.drone 5151 (-20) 1 true 1 : Spaceship ℝ).getPosition 0 ∧
    ∃ g' : Game ℝ, updateCrystalChased (Scenario.faithful : Game ℝ) 0 = .ok g' ∧
      g' = Scenario.faithful ∧
      ∃ self' : Spaceship ℝ, g'.mv_drones[0]? = some self' ∧
        self'.getCrystalChased = 1 := by
  refine ⟨?_, ?_, C27_valid_assignment_is_sticky (Scenario.faithful : Game ℝ) 0
    (Scenario.drone 5151 (-20) 1 true 1) (Scenario.crystal 20000 0) rfl (by decide) rfl rfl⟩
  · show (1000 : ℝ) < Vector3.getDistance (⟨20000, 0, 0⟩ : Vector3 ℝ) ⟨5151, 0, 0⟩
    rw [Vector3.getDistance_axis]
    norm_num [abs_of_pos]
  · refine ⟨by decide, Scenario.crystal 5150 0, rfl, rfl, ?_, ?_⟩
    · intro drone hmem _
      simp only [Scenario.faithful, List.mem_cons, List.mem_singleton, List.not_mem_nil,
        or_false] at hmem
      rcases hmem with h | h | h | h | h <;> subst h <;> decide
    · show Vector3.getDistance (⟨5150, 0, 0⟩ : Vector3 ℝ) ⟨5151, 0, 0⟩ < (1000 : ℝ)
      rw [Vector3.getDistance_axis]
      norm_num [abs_lt]

end StickyAssignment

/-! ### Bodies out of play -/

section OutOfPlay

variable {R : Type} [LinearOrderedField R] [HasSqrt R]

/-- The AI tick of one living drone leaves the drones that are dead where they are. -/
theorem spaceship_updateAI_dead_drones (X : Externals R) (dt : R) (g g' : Game R) (d : Nat)
    (self : Spaceship R) (hself : g.mv_drones[d]? = some self) (halive : self.isAlive = true)
    (h : Spaceship.updateAI X dt g d = .ok g') (i : Nat) (drone : Spaceship R)
    (hdrone : g.mv_drones[i]? = some drone) (hdead : drone.isAlive = false) :
    g'.mv_drones[i]? = some drone := by
  obtain ⟨self0, self', chosen, hself0, -, rfl, -, -, -⟩ := updateAI_outcome X dt g g' d h
  have hne : d ≠ i := by
    intro hdi
    subst hdi
    rw [hself] at hdrone
    cases hdrone
    rw [halive] at hdead
    cases hdead
  show (g.mv_drones.set d self')[i]? = some drone
  rw [List.getElem?_set_ne hne]
  exact hdrone

/-- The AI tick of the game leaves the drones that are dead where they are. -/
theorem updateAI_dead_drones (X : Externals R) (dt : R) (g g' : Game R)
    (h : Game.updateAI X dt g = .ok g') (i : Nat) (drone : Spaceship R)
    (hdrone : g.mv_drones[i]? = some drone) (hdead : drone.isAlive = false) :
    g'.mv_drones[i]? = some drone := by
  refine foldlM_invariant (fun g1 : Game R => g1.mv_drones[i]? = some drone) _ ?_ _ g g'
    hdrone h
  intro a d a' ha hstep
  simp only [bind_eq_ok] at hstep
  obtain ⟨self, hself, hstep⟩ := hstep
  split at hstep
  · rename_i halive
    exact spaceship_updateAI_dead_drones X dt a a' d self ((getDrone_eq_ok a d self).mp hself)
      halive hstep i drone ha hdead
  · simp only [pure_eq_ok] at hstep
    rw [← hstep]
    exact ha

/-- C30: for every game state and every `delta_time`, `Game::updatePhysics` returns every
gone crystal, a dead player and every dead drone as they were (position, velocity and all
other members), and whenever `Game::updateAI` returns, every dead drone is as it was
(velocity, orientation, chased index and all other members). -/
theorem C30_bodies_out_of_play_are_untouched (X : Externals R) (dt : R) (g : Game R) :
    (∀ (i : Nat) (crystal : Crystal R), g.mv_crystals[i]? = some crystal →
      crystal.isGone = true → (g.updatePhysics X dt).mv_crystals[i]? = some crystal) ∧
    (g.m_player.isAlive = false → (g.updatePhysics X dt).m_player = g.m_player) ∧
    (∀ (i : Nat) (drone : Spaceship R), g.mv_drones[i]? = some drone →
      drone.isAlive = false → (g.updatePhysics X dt).mv_drones[i]? = some drone) ∧
    (∀ g' : Game R, Game.updateAI X dt g = .ok g' →
      ∀ (i : Nat) (drone : Spaceship R), g.mv_drones[i]? = some drone →
        drone.isAlive = false → g'.mv_drones[i]? = some drone) := by
  refine ⟨?_, ?_, ?_, ?_⟩
  · intro i crystal hsome hgone
    simp only [Game.updatePhysics, List.getElem?_map, hsome, Option.map_some', hgone,
      Bool.not_true, Bool.false_eq_true, if_false]
  · intro hdead
    simp only [Game.updatePhysics, hdead, Bool.false_eq_true, if_false]
  · intro i drone hsome hdead
    simp only [Game.updatePhysics, List.getElem?_map, hsome, Option.map_some', hdead,
      Bool.false_eq_true, if_false]
  · intro g' h i drone hsome hdead
    exact updateAI_dead_drones X dt g g' h i drone hsome hdead

end OutOfPlay

section OutOfPlayScenario

/-- C30 on the scenario: the AI tick of the second `update (1)` returns with the dead drone
0 as it was, the physics step leaves that drone as it was, and the physics step leaves the
gone crystal 2 of `Scenario.pickup` as it was. -/
theorem C30_bodies_out_of_play_are_untouched_witness :
    (∃ g' : Game ℝ, Game.updateAI Scenario.env 1 (Scenario.afterFirstUpdate : Game ℝ) = .ok g' ∧
      g'.mv_drones[0]?
        = some (Scenario.drone (256803501 / 51005) (-771749 / 51005) (-100) false 0 : Spaceship ℝ)) ∧
    ((Scenario.afterFirstUpdate : Game ℝ).updatePhysics Scenario.env 1).mv_drones[0]?
      = some (Scenario.drone (256803501 / 51005) (-771749 / 51005) (-100) false 0 : Spaceship ℝ) ∧
    ((Scenario.pickup : Game ℝ).updatePhysics Scenario.env 1).mv_crystals[2]?
      = some (Scenario.goneCrystal 5150 0 : Crystal ℝ) := by
  refine ⟨?_, ?_, ?_⟩
  · obtain ⟨g', hrun, -⟩ := scenario_second_updateAI
    exact ⟨g', hrun, (C30_bodies_out_of_play_are_untouched Scenario.env 1
      (Scenario.afterFirstUpdate : Game ℝ)).2.2.2 g' hrun 0 _ rfl rfl⟩
  · exact (C30_bodies_out_of_play_are_untouched Scenario.env 1
      (Scenario.afterFirstUpdate : Game ℝ)).2.2.1 0 _ rfl rfl
  · exact (C30_bodies_out_of_play_are_untouched Scenario.env 1
      (Scenario.pickup : Game ℝ)).1 2 _ rfl rfl

end OutOfPlayScenario

/-! ### The manoeuvring branch of `flyToMatchVelocity` -/

section ManoeuvreBranch

open SteeringBehaviours Spaceship

theorem Vector3.getNorm_of_isZero (v : Vector3 ℝ) (h : v.isZero = true) : v.getNorm = 0 := by
  obtain ⟨x, y, z⟩ := v
  simp only [Vector3.isZero_mk, decide_eq_true_eq] at h
  obtain ⟨rfl, rfl, rfl⟩ := h
  simp [Vector3.getNorm, Vector3.getNormSquared]

theorem Vector3.sub_add_smul (u v : Vector3 ℝ) (k : ℝ) :
    u - (v + (u - v) * k) = (u - v) * (1 - k) := by
  obtain ⟨a, b, c⟩ := u
  obtain ⟨x, y, z⟩ := v
  simp only [Vector3.mk_sub_mk, Vector3.mk_mul, Vector3.mk_add_mk, Vector3.mk.injEq]
  refine ⟨?_, ?_, ?_⟩ <;> ring

/-- C28: in `flyToMatchVelocity` on an initialised ship (its documented precondition, which
the call of `thrustManoeuver` asserts) with `delta_time > 0`, the class invariant and
`0 < |desired - velocity| < 50`, the normalisation of `relative = desired - velocity` returns
a unit direction, the divisor `manoeuvre acceleration * delta_time` is positive, the strength
fraction is in `(0, 1]`, and `thrustManoeuver` is called with these and returns; the method
returns the ship with the velocity moved along that direction by exactly
`min (manoeuvre acceleration * delta_time) (0.2 * |relative|)`, which is less than
`|relative|`, so the distance to the desired velocity shrinks by that amount and stays
positive. With `desired` equal to the current velocity the method returns the ship as it
is. -/
theorem C28_flyToMatchVelocity_manoeuvre_step (X : Externals ℝ) (self : Spaceship ℝ) (dt : ℝ)
    (desired : Vector3 ℝ) (hinit : self.isInitialized = true) (hdt : 0 < dt)
    (hinv : self.invariant = true)
    (hpos : 0 < (desired - self.getVelocity).getNorm)
    (hlt : (desired - self.getVelocity).getNorm < MAIN_ENGINE_MIN_CHANGE) :
    (∃ (direction : Vector3 ℝ) (fraction : ℝ) (self' : Spaceship ℝ),
      (desired - self.getVelocity).getNormalized = .ok direction ∧
      direction.isUnit = true ∧
      0 < self.m_acceleration_manoeuver * dt ∧
      fraction = (if (desired - self.getVelocity).getNorm * (1 / 5)
          / (self.m_acceleration_manoeuver * dt) > 1 then 1
        else (desired - self.getVelocity).getNorm * (1 / 5)
          / (self.m_acceleration_manoeuver * dt)) ∧
      0 < fraction ∧ fraction ≤ 1 ∧
      self.thrustManoeuver dt direction fraction = .ok self' ∧
      self.flyToMatchVelocity X dt desired = .ok self' ∧
      self'.getVelocity = self.getVelocity + direction
        * min (self.m_acceleration_manoeuver * dt)
          ((1 / 5) * (desired - self.getVelocity).getNorm) ∧
      direction = (desired - self.getVelocity) * (1 / (desired - self.getVelocity).getNorm) ∧
      (self'.getVelocity - self.getVelocity).getNorm
        = min (self.m_acceleration_manoeuver * dt)
          ((1 / 5) * (desired - self.getVelocity).getNorm) ∧
      min (self.m_acceleration_manoeuver * dt) ((1 / 5) * (desired - self.getVelocity).getNorm)
        < (desired - self.getVelocity).getNorm ∧
      (desired - self'.getVelocity).getNorm = (desired - self.getVelocity).getNorm
        - min (self.m_acceleration_manoeuver * dt)
          ((1 / 5) * (desired - self.getVelocity).getNorm)) ∧
    self.flyToMatchVelocity X dt self.getVelocity = .ok self := by
  refine ⟨?_, flyToMatchVelocity_same X self dt hdt hinv⟩
  obtain ⟨-, hacc, -⟩ := (invariant_iff self).mp hinv
  have hz : (desired - self.getVelocity).isZero = false := by
    cases h : (desired - self.getVelocity).isZero with
    | false => rfl
    | true =>
      rw [Vector3.getNorm_of_isZero _ h] at hpos
      exact absurd hpos (lt_irrefl 0)
  have hless : (desired - self.getVelocity).isNormLessThan MAIN_ENGINE_MIN_CHANGE = true := by
    simp only [Vector3.isNormLessThan, decide_eq_true_eq]
    exact hlt
  have hunit := isUnit_normalized _ hz
  have hnormalized : (desired - self.getVelocity).getNormalized
      = .ok ((desired - self.getVelocity) * (1 / (desired - self.getVelocity).getNorm)) := by
    simp only [Vector3.getNormalized, cassert, hz, if_true, ok_bind]
    rfl
  have hdiv : 0 < self.m_acceleration_manoeuver * dt := mul_pos hacc hdt
  generalize hn : (desired - self.getVelocity).getNorm = n at hpos hlt hunit hnormalized ⊢
  generalize hdir : (desired - self.getVelocity) * (1 / n) = direction at hunit hnormalized ⊢
  generalize hm : self.m_acceleration_manoeuver * dt = m at hdiv ⊢
  have hfpos : 0 < n * (1 / 5) / m := div_pos (mul_pos hpos (by norm_num)) hdiv
  have hfraction : ∀ fraction : ℝ,
      fraction = (if n * (1 / 5) / m > 1 then 1 else n * (1 / 5) / m) →
      0 < fraction ∧ fraction ≤ 1 ∧ m * fraction = min m ((1 / 5) * n) := by
    intro fraction hf
    by_cases hbig : n * (1 / 5) / m > 1
    · rw [if_pos hbig] at hf
      subst hf
      refine ⟨zero_lt_one, le_rfl, ?_⟩
      have : m < n * (1 / 5) := (one_lt_div hdiv).mp hbig
      rw [mul_one, min_eq_left (by linarith)]
    · rw [if_neg hbig] at hf
      subst hf
      refine ⟨hfpos, not_lt.mp hbig, ?_⟩
      have : n * (1 / 5) ≤ m := (div_le_one hdiv).mp (not_lt.mp hbig)
      rw [min_eq_right (by linarith), mul_div_cancel₀ _ hdiv.ne']
      ring
  obtain ⟨hf0, hf1, hstep⟩ := hfraction _ rfl
  generalize hfr : (if n * (1 / 5) / m > 1 then 1 else n * (1 / 5) / m) = fraction
    at hf0 hf1 hstep
  have hinv' : ({ self with m_velocity := self.m_velocity
      + direction * (self.m_acceleration_manoeuver * dt * fraction) } : Spaceship ℝ).invariant
        = true := hinv
  have hthrust : self.thrustManoeuver dt direction fraction = .ok { self with m_velocity :=
      self.m_velocity + direction * (self.m_acceleration_manoeuver * dt * fraction) } := by
    simp only [thrustManoeuver, cassert, hinit, ge_iff_le, hdt.le, hunit, hf0.le, hf1,
      if_true, ok_bind, hinv']
    rfl
  have hfly : self.flyToMatchVelocity X dt desired = .ok { self with m_velocity :=
      self.m_velocity + direction * (self.m_acceleration_manoeuver * dt * fraction) } := by
    simp only [flyToMatchVelocity, cassert, gt_iff_lt, hdt, if_true, ok_bind, hz,
      Bool.false_eq_true, if_false, hless, hn, hnormalized, hm]
    simp only [gt_iff_lt] at hfr
    rw [hfr, hthrust]
    simp only [ok_bind, hinv', if_true]
    rw [hm]
    rfl
  have hminlt : min m ((1 / 5) * n) < n :=
    lt_of_le_of_lt (min_le_right _ _) (by linarith)
  have hminpos : 0 < min m ((1 / 5) * n) := lt_min hdiv (by linarith)
  have hvel : self.m_velocity + direction * (self.m_acceleration_manoeuver * dt * fraction)
      = self.getVelocity + direction * min m ((1 / 5) * n) := by
    rw [hm, hstep]
    rfl
  refine ⟨direction, fraction, _, hnormalized, hunit, hdiv, rfl, hf0, hf1, hthrust, hfly,
    hvel, rfl, ?_, hminlt, ?_⟩
  · show (self.m_velocity + direction * (self.m_acceleration_manoeuver * dt * fraction)
      - self.getVelocity).getNorm = _
    rw [hvel, Vector3.add_sub_cancel, Vector3.getNorm_smul, Vector3.getNorm_of_isUnit _ hunit,
      abs_of_pos hminpos, mul_one]
  · show (desired - (self.m_velocity
      + direction * (self.m_acceleration_manoeuver * dt * fraction))).getNorm = _
    rw [hvel, ← hdir, Vector3.smul_smul, Vector3.sub_add_smul, Vector3.getNorm_smul, hn]
    have hk : 0 < 1 - 1 / n * min m ((1 / 5) * n) := by
      rw [sub_pos, one_div, inv_mul_lt_iff₀ hpos, mul_one]
      exact hminlt
    rw [abs_of_pos hk]
    field_simp

/-- C28 on the diving drone of `Scenario`, whose velocity is `-30` along the axis, with the
desired velocity `-20` and `delta_time = 1`: the relative velocity has norm 10. -/
theorem C28_flyToMatchVelocity_manoeuvre_step_witness :
    ∃ self' : Spaceship ℝ,
      (Scenario.diving : Spaceship ℝ).flyToMatchVelocity Scenario.env 1 ⟨-20, 0, 0⟩
        = .ok self' ∧
      (self'.getVelocity - (Scenario.diving : Spaceship ℝ).getVelocity).getNorm
        = min ((Scenario.diving : Spaceship ℝ).m_acceleration_manoeuver * 1)
          ((1 / 5) * ((⟨-20, 0, 0⟩ : Vector3 ℝ)
            - (Scenario.diving : Spaceship ℝ).getVelocity).getNorm) := by
  have hrel : (⟨-20, 0, 0⟩ : Vector3 ℝ) - (Scenario.diving : Spaceship ℝ).getVelocity
      = ⟨10, 0, 0⟩ := by
    show (⟨-20, 0, 0⟩ : Vector3 ℝ) - ⟨-30, 0, 0⟩ = _
    simp only [Vector3.mk_sub_mk, Vector3.mk.injEq]
    norm_num
  obtain ⟨⟨direction, fraction, self', -, -, -, -, -, -, -, hfly, -, -, hnorm, -, -⟩, -⟩ :=
    C28_flyToMatchVelocity_manoeuvre_step Scenario.env (Scenario.diving : Spaceship ℝ) 1
      ⟨-20, 0, 0⟩ rfl zero_lt_one
      (by
        rw [invariant_iff]
        refine ⟨?_, ?_, ?_⟩
        · show (0 : ℝ) < 250
          norm_num
        · show (0 : ℝ) < 25
          norm_num
        · show (0 : ℝ) < 1
          norm_num)
      (by
        rw [hrel, Vector3.getNorm_axis]
        norm_num)
      (by
        rw [hrel, Vector3.getNorm_axis]
        show |(10 : ℝ)| < 50
        norm_num [abs_lt])
  exact ⟨self', hfly, hnorm⟩

end ManoeuvreBranch

/-! ### The elastic bounce -/

section ElasticBounce

theorem Vector3.getNormSquared_sub_smul (v n : Vector3 ℝ) (k : ℝ) :
    (v - n * k).getNormSquared
      = v.getNormSquared - 2 * k * v.dotProduct n + k * k * n.getNormSquared := by
  obtain ⟨a, b, c⟩ := v
  obtain ⟨x, y, z⟩ := n
  simp only [Vector3.mk_mul, Vector3.mk_sub_mk, Vector3.getNormSquared, Vector3.dotProduct]
  ring

theorem Vector3.getNormSquared_add_smul (v n : Vector3 ℝ) (k : ℝ) :
    (v + n * k).getNormSquared
      = v.getNormSquared + 2 * k * v.dotProduct n + k * k * n.getNormSquared := by
  obtain ⟨a, b, c⟩ := v
  obtain ⟨x, y, z⟩ := n
  simp only [Vector3.mk_mul, Vector3.mk_add_mk, Vector3.getNormSquared, Vector3.dotProduct]
  ring

theorem Vector3.dotProduct_sub (u v n : Vector3 ℝ) :
    (u - v).dotProduct n = u.dotProduct n - v.dotProduct n := by
  obtain ⟨a, b, c⟩ := u
  obtain ⟨d, e, f⟩ := v
  obtain ⟨x, y, z⟩ := n
  simp only [Vector3.mk_sub_mk, Vector3.dotProduct]
  ring

/-- The contact normal of the bounce is a unit vector, or the zero vector when the centres
coincide. -/
theorem elastic_normal (d : Vector3 ℝ) :
    (d.getCopyWithNormSafe 1).getNormSquared = 1 ∨
      ((d.getCopyWithNormSafe 1).getNormSquared = 0 ∧
        ∀ v : Vector3 ℝ, v.dotProduct (d.getCopyWithNormSafe 1) = 0) := by
  cases hz : d.isZero with
  | true =>
    right
    simp only [Vector3.getCopyWithNormSafe, hz, if_true]
    refine ⟨?_, ?_⟩
    · simp [Vector3.ZERO, Vector3.getNormSquared]
    · intro v
      simp [Vector3.ZERO, Vector3.dotProduct]
  | false =>
    left
    have hunit := isUnit_normalized d hz
    simp only [Vector3.isUnit, decide_eq_true_eq] at hunit
    simp only [Vector3.getCopyWithNormSafe, hz, Bool.false_eq_true, if_false]
    exact hunit

/-- C24: on the elastic bounce as the spec describes it (the impulse along the line of
centres), for any two bodies with masses `> 0`: the total momentum and the total kinetic
energy after the bounce are those before it, and masses and positions are as before. For
equal masses 10, with A at rest at the origin and B at the contact distance `r + s` along
X moving at `(-5, 0, 0)`, A leaves with velocity `(-5, 0, 0)` and B with `(0, 0, 0)`. -/
theorem C24_elastic_conserves_momentum_and_energy (a b : Entity ℝ) (hma : 0 < a.getMass)
    (hmb : 0 < b.getMass) :
    (Model.elastic a b).1.momentum + (Model.elastic a b).2.momentum
      = a.momentum + b.momentum ∧
    (Model.elastic a b).1.kineticEnergy + (Model.elastic a b).2.kineticEnergy
      = a.kineticEnergy + b.kineticEnergy ∧
    ((Model.elastic a b).1.getMass = a.getMass ∧ (Model.elastic a b).2.getMass = b.getMass ∧
      (Model.elastic a b).1.getPosition = a.getPosition ∧
      (Model.elastic a b).2.getPosition = b.getPosition) ∧
    (∀ r s : ℝ, 0 < r + s →
      Model.elastic (Scenario.body 0 0 10 r) (Scenario.body (r + s) (-5) 10 s)
        = (Scenario.body 0 (-5) 10 r, Scenario.body (r + s) 0 10 s)) := by
  have hma' : a.m_mass ≠ 0 := ne_of_gt hma
  have hmb' : b.m_mass ≠ 0 := ne_of_gt hmb
  have hsum : a.m_mass + b.m_mass ≠ 0 := ne_of_gt (add_pos hma hmb)
  refine ⟨?_, ?_, ⟨rfl, rfl, rfl, rfl⟩, ?_⟩
  · simp only [Model.elastic, Entity.momentum, Entity.getVelocity, Entity.getMass]
    generalize (b.getPosition - a.getPosition).getCopyWithNormSafe 1 = normal
    generalize (a.m_velocity - b.m_velocity).dotProduct normal = closing
    obtain ⟨x, y, z⟩ := normal
    obtain ⟨a1, a2, a3⟩ := a.m_velocity
    obtain ⟨b1, b2, b3⟩ := b.m_velocity
    simp only [Vector3.mk_mul, Vector3.mk_sub_mk, Vector3.mk_add_mk, Vector3.mk.injEq]
    refine ⟨?_, ?_, ?_⟩ <;> field_simp <;> ring
  · simp only [Model.elastic, Entity.kineticEnergy, Entity.getVelocity, Entity.getMass,
      Vector3.getNormSquared_sub_smul, Vector3.getNormSquared_add_smul, Vector3.dotProduct_sub]
    rcases elastic_normal (b.getPosition - a.getPosition) with hN | ⟨hN, hdot⟩
    · rw [hN]
      generalize a.m_velocity.dotProduct ((b.getPosition - a.getPosition).getCopyWithNormSafe 1)
        = p
      generalize b.m_velocity.dotProduct ((b.getPosition - a.getPosition).getCopyWithNormSafe 1)
        = q
      field_simp
      ring
    · rw [hN, hdot, hdot]
      simp
  · intro r s hrs
    exact elastic_axis 0 0 (r + s) (-5) 10 r s hrs (by norm_num)

/-- C24 on the two asteroids of `Scenario.paused`, of mass 1000000 each. -/
theorem C24_elastic_conserves_momentum_and_energy_witness :
    (Model.elastic (Scenario.body (5000 : ℝ) 10 1000000 100)
        (Scenario.body 5150 (-10) 1000000 100)).1.momentum
      + (Model.elastic (Scenario.body (5000 : ℝ) 10 1000000 100)
        (Scenario.body 5150 (-10) 1000000 100)).2.momentum
      = (Scenario.body (5000 : ℝ) 10 1000000 100).momentum
        + (Scenario.body (5150 : ℝ) (-10) 1000000 100).momentum ∧
    (Model.elastic (Scenario.body (5000 : ℝ) 10 1000000 100)
        (Scenario.body 5150 (-10) 1000000 100)).1.kineticEnergy
      + (Model.elastic (Scenario.body (5000 : ℝ) 10 1000000 100)
        (Scenario.body 5150 (-10) 1000000 100)).2.kineticEnergy
      = (Scenario.body (5000 : ℝ) 10 1000000 100).kineticEnergy
        + (Scenario.body (5150 : ℝ) (-10) 1000000 100).kineticEnergy :=
  have h := C24_elastic_conserves_momentum_and_energy (Scenario.body (5000 : ℝ) 10 1000000 100)
    (Scenario.body (5150 : ℝ) (-10) 1000000 100)
    (by
      show (0 : ℝ) < 1000000
      norm_num)
    (by
      show (0 : ℝ) < 1000000
      norm_num)
  ⟨h.1, h.2.1⟩

end ElasticBounce

/-! ### A second scenario: a pickup followed by the reuse of the slot -/

section HaulKnockOff

open SteeringBehaviours Spaceship

theorem range_two : List.range 2 = [0, 1] := rfl

theorem Vector3.getNormalized_axis_neg (a : ℝ) (ha : a < 0) :
    (⟨a, 0, 0⟩ : Vector3 ℝ).getNormalized = .ok ⟨-1, 0, 0⟩ := by
  have hz : (⟨a, 0, 0⟩ : Vector3 ℝ).isZero = false := by simp [ha.ne]
  simp only [Vector3.getNormalized, cassert, hz, if_true, ok_bind, Vector3.getNorm_axis,
    abs_of_neg ha, Vector3.mk_mul, zero_mul, pure, Except.pure]
  congr 2
  rw [one_div, inv_neg, mul_neg, mul_inv_cancel₀ ha.ne]

theorem Vector3.getCopyWithNorm_axis_neg (a n : ℝ) (ha : a < 0) :
    (⟨a, 0, 0⟩ : Vector3 ℝ).getCopyWithNorm n = .ok ⟨-n, 0, 0⟩ := by
  have hz : (⟨a, 0, 0⟩ : Vector3 ℝ).isZero = false := by simp [ha.ne]
  simp only [Vector3.getCopyWithNorm, cassert, hz, if_true, ok_bind, Vector3.getNorm_axis,
    abs_of_neg ha, Vector3.mk_mul, zero_mul, pure, Except.pure]
  congr 2
  rw [div_neg, mul_neg, mul_div_cancel₀ n ha.ne]

theorem haul_start_isInitial : Game.isInitial (Scenario.haulStart : Game ℝ) := by
  refine ⟨rfl, rfl, rfl, rfl, ?_, rfl, ?_⟩
  · simp [Scenario.haulStart, Scenario.player, Spaceship.invariant]
  · intro drone hmem
    simp only [Scenario.haulStart, List.mem_cons, List.mem_singleton, List.not_mem_nil,
      or_false] at hmem
    rcases hmem with rfl | rfl | rfl | rfl | rfl <;>
      simp [Scenario.drone, Spaceship.invariant]

/-- Round 0 of the first `knockOffCrystals`: asteroid 0 is 150 from the player and sheds ten
crystals. -/
theorem haul_knockOff_round0 :
    Game.knockOffCrystals_asteroid Scenario.env Scenario.rand (Scenario.haulStart : Game ℝ) 0
      = .ok { (Scenario.haulStart : Game ℝ) with
          mv_asteroids := [Scenario.asteroid 5000 0 false, Scenario.asteroid 5460 0 true]
          mv_crystals := List.replicate 10 (Scenario.crystal 5100 10) } := by
  have h0 : (Scenario.haulStart : Game ℝ).mv_asteroids[0]?
      = some (Scenario.asteroid 5000 0 true) := rfl
  have hcr : (Scenario.asteroid (5000 : ℝ) 0 true).isCrystals = true := rfl
  have hsub : (Scenario.haulStart : Game ℝ).m_player.getPosition
      - (Scenario.asteroid (5000 : ℝ) 0 true).getPosition = ⟨150, 0, 0⟩ := by
    show (⟨5150 - 5000, 0 - 0, 0 - 0⟩ : Vector3 ℝ) = ⟨150, 0, 0⟩
    norm_num
  have hrad : ∀ v : Vector3 ℝ, (Scenario.env : Externals ℝ).getRadiusForDirection
      (Scenario.asteroid 5000 0 true) v = 100 := fun _ => rfl
  have hlt : (⟨150, 0, 0⟩ : Vector3 ℝ).isNormLessThan (100 + Game.CRYSTAL_KNOCK_OFF_RANGE)
      = true := by
    rw [Vector3.isNormLessThan_axis]
    simp only [Game.CRYSTAL_KNOCK_OFF_RANGE, decide_eq_true_eq]
    norm_num
  have hall : ∀ c ∈ (Scenario.haulStart : Game ℝ).mv_crystals, c.isGone = false := by
    intro c hc
    simp [Scenario.haulStart] at hc
  simp only [Game.knockOffCrystals_asteroid, h0, hcr, if_true, hsub,
    Vector3.getNormalized_axis_pos 150 (by norm_num), ok_bind, hrad, hlt,
    Vector3.getCopyWithNorm_axis_pos 150 100 (by norm_num), Game.CRYSTAL_KNOCK_OFF_COUNT,
    addCrystal_fold_append _ _ _ _ 10 _ hall, pure, Except.pure]
  congr 1
  simp [Scenario.haulStart, Scenario.asteroid, Scenario.crystal, Scenario.body,
    Asteroid.removeCrystals, Scenario.env, Model.externals, Scenario.rand,
    Game.CRYSTAL_KNOCK_OFF_SPEED, Entity.getPosition, Entity.getVelocity, List.range_succ,
    List.replicate]
  norm_num

/-- Round 1 of the first `knockOffCrystals`: asteroid 1 is 310 from the player, out of
range. -/
theorem haul_knockOff_round1 :
    Game.knockOffCrystals_asteroid Scenario.env Scenario.rand (Scenario.haulKnocked : Game ℝ) 1
      = .ok Scenario.haulKnocked := by
  have h1 : (Scenario.haulKnocked : Game ℝ).mv_asteroids[1]?
      = some (Scenario.asteroid 5460 0 true) := rfl
  have hcr : (Scenario.asteroid (5460 : ℝ) 0 true).isCrystals = true := rfl
  have hsub : (Scenario.haulKnocked : Game ℝ).m_player.getPosition
      - (Scenario.asteroid (5460 : ℝ) 0 true).getPosition = ⟨-310, 0, 0⟩ := by
    show (⟨5150 - 5460, 0 - 0, 0 - 0⟩ : Vector3 ℝ) = ⟨-310, 0, 0⟩
    norm_num
  have hrad : ∀ v : Vector3 ℝ, (Scenario.env : Externals ℝ).getRadiusForDirection
      (Scenario.asteroid 5460 0 true) v = 100 := fun _ => rfl
  have hlt : (⟨-310, 0, 0⟩ : Vector3 ℝ).isNormLessThan (100 + Game.CRYSTAL_KNOCK_OFF_RANGE)
      = false := by
    rw [Vector3.isNormLessThan_axis]
    simp only [Game.CRYSTAL_KNOCK_OFF_RANGE, decide_eq_false_iff_not, not_lt]
    norm_num
  simp only [Game.knockOffCrystals_asteroid, h1, hcr, if_true, hsub,
    Vector3.getNormalized_axis_neg (-310) (by norm_num), ok_bind, hrad, hlt,
    Bool.false_eq_true, if_false]
  rfl

/-- The first `knockOffCrystals` of the second scenario. -/
theorem haul_knockOff :
    Game.knockOffCrystals Scenario.env Scenario.rand (Scenario.haulStart : Game ℝ)
      = .ok Scenario.haulKnocked := by
  show List.foldlM _ _ (List.range 2) = _
  rw [range_two, List.foldlM_cons, haul_knockOff_round0, ok_bind, List.foldlM_cons]
  show (Game.knockOffCrystals_asteroid Scenario.env Scenario.rand
    (Scenario.haulKnocked : Game ℝ) 1 >>= fun g => List.foldlM _ g []) = _
  rw [haul_knockOff_round1]
  rfl

end HaulKnockOff

section HaulAI

open SteeringBehaviours Spaceship

/-- Drone 0 of the second scenario, inside the avoidance radius 102.4 of asteroid 0, is told
to change its velocity from 6 to 31 along the axis, away from the asteroid. -/
theorem haul_drone0_desired (g : Game ℝ)
    (hast : g.mv_asteroids = [Scenario.asteroid 5000 0 false, Scenario.asteroid 5460 0 true]) :
    Spaceship.calculateDesiredVelocity Scenario.env (Scenario.drone 5102 6 (-48) true 0) 1 g
      = .ok ⟨31, 0, 0⟩ := by
  have ha : (0 : ℝ) < (Scenario.drone (5102 : ℝ) 6 (-48) true 0).m_acceleration_manoeuver := by
    show (0 : ℝ) < 25
    norm_num
  have hav : isAvoid (Scenario.drone (5102 : ℝ) 6 (-48) true 0)
      (Scenario.asteroid (5000 : ℝ) 0 false).toEntity
      (Scenario.drone (5102 : ℝ) 6 (-48) true 0).m_acceleration_manoeuver = .ok true := by
    rw [isAvoid_eq _ _ _ ha]
    simp only [Scenario.drone, Scenario.asteroid, Scenario.body, Entity.getPosition,
      Entity.getVelocity, Entity.getRadius, Vector3.getDistance, Vector3.mk_sub_mk, sub_zero,
      Vector3.getNorm_axis]
    norm_num
  have hm : (0 : ℝ) <
      (Scenario.drone (5102 : ℝ) 6 (-48) true 0).m_acceleration_manoeuver * 1 := by
    show (0 : ℝ) < 25 * 1
    norm_num
  simp only [Spaceship.calculateDesiredVelocity, hast, calculateDesiredVelocity_avoid, hav,
    ok_bind, if_true, avoid_eq _ _ _ _ ha hm hav, pure, Except.pure]
  congr 1
  show (⟨6, 0, 0⟩ : Vector3 ℝ) +
    ((⟨5102, 0, 0⟩ : Vector3 ℝ) - ⟨5000, 0, 0⟩).getCopyWithNormSafe (25 * 1) = ⟨31, 0, 0⟩
  rw [Vector3.mk_sub_mk]
  norm_num
  rw [Vector3.getCopyWithNormSafe_axis_pos 102 25 (by norm_num)]
  norm_num

/-- Drone 0 of the second scenario fires its manoeuvring engines at a fifth of their
strength: its velocity goes from 6 to 11. -/
theorem haul_drone0_fly :
    Spaceship.flyToMatchVelocity Scenario.env (Scenario.drone (5102 : ℝ) 6 (-48) true 0) 1
      ⟨31, 0, 0⟩ = .ok (Scenario.drone 5102 11 (-48) true 0) := by
  have hrel : (⟨31, 0, 0⟩ : Vector3 ℝ)
      - (Scenario.drone (5102 : ℝ) 6 (-48) true 0).getVelocity = ⟨25, 0, 0⟩ := by
    show (⟨31, 0, 0⟩ : Vector3 ℝ) - ⟨6, 0, 0⟩ = ⟨25, 0, 0⟩
    rw [Vector3.mk_sub_mk]
    norm_num
  have hz : (⟨25, 0, 0⟩ : Vector3 ℝ).isZero = false := by simp
  have hlt : (⟨25, 0, 0⟩ : Vector3 ℝ).isNormLessThan MAIN_ENGINE_MIN_CHANGE = true := by
    rw [Vector3.isNormLessThan_axis]
    simp only [MAIN_ENGINE_MIN_CHANGE, decide_eq_true_eq]
    norm_num
  have hunit : (⟨1, 0, 0⟩ : Vector3 ℝ).isUnit = true := by
    simp [Vector3.isUnit, Vector3.getNormSquared]
  have hacc : (Scenario.drone (5102 : ℝ) 6 (-48) true 0).m_acceleration_manoeuver = 25 :=
    rfl
  have hinit : (Scenario.drone (5102 : ℝ) 6 (-48) true 0).isInitialized = true := rfl
  have hfrac : (⟨25, 0, 0⟩ : Vector3 ℝ).getNorm * (1 / 5) / (25 * 1) = 1 / 5 := by
    rw [Vector3.getNorm_axis]
    norm_num
  have hinv : ∀ w : Vector3 ℝ, Spaceship.invariant
      ({ Scenario.drone (5102 : ℝ) 6 (-48) true 0 with m_velocity := w } : Spaceship ℝ)
        = true := by
    intro w
    apply (invariant_iff _).mpr
    refine ⟨?_, ?_, ?_⟩
    · show (0 : ℝ) < 250
      norm_num
    · show (0 : ℝ) < 25
      norm_num
    · show (0 : ℝ) < 1
      norm_num
  simp only [Spaceship.flyToMatchVelocity, cassert, gt_iff_lt, zero_lt_one, if_true, ok_bind,
    hrel, hz, Bool.false_eq_true, if_false, hlt, hacc, hfrac,
    Vector3.getNormalized_axis_pos 25 (by norm_num), Spaceship.thrustManoeuver, hinit,
    ge_iff_le, zero_le_one, hunit, hinv, pure, Except.pure]
  norm_num
  simp only [Scenario.drone, Scenario.body, Vector3.mk_mul, Vector3.mk_add_mk]
  norm_num
  simp [Spaceship.invariant, ok_bind]

/-- A drone on station in the second scenario is outside the avoidance radius 108 of an
asteroid at 5000 or at 5460. -/
theorem haul_isAvoid_station (c : ℝ) (crystals : Bool) (hc : c = 5000 ∨ c = 5460) :
    isAvoid (Scenario.drone (6105 : ℝ) 20 955 true NO_CRYSTAL)
      (Scenario.asteroid c 0 crystals).toEntity 25 = .ok false := by
  rw [isAvoid_eq _ _ _ (by norm_num)]
  simp only [Scenario.drone, Scenario.asteroid, Scenario.body, Entity.getPosition,
    Entity.getVelocity, Entity.getRadius, Vector3.getDistance, Vector3.mk_sub_mk, sub_zero,
    Vector3.getNorm_axis]
  rcases hc with rfl | rfl <;> norm_num

/-- A drone of the second scenario that holds station 955 ahead of the player, away from
both asteroids and with no crystal to chase, is told to keep its velocity. -/
theorem haul_station_desired (g : Game ℝ)
    (hast : g.mv_asteroids = [Scenario.asteroid 5000 0 false, Scenario.asteroid 5460 0 true])
    (hplayer : g.m_player = Scenario.player 5150 20) :
    Spaceship.calculateDesiredVelocity Scenario.env
      (Scenario.drone 6105 20 955 true NO_CRYSTAL) 1 g = .ok ⟨20, 0, 0⟩ := by
  have hacc : (Scenario.drone (6105 : ℝ) 20 955 true NO_CRYSTAL).m_acceleration_manoeuver
      = 25 := rfl
  have hidx : (Scenario.drone (6105 : ℝ) 20 955 true NO_CRYSTAL).m_crystal_chased_index
      = NO_CRYSTAL := rfl
  have hesc : escort Scenario.env (Scenario.drone (6105 : ℝ) 20 955 true NO_CRYSTAL)
      (Scenario.player (5150 : ℝ) 20).toEntity
      (Scenario.drone (6105 : ℝ) 20 955 true NO_CRYSTAL).m_escort_offset 25
        = .ok ⟨20, 0, 0⟩ := by
    rw [escort_at_station _ _ _ _ 25 (by norm_num)]
    · rfl
    · show (⟨6105, 0, 0⟩ : Vector3 ℝ) = ⟨5150, 0, 0⟩ +
        ((⟨1, 0, 0⟩ : Vector3 ℝ) * 955 + (⟨0, 1, 0⟩ : Vector3 ℝ) * 0 +
          (⟨0, 0, 1⟩ : Vector3 ℝ) * 0)
      simp only [Vector3.mk_mul, Vector3.mk_add_mk]
      norm_num
  simp only [Spaceship.calculateDesiredVelocity, hast, calculateDesiredVelocity_avoid, hacc,
    haul_isAvoid_station 5000 false (Or.inl rfl), haul_isAvoid_station 5460 true (Or.inr rfl),
    ok_bind, Bool.false_eq_true, if_false, hidx, no_crystal_not_lt,
    Game.getPlayer, hplayer, hesc, pure, Except.pure]

/-- The AI step of a station-keeping drone of the second scenario changes nothing. -/
theorem haul_station_tick (g : Game ℝ) (d : Nat)
    (hself : g.mv_drones[d]? = some (Scenario.drone 6105 20 955 true NO_CRYSTAL))
    (hast : g.mv_asteroids = [Scenario.asteroid 5000 0 false, Scenario.asteroid 5460 0 true])
    (hplayer : g.m_player = Scenario.player 5150 20)
    (hcr : g.mv_crystals = List.replicate 10 (Scenario.crystal 5100 10)) :
    Spaceship.updateAI Scenario.env 1 g d = .ok g := by
  have hsame : ({ Scenario.drone (6105 : ℝ) 20 955 true NO_CRYSTAL with
      m_crystal_chased_index := NO_CRYSTAL } : Spaceship ℝ)
        = Scenario.drone 6105 20 955 true NO_CRYSTAL := rfl
  have hrun : updateCrystalChased g d = .ok (g.setDrone d
      { Scenario.drone (6105 : ℝ) 20 955 true NO_CRYSTAL with
        m_crystal_chased_index := NO_CRYSTAL }) := by
    rw [hsame, setDrone_self g d _ hself]
    exact scenario_takes_none g d _ 5100 10 6105 hself rfl rfl hcr (by norm_num)
  have hinv : (Scenario.drone (6105 : ℝ) 20 955 true NO_CRYSTAL).invariant = true := by
    simp [Scenario.drone, Spaceship.invariant]
  have h := spaceship_updateAI_eq Scenario.env 1 g d _
    (Scenario.drone (6105 : ℝ) 20 955 true NO_CRYSTAL) NO_CRYSTAL ⟨20, 0, 0⟩ hself
    zero_lt_one hrun
    (by rw [hsame]; exact haul_station_desired _ hast hplayer)
    (by rw [hsame]; exact flyToMatchVelocity_same Scenario.env _ 1 zero_lt_one hinv)
  rw [h, setDrone_self g d _ hself]

/-- The AI tick of `update (1)` in the second scenario. -/
theorem haul_updateAI :
    Game.updateAI Scenario.env 1 (Scenario.haulKnocked : Game ℝ) = .ok Scenario.haulAfterAI := by
  have h0 : Spaceship.updateAI Scenario.env 1 (Scenario.haulKnocked : Game ℝ) 0
      = .ok Scenario.haulAfterAI := by
    have hrun := scenario_takes_zero (Scenario.haulKnocked : Game ℝ) 0
      (Scenario.drone 5102 6 (-48) true NO_CRYSTAL) 5100 10 5102 rfl rfl rfl rfl
      (by
        intro drone hmem
        simp only [Scenario.haulKnocked, Scenario.haulStart, List.mem_cons, List.mem_singleton,
          List.not_mem_nil, or_false] at hmem
        rcases hmem with rfl | rfl | rfl | rfl | rfl <;>
          simp [Scenario.drone, Spaceship.getCrystalChased, NO_CRYSTAL, UINT_MAX])
      (by norm_num [abs_lt])
    have h := spaceship_updateAI_eq Scenario.env 1 (Scenario.haulKnocked : Game ℝ) 0 _
      (Scenario.drone 5102 11 (-48) true 0) 0 ⟨31, 0, 0⟩ rfl zero_lt_one hrun
      (haul_drone0_desired _ rfl) haul_drone0_fly
    rw [h]
    rfl
  have hk : ∀ d : Nat, (Scenario.haulAfterAI : Game ℝ).mv_drones[d]?
      = some (Scenario.drone 6105 20 955 true NO_CRYSTAL) →
      (do
        let drone ← (Scenario.haulAfterAI : Game ℝ).getDrone d
        if drone.isAlive then Spaceship.updateAI Scenario.env 1 Scenario.haulAfterAI d
        else pure Scenario.haulAfterAI) = .ok (Scenario.haulAfterAI : Game ℝ) :=
    fun d hd => updateAI_step_alive _ _ _ _ d _ hd rfl
      (haul_station_tick _ d hd rfl rfl rfl)
  show List.foldlM _ _ (List.range 5) = _
  rw [range_five]
  simp only [List.foldlM_cons, List.foldlM_nil]
  rw [updateAI_step_alive Scenario.env 1 (Scenario.haulKnocked : Game ℝ) Scenario.haulAfterAI 0
    (Scenario.drone 5102 6 (-48) true NO_CRYSTAL) rfl rfl h0, ok_bind, hk 1 rfl, ok_bind,
    hk 2 rfl, ok_bind, hk 3 rfl, ok_bind, hk 4 rfl, ok_bind]
  rfl

end HaulAI

section HaulPhysics

open SteeringBehaviours Spaceship

/-- The physics step of `update (1)` in the second scenario. -/
theorem haul_updatePhysics :
    Game.updatePhysics Scenario.env 1 (Scenario.haulAfterAI : Game ℝ)
      = Scenario.haulAfterPhysics := by
  have ha : (Scenario.env : Externals ℝ).asteroidUpdatePhysics 1 Scenario.blackHole
      (Scenario.asteroid 5000 0 false)
        = Scenario.asteroid (124996663 / 25000) (-3337 / 25000) false := by
    rw [scenario_asteroid_physics 5000 0 false (by norm_num)]
    norm_num
  have ha2 : (Scenario.env : Externals ℝ).asteroidUpdatePhysics 1 Scenario.blackHole
      (Scenario.asteroid 5460 0 true)
        = Scenario.asteroid (813839995 / 149058) (-16685 / 149058) true := by
    rw [scenario_asteroid_physics 5460 0 true (by norm_num)]
    norm_num
  have hc : Game.crystalUpdatePhysics Scenario.env 1 Scenario.blackHole
      (Scenario.crystal (5100 : ℝ) 10)
        = Scenario.crystal (132907763 / 26010) (256763 / 26010) := by
    rw [scenario_crystal_physics 5100 10 (by norm_num)]
    norm_num
  have hp : Game.spaceshipUpdatePhysics Scenario.env 1 Scenario.blackHole
      (Scenario.player (5150 : ℝ) 20)
        = Scenario.player (274235976 / 53045) (1054226 / 53045) := by
    rw [scenario_player_physics 5150 20 (by norm_num)]
    norm_num
  have hd0 : Game.spaceshipUpdatePhysics Scenario.env 1 Scenario.blackHole
      (Scenario.drone (5102 : ℝ) 11 (-48) true 0)
        = Scenario.drone (33272529663 / 6507601) (70749361 / 6507601) (-48) true 0 := by
    rw [scenario_drone_physics 5102 11 (-48) true 0 (by norm_num)]
    norm_num
  have hd1 : Game.spaceshipUpdatePhysics Scenario.env 1 Scenario.blackHole
      (Scenario.drone (6105 : ℝ) 20 955 true NO_CRYSTAL)
        = Scenario.drone (9131267645 / 1490841) (29683340 / 1490841) 955 true NO_CRYSTAL := by
    rw [scenario_drone_physics 6105 20 955 true NO_CRYSTAL (by norm_num)]
    norm_num
  have hgone : (Scenario.crystal (5100 : ℝ) 10).isGone = false := rfl
  have hal0 : (Scenario.drone (5102 : ℝ) 11 (-48) true 0).isAlive = true := rfl
  have hal1 : (Scenario.drone (6105 : ℝ) 20 955 true NO_CRYSTAL).isAlive = true := rfl
  have halp : (Scenario.player (5150 : ℝ) 20).isAlive = true := rfl
  simp only [Game.updatePhysics, Scenario.haulAfterAI, Scenario.haulKnocked, Scenario.haulStart,
    List.map_cons, List.map_nil, List.map_replicate, ha, ha2, hc, hp, hd0, hd1, hgone, hal0,
    hal1, halp, Bool.not_false, if_true, Scenario.haulAfterPhysics]

end HaulPhysics

section HaulCollisions

open SteeringBehaviours Spaceship

/-- The first loop of `handleCollisions` in the second scenario: drone 0 is 3.0001 from the
ten crystals and claims every one of them; the player is 60 from them. -/
theorem haul_crystals :
    Game.handleCollisions_crystals Scenario.env (Scenario.haulAfterPhysics : Game ℝ)
      = Scenario.haulAfterUpdate := by
  have hp : (Scenario.env : Externals ℝ).isCollisionSpaceshipCrystal
      (Scenario.haulAfterPhysics : Game ℝ).m_player
      (Scenario.crystal (132907763 / 26010) (256763 / 26010)) = false := by
    show (Scenario.env : Externals ℝ).isCollisionSpaceshipCrystal
      (Scenario.player (274235976 / 53045) (1054226 / 53045))
      (Scenario.crystal (132907763 / 26010) (256763 / 26010)) = false
    rw [scenario_player_overlap]
    norm_num [abs_lt]
  have hd : (Scenario.haulAfterPhysics : Game ℝ).mv_drones.any
      (fun drone => (Scenario.env : Externals ℝ).isCollisionSpaceshipCrystal drone
        (Scenario.crystal (132907763 / 26010) (256763 / 26010))) = true := by
    simp only [Scenario.haulAfterPhysics, List.any_cons, List.any_nil, scenario_drone_overlap]
    norm_num [abs_lt]
  have hone : Game.handleCollisions_crystal Scenario.env
      (Scenario.haulAfterPhysics : Game ℝ).m_player
      (Scenario.haulAfterPhysics : Game ℝ).mv_drones
      (Scenario.crystal (132907763 / 26010) (256763 / 26010))
        = (Scenario.goneCrystal (132907763 / 26010) (256763 / 26010), true) := by
    have hgone : (Scenario.crystal (132907763 / 26010 : ℝ) (256763 / 26010)).isGone = false :=
      rfl
    simp only [Game.handleCollisions_crystal, hgone, Bool.not_false, if_true, hp,
      Bool.false_eq_true, if_false, hd]
    rfl
  simp only [Game.handleCollisions_crystals]
  have hmap : (Scenario.haulAfterPhysics : Game ℝ).mv_crystals.map
      (Game.handleCollisions_crystal Scenario.env (Scenario.haulAfterPhysics : Game ℝ).m_player
        (Scenario.haulAfterPhysics : Game ℝ).mv_drones)
      = List.replicate 10
          (Scenario.goneCrystal (132907763 / 26010) (256763 / 26010), true) := by
    show (List.replicate 10 (Scenario.crystal (132907763 / 26010 : ℝ) (256763 / 26010))).map _
      = _
    rw [List.map_replicate, hone]
  rw [hmap]
  simp [Scenario.haulAfterUpdate, Scenario.haulAfterPhysics, List.replicate, UINT_RANGE]

end HaulCollisions

section HaulAsteroids

open SteeringBehaviours Spaceship

/-- No ship of the second scenario overlaps an asteroid after the physics step. -/
theorem haul_ships (c w : ℝ) (crystals : Bool)
    (hc : c = 124996663 / 25000 ∨ c = 813839995 / 149058) :
    Game.handleCollisions_ship Scenario.env (Scenario.asteroid c w crystals)
        (Scenario.haulAfterUpdate : Game ℝ).m_player
      = .ok (Scenario.haulAfterUpdate : Game ℝ).m_player ∧
    (Scenario.haulAfterUpdate : Game ℝ).mv_drones.mapM
        (Game.handleCollisions_ship Scenario.env (Scenario.asteroid c w crystals))
      = .ok (Scenario.haulAfterUpdate : Game ℝ).mv_drones := by
  refine ⟨?_, ?_⟩
  · apply handleCollisions_ship_miss
    show (Scenario.env : Externals ℝ).isCollisionSpaceshipAsteroid
      (Scenario.player (274235976 / 53045) (1054226 / 53045)) _ = false
    rw [scenario_ship_asteroid _ (274235976 / 53045) (1054226 / 53045) 1000 _ _ _ rfl]
    show decide (|(274235976 / 53045 : ℝ) - c| < 4 + 100) = false
    rcases hc with rfl | rfl <;> norm_num [abs_lt]
  · apply mapM_fixed
    intro drone hmem
    simp only [Scenario.haulAfterUpdate, Scenario.haulAfterPhysics, List.mem_cons,
      List.mem_singleton, List.not_mem_nil, or_false, or_self] at hmem
    rcases hmem with h | h
    · rw [h]
      apply handleCollisions_ship_miss
      rw [scenario_ship_asteroid _ (33272529663 / 6507601) (70749361 / 6507601) 100 _ _ _ rfl]
      show decide (|(33272529663 / 6507601 : ℝ) - c| < 2 + 100) = false
      rcases hc with rfl | rfl <;> norm_num [abs_lt]
    · rw [h]
      apply handleCollisions_ship_miss
      rw [scenario_ship_asteroid _ (9131267645 / 1490841) (29683340 / 1490841) 100 _ _ _ rfl]
      show decide (|(9131267645 / 1490841 : ℝ) - c| < 2 + 100) = false
      rcases hc with rfl | rfl <;> norm_num [abs_lt]

/-- The crystal-asteroid checks of the second scenario skip the ten gone crystals. -/
theorem haul_crystalAsteroid (a : Nat) (l : List Nat) :
    l.foldl (Game.handleCollisions_crystalAsteroid Scenario.env a)
      (Scenario.haulAfterUpdate : Game ℝ) = Scenario.haulAfterUpdate := by
  refine foldl_invariant (fun g => g = (Scenario.haulAfterUpdate : Game ℝ)) _ ?_ l _ rfl
  intro g c hg
  rw [hg]
  unfold Game.handleCollisions_crystalAsteroid
  by_cases hc : c < 10
  · have h1 : (Scenario.haulAfterUpdate : Game ℝ).mv_crystals[c]?
        = some (Scenario.goneCrystal (132907763 / 26010) (256763 / 26010)) := by
      show (List.replicate 10 _)[c]? = _
      rw [List.getElem?_replicate]
      simp [hc]
    have hgone : (Scenario.goneCrystal (132907763 / 26010 : ℝ) (256763 / 26010)).isGone
        = true := rfl
    cases hast : (Scenario.haulAfterUpdate : Game ℝ).mv_asteroids[a]? with
    | none => simp only [h1]
    | some asteroid => simp only [h1, hgone, Bool.not_true, Bool.false_eq_true, if_false]
  · have h1 : (Scenario.haulAfterUpdate : Game ℝ).mv_crystals[c]? = none := by
      apply List.getElem?_eq_none
      simp only [Scenario.haulAfterUpdate, List.length_replicate]
      exact not_lt.mp hc
    simp only [h1]

/-- The round of the second loop for asteroid 0 in the second scenario: the two asteroids
are 460 apart and nothing touches asteroid 0. -/
theorem haul_round0 :
    Game.handleCollisions_asteroid Scenario.env (Scenario.haulAfterUpdate : Game ℝ) 0
      = .ok Scenario.haulAfterUpdate := by
  have hpairs : List.range' (0 + 1)
      ((Scenario.haulAfterUpdate : Game ℝ).mv_asteroids.length - (0 + 1)) = [1] := rfl
  have hmiss : (Scenario.env : Externals ℝ).isCollisionAsteroidAsteroid
      (Scenario.asteroid (124996663 / 25000 : ℝ) (-3337 / 25000) false)
      (Scenario.asteroid (813839995 / 149058 : ℝ) (-16685 / 149058) true) = false := by
    show Model.isCollision (Scenario.body (124996663 / 25000 : ℝ) (-3337 / 25000) 1000000 100)
      100 (Scenario.body (813839995 / 149058 : ℝ) (-16685 / 149058) 1000000 100) 100 = false
    rw [isCollision_axis]
    norm_num [abs_lt]
  have hpair : Game.handleCollisions_asteroidPair Scenario.env 0
      (Scenario.haulAfterUpdate : Game ℝ) 1 = Scenario.haulAfterUpdate := by
    have h0 : (Scenario.haulAfterUpdate : Game ℝ).mv_asteroids[0]?
        = some (Scenario.asteroid (124996663 / 25000 : ℝ) (-3337 / 25000) false) := rfl
    have h1 : (Scenario.haulAfterUpdate : Game ℝ).mv_asteroids[1]?
        = some (Scenario.asteroid (813839995 / 149058 : ℝ) (-16685 / 149058) true) := rfl
    simp only [Game.handleCollisions_asteroidPair, h0, h1, hmiss, Bool.false_eq_true, if_false]
  have hast : (Scenario.haulAfterUpdate : Game ℝ).mv_asteroids[0]?
      = some (Scenario.asteroid (124996663 / 25000 : ℝ) (-3337 / 25000) false) := rfl
  obtain ⟨hp, hd⟩ := haul_ships (124996663 / 25000) (-3337 / 25000) false (Or.inl rfl)
  simp only [Game.handleCollisions_asteroid, hpairs, List.foldl_cons, List.foldl_nil, hpair,
    haul_crystalAsteroid, hast, hp, hd, ok_bind]
  rfl

/-- The round of the second loop for asteroid 1 in the second scenario: nothing touches
asteroid 1. -/
theorem haul_round1 :
    Game.handleCollisions_asteroid Scenario.env (Scenario.haulAfterUpdate : Game ℝ) 1
      = .ok Scenario.haulAfterUpdate := by
  have hpairs : List.range' (1 + 1)
      ((Scenario.haulAfterUpdate : Game ℝ).mv_asteroids.length - (1 + 1)) = [] := rfl
  have hast : (Scenario.haulAfterUpdate : Game ℝ).mv_asteroids[1]?
      = some (Scenario.asteroid (813839995 / 149058 : ℝ) (-16685 / 149058) true) := rfl
  obtain ⟨hp, hd⟩ := haul_ships (813839995 / 149058) (-16685 / 149058) true (Or.inr rfl)
  simp only [Game.handleCollisions_asteroid, hpairs, List.foldl_nil, haul_crystalAsteroid,
    hast, hp, hd, ok_bind]
  rfl

/-- The collision handling of `update (1)` in the second scenario. -/
theorem haul_handleCollisions :
    Game.handleCollisions Scenario.env (Scenario.haulAfterPhysics : Game ℝ)
      = .ok Scenario.haulAfterUpdate := by
  simp only [Game.handleCollisions, haul_crystals]
  show List.foldlM _ _ (List.range 2) = _
  rw [range_two, List.foldlM_cons, haul_round0, ok_bind, List.foldlM_cons, haul_round1]
  rfl

/-- The call `update (1)` of the second scenario. -/
theorem haul_update :
    Game.update Scenario.env 1 (Scenario.haulKnocked : Game ℝ) = .ok Scenario.haulAfterUpdate := by
  simp only [Game.update, haul_updateAI, ok_bind, haul_updatePhysics, haul_handleCollisions]

/-- The state of the second scenario after `update (1)` is reachable. -/
theorem haul_reachable : Game.Reachable Scenario.env (Scenario.haulAfterUpdate : Game ℝ) :=
  Game.Reachable.update _ _ 1
    (Game.Reachable.knockOffCrystals _ _ Scenario.rand
      (Game.Reachable.init _ haul_start_isInitial) scenario_rand_isUnit haul_knockOff)
    zero_lt_one haul_update

end HaulAsteroids

section HaulReuse

open SteeringBehaviours Spaceship

/-- With `k` drifting crystals followed by gone crystals in the collection, `addCrystal`
overwrites slot `k`. -/
theorem addCrystal_overwrite {R : Type} [LinearOrderedField R] [HasSqrt R] (X : Externals R)
    (u p v : Vector3 R) (g : Game R) (k m : Nat) (fresh spent : Crystal R)
    (hcr : g.mv_crystals = List.replicate k fresh ++ List.replicate (m + 1) spent)
    (hfresh : fresh.isGone = false) (hspent : spent.isGone = true)
    (hk : k ≠ Game.EXPAND_VECTOR) :
    Game.addCrystal X u p v g = { g with
      mv_crystals := List.replicate k fresh
        ++ Game.createdCrystal X u p v :: List.replicate m spent } := by
  have hfind : g.mv_crystals.findIdx? (fun crystal => crystal.isGone) = some k := by
    rw [findIdx?_gone_iff]
    refine ⟨spent, ?_, hspent, ?_⟩
    · rw [hcr, List.getElem?_append_right (by simp)]
      simp [List.replicate_succ]
    · intro j other hj hother
      rw [hcr, List.getElem?_append_left (by simpa using hj), List.getElem?_replicate] at hother
      simp only [hj, if_true, Option.some.injEq] at hother
      rw [← hother]
      exact hfresh
  rw [(addCrystal_result X u p v g).1 k hfind hk, hcr]
  congr 1
  rw [List.set_append_right _ _ (by simp)]
  simp [List.replicate_succ]

/-- A run of `addCrystal` calls with the same draw fills as many gone slots, in order. -/
theorem addCrystal_fold_overwrite {R : Type} [LinearOrderedField R] [HasSqrt R]
    (X : Externals R) (f : Nat → Vector3 R) (u p v : Vector3 R) (hf : ∀ c, f c = u)
    (spent : Crystal R) (hspent : spent.isGone = true) (l : List Nat) :
    ∀ (k : Nat) (g : Game R),
      g.mv_crystals = List.replicate k (Game.createdCrystal X u p v)
        ++ List.replicate l.length spent →
      k + l.length ≤ Game.EXPAND_VECTOR →
      l.foldl (fun (g : Game R) (c : Nat) => Game.addCrystal X (f c) p v g) g
        = { g with mv_crystals :=
            List.replicate (k + l.length) (Game.createdCrystal X u p v) } := by
  induction l with
  | nil =>
    intro k g hcr _
    simp only [List.length_nil, List.replicate_zero, List.append_nil] at hcr
    simp only [List.foldl_nil, List.length_nil, add_zero, ← hcr]
  | cons c l ih =>
    intro k g hcr hroom
    simp only [List.length_cons] at hcr hroom
    have hk : k ≠ Game.EXPAND_VECTOR := by omega
    rw [List.foldl_cons, hf c, addCrystal_overwrite X u p v g k l.length _ spent hcr rfl hspent hk,
      ih (k + 1) _
        (by
          show List.replicate k (Game.createdCrystal X u p v)
            ++ Game.createdCrystal X u p v :: List.replicate l.length spent = _
          rw [List.replicate_succ', List.append_assoc]
          rfl)
        (by omega)]
    simp only [List.length_cons]
    congr 2
    omega

/-- Round 1 of the second `knockOffCrystals`: asteroid 1 is now 290 from the player and
sheds ten crystals, which go into the gone slots 0 to 9. -/
theorem haul_reuse_round1 :
    Game.knockOffCrystals_asteroid Scenario.env Scenario.rand
      (Scenario.haulAfterUpdate : Game ℝ) 1 = .ok Scenario.haulReseeded := by
  have h1 : (Scenario.haulAfterUpdate : Game ℝ).mv_asteroids[1]?
      = some (Scenario.asteroid (813839995 / 149058 : ℝ) (-16685 / 149058) true) := rfl
  have hcr : (Scenario.asteroid (813839995 / 149058 : ℝ) (-16685 / 149058) true).isCrystals
      = true := rfl
  have hsub : (Scenario.haulAfterUpdate : Game ℝ).m_player.getPosition
      - (Scenario.asteroid (813839995 / 149058 : ℝ) (-16685 / 149058) true).getPosition
        = ⟨274235976 / 53045 - 813839995 / 149058, 0, 0⟩ := by
    show (⟨274235976 / 53045 - 813839995 / 149058, 0 - 0, 0 - 0⟩ : Vector3 ℝ) = _
    simp
  have hneg : (274235976 / 53045 - 813839995 / 149058 : ℝ) < 0 := by norm_num
  have hrad : ∀ v : Vector3 ℝ, (Scenario.env : Externals ℝ).getRadiusForDirection
      (Scenario.asteroid (813839995 / 149058) (-16685 / 149058) true) v = 100 := fun _ => rfl
  have hlt : (⟨274235976 / 53045 - 813839995 / 149058, 0, 0⟩ : Vector3 ℝ).isNormLessThan
      (100 + Game.CRYSTAL_KNOCK_OFF_RANGE) = true := by
    rw [Vector3.isNormLessThan_axis]
    simp only [Game.CRYSTAL_KNOCK_OFF_RANGE, decide_eq_true_eq]
    norm_num [abs_lt]
  have hspent : (Scenario.goneCrystal (132907763 / 26010 : ℝ) (256763 / 26010)).isGone
      = true := rfl
  have hfold := addCrystal_fold_overwrite (Scenario.env : Externals ℝ) (Scenario.rand 1)
    ⟨1, 0, 0⟩
    ((Scenario.asteroid (813839995 / 149058 : ℝ) (-16685 / 149058) true).getPosition
      + ⟨-100, 0, 0⟩)
    (Scenario.asteroid (813839995 / 149058 : ℝ) (-16685 / 149058) true).getVelocity
    (fun _ => rfl) _ hspent (List.range 10) 0 (Scenario.haulAfterUpdate : Game ℝ)
    (by
      simp only [List.replicate_zero, List.nil_append, List.length_range]
      rfl)
    (by
      simp only [List.length_range, Game.EXPAND_VECTOR, UINT_MAX]
      norm_num)
  simp only [Game.knockOffCrystals_asteroid, h1, hcr, if_true, hsub,
    Vector3.getNormalized_axis_neg _ hneg, ok_bind, hrad, hlt,
    Vector3.getCopyWithNorm_axis_neg _ 100 hneg, Game.CRYSTAL_KNOCK_OFF_COUNT, hfold, pure,
    Except.pure]
  congr 1
  simp [Scenario.haulReseeded, Scenario.haulAfterUpdate, Scenario.haulAfterPhysics,
    Scenario.asteroid, Scenario.crystal, Scenario.body, Asteroid.removeCrystals, Scenario.env,
    Model.externals, Game.createdCrystal, Game.CRYSTAL_KNOCK_OFF_SPEED, Entity.getPosition,
    Entity.getVelocity]
  norm_num

/-- The second `knockOffCrystals` of the second scenario. -/
theorem haul_reuse :
    Game.knockOffCrystals Scenario.env Scenario.rand (Scenario.haulAfterUpdate : Game ℝ)
      = .ok Scenario.haulReseeded := by
  show List.foldlM _ _ (List.range 2) = _
  rw [range_two, List.foldlM_cons,
    knockOffCrystals_asteroid_empty Scenario.env Scenario.rand
      (Scenario.haulAfterUpdate : Game ℝ) 0
      (Scenario.asteroid (124996663 / 25000 : ℝ) (-3337 / 25000) false) rfl rfl,
    ok_bind, List.foldlM_cons, haul_reuse_round1]
  rfl

end HaulReuse

/-! ### Slot reuse and the drones that chase the slot -/

section SlotReuse

variable {R : Type} [LinearOrderedField R] [HasSqrt R]

open Spaceship

/-- Whether an assignment is valid depends on the collection of crystals and on the chased
index only. -/
theorem hasValidAssignment_congr (g g' : Game R) (self self' : Spaceship R)
    (hcr : g'.mv_crystals = g.mv_crystals)
    (hidx : self'.m_crystal_chased_index = self.m_crystal_chased_index)
    (h : hasValidAssignment g self) : hasValidAssignment g' self' := by
  obtain ⟨hlt, crystal, hsome, hgone⟩ := h
  refine ⟨?_, crystal, ?_, hgone⟩
  · rw [hidx]
    show self.m_crystal_chased_index < g'.mv_crystals.length % UINT_RANGE
    rw [hcr]
    exact hlt
  · rw [hidx, hcr]
    exact hsome

/-- After the AI step of the drone `d`, that drone chases nothing or a drifting crystal. -/
theorem spaceship_updateAI_valid (X : Externals R) (dt : R) (g g' : Game R) (d : Nat)
    (h : Spaceship.updateAI X dt g d = .ok g') :
    g'.mv_crystals = g.mv_crystals ∧
    ∃ self' : Spaceship R, g' = g.setDrone d self' ∧ d < g.mv_drones.length ∧
      (self'.m_crystal_chased_index = NO_CRYSTAL ∨ hasValidAssignment g self') := by
  obtain ⟨self, self', chosen, hself, -, rfl, -, hidx, hcases⟩ := updateAI_outcome X dt g g' d h
  refine ⟨rfl, self', rfl, (List.getElem?_eq_some.mp hself).1, ?_⟩
  rcases updateCrystalChased_chosen_valid g d self chosen hcases with hno | hvalid
  · exact Or.inl (hidx.trans hno)
  · exact Or.inr (hasValidAssignment_congr _ g _ self' rfl hidx hvalid)

/-- After the first `k` rounds of `Game::updateAI`, every living drone among the first `k`
chases nothing or a drifting crystal. -/
theorem updateAI_rounds_valid (X : Externals R) (dt : R) (g : Game R) :
    ∀ (k : Nat) (g' : Game R),
      (List.range k).foldlM
        (fun (g : Game R) (d : Nat) => do
          let drone ← g.getDrone d
          if drone.isAlive then Spaceship.updateAI X dt g d else pure g) g = .ok g' →
      g'.mv_crystals = g.mv_crystals ∧
      ∀ (j : Nat) (dj : Spaceship R), j < k → g'.mv_drones[j]? = some dj →
        dj.isAlive = true →
        dj.m_crystal_chased_index = NO_CRYSTAL ∨ hasValidAssignment g dj := by
  intro k
  induction k with
  | zero =>
    intro g' h
    simp only [List.range_zero, List.foldlM_nil, pure_eq_ok] at h
    subst h
    exact ⟨rfl, fun j dj hj => absurd hj (Nat.not_lt_zero j)⟩
  | succ k ih =>
    intro g' h
    obtain ⟨g1, h1, hstep⟩ := foldlM_range_succ _ k g g' h
    obtain ⟨hcr, hvalid⟩ := ih g1 h1
    simp only [bind_eq_ok] at hstep
    obtain ⟨drone, hdrone, hstep⟩ := hstep
    have hdrone' := (getDrone_eq_ok g1 k drone).mp hdrone
    split at hstep
    · obtain ⟨hcr', self', rfl, hlt, hself'⟩ := spaceship_updateAI_valid X dt g1 g' k hstep
      refine ⟨hcr'.trans hcr, ?_⟩
      intro j dj hj hsome halive
      by_cases hjk : j = k
      · subst hjk
        have hset : (g1.setDrone j self').mv_drones[j]? = some self' :=
          setDrone_getElem? g1 j drone self' hdrone'
        rw [hset] at hsome
        cases hsome
        rcases hself' with hno | hv
        · exact Or.inl hno
        · exact Or.inr (hasValidAssignment_congr g1 g _ _ hcr.symm rfl hv)
      · have hsome' : g1.mv_drones[j]? = some dj := by
          have : (g1.mv_drones.set k self')[j]? = some dj := hsome
          rwa [List.getElem?_set_ne (Ne.symm hjk)] at this
        exact hvalid j dj (by omega) hsome' halive
    · rename_i hdead
      simp only [pure_eq_ok] at hstep
      subst hstep
      refine ⟨hcr, ?_⟩
      intro j dj hj hsome halive
      by_cases hjk : j = k
      · subst hjk
        rw [hdrone'] at hsome
        cases hsome
        exact absurd halive hdead
      · exact hvalid j dj (by omega) hsome halive

/-- After `Game::updateAI`, every living drone chases nothing or a drifting crystal. -/
theorem updateAI_living_valid (X : Externals R) (dt : R) (g g' : Game R)
    (h : Game.updateAI X dt g = .ok g') (j : Nat) (dj : Spaceship R)
    (hsome : g'.mv_drones[j]? = some dj) (halive : dj.isAlive = true) :
    g'.mv_crystals = g.mv_crystals ∧
      (dj.m_crystal_chased_index = NO_CRYSTAL ∨ hasValidAssignment g dj) := by
  obtain ⟨hcr, hvalid⟩ := updateAI_rounds_valid X dt g g.mv_drones.length g' h
  refine ⟨hcr, hvalid j dj ?_ hsome halive⟩
  have hlen : g'.mv_drones.length = g.mv_drones.length := (updateAI_shipsFade X dt g g' h).2.1
  rw [← hlen]
  exact (List.getElem?_eq_some.mp hsome).1

/-- After `Game::update`, every living drone chases nothing or a crystal that was drifting
when the update began. -/
theorem update_living_valid (X : Externals R) (dt : R) (g g' : Game R)
    (h : Game.update X dt g = .ok g') (j : Nat) (dj : Spaceship R)
    (hsome : g'.mv_drones[j]? = some dj) (halive : dj.isAlive = true) :
    dj.m_crystal_chased_index = NO_CRYSTAL ∨ hasValidAssignment g dj := by
  simp only [Game.update, bind_eq_ok] at h
  obtain ⟨g1, hai, hcol⟩ := h
  obtain ⟨a, ha, hidx, hal⟩ := dronesFade_trans _ _ _ (updatePhysics_dronesFade X dt g1)
    (handleCollisions_dronesFade X _ g' hcol) j dj hsome
  rcases (updateAI_living_valid X dt g g1 hai j a ha (hal halive)).2 with hno | hv
  · exact Or.inl (hidx.trans hno)
  · exact Or.inr (hasValidAssignment_congr g g a dj rfl hidx hv)

/-- Between two updates the drones stay as they are, and a slot that is gone was gone, with
the same crystal in it, when the last update returned. -/
theorem knocking_frame (X : Externals R) (g h : Game R) (hk : Game.Knocking X g h) :
    h.mv_drones = g.mv_drones ∧
    ∀ (i : Nat) (crystal : Crystal R), h.mv_crystals[i]? = some crystal →
      crystal.isGone = true → g.mv_crystals[i]? = some crystal := by
  induction hk with
  | start => exact ⟨rfl, fun _ _ hsome _ => hsome⟩
  | addCrystal h u p v _ ih =>
    refine ⟨(addCrystal_drones X u p v h).trans ih.1, ?_⟩
    intro i crystal hsome hgone
    rcases addCrystal_slots X u p v h i crystal hsome with hold | hnew
    · exact ih.2 i crystal hold hgone
    · rw [hnew] at hgone
      cases hgone
  | other h h' _ hdrones hcrystals ih =>
    refine ⟨hdrones.trans ih.1, ?_⟩
    intro i crystal hsome hgone
    rw [hcrystals] at hsome
    exact ih.2 i crystal hsome hgone

theorem knocking_trans (X : Externals R) (g h h' : Game R) (h1 : Game.Knocking X g h)
    (h2 : Game.Knocking X h h') : Game.Knocking X g h' := by
  induction h2 with
  | start => exact h1
  | addCrystal h0 u p v _ ih => exact Game.Knocking.addCrystal h0 u p v ih
  | other h0 h0' _ hd hc ih => exact Game.Knocking.other h0 h0' ih hd hc

/-- The states that a call of `knockOffCrystals` goes through and returns are states
between two updates. -/
theorem knockOffCrystals_knocking (X : Externals R) (rand : Nat → Nat → Vector3 R)
    (g g' : Game R) (h : Game.knockOffCrystals X rand g = .ok g') : Game.Knocking X g g' := by
  refine foldlM_invariant (fun g1 => Game.Knocking X g g1) _ ?_ _ g g' Game.Knocking.start h
  intro g1 a g2 hg1 hstep
  obtain ⟨asteroid, -, hcases⟩ := knockOffCrystals_asteroid_result X rand g1 g2 a hstep
  rcases hcases with ⟨-, rfl⟩ | ⟨-, direction, -, ⟨-, rfl⟩ | ⟨-, to_surface, -, rfl⟩⟩
  · exact hg1
  · exact hg1
  · have hfold : Game.Knocking X g ((List.range Game.CRYSTAL_KNOCK_OFF_COUNT).foldl
        (fun (g : Game R) (c : Nat) =>
          Game.addCrystal X (rand a c) (asteroid.getPosition + to_surface)
            asteroid.getVelocity g) g1) :=
      foldl_invariant (fun g2 => Game.Knocking X g g2) _
        (fun g2 c hg2 => Game.Knocking.addCrystal g2 _ _ _ hg2) _ g1 hg1
    have hdrones := addCrystal_fold_drones X (rand a) (asteroid.getPosition + to_surface)
      asteroid.getVelocity (List.range Game.CRYSTAL_KNOCK_OFF_COUNT) g1
    generalize (List.range Game.CRYSTAL_KNOCK_OFF_COUNT).foldl
      (fun (g : Game R) (c : Nat) =>
        Game.addCrystal X (rand a c) (asteroid.getPosition + to_surface)
          asteroid.getVelocity g) g1 = gfold at hfold hdrones ⊢
    exact Game.Knocking.other gfold _ hfold hdrones.symm rfl

/-- Every reachable state lies between two updates: it is reached by `addCrystal` calls from
an initial state or from the state that the last `update` returned. -/
theorem reachable_knocking (X : Externals R) (h : Game R) (hreach : Game.Reachable X h) :
    (∃ g0 : Game R, Game.isInitial g0 ∧ Game.Knocking X g0 h) ∨
    (∃ (g g1 : Game R) (dt : R), Game.Reachable X g ∧ 0 < dt ∧ Game.update X dt g = .ok g1 ∧
      Game.Knocking X g1 h) := by
  induction hreach with
  | init g hinit => exact Or.inl ⟨g, hinit, Game.Knocking.start⟩
  | update g g' dt hg hdt hstep _ =>
    exact Or.inr ⟨g, g', dt, hg, hdt, hstep, Game.Knocking.start⟩
  | knockOffCrystals g g' rand _ _ hstep ih =>
    have hk := knockOffCrystals_knocking X rand g g' hstep
    rcases ih with ⟨g0, hinit, h0⟩ | ⟨g1, g2, dt, hg1, hdt, hupd, h0⟩
    · exact Or.inl ⟨g0, hinit, knocking_trans X g0 g g' h0 hk⟩
    · exact Or.inr ⟨g1, g2, dt, hg1, hdt, hupd, knocking_trans X g2 g g' h0 hk⟩

/-- C26, amended: let `addCrystal` overwrite the gone slot `i` in a state `h` between two
updates (the first gone slot is `i`, and `i` is not `EXPAND_VECTOR`). Then `h` was not
reached from an initial state without an update. If `h` was reached after `update` took the
reachable state `g` to `g1`, then at most one living drone has the chased index `i`, and a
living drone has it only if crystal `i` was drifting when that update began and was gone
when it returned: the crystal was picked up in the `handleCollisions` of that update, after
the AI tick of the drone. -/
theorem C26_slot_reuse_retargets_only_after_pickup (X : Externals R) (h : Game R) (i : Nat)
    (hslot : h.mv_crystals.findIdx? (fun crystal => crystal.isGone) = some i)
    (hne : i ≠ Game.EXPAND_VECTOR) :
    (∀ u p v : Vector3 R, Game.addCrystal X u p v h
      = { h with mv_crystals := h.mv_crystals.set i (Game.createdCrystal X u p v) }) ∧
    (∀ g0 : Game R, Game.isInitial g0 → ¬ Game.Knocking X g0 h) ∧
    (∀ (g g1 : Game R) (dt : R), Game.Reachable X g → 0 < dt → Game.update X dt g = .ok g1 →
      Game.Knocking X g1 h →
      (∀ (j k : Nat) (dj dk : Spaceship R), h.mv_drones[j]? = some dj →
        h.mv_drones[k]? = some dk → dj.isAlive = true → dk.isAlive = true →
        dj.getCrystalChased = i → dk.getCrystalChased = i → j = k) ∧
      (∀ (j : Nat) (dj : Spaceship R), h.mv_drones[j]? = some dj → dj.isAlive = true →
        dj.getCrystalChased = i →
        (∃ crystal : Crystal R, g.mv_crystals[i]? = some crystal ∧ crystal.isGone = false) ∧
        (∃ spent : Crystal R, g1.mv_crystals[i]? = some spent ∧ spent.isGone = true))) := by
  obtain ⟨spent, hspent, hgone, -⟩ := (findIdx?_gone_iff h.mv_crystals i).mp hslot
  refine ⟨fun u p v => (addCrystal_result X u p v h).1 i hslot hne, ?_, ?_⟩
  · intro g0 hinit hk
    have hold := (knocking_frame X g0 h hk).2 i spent hspent hgone
    rw [hinit.1] at hold
    cases hold
  · intro g g1 dt hreach hdt hupdate hk
    obtain ⟨hdrones, hslots⟩ := knocking_frame X g1 h hk
    have hold := hslots i spent hspent hgone
    refine ⟨?_, ?_⟩
    · intro j k dj dk hj hk' haj hak hij hik
      by_contra hjk
      rw [hdrones] at hj hk'
      have hexcl := reachable_livingChaseExclusive X g1
        (Game.Reachable.update g g1 dt hreach hdt hupdate) j k dj dk hj hk' hjk haj hak
        (hij.trans hik.symm)
      exact hne (hij.symm.trans hexcl)
    · intro j dj hj haj hij
      rw [hdrones] at hj
      refine ⟨?_, spent, hold, hgone⟩
      rcases update_living_valid X dt g g1 hupdate j dj hj haj with hno | ⟨-, crystal, hc, hg⟩
      · exact absurd (hij.symm.trans hno) hne
      · exact ⟨crystal, hij ▸ hc, hg⟩

end SlotReuse

section SlotReuseScenario

open Spaceship

/-- C26, counterexample: the state `Scenario.haulAfterUpdate` is reachable (from
`Scenario.haulStart` by `knockOffCrystals` and `update (1)`); its first gone slot is 0, so
`addCrystal` overwrites slot 0; its drone 0 is alive and has the chased index 0. The next
`knockOffCrystals` returns `Scenario.haulReseeded`, where slot 0 holds a crystal knocked off
asteroid 1 and drone 0, alive, still has the chased index 0, which its next
`updateCrystalChased` keeps. -/
theorem C26_counterexample :
    Game.Reachable Scenario.env (Scenario.haulAfterUpdate : Game ℝ) ∧
    (Scenario.haulAfterUpdate : Game ℝ).mv_crystals.findIdx? (fun crystal => crystal.isGone)
      = some 0 ∧
    (∀ u p v : Vector3 ℝ, Game.addCrystal Scenario.env u p v (Scenario.haulAfterUpdate : Game ℝ)
      = { (Scenario.haulAfterUpdate : Game ℝ) with
          mv_crystals := (Scenario.haulAfterUpdate : Game ℝ).mv_crystals.set 0
            (Game.createdCrystal Scenario.env u p v) }) ∧
    (Scenario.haulAfterUpdate : Game ℝ).mv_drones[0]?
      = some (Scenario.drone (33272529663 / 6507601 : ℝ) (70749361 / 6507601) (-48) true 0) ∧
    (Scenario.drone (33272529663 / 6507601 : ℝ) (70749361 / 6507601) (-48) true 0).isAlive
      = true ∧
    (Scenario.drone (33272529663 / 6507601 : ℝ) (70749361 / 6507601) (-48) true
      0).getCrystalChased = 0 ∧
    Game.knockOffCrystals Scenario.env Scenario.rand (Scenario.haulAfterUpdate : Game ℝ)
      = .ok Scenario.haulReseeded ∧
    (Scenario.haulReseeded : Game ℝ).mv_crystals[0]?
      = some (Scenario.crystal (798934195 / 149058 : ℝ) (1473895 / 149058)) ∧
    (Scenario.haulReseeded : Game ℝ).mv_drones[0]?
      = some (Scenario.drone (33272529663 / 6507601 : ℝ) (70749361 / 6507601) (-48) true 0) ∧
    updateCrystalChased (Scenario.haulReseeded : Game ℝ) 0 = .ok Scenario.haulReseeded := by
  have hslot : (Scenario.haulAfterUpdate : Game ℝ).mv_crystals.findIdx?
      (fun crystal => crystal.isGone) = some 0 := rfl
  refine ⟨haul_reachable, hslot, ?_, rfl, rfl, rfl, haul_reuse, rfl, rfl, ?_⟩
  · intro u p v
    exact (addCrystal_result Scenario.env u p v _).1 0 hslot (by decide)
  · exact updateCrystalChased_valid (Scenario.haulReseeded : Game ℝ) 0
      (Scenario.drone (33272529663 / 6507601 : ℝ) (70749361 / 6507601) (-48) true 0) rfl
      ⟨by decide, Scenario.crystal (798934195 / 149058 : ℝ) (1473895 / 149058), rfl, rfl⟩

/-- C26, amended, on the second scenario: in `Scenario.haulAfterUpdate` the first gone slot
is 0 and the living drone 0 has the chased index 0; crystal 0 was drifting in
`Scenario.haulKnocked`, where the update began, and no other living drone has the index. -/
theorem C26_slot_reuse_retargets_only_after_pickup_witness :
    (Scenario.haulAfterUpdate : Game ℝ).mv_crystals.findIdx? (fun crystal => crystal.isGone)
      = some 0 ∧
    Game.Reachable Scenario.env (Scenario.haulKnocked : Game ℝ) ∧
    Game.update Scenario.env 1 (Scenario.haulKnocked : Game ℝ) = .ok Scenario.haulAfterUpdate ∧
    (∃ crystal : Crystal ℝ, (Scenario.haulKnocked : Game ℝ).mv_crystals[0]? = some crystal ∧
      crystal.isGone = false) ∧
    (∃ spent : Crystal ℝ, (Scenario.haulAfterUpdate : Game ℝ).mv_crystals[0]? = some spent ∧
      spent.isGone = true) ∧
    ∀ (k : Nat) (dk : Spaceship ℝ), (Scenario.haulAfterUpdate : Game ℝ).mv_drones[k]? = some dk →
      dk.isAlive = true → dk.getCrystalChased = 0 → 0 = k := by
  have hslot : (Scenario.haulAfterUpdate : Game ℝ).mv_crystals.findIdx?
      (fun crystal => crystal.isGone) = some 0 := rfl
  have hknocked : Game.Reachable Scenario.env (Scenario.haulKnocked : Game ℝ) :=
    Game.Reachable.knockOffCrystals _ _ Scenario.rand
      (Game.Reachable.init _ haul_start_isInitial) scenario_rand_isUnit haul_knockOff
  have hall := (C26_slot_reuse_retargets_only_after_pickup Scenario.env
    (Scenario.haulAfterUpdate : Game ℝ) 0 hslot (by decide)).2.2 Scenario.haulKnocked
    Scenario.haulAfterUpdate 1 hknocked zero_lt_one haul_update Game.Knocking.start
  have hdrone := hall.2 0
    (Scenario.drone (33272529663 / 6507601 : ℝ) (70749361 / 6507601) (-48) true 0) rfl rfl rfl
  exact ⟨hslot, hknocked, haul_update, hdrone.1, hdrone.2,
    fun k dk hk hal hidx => hall.1 0 k _ dk rfl hk rfl hal rfl hidx⟩

end SlotReuseScenario

/-! ### Dead ships and gone crystals across an update -/

section Derelict

open Spaceship

theorem derelict_dead :
    ∀ drone ∈ (Scenario.derelict : Game ℝ).mv_drones, drone.isAlive = false := by
  intro drone hmem
  simp only [Scenario.derelict, List.mem_cons, List.mem_singleton, List.not_mem_nil, or_false,
    or_self] at hmem
  rw [hmem]
  rfl

/-- The physics step of `update (1)` on `Scenario.derelict` moves the drifting crystal
only. -/
theorem derelict_updatePhysics :
    Game.updatePhysics Scenario.env 1 (Scenario.derelict : Game ℝ) = Scenario.afterDerelict := by
  have hc : Game.crystalUpdatePhysics Scenario.env 1 Scenario.blackHole
      (Scenario.crystal (20000 : ℝ) 0)
        = Scenario.crystal (7999996663 / 400000) (-3337 / 400000) := by
    rw [scenario_crystal_physics 20000 0 (by norm_num)]
    norm_num
  have hdrift : (Scenario.crystal (20000 : ℝ) 0).isGone = false := rfl
  have hgone : (Scenario.goneCrystal (5150 : ℝ) 0).isGone = true := rfl
  have hplayer : (Scenario.deadPlayer (9000 : ℝ) 0).isAlive = false := rfl
  have hdrone : (Scenario.drone (9010 : ℝ) 0 10 false NO_CRYSTAL).isAlive = false := rfl
  simp only [Game.updatePhysics, Scenario.derelict, List.map_cons, List.map_nil, hc, hdrift,
    hgone, hplayer, hdrone, Bool.not_false, Bool.not_true, Bool.false_eq_true, if_true,
    if_false, Scenario.afterDerelict]

/-- The collision handling of `update (1)` on `Scenario.derelict`: no ship is near the
drifting crystal and there is no asteroid. -/
theorem derelict_handleCollisions :
    Game.handleCollisions Scenario.env (Scenario.afterDerelict : Game ℝ)
      = .ok Scenario.afterDerelict := by
  have hp : (Scenario.env : Externals ℝ).isCollisionSpaceshipCrystal
      (Scenario.afterDerelict : Game ℝ).m_player
      (Scenario.crystal (7999996663 / 400000) (-3337 / 400000)) = false := by
    show Model.isCollision (Scenario.body (9000 : ℝ) 0 1000 4) 4
      (Scenario.body (7999996663 / 400000 : ℝ) (-3337 / 400000) 1 2) 2 = false
    rw [isCollision_axis]
    norm_num [abs_lt]
  have hd : (Scenario.afterDerelict : Game ℝ).mv_drones.any
      (fun drone => (Scenario.env : Externals ℝ).isCollisionSpaceshipCrystal drone
        (Scenario.crystal (7999996663 / 400000) (-3337 / 400000))) = false := by
    simp only [Scenario.afterDerelict, Scenario.derelict, List.any_cons, List.any_nil,
      scenario_drone_overlap]
    norm_num [abs_lt]
  have hdrift : Game.handleCollisions_crystal Scenario.env
      (Scenario.afterDerelict : Game ℝ).m_player (Scenario.afterDerelict : Game ℝ).mv_drones
      (Scenario.crystal (7999996663 / 400000) (-3337 / 400000))
        = (Scenario.crystal (7999996663 / 400000) (-3337 / 400000), false) := by
    have hg : (Scenario.crystal (7999996663 / 400000 : ℝ) (-3337 / 400000)).isGone = false :=
      rfl
    simp only [Game.handleCollisions_crystal, hg, Bool.not_false, if_true, hp,
      Bool.false_eq_true, if_false, hd]
  have hgone : Game.handleCollisions_crystal Scenario.env
      (Scenario.afterDerelict : Game ℝ).m_player (Scenario.afterDerelict : Game ℝ).mv_drones
      (Scenario.goneCrystal 5150 0) = (Scenario.goneCrystal 5150 0, false) := rfl
  have hlist : (Scenario.afterDerelict : Game ℝ).mv_crystals
      = [Scenario.goneCrystal 5150 0,
          Scenario.crystal (7999996663 / 400000) (-3337 / 400000)] := rfl
  have hcrystals : Game.handleCollisions_crystals Scenario.env
      (Scenario.afterDerelict : Game ℝ) = Scenario.afterDerelict := by
    simp only [Game.handleCollisions_crystals, hlist, List.map_cons, List.map_nil, hdrift,
      hgone, List.foldl_cons, List.foldl_nil, Bool.false_eq_true, if_false]
    rfl
  simp only [Game.handleCollisions, hcrystals]
  rfl

/-- The call `update (1)` on `Scenario.derelict`. -/
theorem derelict_update :
    Game.update Scenario.env 1 (Scenario.derelict : Game ℝ) = .ok Scenario.afterDerelict := by
  simp only [Game.update, updateAI_all_dead Scenario.env 1 _ derelict_dead, ok_bind,
    derelict_updatePhysics, derelict_handleCollisions]

/-- C13 on two updates with a positive time step. In `Scenario.derelict` the player and all
five drones are dead before `update (1)`: they are dead afterwards and the game stays over.
In the first `update (1)` of the scenario drone 0 dies: the number of drones is unchanged and
`getLivingDroneCount` does not increase. -/
theorem C13_dead_ships_stay_dead_witness :
    (Game.update Scenario.env 1 (Scenario.derelict : Game ℝ) = .ok Scenario.afterDerelict ∧
      (Scenario.derelict : Game ℝ).m_player.isAlive = false ∧
      (Scenario.afterDerelict : Game ℝ).m_player.isAlive = false ∧
      (Scenario.derelict : Game ℝ).mv_drones[0]?
        = some (Scenario.drone 9010 0 10 false NO_CRYSTAL) ∧
      (Scenario.drone (9010 : ℝ) 0 10 false NO_CRYSTAL).isAlive = false ∧
      (∃ drone' : Spaceship ℝ, (Scenario.afterDerelict : Game ℝ).mv_drones[0]? = some drone' ∧
        drone'.isAlive = false) ∧
      (Scenario.derelict : Game ℝ).isOver = true ∧
      (Scenario.afterDerelict : Game ℝ).isOver = true) ∧
    ((Scenario.afterFirstUpdate : Game ℝ).mv_drones.length
        = (Scenario.knocked : Game ℝ).mv_drones.length ∧
      (Scenario.afterFirstUpdate : Game ℝ).getLivingDroneCount
        ≤ (Scenario.knocked : Game ℝ).getLivingDroneCount) :=
  have hlost := C13_dead_ships_stay_dead Scenario.env
    ⟨fun coords _ => coords, fun coords _ => coords, fun coords _ => coords⟩
    (Scenario.derelict : Game ℝ) Scenario.afterDerelict
    (Game.Operation.update _ _ 1 (by norm_num) derelict_update)
  have hall := C13_dead_ships_stay_dead Scenario.env
    ⟨fun coords _ => coords, fun coords _ => coords, fun coords _ => coords⟩
    (Scenario.knocked : Game ℝ) Scenario.afterFirstUpdate
    (Game.Operation.update _ _ 1 (by norm_num) scenario_first_update)
  ⟨⟨derelict_update, rfl, hlost.1 rfl, rfl, rfl, hlost.2.2.1 0 _ rfl rfl, rfl,
      hlost.2.2.2.2.2 rfl⟩,
    hall.2.1, hall.2.2.2.2.1 (by decide)⟩

/-- C14 on `update (1)` from `Scenario.derelict`, where slot 0 is gone and slot 1 drifts:
slot 0 is gone afterwards, the two slots stay two, and neither the number of drifting
crystals nor `getNonGoneCrystalCount` increases. -/
theorem C14_gone_crystals_stay_gone_witness :
    (0 : ℝ) < 1 ∧
    Game.update Scenario.env 1 (Scenario.derelict : Game ℝ) = .ok Scenario.afterDerelict ∧
    (Scenario.derelict : Game ℝ).mv_crystals[0]? = some (Scenario.goneCrystal 5150 0) ∧
    (Scenario.goneCrystal (5150 : ℝ) 0).isGone = true ∧
    (∃ crystal' : Crystal ℝ, (Scenario.afterDerelict : Game ℝ).mv_crystals[0]? = some crystal' ∧
      crystal'.isGone = true) ∧
    (Scenario.afterDerelict : Game ℝ).mv_crystals.length
      = (Scenario.derelict : Game ℝ).mv_crystals.length ∧
    (Scenario.afterDerelict : Game ℝ).driftingCount ≤ (Scenario.derelict : Game ℝ).driftingCount ∧
    (Scenario.afterDerelict : Game ℝ).getNonGoneCrystalCount
      ≤ (Scenario.derelict : Game ℝ).getNonGoneCrystalCount :=
  have hall := C14_gone_crystals_stay_gone Scenario.env 1 (Scenario.derelict : Game ℝ)
    Scenario.afterDerelict derelict_update
  ⟨by norm_num, derelict_update, rfl, rfl, hall.2.1 0 _ rfl rfl, hall.1, hall.2.2.1,
    hall.2.2.2 (by decide)⟩

end Derelict

/-! ### Two living drones at the second tick -/

section SecondTickPair

open SteeringBehaviours Spaceship

/-- In the scenario a drone at `p` without a valid assignment takes crystal 1 when the
crystals are nearer than 1000, a living drone chases crystal 0 and no living drone chases
crystal 1. -/
theorem scenario_takes_one (g : Game ℝ) (d : Nat) (self : Spaceship ℝ) (x v p : ℝ)
    (hself : g.mv_drones[d]? = some self) (hpos : self.getPosition = ⟨p, 0, 0⟩)
    (hno : self.m_crystal_chased_index = NO_CRYSTAL)
    (hcr : g.mv_crystals = List.replicate 10 (Scenario.crystal x v))
    (hbusy : ∃ drone ∈ g.mv_drones, drone.isAlive = true ∧ drone.getCrystalChased = 0)
    (hfree : ∀ drone ∈ g.mv_drones, drone.isAlive = true → drone.getCrystalChased ≠ 1)
    (hnear : |x - p| < 1000) :
    updateCrystalChased g d = .ok (g.setDrone d { self with m_crystal_chased_index := 1 }) := by
  have hinvalid : ¬ hasValidAssignment g self := by
    rintro ⟨hlt, -⟩
    rw [hno] at hlt
    exact no_crystal_not_lt g hlt
  have hcount : g.getTotalCrystalCount = 10 := scenario_count g x v hcr
  have hone : isEligible g ⟨p, 0, 0⟩ 1 := by
    refine ⟨by rw [hcount]; norm_num, Scenario.crystal x v, ?_, rfl, hfree, ?_⟩
    · rw [hcr]
      exact scenario_crystal_lookup x v 1 (by norm_num)
    · show (⟨x, 0, 0⟩ : Vector3 ℝ).getDistance ⟨p, 0, 0⟩ < DETECT_CRYSTALS_DISTANCE
      rw [Vector3.getDistance_axis]
      exact hnear
  obtain ⟨closest, hres, hrun⟩ := updateCrystalChased_invalid g d self hself hinvalid
  have hiff := isEligible_cleared_iff g d self hself hinvalid self.getPosition
  rw [hpos] at hiff
  rw [hpos] at hres
  rcases hres with ⟨-, -, hnone⟩ | ⟨hlt, helig, hdist, hbest⟩
  · exact absurd ((hiff 1).mpr hone) (hnone 1 hone.1)
  · have helig' := (hiff closest.1).mp helig
    have hd1 : crystalDistance g ⟨p, 0, 0⟩ 1 = |x - p| :=
      scenario_distance g x v p hcr 1 hone.1
    have hdc : crystalDistance g ⟨p, 0, 0⟩ closest.1 = |x - p| :=
      scenario_distance g x v p hcr closest.1 helig'.1
    have hle : closest.1 ≤ 1 := by
      apply (hbest 1 hone.1 ((hiff 1).mpr hone)).2
      rw [hdist]
      exact hdc.trans hd1.symm
    have hne : closest.1 ≠ 0 := by
      intro h0
      obtain ⟨drone, hmem, halive, hchased⟩ := hbusy
      obtain ⟨-, -, -, -, hnobody, -⟩ := helig'
      exact hnobody drone hmem halive (hchased.trans h0.symm)
    have hidx : closest.1 = 1 := by omega
    rw [hrun, hidx]

/-- The AI tick of the second `update (1)` of the scenario returns. Afterwards drone 0, which
is dead, and drone 1, which is alive, both have the chased index 0, and the living drone 2
has the chased index 1: it found crystal 0 taken by the living drone 1. -/
theorem scenario_second_tick_living :
    ∃ g' : Game ℝ, Game.updateAI Scenario.env 1 (Scenario.afterFirstUpdate : Game ℝ) = .ok g' ∧
      ∃ d0 d1 d2 : Spaceship ℝ, g'.mv_drones[0]? = some d0 ∧ g'.mv_drones[1]? = some d1 ∧
        g'.mv_drones[2]? = some d2 ∧
        d0.isAlive = false ∧ d0.getCrystalChased = 0 ∧
        d1.isAlive = true ∧ d1.getCrystalChased = 0 ∧
        d2.isAlive = true ∧ d2.getCrystalChased = 1 := by
  obtain ⟨hinv, hfwd⟩ := scenario_station_invariant (9071634005 / 1490841) (-29950300 / 1490841)
  have hrun1 := scenario_takes_zero (Scenario.afterFirstUpdate : Game ℝ) 1
    (Scenario.drone (9071634005 / 1490841) (-29950300 / 1490841) 955 true NO_CRYSTAL)
    (132907763 / 26010) (256763 / 26010) (9071634005 / 1490841) rfl rfl rfl rfl
    (by
      intro drone hmem
      simp only [Scenario.afterFirstUpdate, List.mem_cons, List.mem_singleton,
        List.not_mem_nil, or_false] at hmem
      rcases hmem with rfl | rfl | rfl | rfl | rfl <;>
        simp [Scenario.drone, Spaceship.getCrystalChased, Spaceship.isAlive, NO_CRYSTAL,
          UINT_MAX])
    (by
      rw [abs_of_neg (by norm_num)]
      norm_num)
  obtain ⟨s1, h1, hal1, hidx1⟩ := spaceship_updateAI_ok_frame Scenario.env 1
    (Scenario.afterFirstUpdate : Game ℝ) 1 _ rfl zero_lt_one rfl hinv hfwd
  have hs1 : s1.m_crystal_chased_index = 0 := hidx1 0 hrun1
  have hrun2 := scenario_takes_one ((Scenario.afterFirstUpdate : Game ℝ).setDrone 1 s1) 2
    (Scenario.drone (9071634005 / 1490841) (-29950300 / 1490841) 955 true NO_CRYSTAL)
    (132907763 / 26010) (256763 / 26010) (9071634005 / 1490841) rfl rfl rfl rfl
    ⟨s1, List.mem_iff_getElem?.mpr ⟨1, rfl⟩, hal1, hs1⟩
    (by
      intro drone hmem
      have hmem' : drone ∈ [Scenario.drone (256803501 / 51005 : ℝ) (-771749 / 51005) (-100)
          false 0, s1,
          Scenario.drone (9071634005 / 1490841) (-29950300 / 1490841) 955 true NO_CRYSTAL,
          Scenario.drone (9071634005 / 1490841) (-29950300 / 1490841) 955 true NO_CRYSTAL,
          Scenario.drone (9071634005 / 1490841) (-29950300 / 1490841) 955 true NO_CRYSTAL] :=
        hmem
      simp only [List.mem_cons, List.mem_singleton, List.not_mem_nil, or_false] at hmem'
      rcases hmem' with rfl | rfl | rfl | rfl | rfl
      · intro hal
        exact absurd hal (by decide)
      · intro _
        show drone.m_crystal_chased_index ≠ 1
        rw [hs1]
        decide
      · intro _
        decide
      · intro _
        decide
      · intro _
        decide)
    (by
      rw [abs_of_neg (by norm_num)]
      norm_num)
  obtain ⟨s2, h2, hal2, hidx2⟩ := spaceship_updateAI_ok_frame Scenario.env 1
    ((Scenario.afterFirstUpdate : Game ℝ).setDrone 1 s1) 2
    (Scenario.drone (9071634005 / 1490841) (-29950300 / 1490841) 955 true NO_CRYSTAL) rfl
    zero_lt_one rfl hinv hfwd
  obtain ⟨s3, h3, -, -⟩ := spaceship_updateAI_ok_frame Scenario.env 1
    (((Scenario.afterFirstUpdate : Game ℝ).setDrone 1 s1).setDrone 2 s2) 3
    (Scenario.drone (9071634005 / 1490841) (-29950300 / 1490841) 955 true NO_CRYSTAL) rfl
    zero_lt_one rfl hinv hfwd
  obtain ⟨s4, h4, -, -⟩ := spaceship_updateAI_ok_frame Scenario.env 1
    ((((Scenario.afterFirstUpdate : Game ℝ).setDrone 1 s1).setDrone 2 s2).setDrone 3 s3) 4
    (Scenario.drone (9071634005 / 1490841) (-29950300 / 1490841) 955 true NO_CRYSTAL) rfl
    zero_lt_one rfl hinv hfwd
  refine ⟨((((Scenario.afterFirstUpdate : Game ℝ).setDrone 1 s1).setDrone 2 s2).setDrone 3
    s3).setDrone 4 s4, ?_, _, s1, s2, rfl, rfl, rfl, rfl, rfl, hal1, hs1, hal2,
    hidx2 1 hrun2⟩
  have e0 := updateAI_step_dead Scenario.env 1 (Scenario.afterFirstUpdate : Game ℝ) 0
    (Scenario.drone (256803501 / 51005) (-771749 / 51005) (-100) false 0) rfl rfl
  have e1 := updateAI_step_alive Scenario.env 1 (Scenario.afterFirstUpdate : Game ℝ) _ 1
    (Scenario.drone (9071634005 / 1490841) (-29950300 / 1490841) 955 true NO_CRYSTAL)
    rfl rfl h1
  have e2 := updateAI_step_alive Scenario.env 1
    ((Scenario.afterFirstUpdate : Game ℝ).setDrone 1 s1) _ 2
    (Scenario.drone (9071634005 / 1490841) (-29950300 / 1490841) 955 true NO_CRYSTAL)
    rfl rfl h2
  have e3 := updateAI_step_alive Scenario.env 1
    (((Scenario.afterFirstUpdate : Game ℝ).setDrone 1 s1).setDrone 2 s2) _ 3
    (Scenario.drone (9071634005 / 1490841) (-29950300 / 1490841) 955 true NO_CRYSTAL)
    rfl rfl h3
  have e4 := updateAI_step_alive Scenario.env 1
    ((((Scenario.afterFirstUpdate : Game ℝ).setDrone 1 s1).setDrone 2 s2).setDrone 3 s3) _ 4
    (Scenario.drone (9071634005 / 1490841) (-29950300 / 1490841) 955 true NO_CRYSTAL)
    rfl rfl h4
  show List.foldlM _ _ (List.range 5) = _
  rw [range_five]
  simp only [List.foldlM_cons, List.foldlM_nil]
  rw [e0, ok_bind, e1, ok_bind, e2, ok_bind, e3, ok_bind, e4, ok_bind]
  rfl

/-- Witness of C5 (amended): the AI tick of the second `update (1)` of the scenario, from a
reachable state. The living drones 1 and 2, at the same distance from all ten crystals, end
with the different indices 0 and 1, while the dead drone 0 keeps the index 0 that the living
drone 1 takes; no index other than `NO_CRYSTAL` is shared by two living drones. -/
theorem C5_living_drones_chase_distinct_crystals_witness :
    Game.Reachable Scenario.env (Scenario.afterFirstUpdate : Game ℝ) ∧
    ∃ g' : Game ℝ, Game.updateAI Scenario.env 1 (Scenario.afterFirstUpdate : Game ℝ) = .ok g' ∧
      (∃ d0 d1 d2 : Spaceship ℝ, g'.mv_drones[0]? = some d0 ∧ g'.mv_drones[1]? = some d1 ∧
        g'.mv_drones[2]? = some d2 ∧
        d0.isAlive = false ∧ d0.getCrystalChased = 0 ∧
        d1.isAlive = true ∧ d1.getCrystalChased = 0 ∧
        d2.isAlive = true ∧ d2.getCrystalChased = 1) ∧
      g'.livingChaseExclusive := by
  obtain ⟨g', hrun, hdrones⟩ := scenario_second_tick_living
  exact ⟨scenario_reachable, g', hrun, hdrones,
    C5_living_drones_chase_distinct_crystals Scenario.env _ g' 1 scenario_reachable hrun⟩

end SecondTickPair

/-! ### A third scenario: two living drones with different crystals -/

section DuoTrace

open SteeringBehaviours Spaceship

theorem duo_start_isInitial : Game.isInitial (Scenario.duoStart : Game ℝ) := by
  refine ⟨rfl, rfl, rfl, rfl, ?_, rfl, ?_⟩
  · simp [Scenario.duoStart, Scenario.player, Spaceship.invariant]
  · intro drone hmem
    simp only [Scenario.duoStart, List.mem_cons, List.mem_singleton, List.not_mem_nil,
      or_false] at hmem
    rcases hmem with rfl | rfl | rfl | rfl | rfl <;>
      simp [Scenario.drone, Spaceship.invariant]

/-- Round 0 of the first `knockOffCrystals`: asteroid 0 is 150 from the player and sheds ten
crystals. -/
theorem duo_knockOff_round0 :
    Game.knockOffCrystals_asteroid Scenario.env Scenario.rand (Scenario.duoStart : Game ℝ) 0
      = .ok { (Scenario.duoStart : Game ℝ) with
          mv_asteroids := [Scenario.asteroid 5000 0 false, Scenario.asteroid 5460 0 true]
          mv_crystals := List.replicate 10 (Scenario.crystal 5100 10) } := by
  have h0 : (Scenario.duoStart : Game ℝ).mv_asteroids[0]?
      = some (Scenario.asteroid 5000 0 true) := rfl
  have hcr : (Scenario.asteroid (5000 : ℝ) 0 true).isCrystals = true := rfl
  have hsub : (Scenario.duoStart : Game ℝ).m_player.getPosition
      - (Scenario.asteroid (5000 : ℝ) 0 true).getPosition = ⟨150, 0, 0⟩ := by
    show (⟨5150 - 5000, 0 - 0, 0 - 0⟩ : Vector3 ℝ) = ⟨150, 0, 0⟩
    norm_num
  have hrad : ∀ v : Vector3 ℝ, (Scenario.env : Externals ℝ).getRadiusForDirection
      (Scenario.asteroid 5000 0 true) v = 100 := fun _ => rfl
  have hlt : (⟨150, 0, 0⟩ : Vector3 ℝ).isNormLessThan (100 + Game.CRYSTAL_KNOCK_OFF_RANGE)
      = true := by
    rw [Vector3.isNormLessThan_axis]
    simp only [Game.CRYSTAL_KNOCK_OFF_RANGE, decide_eq_true_eq]
    norm_num
  have hall : ∀ c ∈ (Scenario.duoStart : Game ℝ).mv_crystals, c.isGone = false := by
    intro c hc
    simp [Scenario.duoStart] at hc
  simp only [Game.knockOffCrystals_asteroid, h0, hcr, if_true, hsub,
    Vector3.getNormalized_axis_pos 150 (by norm_num), ok_bind, hrad, hlt,
    Vector3.getCopyWithNorm_axis_pos 150 100 (by norm_num), Game.CRYSTAL_KNOCK_OFF_COUNT,
    addCrystal_fold_append _ _ _ _ 10 _ hall, pure, Except.pure]
  congr 1
  simp [Scenario.duoStart, Scenario.asteroid, Scenario.crystal, Scenario.body,
    Asteroid.removeCrystals, Scenario.env, Model.externals, Scenario.rand,
    Game.CRYSTAL_KNOCK_OFF_SPEED, Entity.getPosition, Entity.getVelocity, List.range_succ,
    List.replicate]
  norm_num

/-- Round 1 of the first `knockOffCrystals`: asteroid 1 is 310 from the player, out of
range. -/
theorem duo_knockOff_round1 :
    Game.knockOffCrystals_asteroid Scenario.env Scenario.rand (Scenario.duoKnocked : Game ℝ) 1
      = .ok Scenario.duoKnocked := by
  have h1 : (Scenario.duoKnocked : Game ℝ).mv_asteroids[1]?
      = some (Scenario.asteroid 5460 0 true) := rfl
  have hcr : (Scenario.asteroid (5460 : ℝ) 0 true).isCrystals = true := rfl
  have hsub : (Scenario.duoKnocked : Game ℝ).m_player.getPosition
      - (Scenario.asteroid (5460 : ℝ) 0 true).getPosition = ⟨-310, 0, 0⟩ := by
    show (⟨5150 - 5460, 0 - 0, 0 - 0⟩ : Vector3 ℝ) = ⟨-310, 0, 0⟩
    norm_num
  have hrad : ∀ v : Vector3 ℝ, (Scenario.env : Externals ℝ).getRadiusForDirection
      (Scenario.asteroid 5460 0 true) v = 100 := fun _ => rfl
  have hlt : (⟨-310, 0, 0⟩ : Vector3 ℝ).isNormLessThan (100 + Game.CRYSTAL_KNOCK_OFF_RANGE)
      = false := by
    rw [Vector3.isNormLessThan_axis]
    simp only [Game.CRYSTAL_KNOCK_OFF_RANGE, decide_eq_false_iff_not, not_lt]
    norm_num
  simp only [Game.knockOffCrystals_asteroid, h1, hcr, if_true, hsub,
    Vector3.getNormalized_axis_neg (-310) (by norm_num), ok_bind, hrad, hlt,
    Bool.false_eq_true, if_false]
  rfl

/-- The first `knockOffCrystals` of the third scenario. -/
theorem duo_knockOff :
    Game.knockOffCrystals Scenario.env Scenario.rand (Scenario.duoStart : Game ℝ)
      = .ok Scenario.duoKnocked := by
  show List.foldlM _ _ (List.range 2) = _
  rw [range_two, List.foldlM_cons, duo_knockOff_round0, ok_bind, List.foldlM_cons]
  show (Game.knockOffCrystals_asteroid Scenario.env Scenario.rand
    (Scenario.duoKnocked : Game ℝ) 1 >>= fun g => List.foldlM _ g []) = _
  rw [duo_knockOff_round1]
  rfl

/-- Drone 1 of the third scenario, outside the avoidance radius 102.4 of asteroid 0 and inside
that of asteroid 1, is told to change its velocity from -6 to -31 along the axis, away from
asteroid 1. -/
theorem duo_drone1_desired (g : Game ℝ)
    (hast : g.mv_asteroids = [Scenario.asteroid 5000 0 false, Scenario.asteroid 5460 0 true]) :
    Spaceship.calculateDesiredVelocity Scenario.env (Scenario.drone 5358 (-6) 208 true 1) 1 g
      = .ok ⟨-31, 0, 0⟩ := by
  have ha : (0 : ℝ) < (Scenario.drone (5358 : ℝ) (-6) 208 true 1).m_acceleration_manoeuver := by
    show (0 : ℝ) < 25
    norm_num
  have hav0 : isAvoid (Scenario.drone (5358 : ℝ) (-6) 208 true 1)
      (Scenario.asteroid (5000 : ℝ) 0 false).toEntity
      (Scenario.drone (5358 : ℝ) (-6) 208 true 1).m_acceleration_manoeuver = .ok false := by
    rw [isAvoid_eq _ _ _ ha]
    simp only [Scenario.drone, Scenario.asteroid, Scenario.body, Entity.getPosition,
      Entity.getVelocity, Entity.getRadius, Vector3.getDistance, Vector3.mk_sub_mk, sub_zero,
      Vector3.getNorm_axis]
    norm_num
  have hav : isAvoid (Scenario.drone (5358 : ℝ) (-6) 208 true 1)
      (Scenario.asteroid (5460 : ℝ) 0 true).toEntity
      (Scenario.drone (5358 : ℝ) (-6) 208 true 1).m_acceleration_manoeuver = .ok true := by
    rw [isAvoid_eq _ _ _ ha]
    simp only [Scenario.drone, Scenario.asteroid, Scenario.body, Entity.getPosition,
      Entity.getVelocity, Entity.getRadius, Vector3.getDistance, Vector3.mk_sub_mk, sub_zero,
      Vector3.getNorm_axis]
    norm_num [abs_lt]
  have hm : (0 : ℝ) <
      (Scenario.drone (5358 : ℝ) (-6) 208 true 1).m_acceleration_manoeuver * 1 := by
    show (0 : ℝ) < 25 * 1
    norm_num
  simp only [Spaceship.calculateDesiredVelocity, hast, calculateDesiredVelocity_avoid, hav0, hav,
    ok_bind, if_true, Bool.false_eq_true, if_false, avoid_eq _ _ _ _ ha hm hav, pure,
    Except.pure]
  congr 1
  show (⟨-6, 0, 0⟩ : Vector3 ℝ) +
    ((⟨5358, 0, 0⟩ : Vector3 ℝ) - ⟨5460, 0, 0⟩).getCopyWithNormSafe (25 * 1) = ⟨-31, 0, 0⟩
  rw [Vector3.mk_sub_mk]
  norm_num
  rw [Vector3.getCopyWithNormSafe_axis_neg (-102) 25 (by norm_num)]
  norm_num

/-- Drone 1 of the third scenario fires its manoeuvring engines at a fifth of their
strength: its velocity goes from -6 to -11. -/
theorem duo_drone1_fly :
    Spaceship.flyToMatchVelocity Scenario.env (Scenario.drone (5358 : ℝ) (-6) 208 true 1) 1
      ⟨-31, 0, 0⟩ = .ok (Scenario.drone 5358 (-11) 208 true 1) := by
  have hrel : (⟨-31, 0, 0⟩ : Vector3 ℝ)
      - (Scenario.drone (5358 : ℝ) (-6) 208 true 1).getVelocity = ⟨-25, 0, 0⟩ := by
    show (⟨-31, 0, 0⟩ : Vector3 ℝ) - ⟨-6, 0, 0⟩ = ⟨-25, 0, 0⟩
    rw [Vector3.mk_sub_mk]
    norm_num
  have hz : (⟨-25, 0, 0⟩ : Vector3 ℝ).isZero = false := by simp
  have hlt : (⟨-25, 0, 0⟩ : Vector3 ℝ).isNormLessThan MAIN_ENGINE_MIN_CHANGE = true := by
    rw [Vector3.isNormLessThan_axis]
    simp only [MAIN_ENGINE_MIN_CHANGE, decide_eq_true_eq]
    norm_num
  have hunit : (⟨-1, 0, 0⟩ : Vector3 ℝ).isUnit = true := by
    simp [Vector3.isUnit, Vector3.getNormSquared]
  have hacc : (Scenario.drone (5358 : ℝ) (-6) 208 true 1).m_acceleration_manoeuver = 25 :=
    rfl
  have hinit : (Scenario.drone (5358 : ℝ) (-6) 208 true 1).isInitialized = true := rfl
  have hfrac : (⟨-25, 0, 0⟩ : Vector3 ℝ).getNorm * (1 / 5) / (25 * 1) = 1 / 5 := by
    rw [Vector3.getNorm_axis]
    norm_num
  have hinv : ∀ w : Vector3 ℝ, Spaceship.invariant
      ({ Scenario.drone (5358 : ℝ) (-6) 208 true 1 with m_velocity := w } : Spaceship ℝ)
        = true := by
    intro w
    apply (invariant_iff _).mpr
    refine ⟨?_, ?_, ?_⟩
    · show (0 : ℝ) < 250
      norm_num
    · show (0 : ℝ) < 25
      norm_num
    · show (0 : ℝ) < 1
      norm_num
  simp only [Spaceship.flyToMatchVelocity, cassert, gt_iff_lt, zero_lt_one, if_true, ok_bind,
    hrel, hz, Bool.false_eq_true, if_false, hlt, hacc, hfrac,
    Vector3.getNormalized_axis_neg (-25) (by norm_num), Spaceship.thrustManoeuver, hinit,
    ge_iff_le, zero_le_one, hunit, hinv, pure, Except.pure]
  norm_num
  simp only [Scenario.drone, Scenario.body, Vector3.mk_mul, Vector3.mk_add_mk]
  norm_num
  simp [Spaceship.invariant, ok_bind]

/-- The AI tick of `update (1)` in the third scenario: drone 0 takes crystal 0 and drone 1,
which finds crystal 0 taken by the living drone 0, takes crystal 1. -/
theorem duo_updateAI :
    Game.updateAI Scenario.env 1 (Scenario.duoKnocked : Game ℝ) = .ok Scenario.duoAfterAI := by
  have h0 : Spaceship.updateAI Scenario.env 1 (Scenario.duoKnocked : Game ℝ) 0
      = .ok ((Scenario.duoKnocked : Game ℝ).setDrone 0 (Scenario.drone 5102 11 (-48) true 0)) := by
    have hrun := scenario_takes_zero (Scenario.duoKnocked : Game ℝ) 0
      (Scenario.drone 5102 6 (-48) true NO_CRYSTAL) 5100 10 5102 rfl rfl rfl rfl
      (by
        intro drone hmem
        simp only [Scenario.duoKnocked, Scenario.duoStart, List.mem_cons, List.mem_singleton,
          List.not_mem_nil, or_false] at hmem
        rcases hmem with rfl | rfl | rfl | rfl | rfl <;>
          simp [Scenario.drone, Spaceship.getCrystalChased, NO_CRYSTAL, UINT_MAX])
      (by norm_num [abs_lt])
    exact spaceship_updateAI_eq Scenario.env 1 (Scenario.duoKnocked : Game ℝ) 0 _
      (Scenario.drone 5102 11 (-48) true 0) 0 ⟨31, 0, 0⟩ rfl zero_lt_one hrun
      (haul_drone0_desired _ rfl) haul_drone0_fly
  have h1 : Spaceship.updateAI Scenario.env 1
      ((Scenario.duoKnocked : Game ℝ).setDrone 0 (Scenario.drone 5102 11 (-48) true 0)) 1
        = .ok Scenario.duoAfterAI := by
    have hrun := scenario_takes_one
      ((Scenario.duoKnocked : Game ℝ).setDrone 0 (Scenario.drone 5102 11 (-48) true 0)) 1
      (Scenario.drone 5358 (-6) 208 true NO_CRYSTAL) 5100 10 5358 rfl rfl rfl rfl
      ⟨Scenario.drone 5102 11 (-48) true 0, List.mem_iff_getElem?.mpr ⟨0, rfl⟩, rfl, rfl⟩
      (by
        intro drone hmem
        have hmem' : drone ∈ [Scenario.drone (5102 : ℝ) 11 (-48) true 0,
            Scenario.drone 5358 (-6) 208 true NO_CRYSTAL,
            Scenario.drone 6105 20 955 true NO_CRYSTAL,
            Scenario.drone 6105 20 955 true NO_CRYSTAL,
            Scenario.drone 6105 20 955 true NO_CRYSTAL] := hmem
        simp only [List.mem_cons, List.mem_singleton, List.not_mem_nil, or_false] at hmem'
        rcases hmem' with rfl | rfl | rfl | rfl | rfl <;>
          simp [Scenario.drone, Spaceship.getCrystalChased, NO_CRYSTAL, UINT_MAX])
      (by norm_num [abs_lt])
    have h := spaceship_updateAI_eq Scenario.env 1
      ((Scenario.duoKnocked : Game ℝ).setDrone 0 (Scenario.drone 5102 11 (-48) true 0)) 1 _
      (Scenario.drone 5358 (-11) 208 true 1) 1 ⟨-31, 0, 0⟩ rfl zero_lt_one hrun
      (duo_drone1_desired _ rfl) duo_drone1_fly
    rw [h]
    rfl
  have hk : ∀ d : Nat, (Scenario.duoAfterAI : Game ℝ).mv_drones[d]?
      = some (Scenario.drone 6105 20 955 true NO_CRYSTAL) →
      (do
        let drone ← (Scenario.duoAfterAI : Game ℝ).getDrone d
        if drone.isAlive then Spaceship.updateAI Scenario.env 1 Scenario.duoAfterAI d
        else pure Scenario.duoAfterAI) = .ok (Scenario.duoAfterAI : Game ℝ) :=
    fun d hd => updateAI_step_alive _ _ _ _ d _ hd rfl
      (haul_station_tick _ d hd rfl rfl rfl)
  show List.foldlM _ _ (List.range 5) = _
  rw [range_five]
  simp only [List.foldlM_cons, List.foldlM_nil]
  rw [updateAI_step_alive Scenario.env 1 (Scenario.duoKnocked : Game ℝ) _ 0
    (Scenario.drone 5102 6 (-48) true NO_CRYSTAL) rfl rfl h0, ok_bind,
    updateAI_step_alive Scenario.env 1
      ((Scenario.duoKnocked : Game ℝ).setDrone 0 (Scenario.drone 5102 11 (-48) true 0))
      Scenario.duoAfterAI 1 (Scenario.drone 5358 (-6) 208 true NO_CRYSTAL) rfl rfl h1, ok_bind,
    hk 2 rfl, ok_bind, hk 3 rfl, ok_bind, hk 4 rfl, ok_bind]
  rfl


/-- The physics step of `update (1)` in the third scenario. -/
theorem duo_updatePhysics :
    Game.updatePhysics Scenario.env 1 (Scenario.duoAfterAI : Game ℝ)
      = Scenario.duoAfterPhysics := by
  have ha : (Scenario.env : Externals ℝ).asteroidUpdatePhysics 1 Scenario.blackHole
      (Scenario.asteroid 5000 0 false)
        = Scenario.asteroid (124996663 / 25000) (-3337 / 25000) false := by
    rw [scenario_asteroid_physics 5000 0 false (by norm_num)]
    norm_num
  have ha2 : (Scenario.env : Externals ℝ).asteroidUpdatePhysics 1 Scenario.blackHole
      (Scenario.asteroid 5460 0 true)
        = Scenario.asteroid (813839995 / 149058) (-16685 / 149058) true := by
    rw [scenario_asteroid_physics 5460 0 true (by norm_num)]
    norm_num
  have hc : Game.crystalUpdatePhysics Scenario.env 1 Scenario.blackHole
      (Scenario.crystal (5100 : ℝ) 10)
        = Scenario.crystal (132907763 / 26010) (256763 / 26010) := by
    rw [scenario_crystal_physics 5100 10 (by norm_num)]
    norm_num
  have hp : Game.spaceshipUpdatePhysics Scenario.env 1 Scenario.blackHole
      (Scenario.player (5150 : ℝ) 20)
        = Scenario.player (274235976 / 53045) (1054226 / 53045) := by
    rw [scenario_player_physics 5150 20 (by norm_num)]
    norm_num
  have hd0 : Game.spaceshipUpdatePhysics Scenario.env 1 Scenario.blackHole
      (Scenario.drone (5102 : ℝ) 11 (-48) true 0)
        = Scenario.drone (33272529663 / 6507601) (70749361 / 6507601) (-48) true 0 := by
    rw [scenario_drone_physics 5102 11 (-48) true 0 (by norm_num)]
    norm_num
  have hd1 : Game.spaceshipUpdatePhysics Scenario.env 1 Scenario.blackHole
      (Scenario.drone (6105 : ℝ) 20 955 true NO_CRYSTAL)
        = Scenario.drone (9131267645 / 1490841) (29683340 / 1490841) 955 true NO_CRYSTAL := by
    rw [scenario_drone_physics 6105 20 955 true NO_CRYSTAL (by norm_num)]
    norm_num
  have hd2 : Game.spaceshipUpdatePhysics Scenario.env 1 Scenario.blackHole
      (Scenario.drone (5358 : ℝ) (-11) 208 true 1)
        = Scenario.drone (816485191 / 152703) (-1697483 / 152703) 208 true 1 := by
    rw [scenario_drone_physics 5358 (-11) 208 true 1 (by norm_num)]
    norm_num
  have hal2 : (Scenario.drone (5358 : ℝ) (-11) 208 true 1).isAlive = true := rfl
  have hgone : (Scenario.crystal (5100 : ℝ) 10).isGone = false := rfl
  have hal0 : (Scenario.drone (5102 : ℝ) 11 (-48) true 0).isAlive = true := rfl
  have hal1 : (Scenario.drone (6105 : ℝ) 20 955 true NO_CRYSTAL).isAlive = true := rfl
  have halp : (Scenario.player (5150 : ℝ) 20).isAlive = true := rfl
  simp only [Game.updatePhysics, Scenario.duoAfterAI, Scenario.duoKnocked, Scenario.duoStart,
    List.map_cons, List.map_nil, List.map_replicate, ha, ha2, hc, hp, hd0, hd1, hd2, hal2, hgone, hal0,
    hal1, halp, Bool.not_false, if_true, Scenario.duoAfterPhysics]


/-- The first loop of `handleCollisions` in the third scenario: drone 0 is 3.0001 from the
ten crystals and claims every one of them; the player is 60 from them. -/
theorem duo_crystals :
    Game.handleCollisions_crystals Scenario.env (Scenario.duoAfterPhysics : Game ℝ)
      = Scenario.duoAfterUpdate := by
  have hp : (Scenario.env : Externals ℝ).isCollisionSpaceshipCrystal
      (Scenario.duoAfterPhysics : Game ℝ).m_player
      (Scenario.crystal (132907763 / 26010) (256763 / 26010)) = false := by
    show (Scenario.env : Externals ℝ).isCollisionSpaceshipCrystal
      (Scenario.player (274235976 / 53045) (1054226 / 53045))
      (Scenario.crystal (132907763 / 26010) (256763 / 26010)) = false
    rw [scenario_player_overlap]
    norm_num [abs_lt]
  have hd : (Scenario.duoAfterPhysics : Game ℝ).mv_drones.any
      (fun drone => (Scenario.env : Externals ℝ).isCollisionSpaceshipCrystal drone
        (Scenario.crystal (132907763 / 26010) (256763 / 26010))) = true := by
    simp only [Scenario.duoAfterPhysics, List.any_cons, List.any_nil, scenario_drone_overlap]
    norm_num [abs_lt]
  have hone : Game.handleCollisions_crystal Scenario.env
      (Scenario.duoAfterPhysics : Game ℝ).m_player
      (Scenario.duoAfterPhysics : Game ℝ).mv_drones
      (Scenario.crystal (132907763 / 26010) (256763 / 26010))
        = (Scenario.goneCrystal (132907763 / 26010) (256763 / 26010), true) := by
    have hgone : (Scenario.crystal (132907763 / 26010 : ℝ) (256763 / 26010)).isGone = false :=
      rfl
    simp only [Game.handleCollisions_crystal, hgone, Bool.not_false, if_true, hp,
      Bool.false_eq_true, if_false, hd]
    rfl
  simp only [Game.handleCollisions_crystals]
  have hmap : (Scenario.duoAfterPhysics : Game ℝ).mv_crystals.map
      (Game.handleCollisions_crystal Scenario.env (Scenario.duoAfterPhysics : Game ℝ).m_player
        (Scenario.duoAfterPhysics : Game ℝ).mv_drones)
      = List.replicate 10
          (Scenario.goneCrystal (132907763 / 26010) (256763 / 26010), true) := by
    show (List.replicate 10 (Scenario.crystal (132907763 / 26010 : ℝ) (256763 / 26010))).map _
      = _
    rw [List.map_replicate, hone]
  rw [hmap]
  simp [Scenario.duoAfterUpdate, Scenario.duoAfterPhysics, List.replicate, UINT_RANGE]

/-- No ship of the third scenario overlaps an asteroid after the physics step. -/
theorem duo_ships (c w : ℝ) (crystals : Bool)
    (hc : c = 124996663 / 25000 ∨ c = 813839995 / 149058) :
    Game.handleCollisions_ship Scenario.env (Scenario.asteroid c w crystals)
        (Scenario.duoAfterUpdate : Game ℝ).m_player
      = .ok (Scenario.duoAfterUpdate : Game ℝ).m_player ∧
    (Scenario.duoAfterUpdate : Game ℝ).mv_drones.mapM
        (Game.handleCollisions_ship Scenario.env (Scenario.asteroid c w crystals))
      = .ok (Scenario.duoAfterUpdate : Game ℝ).mv_drones := by
  refine ⟨?_, ?_⟩
  · apply handleCollisions_ship_miss
    show (Scenario.env : Externals ℝ).isCollisionSpaceshipAsteroid
      (Scenario.player (274235976 / 53045) (1054226 / 53045)) _ = false
    rw [scenario_ship_asteroid _ (274235976 / 53045) (1054226 / 53045) 1000 _ _ _ rfl]
    show decide (|(274235976 / 53045 : ℝ) - c| < 4 + 100) = false
    rcases hc with rfl | rfl <;> norm_num [abs_lt]
  · apply mapM_fixed
    intro drone hmem
    simp only [Scenario.duoAfterUpdate, Scenario.duoAfterPhysics, List.mem_cons,
      List.mem_singleton, List.not_mem_nil, or_false, or_self] at hmem
    rcases hmem with h | h | h
    · rw [h]
      apply handleCollisions_ship_miss
      rw [scenario_ship_asteroid _ (33272529663 / 6507601) (70749361 / 6507601) 100 _ _ _ rfl]
      show decide (|(33272529663 / 6507601 : ℝ) - c| < 2 + 100) = false
      rcases hc with rfl | rfl <;> norm_num [abs_lt]
    · rw [h]
      apply handleCollisions_ship_miss
      rw [scenario_ship_asteroid _ (816485191 / 152703) (-1697483 / 152703) 100 _ _ _ rfl]
      show decide (|(816485191 / 152703 : ℝ) - c| < 2 + 100) = false
      rcases hc with rfl | rfl <;> norm_num [abs_lt]
    · rw [h]
      apply handleCollisions_ship_miss
      rw [scenario_ship_asteroid _ (9131267645 / 1490841) (29683340 / 1490841) 100 _ _ _ rfl]
      show decide (|(9131267645 / 1490841 : ℝ) - c| < 2 + 100) = false
      rcases hc with rfl | rfl <;> norm_num [abs_lt]

/-- The crystal-asteroid checks of the third scenario skip the ten gone crystals. -/
theorem duo_crystalAsteroid (a : Nat) (l : List Nat) :
    l.foldl (Game.handleCollisions_crystalAsteroid Scenario.env a)
      (Scenario.duoAfterUpdate : Game ℝ) = Scenario.duoAfterUpdate := by
  refine foldl_invariant (fun g => g = (Scenario.duoAfterUpdate : Game ℝ)) _ ?_ l _ rfl
  intro g c hg
  rw [hg]
  unfold Game.handleCollisions_crystalAsteroid
  by_cases hc : c < 10
  · have h1 : (Scenario.duoAfterUpdate : Game ℝ).mv_crystals[c]?
        = some (Scenario.goneCrystal (132907763 / 26010) (256763 / 26010)) := by
      show (List.replicate 10 _)[c]? = _
      rw [List.getElem?_replicate]
      simp [hc]
    have hgone : (Scenario.goneCrystal (132907763 / 26010 : ℝ) (256763 / 26010)).isGone
        = true := rfl
    cases hast : (Scenario.duoAfterUpdate : Game ℝ).mv_asteroids[a]? with
    | none => simp only [h1]
    | some asteroid => simp only [h1, hgone, Bool.not_true, Bool.false_eq_true, if_false]
  · have h1 : (Scenario.duoAfterUpdate : Game ℝ).mv_crystals[c]? = none := by
      apply List.getElem?_eq_none
      simp only [Scenario.duoAfterUpdate, List.length_replicate]
      exact not_lt.mp hc
    simp only [h1]

/-- The round of the second loop for asteroid 0 in the third scenario: the two asteroids
are 460 apart and nothing touches asteroid 0. -/
theorem duo_round0 :
    Game.handleCollisions_asteroid Scenario.env (Scenario.duoAfterUpdate : Game ℝ) 0
      = .ok Scenario.duoAfterUpdate := by
  have hpairs : List.range' (0 + 1)
      ((Scenario.duoAfterUpdate : Game ℝ).mv_asteroids.length - (0 + 1)) = [1] := rfl
  have hmiss : (Scenario.env : Externals ℝ).isCollisionAsteroidAsteroid
      (Scenario.asteroid (124996663 / 25000 : ℝ) (-3337 / 25000) false)
      (Scenario.asteroid (813839995 / 149058 : ℝ) (-16685 / 149058) true) = false := by
    show Model.isCollision (Scenario.body (124996663 / 25000 : ℝ) (-3337 / 25000) 1000000 100)
      100 (Scenario.body (813839995 / 149058 : ℝ) (-16685 / 149058) 1000000 100) 100 = false
    rw [isCollision_axis]
    norm_num [abs_lt]
  have hpair : Game.handleCollisions_asteroidPair Scenario.env 0
      (Scenario.duoAfterUpdate : Game ℝ) 1 = Scenario.duoAfterUpdate := by
    have h0 : (Scenario.duoAfterUpdate : Game ℝ).mv_asteroids[0]?
        = some (Scenario.asteroid (124996663 / 25000 : ℝ) (-3337 / 25000) false) := rfl
    have h1 : (Scenario.duoAfterUpdate : Game ℝ).mv_asteroids[1]?
        = some (Scenario.asteroid (813839995 / 149058 : ℝ) (-16685 / 149058) true) := rfl
    simp only [Game.handleCollisions_asteroidPair, h0, h1, hmiss, Bool.false_eq_true, if_false]
  have hast : (Scenario.duoAfterUpdate : Game ℝ).mv_asteroids[0]?
      = some (Scenario.asteroid (124996663 / 25000 : ℝ) (-3337 / 25000) false) := rfl
  obtain ⟨hp, hd⟩ := duo_ships (124996663 / 25000) (-3337 / 25000) false (Or.inl rfl)
  simp only [Game.handleCollisions_asteroid, hpairs, List.foldl_cons, List.foldl_nil, hpair,
    duo_crystalAsteroid, hast, hp, hd, ok_bind]
  rfl

/-- The round of the second loop for asteroid 1 in the third scenario: nothing touches
asteroid 1. -/
theorem duo_round1 :
    Game.handleCollisions_asteroid Scenario.env (Scenario.duoAfterUpdate : Game ℝ) 1
      = .ok Scenario.duoAfterUpdate := by
  have hpairs : List.range' (1 + 1)
      ((Scenario.duoAfterUpdate : Game ℝ).mv_asteroids.length - (1 + 1)) = [] := rfl
  have hast : (Scenario.duoAfterUpdate : Game ℝ).mv_asteroids[1]?
      = some (Scenario.asteroid (813839995 / 149058 : ℝ) (-16685 / 149058) true) := rfl
  obtain ⟨hp, hd⟩ := duo_ships (813839995 / 149058) (-16685 / 149058) true (Or.inr rfl)
  simp only [Game.handleCollisions_asteroid, hpairs, List.foldl_nil, duo_crystalAsteroid,
    hast, hp, hd, ok_bind]
  rfl

/-- The collision handling of `update (1)` in the third scenario. -/
theorem duo_handleCollisions :
    Game.handleCollisions Scenario.env (Scenario.duoAfterPhysics : Game ℝ)
      = .ok Scenario.duoAfterUpdate := by
  simp only [Game.handleCollisions, duo_crystals]
  show List.foldlM _ _ (List.range 2) = _
  rw [range_two, List.foldlM_cons, duo_round0, ok_bind, List.foldlM_cons, duo_round1]
  rfl

/-- The call `update (1)` of the third scenario. -/
theorem duo_update :
    Game.update Scenario.env 1 (Scenario.duoKnocked : Game ℝ) = .ok Scenario.duoAfterUpdate := by
  simp only [Game.update, duo_updateAI, ok_bind, duo_updatePhysics, duo_handleCollisions]

/-- The state of the third scenario after `update (1)` is reachable. -/
theorem duo_reachable : Game.Reachable Scenario.env (Scenario.duoAfterUpdate : Game ℝ) :=
  Game.Reachable.update _ _ 1
    (Game.Reachable.knockOffCrystals _ _ Scenario.rand
      (Game.Reachable.init _ duo_start_isInitial) scenario_rand_isUnit duo_knockOff)
    zero_lt_one duo_update

/-- C25 on the third scenario after `knockOffCrystals` and one `update (1)`, a reachable
state in which the living drones 0 and 1 have the chased indices 0 and 1, both below the
number of crystal slots. -/
theorem C25_living_drones_mutual_exclusion_witness :
    Game.Reachable Scenario.env (Scenario.duoAfterUpdate : Game ℝ) ∧
    (∃ d0 d1 : Spaceship ℝ, (Scenario.duoAfterUpdate : Game ℝ).mv_drones[0]? = some d0 ∧
      (Scenario.duoAfterUpdate : Game ℝ).mv_drones[1]? = some d1 ∧
      d0.isAlive = true ∧ d1.isAlive = true ∧
      d0.getCrystalChased = 0 ∧ d1.getCrystalChased = 1 ∧
      (Scenario.duoAfterUpdate : Game ℝ).getTotalCrystalCount = 10) ∧
    ∀ (i j : Nat) (di dj : Spaceship ℝ),
      (Scenario.duoAfterUpdate : Game ℝ).mv_drones[i]? = some di →
      (Scenario.duoAfterUpdate : Game ℝ).mv_drones[j]? = some dj → i ≠ j →
      di.isAlive = true → dj.isAlive = true →
      di.getCrystalChased = dj.getCrystalChased → di.getCrystalChased = NO_CRYSTAL :=
  ⟨duo_reachable, ⟨_, _, rfl, rfl, rfl, rfl, rfl, rfl, rfl⟩,
    C25_living_drones_mutual_exclusion Scenario.env Scenario.duoAfterUpdate duo_reachable⟩

end DuoTrace

/-! ### The two arrival functions in binary64 arithmetic -/

section Binary64Arrival

open Binary64

theorem roundHalfEven_intCast (n : ℤ) : roundHalfEven (n : ℚ) = n := by
  simp [roundHalfEven]

theorem roundHalfEven_small (x : ℚ) (h0 : 0 ≤ x) (h1 : x < 1 / 2) : roundHalfEven x = 0 := by
  have hf : ⌊x⌋ = 0 := Int.floor_eq_zero_iff.mpr ⟨h0, by linarith⟩
  have hr : x - ((0 : ℤ) : ℚ) < 1 / 2 := by
    rw [Int.cast_zero, sub_zero]
    exact h1
  simp only [roundHalfEven, hf, hr, if_true]

theorem log_two_zpow (k : ℤ) : Int.log 2 ((2 : ℚ) ^ k) = k := by
  exact_mod_cast Int.log_zpow (R := ℚ) (b := 2) (by norm_num) k

/-- A power of two from `2 ^ (-1074)` to `2 ^ 1023` is a `double`. -/
theorem ofRat_zpow (k : ℤ) (hlo : -1074 ≤ k) (hhi : k < 1024) :
    Double.ofRat (2 ^ k) = .finite (2 ^ k) := by
  have hpos : (0 : ℚ) < 2 ^ k := zpow_pos (by norm_num) k
  have hm : 0 ≤ k - (max k (-1022) - 52) := by
    rcases max_cases k (-1022) with ⟨h, -⟩ | ⟨h, -⟩ <;> rw [h] <;> omega
  have hdiv : (2 : ℚ) ^ k / 2 ^ (max k (-1022) - 52)
      = ((2 ^ (k - (max k (-1022) - 52)).toNat : ℤ) : ℚ) := by
    rw [← zpow_sub₀ (by norm_num : (2 : ℚ) ≠ 0)]
    push_cast
    rw [← zpow_natCast, Int.toNat_of_nonneg hm]
  have hmag : ((2 ^ (k - (max k (-1022) - 52)).toNat : ℤ) : ℚ) * 2 ^ (max k (-1022) - 52)
      = 2 ^ k := by
    rw [← hdiv, div_mul_cancel₀ _ (zpow_pos (by norm_num) _).ne']
  have hsmall : ¬ (2 : ℚ) ^ (1024 : ℤ) ≤ 2 ^ k :=
    not_le.mpr (zpow_lt_zpow_right₀ (by norm_num) hhi)
  simp only [Double.ofRat, hpos.ne', if_false, abs_of_pos hpos, log_two_zpow, hdiv,
    roundHalfEven_intCast, hmag, hsmall, not_lt.mpr hpos.le]

/-- A power of two below `2 ^ (-1075)` is rounded to zero. -/
theorem ofRat_zpow_underflow (k : ℤ) (hk : k < -1075) : Double.ofRat (2 ^ k) = .finite 0 := by
  have hpos : (0 : ℚ) < 2 ^ k := zpow_pos (by norm_num) k
  have hmax : max k (-1022) = -1022 := max_eq_right (by omega)
  have hdiv : (2 : ℚ) ^ k / 2 ^ ((-1022 : ℤ) - 52) = 2 ^ (k + 1074) := by
    rw [← zpow_sub₀ (by norm_num : (2 : ℚ) ≠ 0)]
    congr 1
  have hlt : (2 : ℚ) ^ (k + 1074) < 1 / 2 := by
    have h := zpow_lt_zpow_right₀ (by norm_num : (1 : ℚ) < 2) (by omega : k + 1074 < -1)
    simpa using h
  have hround : roundHalfEven ((2 : ℚ) ^ (k + 1074)) = 0 :=
    roundHalfEven_small _ (zpow_pos (by norm_num) _).le hlt
  have hbig : ¬ (2 : ℚ) ^ (1024 : ℤ) ≤ 0 := not_le.mpr (zpow_pos (by norm_num) _)
  simp only [Double.ofRat, hpos.ne', if_false, abs_of_pos hpos, log_two_zpow, hmax, hdiv,
    hround, Int.cast_zero, zero_mul, hbig, not_lt.mpr hpos.le]

/-- A power of two from `2 ^ 1024` on is rounded to plus infinity. -/
theorem ofRat_zpow_overflow (k : ℤ) (hk : 1024 ≤ k) :
    Double.ofRat (2 ^ k) = .infinite false := by
  have hpos : (0 : ℚ) < 2 ^ k := zpow_pos (by norm_num) k
  have hmax : max k (-1022) = k := max_eq_left (by omega)
  have hdiv : (2 : ℚ) ^ k / 2 ^ (k - 52) = ((2 ^ 52 : ℤ) : ℚ) := by
    rw [← zpow_sub₀ (by norm_num : (2 : ℚ) ≠ 0)]
    have h : k - (k - 52) = ((52 : ℕ) : ℤ) := by
      push_cast
      ring
    rw [h, zpow_natCast]
    norm_num
  have hmag : ((2 ^ 52 : ℤ) : ℚ) * 2 ^ (k - 52) = 2 ^ k := by
    rw [← hdiv, div_mul_cancel₀ _ (zpow_pos (by norm_num) _).ne']
  have hbig : (2 : ℚ) ^ (1024 : ℤ) ≤ 2 ^ k := zpow_le_zpow_right₀ (by norm_num) hk
  simp only [Double.ofRat, hpos.ne', if_false, abs_of_pos hpos, log_two_zpow, hmax, hdiv,
    roundHalfEven_intCast, hmag, hbig, if_true, not_lt.mpr hpos.le, decide_False]

theorem ofRat_zero : Double.ofRat 0 = .finite 0 := by
  simp [Double.ofRat]

theorem ofRat_one : Double.ofRat 1 = .finite 1 := by
  simpa using ofRat_zpow 0 (by norm_num) (by norm_num)

theorem ofRat_two : Double.ofRat 2 = .finite 2 := by
  simpa using ofRat_zpow 1 (by norm_num) (by norm_num)

theorem sqrtApprox_zero : sqrtApprox 0 = 0 := by
  simp [sqrtApprox]

theorem four_pow_eq (n : ℕ) : (4 : ℚ) ^ n = ((2 ^ n * 2 ^ n : ℕ) : ℚ) := by
  push_cast
  rw [← mul_pow]
  norm_num

theorem sqrtApprox_one : sqrtApprox 1 = 1 := by
  have hroot : Nat.sqrt (2 ^ 1100 * 2 ^ 1100) = 2 ^ 1100 := Nat.sqrt_eq _
  have hden : (2 : ℚ) ^ 1100 = ((2 ^ 1100 : ℕ) : ℚ) := by
    rw [Nat.cast_pow, Nat.cast_ofNat]
  have hne : ((2 ^ 1100 : ℕ) : ℚ) ≠ 0 := by positivity
  simp only [sqrtApprox, one_mul, four_pow_eq, Nat.floor_natCast, hroot]
  rw [if_pos (Nat.cast_mul _ _).symm, hden, div_self hne]

theorem double_gt_iff (x y : Double) : (x > y) = (y.lt x = true) := rfl

theorem double_ge_iff (x y : Double) : (x ≥ y) = (y.le x = true) := rfl

theorem double_mul_finite (x y : ℚ) :
    (Double.finite x * Double.finite y : Double) = Double.ofRat (x * y) := rfl

theorem double_add_finite (x y : ℚ) :
    (Double.finite x + Double.finite y : Double) = Double.ofRat (x + y) := rfl

theorem double_sub_finite (x y : ℚ) :
    (Double.finite x - Double.finite y : Double) = Double.ofRat (x + -y) := rfl

theorem double_div_finite (x y : ℚ) (hy : y ≠ 0) :
    (Double.finite x / Double.finite y : Double) = Double.ofRat (x / y) := by
  show Double.div _ _ = _
  simp only [Double.div, hy, if_false]

theorem double_ofNat (n : ℕ) [n.AtLeastTwo] : (OfNat.ofNat n : Double) = Double.finite (OfNat.ofNat n) := by
  show Double.finite ((OfNat.ofNat n : ℕ) : ℚ) = _
  simp

theorem double_zero : (0 : Double) = Double.finite 0 := by
  show Double.finite ((0 : ℕ) : ℚ) = _
  simp

theorem double_one : (1 : Double) = Double.finite 1 := by
  show Double.finite ((1 : ℕ) : ℚ) = _
  simp

/-- With `a = 1` and `d = 0`, a positive `s` whose square is rounded to zero passes the three
entry assertions of `getMinArrivalTime` and fails
`assert(resolved_root >= max_speed_at_impact)`: the root of zero is zero. -/
theorem binary64_getMinArrivalTime_square_zero (s : ℚ) (hs : 0 < s)
    (hsq : Double.ofRat (s * s) = .finite 0) :
    Binary64.getMinArrivalTime (.finite 1) (.finite s) (.finite 0) = .error .intermediate := by
  simp only [Binary64.getMinArrivalTime, cassert, double_gt_iff, double_ge_iff, double_zero,
    double_ofNat, Double.lt, Double.le, double_mul_finite, double_add_finite, hsq,
    mul_one, ofRat_two, mul_zero, add_zero,
    ofRat_zero, Double.sqrt, lt_irrefl, sqrtApprox_zero, le_refl, zero_lt_one, hs.le,
    not_le.mpr hs, decide_True, decide_False, if_true, if_false, ok_bind, Bool.false_eq_true]
  rfl

/-- With `a = 1` and `d = 0`, a positive `s` whose square is rounded to plus infinity passes
every assertion of `getMinArrivalTime`, which returns plus infinity. -/
theorem binary64_getMinArrivalTime_square_infinite (s : ℚ) (hs : 0 < s)
    (hsq : Double.ofRat (s * s) = .infinite false) :
    Binary64.getMinArrivalTime (.finite 1) (.finite s) (.finite 0)
      = .ok (.infinite false) := by
  have hsub : (Double.infinite false - Double.finite s : Double) = .infinite false := rfl
  have hadd : (Double.infinite false + Double.finite 0 : Double) = .infinite false := rfl
  have hdiv : (Double.infinite false / Double.finite 1 : Double) = .infinite false := by
    show Double.infinite (xor false (decide ((1 : ℚ) < 0))) = _
    simp
  simp only [Binary64.getMinArrivalTime, cassert, double_gt_iff, double_ge_iff, double_zero,
    double_ofNat, Double.lt, Double.le, double_mul_finite, hsq,
    mul_one, ofRat_two, mul_zero, hadd, hsub, hdiv,
    ofRat_zero, Double.sqrt, le_refl, zero_lt_one, hs.le,
    decide_True, if_true, if_false, ok_bind, Bool.false_eq_true, Bool.not_false]
  rfl

/-- After `getMinArrivalTime` has returned plus infinity for `a = 1`,
`getOptimalSpeedAtDistance` passes its assertions and returns plus infinity. -/
theorem binary64_getOptimalSpeedAtDistance_infinite (s : ℚ) (hs : 0 < s)
    (htime : Binary64.getMinArrivalTime (.finite 1) (.finite s) (.finite 0)
      = .ok (.infinite false)) :
    Binary64.getOptimalSpeedAtDistance (.finite 1) (.finite s) (.finite 0)
      = .ok (.infinite false) := by
  have hmul : (Double.finite 1 * Double.infinite false : Double) = .infinite false := by
    show (if (1 : ℚ) = 0 then Double.nan
      else Double.infinite (xor (decide ((1 : ℚ) < 0)) false)) = _
    simp
  have hadd : (Double.finite s + Double.infinite false : Double) = .infinite false := rfl
  have hfac : (Double.infinite false * Binary64.SAFE_SPEED_FACTOR : Double)
      = .infinite false := by
    show (if ((1 : ℕ) : ℚ) = 0 then Double.nan
      else Double.infinite (xor false (decide (((1 : ℕ) : ℚ) < 0)))) = _
    simp
  simp only [Binary64.getOptimalSpeedAtDistance, cassert, double_gt_iff, double_ge_iff,
    double_zero, Double.lt, Double.le, htime, hmul, hadd, hfac, le_refl, zero_lt_one, hs.le,
    decide_True, if_true, ok_bind, Bool.not_false]
  rfl

/-- After `getMinArrivalTime` has failed an assertion, so does
`getOptimalSpeedAtDistance`. -/
theorem binary64_getOptimalSpeedAtDistance_error (s : ℚ) (hs : 0 < s)
    (htime : Binary64.getMinArrivalTime (.finite 1) (.finite s) (.finite 0)
      = .error .intermediate) :
    Binary64.getOptimalSpeedAtDistance (.finite 1) (.finite s) (.finite 0)
      = .error .intermediate := by
  simp only [Binary64.getOptimalSpeedAtDistance, cassert, double_gt_iff, double_ge_iff,
    double_zero, Double.lt, Double.le, htime, le_refl, zero_lt_one, hs.le,
    decide_True, if_true, ok_bind]
  rfl

theorem zpow_neg600_sq : (2 : ℚ) ^ (-600 : ℤ) * 2 ^ (-600 : ℤ) = 2 ^ (-1200 : ℤ) := by
  rw [← zpow_add₀ (by norm_num : (2 : ℚ) ≠ 0)]
  norm_num

theorem zpow_600_sq : (2 : ℚ) ^ (600 : ℤ) * 2 ^ (600 : ℤ) = 2 ^ (1200 : ℤ) := by
  rw [← zpow_add₀ (by norm_num : (2 : ℚ) ≠ 0)]
  norm_num

theorem ofRat_neg600_sq :
    Double.ofRat ((2 : ℚ) ^ (-600 : ℤ) * 2 ^ (-600 : ℤ)) = .finite 0 := by
  rw [zpow_neg600_sq]
  exact ofRat_zpow_underflow (-1200) (by norm_num)

theorem ofRat_600_sq :
    Double.ofRat ((2 : ℚ) ^ (600 : ℤ) * 2 ^ (600 : ℤ)) = .infinite false := by
  rw [zpow_600_sq]
  exact ofRat_zpow_overflow 1200 (by norm_num)

/-- C2 fails on the code: `a = 1`, `s = 2 ^ (-600)` and `d = 0` are values of the type
`double` with `a > 0`, `s ≥ 0` and `d ≥ 0`, and in binary64 arithmetic
`getOptimalSpeedAtDistance (a, s, d)` does not return: inside `getMinArrivalTime` the product
`s * s` underflows to zero and `assert(resolved_root >= max_speed_at_impact)` fails. -/
theorem C2_getOptimalSpeedAtDistance_underflow :
    Double.ofRat 1 = .finite 1 ∧
    Double.ofRat (2 ^ (-600 : ℤ)) = .finite (2 ^ (-600 : ℤ)) ∧
    Double.ofRat 0 = .finite 0 ∧
    (0 : ℚ) < 1 ∧ (0 : ℚ) ≤ 2 ^ (-600 : ℤ) ∧
    Binary64.getOptimalSpeedAtDistance (.finite 1) (.finite (2 ^ (-600 : ℤ))) (.finite 0)
      = .error .intermediate :=
  ⟨ofRat_one, ofRat_zpow (-600) (by norm_num) (by norm_num), ofRat_zero, zero_lt_one,
    (zpow_pos (by norm_num) _).le,
    binary64_getOptimalSpeedAtDistance_error _ (zpow_pos (by norm_num) _)
      (binary64_getMinArrivalTime_square_zero _ (zpow_pos (by norm_num) _) ofRat_neg600_sq)⟩

/-- C3 fails on the code, in binary64 arithmetic with `a = 1` and `d = 0`. For the `double`
`s = 2 ^ (-600)` the product `s * s` underflows to zero and `getMinArrivalTime (a, s, 0)`
fails `assert(resolved_root >= max_speed_at_impact)` instead of returning `0`. For the
`double` `s = 2 ^ 600` the product overflows: `getMinArrivalTime (a, s, 0)` returns plus
infinity, not `0`, and `getOptimalSpeedAtDistance (a, s, 0)` returns plus infinity,
not `s`. -/
theorem C3_zero_distance_underflow_overflow :
    Double.ofRat (2 ^ (-600 : ℤ)) = .finite (2 ^ (-600 : ℤ)) ∧
    Binary64.getMinArrivalTime (.finite 1) (.finite (2 ^ (-600 : ℤ))) (.finite 0)
      = .error .intermediate ∧
    Double.ofRat (2 ^ (600 : ℤ)) = .finite (2 ^ (600 : ℤ)) ∧
    Binary64.getMinArrivalTime (.finite 1) (.finite (2 ^ (600 : ℤ))) (.finite 0)
      = .ok (.infinite false) ∧
    Binary64.getOptimalSpeedAtDistance (.finite 1) (.finite (2 ^ (600 : ℤ))) (.finite 0)
      = .ok (.infinite false) :=
  ⟨ofRat_zpow (-600) (by norm_num) (by norm_num),
    binary64_getMinArrivalTime_square_zero _ (zpow_pos (by norm_num) _) ofRat_neg600_sq,
    ofRat_zpow 600 (by norm_num) (by norm_num),
    binary64_getMinArrivalTime_square_infinite _ (zpow_pos (by norm_num) _) ofRat_600_sq,
    binary64_getOptimalSpeedAtDistance_infinite _ (zpow_pos (by norm_num) _)
      (binary64_getMinArrivalTime_square_infinite _ (zpow_pos (by norm_num) _) ofRat_600_sq)⟩

/-- Away from underflow and overflow the two functions do in binary64 arithmetic what they
do over the reals: with `a = 1`, `s = 1` and `d = 0` the time is `0` and the speed is `s`. -/
theorem binary64_zero_distance_unit :
    Binary64.getMinArrivalTime (.finite 1) (.finite 1) (.finite 0) = .ok (.finite 0) ∧
    Binary64.getOptimalSpeedAtDistance (.finite 1) (.finite 1) (.finite 0)
      = .ok (.finite 1) := by
  have htime : Binary64.getMinArrivalTime (.finite 1) (.finite 1) (.finite 0)
      = .ok (.finite 0) := by
    simp only [Binary64.getMinArrivalTime, cassert, double_gt_iff, double_ge_iff, double_zero,
      double_ofNat, Double.lt, Double.le, double_mul_finite, double_add_finite,
      double_sub_finite, double_div_finite _ _ (one_ne_zero), mul_one, ofRat_two, mul_zero,
      add_zero, ofRat_one, ofRat_zero, Double.sqrt, sqrtApprox_one, le_refl, zero_lt_one,
      zero_le_one, add_neg_cancel, zero_div, not_lt.mpr zero_le_one, decide_True, if_true,
      if_false, ok_bind]
    rfl
  refine ⟨htime, ?_⟩
  have hfac : Binary64.SAFE_SPEED_FACTOR = Double.finite 1 := double_one
  simp only [Binary64.getOptimalSpeedAtDistance, cassert, double_gt_iff, double_ge_iff,
    double_zero, hfac, Double.lt, Double.le, htime, double_mul_finite, double_add_finite,
    mul_zero, mul_one, add_zero, ofRat_zero, ofRat_one, le_refl, zero_lt_one, zero_le_one,
    decide_True, if_true, ok_bind]
  rfl

end Binary64Arrival

end SpaceGame
